import Mathlib

/-!
Verification of a 4D tic-tac-toe game engine: the 3×3×3×3 board, the
precomputed winning-line table and win checking, the turn-based game state
machine, and the three automated strategies (heuristic, depth-limited
minimax with pruning, statistics-driven).  Every definition is a shallow
embedding of the corresponding function of the engine; theorems establish
or refute the specified properties.
-/

set_option maxRecDepth 8000
set_option maxHeartbeats 1000000

/-- Player symbols are strings of 1-2 characters. -/
abbrev Symb := String

/-- A cell address: four coordinates, each meant to lie in 0-2. -/
abbrev Coord := Nat × Nat × Nat × Nat

/-- A direction vector with components in -1..1. -/
abbrev Dir := Int × Int × Int × Int

/-- The board maps each cell to an optional occupant symbol.  The nested-list
cube of the source is modelled as a total function on coordinates; the
operations below only ever read or write in-range coordinates. -/
def Board := Coord → Option Symb

/-- Board.get_all_positions: the 81 coordinates in natural lattice order
(w outermost, then x, then y, then z, each ascending). -/
def get_all_positions : List Coord :=
  (List.range 3).flatMap fun w =>
    (List.range 3).flatMap fun x =>
      (List.range 3).flatMap fun y =>
        (List.range 3).map fun z => (w, x, y, z)

/-- Board.is_valid_position: every coordinate in range 0-2 (the lower bound
of the source is automatic for naturals). -/
def Board.is_valid_position (c : Coord) : Bool :=
  decide (c.1 < 3 ∧ c.2.1 < 3 ∧ c.2.2.1 < 3 ∧ c.2.2.2 < 3)

/-- Board.is_valid_move: the position is valid and currently empty. -/
def Board.is_valid_move (b : Board) (c : Coord) : Bool :=
  Board.is_valid_position c && (b c).isNone

/-- Board cell update; the source's Board.set raises on an out-of-range
position, and is only ever applied in range. -/
def Board.set (b : Board) (c : Coord) (v : Option Symb) : Board :=
  fun p => if p = c then v else b p

/-- Board.make_move: place the symbol if the move is valid; returns the
board (unchanged on failure) and a success flag. -/
def Board.make_move (b : Board) (s : Symb) (c : Coord) : Board × Bool :=
  if Board.is_valid_move b c then (Board.set b c (some s), true) else (b, false)

/-- Board.get_empty_positions: unoccupied cells in lattice order. -/
def get_empty_positions (b : Board) : List Coord :=
  get_all_positions.filter fun c => (b c).isNone

/-- The board of a freshly constructed Board(). -/
def emptyBoard : Board := fun _ => none

/-- WinChecker._generate_directions: the 80 non-zero direction vectors with
components in -1..1, in generation order. -/
def directions : List Dir :=
  ([-1, 0, 1] : List Int).flatMap fun dw =>
    ([-1, 0, 1] : List Int).flatMap fun dx =>
      ([-1, 0, 1] : List Int).flatMap fun dy =>
        ([-1, 0, 1] : List Int).filterMap fun dz =>
          if (dw, dx, dy, dz) = ((0 : Int), (0 : Int), (0 : Int), (0 : Int)) then none
          else some (dw, dx, dy, dz)

/-- The step loop of WinChecker._precompute_winning_lines along one
direction: extend the collected positions point by point, stopping at the
first out-of-bounds point exactly as the source's break does. -/
def walkFrom (c : Coord) (d : Dir) : List Nat → List Coord → Option (List Coord)
  | [], positions => some positions
  | step :: rest, positions =>
    let nw : Int := (c.1 : Int) + step * d.1
    let nx : Int := (c.2.1 : Int) + step * d.2.1
    let ny : Int := (c.2.2.1 : Int) + step * d.2.2.1
    let nz : Int := (c.2.2.2 : Int) + step * d.2.2.2
    if 0 ≤ nw ∧ nw < 3 ∧ 0 ≤ nx ∧ nx < 3 ∧ 0 ≤ ny ∧ ny < 3 ∧ 0 ≤ nz ∧ nz < 3 then
      walkFrom c d rest (positions ++ [(nw.toNat, nx.toNat, ny.toNat, nz.toNat)])
    else none

/-- The 3-step walk from a starting cell along a direction; some path when
all three points stay in bounds. -/
def walkLine (c : Coord) (d : Dir) : Option (List Coord) :=
  walkFrom c d [0, 1, 2] []

/-- An in-bounds coordinate packed into a natural number (base-3 digits). -/
def encodeCoord (c : Coord) : Nat := 27 * c.1 + 9 * c.2.1 + 3 * c.2.2.1 + c.2.2.2

/-- The canonical form of a path used for deduplication: its coordinates
sorted ascending (the source's tuple(sorted(positions))), packed into one
natural number.  Packing is injective on in-bounds paths, so key equality
coincides with equality of sorted coordinate tuples. -/
def canonKey (l : List Coord) : Nat :=
  match List.insertionSort (fun a b => a ≤ b) (l.map encodeCoord) with
  | [a, b, c] => (a * 81 + b) * 81 + c
  | _ => 0

/-- Inner loop of WinChecker._precompute_winning_lines: try every direction
from one starting cell, extending the seen-key set and the output list. -/
def dirLoop (c : Coord) : List Dir → List Nat → List (List Coord) →
    List Nat × List (List Coord)
  | [], seen, out => (seen, out)
  | d :: rest, seen, out =>
    match walkLine c d with
    | none => dirLoop c rest seen out
    | some ps =>
      let key := canonKey ps
      if key ∈ seen then dirLoop c rest seen out
      else dirLoop c rest (seen ++ [key]) (out ++ [ps])

/-- Outer loop of WinChecker._precompute_winning_lines over starting cells. -/
def posLoop : List Coord → List Nat → List (List Coord) → List (List Coord)
  | [], _seen, out => out
  | c :: rest, seen, out =>
    match dirLoop c directions seen out with
    | (seen2, out2) => posLoop rest seen2 out2

/-- WinChecker._precompute_winning_lines: all winning lines, deduplicated,
in first-found order. -/
def precompute_winning_lines : List (List Coord) := posLoop get_all_positions [] []

/-- The winning-line table, written out literally so that the kernel can
evaluate consumers cheaply; the theorem winningLines_eq_precompute below
proves it equal to the precomputation above. -/
def winningLines : List (List Coord) := [
  [(0,0,0,0),(0,0,0,1),(0,0,0,2)], [(0,0,0,0),(0,0,1,0),(0,0,2,0)],
  [(0,0,0,0),(0,0,1,1),(0,0,2,2)], [(0,0,0,0),(0,1,0,0),(0,2,0,0)],
  [(0,0,0,0),(0,1,0,1),(0,2,0,2)], [(0,0,0,0),(0,1,1,0),(0,2,2,0)],
  [(0,0,0,0),(0,1,1,1),(0,2,2,2)], [(0,0,0,0),(1,0,0,0),(2,0,0,0)],
  [(0,0,0,0),(1,0,0,1),(2,0,0,2)], [(0,0,0,0),(1,0,1,0),(2,0,2,0)],
  [(0,0,0,0),(1,0,1,1),(2,0,2,2)], [(0,0,0,0),(1,1,0,0),(2,2,0,0)],
  [(0,0,0,0),(1,1,0,1),(2,2,0,2)], [(0,0,0,0),(1,1,1,0),(2,2,2,0)],
  [(0,0,0,0),(1,1,1,1),(2,2,2,2)], [(0,0,0,1),(0,0,1,1),(0,0,2,1)],
  [(0,0,0,1),(0,1,0,1),(0,2,0,1)], [(0,0,0,1),(0,1,1,1),(0,2,2,1)],
  [(0,0,0,1),(1,0,0,1),(2,0,0,1)], [(0,0,0,1),(1,0,1,1),(2,0,2,1)],
  [(0,0,0,1),(1,1,0,1),(2,2,0,1)], [(0,0,0,1),(1,1,1,1),(2,2,2,1)],
  [(0,0,0,2),(0,0,1,1),(0,0,2,0)], [(0,0,0,2),(0,0,1,2),(0,0,2,2)],
  [(0,0,0,2),(0,1,0,1),(0,2,0,0)], [(0,0,0,2),(0,1,0,2),(0,2,0,2)],
  [(0,0,0,2),(0,1,1,1),(0,2,2,0)], [(0,0,0,2),(0,1,1,2),(0,2,2,2)],
  [(0,0,0,2),(1,0,0,1),(2,0,0,0)], [(0,0,0,2),(1,0,0,2),(2,0,0,2)],
  [(0,0,0,2),(1,0,1,1),(2,0,2,0)], [(0,0,0,2),(1,0,1,2),(2,0,2,2)],
  [(0,0,0,2),(1,1,0,1),(2,2,0,0)], [(0,0,0,2),(1,1,0,2),(2,2,0,2)],
  [(0,0,0,2),(1,1,1,1),(2,2,2,0)], [(0,0,0,2),(1,1,1,2),(2,2,2,2)],
  [(0,0,1,0),(0,0,1,1),(0,0,1,2)], [(0,0,1,0),(0,1,1,0),(0,2,1,0)],
  [(0,0,1,0),(0,1,1,1),(0,2,1,2)], [(0,0,1,0),(1,0,1,0),(2,0,1,0)],
  [(0,0,1,0),(1,0,1,1),(2,0,1,2)], [(0,0,1,0),(1,1,1,0),(2,2,1,0)],
  [(0,0,1,0),(1,1,1,1),(2,2,1,2)], [(0,0,1,1),(0,1,1,1),(0,2,1,1)],
  [(0,0,1,1),(1,0,1,1),(2,0,1,1)], [(0,0,1,1),(1,1,1,1),(2,2,1,1)],
  [(0,0,1,2),(0,1,1,1),(0,2,1,0)], [(0,0,1,2),(0,1,1,2),(0,2,1,2)],
  [(0,0,1,2),(1,0,1,1),(2,0,1,0)], [(0,0,1,2),(1,0,1,2),(2,0,1,2)],
  [(0,0,1,2),(1,1,1,1),(2,2,1,0)], [(0,0,1,2),(1,1,1,2),(2,2,1,2)],
  [(0,0,2,0),(0,0,2,1),(0,0,2,2)], [(0,0,2,0),(0,1,1,0),(0,2,0,0)],
  [(0,0,2,0),(0,1,1,1),(0,2,0,2)], [(0,0,2,0),(0,1,2,0),(0,2,2,0)],
  [(0,0,2,0),(0,1,2,1),(0,2,2,2)], [(0,0,2,0),(1,0,1,0),(2,0,0,0)],
  [(0,0,2,0),(1,0,1,1),(2,0,0,2)], [(0,0,2,0),(1,0,2,0),(2,0,2,0)],
  [(0,0,2,0),(1,0,2,1),(2,0,2,2)], [(0,0,2,0),(1,1,1,0),(2,2,0,0)],
  [(0,0,2,0),(1,1,1,1),(2,2,0,2)], [(0,0,2,0),(1,1,2,0),(2,2,2,0)],
  [(0,0,2,0),(1,1,2,1),(2,2,2,2)], [(0,0,2,1),(0,1,1,1),(0,2,0,1)],
  [(0,0,2,1),(0,1,2,1),(0,2,2,1)], [(0,0,2,1),(1,0,1,1),(2,0,0,1)],
  [(0,0,2,1),(1,0,2,1),(2,0,2,1)], [(0,0,2,1),(1,1,1,1),(2,2,0,1)],
  [(0,0,2,1),(1,1,2,1),(2,2,2,1)], [(0,0,2,2),(0,1,1,1),(0,2,0,0)],
  [(0,0,2,2),(0,1,1,2),(0,2,0,2)], [(0,0,2,2),(0,1,2,1),(0,2,2,0)],
  [(0,0,2,2),(0,1,2,2),(0,2,2,2)], [(0,0,2,2),(1,0,1,1),(2,0,0,0)],
  [(0,0,2,2),(1,0,1,2),(2,0,0,2)], [(0,0,2,2),(1,0,2,1),(2,0,2,0)],
  [(0,0,2,2),(1,0,2,2),(2,0,2,2)], [(0,0,2,2),(1,1,1,1),(2,2,0,0)],
  [(0,0,2,2),(1,1,1,2),(2,2,0,2)], [(0,0,2,2),(1,1,2,1),(2,2,2,0)],
  [(0,0,2,2),(1,1,2,2),(2,2,2,2)], [(0,1,0,0),(0,1,0,1),(0,1,0,2)],
  [(0,1,0,0),(0,1,1,0),(0,1,2,0)], [(0,1,0,0),(0,1,1,1),(0,1,2,2)],
  [(0,1,0,0),(1,1,0,0),(2,1,0,0)], [(0,1,0,0),(1,1,0,1),(2,1,0,2)],
  [(0,1,0,0),(1,1,1,0),(2,1,2,0)], [(0,1,0,0),(1,1,1,1),(2,1,2,2)],
  [(0,1,0,1),(0,1,1,1),(0,1,2,1)], [(0,1,0,1),(1,1,0,1),(2,1,0,1)],
  [(0,1,0,1),(1,1,1,1),(2,1,2,1)], [(0,1,0,2),(0,1,1,1),(0,1,2,0)],
  [(0,1,0,2),(0,1,1,2),(0,1,2,2)], [(0,1,0,2),(1,1,0,1),(2,1,0,0)],
  [(0,1,0,2),(1,1,0,2),(2,1,0,2)], [(0,1,0,2),(1,1,1,1),(2,1,2,0)],
  [(0,1,0,2),(1,1,1,2),(2,1,2,2)], [(0,1,1,0),(0,1,1,1),(0,1,1,2)],
  [(0,1,1,0),(1,1,1,0),(2,1,1,0)], [(0,1,1,0),(1,1,1,1),(2,1,1,2)],
  [(0,1,1,1),(1,1,1,1),(2,1,1,1)], [(0,1,1,2),(1,1,1,1),(2,1,1,0)],
  [(0,1,1,2),(1,1,1,2),(2,1,1,2)], [(0,1,2,0),(0,1,2,1),(0,1,2,2)],
  [(0,1,2,0),(1,1,1,0),(2,1,0,0)], [(0,1,2,0),(1,1,1,1),(2,1,0,2)],
  [(0,1,2,0),(1,1,2,0),(2,1,2,0)], [(0,1,2,0),(1,1,2,1),(2,1,2,2)],
  [(0,1,2,1),(1,1,1,1),(2,1,0,1)], [(0,1,2,1),(1,1,2,1),(2,1,2,1)],
  [(0,1,2,2),(1,1,1,1),(2,1,0,0)], [(0,1,2,2),(1,1,1,2),(2,1,0,2)],
  [(0,1,2,2),(1,1,2,1),(2,1,2,0)], [(0,1,2,2),(1,1,2,2),(2,1,2,2)],
  [(0,2,0,0),(0,2,0,1),(0,2,0,2)], [(0,2,0,0),(0,2,1,0),(0,2,2,0)],
  [(0,2,0,0),(0,2,1,1),(0,2,2,2)], [(0,2,0,0),(1,1,0,0),(2,0,0,0)],
  [(0,2,0,0),(1,1,0,1),(2,0,0,2)], [(0,2,0,0),(1,1,1,0),(2,0,2,0)],
  [(0,2,0,0),(1,1,1,1),(2,0,2,2)], [(0,2,0,0),(1,2,0,0),(2,2,0,0)],
  [(0,2,0,0),(1,2,0,1),(2,2,0,2)], [(0,2,0,0),(1,2,1,0),(2,2,2,0)],
  [(0,2,0,0),(1,2,1,1),(2,2,2,2)], [(0,2,0,1),(0,2,1,1),(0,2,2,1)],
  [(0,2,0,1),(1,1,0,1),(2,0,0,1)], [(0,2,0,1),(1,1,1,1),(2,0,2,1)],
  [(0,2,0,1),(1,2,0,1),(2,2,0,1)], [(0,2,0,1),(1,2,1,1),(2,2,2,1)],
  [(0,2,0,2),(0,2,1,1),(0,2,2,0)], [(0,2,0,2),(0,2,1,2),(0,2,2,2)],
  [(0,2,0,2),(1,1,0,1),(2,0,0,0)], [(0,2,0,2),(1,1,0,2),(2,0,0,2)],
  [(0,2,0,2),(1,1,1,1),(2,0,2,0)], [(0,2,0,2),(1,1,1,2),(2,0,2,2)],
  [(0,2,0,2),(1,2,0,1),(2,2,0,0)], [(0,2,0,2),(1,2,0,2),(2,2,0,2)],
  [(0,2,0,2),(1,2,1,1),(2,2,2,0)], [(0,2,0,2),(1,2,1,2),(2,2,2,2)],
  [(0,2,1,0),(0,2,1,1),(0,2,1,2)], [(0,2,1,0),(1,1,1,0),(2,0,1,0)],
  [(0,2,1,0),(1,1,1,1),(2,0,1,2)], [(0,2,1,0),(1,2,1,0),(2,2,1,0)],
  [(0,2,1,0),(1,2,1,1),(2,2,1,2)], [(0,2,1,1),(1,1,1,1),(2,0,1,1)],
  [(0,2,1,1),(1,2,1,1),(2,2,1,1)], [(0,2,1,2),(1,1,1,1),(2,0,1,0)],
  [(0,2,1,2),(1,1,1,2),(2,0,1,2)], [(0,2,1,2),(1,2,1,1),(2,2,1,0)],
  [(0,2,1,2),(1,2,1,2),(2,2,1,2)], [(0,2,2,0),(0,2,2,1),(0,2,2,2)],
  [(0,2,2,0),(1,1,1,0),(2,0,0,0)], [(0,2,2,0),(1,1,1,1),(2,0,0,2)],
  [(0,2,2,0),(1,1,2,0),(2,0,2,0)], [(0,2,2,0),(1,1,2,1),(2,0,2,2)],
  [(0,2,2,0),(1,2,1,0),(2,2,0,0)], [(0,2,2,0),(1,2,1,1),(2,2,0,2)],
  [(0,2,2,0),(1,2,2,0),(2,2,2,0)], [(0,2,2,0),(1,2,2,1),(2,2,2,2)],
  [(0,2,2,1),(1,1,1,1),(2,0,0,1)], [(0,2,2,1),(1,1,2,1),(2,0,2,1)],
  [(0,2,2,1),(1,2,1,1),(2,2,0,1)], [(0,2,2,1),(1,2,2,1),(2,2,2,1)],
  [(0,2,2,2),(1,1,1,1),(2,0,0,0)], [(0,2,2,2),(1,1,1,2),(2,0,0,2)],
  [(0,2,2,2),(1,1,2,1),(2,0,2,0)], [(0,2,2,2),(1,1,2,2),(2,0,2,2)],
  [(0,2,2,2),(1,2,1,1),(2,2,0,0)], [(0,2,2,2),(1,2,1,2),(2,2,0,2)],
  [(0,2,2,2),(1,2,2,1),(2,2,2,0)], [(0,2,2,2),(1,2,2,2),(2,2,2,2)],
  [(1,0,0,0),(1,0,0,1),(1,0,0,2)], [(1,0,0,0),(1,0,1,0),(1,0,2,0)],
  [(1,0,0,0),(1,0,1,1),(1,0,2,2)], [(1,0,0,0),(1,1,0,0),(1,2,0,0)],
  [(1,0,0,0),(1,1,0,1),(1,2,0,2)], [(1,0,0,0),(1,1,1,0),(1,2,2,0)],
  [(1,0,0,0),(1,1,1,1),(1,2,2,2)], [(1,0,0,1),(1,0,1,1),(1,0,2,1)],
  [(1,0,0,1),(1,1,0,1),(1,2,0,1)], [(1,0,0,1),(1,1,1,1),(1,2,2,1)],
  [(1,0,0,2),(1,0,1,1),(1,0,2,0)], [(1,0,0,2),(1,0,1,2),(1,0,2,2)],
  [(1,0,0,2),(1,1,0,1),(1,2,0,0)], [(1,0,0,2),(1,1,0,2),(1,2,0,2)],
  [(1,0,0,2),(1,1,1,1),(1,2,2,0)], [(1,0,0,2),(1,1,1,2),(1,2,2,2)],
  [(1,0,1,0),(1,0,1,1),(1,0,1,2)], [(1,0,1,0),(1,1,1,0),(1,2,1,0)],
  [(1,0,1,0),(1,1,1,1),(1,2,1,2)], [(1,0,1,1),(1,1,1,1),(1,2,1,1)],
  [(1,0,1,2),(1,1,1,1),(1,2,1,0)], [(1,0,1,2),(1,1,1,2),(1,2,1,2)],
  [(1,0,2,0),(1,0,2,1),(1,0,2,2)], [(1,0,2,0),(1,1,1,0),(1,2,0,0)],
  [(1,0,2,0),(1,1,1,1),(1,2,0,2)], [(1,0,2,0),(1,1,2,0),(1,2,2,0)],
  [(1,0,2,0),(1,1,2,1),(1,2,2,2)], [(1,0,2,1),(1,1,1,1),(1,2,0,1)],
  [(1,0,2,1),(1,1,2,1),(1,2,2,1)], [(1,0,2,2),(1,1,1,1),(1,2,0,0)],
  [(1,0,2,2),(1,1,1,2),(1,2,0,2)], [(1,0,2,2),(1,1,2,1),(1,2,2,0)],
  [(1,0,2,2),(1,1,2,2),(1,2,2,2)], [(1,1,0,0),(1,1,0,1),(1,1,0,2)],
  [(1,1,0,0),(1,1,1,0),(1,1,2,0)], [(1,1,0,0),(1,1,1,1),(1,1,2,2)],
  [(1,1,0,1),(1,1,1,1),(1,1,2,1)], [(1,1,0,2),(1,1,1,1),(1,1,2,0)],
  [(1,1,0,2),(1,1,1,2),(1,1,2,2)], [(1,1,1,0),(1,1,1,1),(1,1,1,2)],
  [(1,1,2,0),(1,1,2,1),(1,1,2,2)], [(1,2,0,0),(1,2,0,1),(1,2,0,2)],
  [(1,2,0,0),(1,2,1,0),(1,2,2,0)], [(1,2,0,0),(1,2,1,1),(1,2,2,2)],
  [(1,2,0,1),(1,2,1,1),(1,2,2,1)], [(1,2,0,2),(1,2,1,1),(1,2,2,0)],
  [(1,2,0,2),(1,2,1,2),(1,2,2,2)], [(1,2,1,0),(1,2,1,1),(1,2,1,2)],
  [(1,2,2,0),(1,2,2,1),(1,2,2,2)], [(2,0,0,0),(2,0,0,1),(2,0,0,2)],
  [(2,0,0,0),(2,0,1,0),(2,0,2,0)], [(2,0,0,0),(2,0,1,1),(2,0,2,2)],
  [(2,0,0,0),(2,1,0,0),(2,2,0,0)], [(2,0,0,0),(2,1,0,1),(2,2,0,2)],
  [(2,0,0,0),(2,1,1,0),(2,2,2,0)], [(2,0,0,0),(2,1,1,1),(2,2,2,2)],
  [(2,0,0,1),(2,0,1,1),(2,0,2,1)], [(2,0,0,1),(2,1,0,1),(2,2,0,1)],
  [(2,0,0,1),(2,1,1,1),(2,2,2,1)], [(2,0,0,2),(2,0,1,1),(2,0,2,0)],
  [(2,0,0,2),(2,0,1,2),(2,0,2,2)], [(2,0,0,2),(2,1,0,1),(2,2,0,0)],
  [(2,0,0,2),(2,1,0,2),(2,2,0,2)], [(2,0,0,2),(2,1,1,1),(2,2,2,0)],
  [(2,0,0,2),(2,1,1,2),(2,2,2,2)], [(2,0,1,0),(2,0,1,1),(2,0,1,2)],
  [(2,0,1,0),(2,1,1,0),(2,2,1,0)], [(2,0,1,0),(2,1,1,1),(2,2,1,2)],
  [(2,0,1,1),(2,1,1,1),(2,2,1,1)], [(2,0,1,2),(2,1,1,1),(2,2,1,0)],
  [(2,0,1,2),(2,1,1,2),(2,2,1,2)], [(2,0,2,0),(2,0,2,1),(2,0,2,2)],
  [(2,0,2,0),(2,1,1,0),(2,2,0,0)], [(2,0,2,0),(2,1,1,1),(2,2,0,2)],
  [(2,0,2,0),(2,1,2,0),(2,2,2,0)], [(2,0,2,0),(2,1,2,1),(2,2,2,2)],
  [(2,0,2,1),(2,1,1,1),(2,2,0,1)], [(2,0,2,1),(2,1,2,1),(2,2,2,1)],
  [(2,0,2,2),(2,1,1,1),(2,2,0,0)], [(2,0,2,2),(2,1,1,2),(2,2,0,2)],
  [(2,0,2,2),(2,1,2,1),(2,2,2,0)], [(2,0,2,2),(2,1,2,2),(2,2,2,2)],
  [(2,1,0,0),(2,1,0,1),(2,1,0,2)], [(2,1,0,0),(2,1,1,0),(2,1,2,0)],
  [(2,1,0,0),(2,1,1,1),(2,1,2,2)], [(2,1,0,1),(2,1,1,1),(2,1,2,1)],
  [(2,1,0,2),(2,1,1,1),(2,1,2,0)], [(2,1,0,2),(2,1,1,2),(2,1,2,2)],
  [(2,1,1,0),(2,1,1,1),(2,1,1,2)], [(2,1,2,0),(2,1,2,1),(2,1,2,2)],
  [(2,2,0,0),(2,2,0,1),(2,2,0,2)], [(2,2,0,0),(2,2,1,0),(2,2,2,0)],
  [(2,2,0,0),(2,2,1,1),(2,2,2,2)], [(2,2,0,1),(2,2,1,1),(2,2,2,1)],
  [(2,2,0,2),(2,2,1,1),(2,2,2,0)], [(2,2,0,2),(2,2,1,2),(2,2,2,2)],
  [(2,2,1,0),(2,2,1,1),(2,2,1,2)], [(2,2,2,0),(2,2,2,1),(2,2,2,2)]
]

/-- WinChecker.count_winning_lines. -/
def count_winning_lines : Nat := winningLines.length

/-- WinChecker._position_to_lines lookup: the indices (ascending) of the
lines passing through a position; empty for a position on no line (in
particular any out-of-range position). -/
def linesThrough (c : Coord) : List Nat :=
  (winningLines.enum.filter fun il => decide (c ∈ il.2)).map fun il => il.1

/-- The per-line test of the win checkers: some s when the first cell holds
s and all cells hold the same non-empty symbol. -/
def lineWinner (b : Board) (line : List Coord) : Option Symb :=
  match line.map b with
  | some s :: rest => if rest.all (fun t => t == some s) then some s else none
  | _ => none

/-- WinChecker.check_win: the fast path, examining only lines through the
last-move position; none when that cell is empty.  The source's board.get
raises on an out-of-range last move, which the theorems below exclude. -/
def check_win (b : Board) (c : Coord) : Option Symb :=
  match b c with
  | none => none
  | some _ => (linesThrough c).findSome? fun i => lineWinner b (winningLines.getD i [])

/-- WinChecker.check_win_all_positions: the exhaustive scan of every line. -/
def check_win_all_positions (b : Board) : Option Symb :=
  winningLines.findSome? fun line => lineWinner b line

/-- WinChecker.get_winning_line: the first line fully owned by the symbol. -/
def get_winning_line (b : Board) (sym : Symb) : Option (List Coord) :=
  winningLines.find? fun line => (line.map b).all fun s => s == some sym

/-- Game state tags. -/
inductive GameState where
  | WAITING
  | PLAYING
  | FINISHED
deriving DecidableEq

/-- A registered player. -/
structure Player where
  player_id : String
  player_name : String
  symbol : String
  is_bot : Bool
deriving DecidableEq

/-- The Game object: board, state tag, roster, id-to-symbol map, turn
index, move log and outcome. -/
structure Game where
  board : Board
  state : GameState
  players : List Player
  player_symbols : List (String × String)
  current_player_index : Nat
  move_history : List (String × Coord)
  winner : Option Player
  winning_line : Option (List Coord)

/-- Game.MIN_PLAYERS. -/
def MIN_PLAYERS : Nat := 4

/-- Game.MAX_PLAYERS. -/
def MAX_PLAYERS : Nat := 5

/-- A freshly constructed Game(). -/
def Game.init : Game :=
  { board := emptyBoard, state := GameState.WAITING, players := [],
    player_symbols := [], current_player_index := 0, move_history := [],
    winner := none, winning_line := none }

/-- Insertion-order association-list update with the overwrite semantics of
the source's player_symbols dict assignment. -/
def dictInsert (m : List (String × String)) (k v : String) : List (String × String) :=
  if m.any (fun kv => kv.1 == k) then m.map fun kv => if kv.1 == k then (k, v) else kv
  else m ++ [(k, v)]

/-- Dict lookup; none models a KeyError site. -/
def dictFind (m : List (String × String)) (k : String) : Option String :=
  (m.find? fun kv => kv.1 == k).map fun kv => kv.2

/-- Game.add_player: admission checks (waiting state, roster below max,
fresh symbol, symbol of length 1-2) and the roster/dict update. -/
def Game.add_player (g : Game) (pid pname sym : String) (is_bot : Bool) : Game × Bool :=
  if g.state ≠ GameState.WAITING then (g, false)
  else if MAX_PLAYERS ≤ g.players.length then (g, false)
  else if sym ∈ g.players.map Player.symbol then (g, false)
  else if sym = "" ∨ 2 < sym.length then (g, false)
  else ({ g with
            players := g.players ++ [⟨pid, pname, sym, is_bot⟩],
            player_symbols := dictInsert g.player_symbols pid sym }, true)

/-- Game.start_game: only from waiting with at least MIN_PLAYERS players;
resets board, history and outcome, sets the turn index to 0. -/
def Game.start_game (g : Game) : Game × Bool :=
  if g.state ≠ GameState.WAITING then (g, false)
  else if g.players.length < MIN_PLAYERS then (g, false)
  else ({ g with
            state := GameState.PLAYING, current_player_index := 0,
            board := emptyBoard, move_history := [], winner := none,
            winning_line := none }, true)

/-- Game.get_current_player, inlined into make_move below; this version
returns none both when not playing and when the roster is empty. -/
def Game.get_current_player (g : Game) : Option Player :=
  if g.state ≠ GameState.PLAYING then none
  else if g.players = [] then none
  else g.players.get? g.current_player_index

/-- Game.make_move.  The outer Option models the two unreachable crash
sites of the source (an IndexError on the roster and a KeyError on the
symbol dict); every returned value is the source's (success, error) result
paired with the post-call game. -/
def Game.make_move (g : Game) (pid : String) (c : Coord) :
    Option (Game × Bool × Option String) :=
  if g.state ≠ GameState.PLAYING then some (g, false, some "Game is not in playing state")
  else if g.players = [] then some (g, false, some "Not your turn")
  else
    match g.players.get? g.current_player_index with
    | none => none
    | some current_player =>
      if current_player.player_id ≠ pid then some (g, false, some "Not your turn")
      else if ¬ Board.is_valid_move g.board c then some (g, false, some "Invalid move position")
      else
        match dictFind g.player_symbols pid with
        | none => none
        | some player_symbol =>
          let mv := Board.make_move g.board player_symbol c
          if mv.2 = false then some (g, false, some "Failed to make move")
          else
            let g1 := { g with board := mv.1, move_history := g.move_history ++ [(pid, c)] }
            match check_win g1.board c with
            | some winner_symbol =>
              let g2 :=
                match g1.players.find? (fun p => p.symbol == winner_symbol) with
                | some p => { g1 with
                                winner := some p,
                                winning_line := get_winning_line g1.board winner_symbol }
                | none => g1
              some ({ g2 with state := GameState.FINISHED }, true, none)
            | none =>
              if get_empty_positions g1.board = [] then
                some ({ g1 with state := GameState.FINISHED }, true, none)
              else
                some ({ g1 with
                         current_player_index :=
                           (g.current_player_index + 1) % g.players.length }, true, none)

/-- The identical _find_winning_move method of SimpleAI, MinimaxAI and
LearnedAI: the first empty cell completing a line for the acting symbol. -/
def find_winning_move (sym : Symb) (b : Board) : Option Coord :=
  (get_empty_positions b).find? fun c =>
    check_win (Board.make_move b sym c).1 c == some sym

/-- The shared body of the _find_blocking_move methods: for each opponent
symbol in order, the first empty cell at which that opponent would win. -/
def find_blocking_move_core (b : Board) (opponent_symbols : List Symb) : Option Coord :=
  opponent_symbols.findSome? fun o =>
    (get_empty_positions b).find? fun c =>
      check_win (Board.make_move b o c).1 c == some o

/-- The symbol collection of SimpleAI._find_blocking_move and
MinimaxAI._get_opponent_symbols: the distinct symbols on the board other
than the acting one.  The source materialises a Python set; we keep
first-appearance order, which fixes one iteration order of that set. -/
def get_opponent_symbols (sym : Symb) (b : Board) : List Symb :=
  get_all_positions.foldl
    (fun acc c =>
      match b c with
      | some s => if s ≠ sym ∧ s ∉ acc then acc ++ [s] else acc
      | none => acc) []

/-- The fixed central-cell preference list of SimpleAI and LearnedAI. -/
def center_positions : List Coord :=
  [(1, 1, 1, 1), (1, 1, 1, 0), (1, 1, 0, 1), (1, 0, 1, 1), (0, 1, 1, 1),
   (1, 1, 1, 2), (1, 1, 2, 1), (1, 2, 1, 1), (2, 1, 1, 1),
   (1, 1, 0, 0), (1, 0, 1, 0), (0, 1, 1, 0), (1, 0, 0, 1), (0, 1, 0, 1), (0, 0, 1, 1)]

/-- SimpleAI.get_move: win now, block, centre preference, random cell.
random.choice is modelled by the stream pick; none models the ValueError
raised on a full board. -/
def SimpleAI.get_move (sym : Symb) (pick : List Coord → Coord) (b : Board) : Option Coord :=
  let empty_positions := get_empty_positions b
  if empty_positions = [] then none
  else
    match find_winning_move sym b with
    | some m => some m
    | none =>
      match find_blocking_move_core b (get_opponent_symbols sym b) with
      | some m => some m
      | none =>
        let available_centers := center_positions.filter fun p => decide (p ∈ empty_positions)
        if available_centers ≠ [] then some (pick available_centers)
        else some (pick empty_positions)

/-- Minimax scores: integers extended by the -inf/+inf sentinels the source
takes from math.inf. -/
abbrev MScore := WithBot (WithTop ℤ)

/-- A finite score. -/
def toScore (n : ℤ) : MScore := ((n : WithTop ℤ) : MScore)

/-- MinimaxAI._evaluate_position: the static evaluation summed over every
precomputed line. -/
def evaluate_position (sym : Symb) (b : Board) : ℤ :=
  winningLines.foldl
    (fun score line =>
      let symbols := line.map b
      let my_count := symbols.countP fun s => s == some sym
      let opponent_count := symbols.countP fun s => s.isSome && s != some sym
      let _empty_count := symbols.countP fun s => s == none
      if 0 < my_count ∧ opponent_count = 0 then score + (my_count : ℤ) * 10
      else if 0 < opponent_count ∧ my_count = 0 then score - (opponent_count : ℤ) * 10
      else score)
    0

/-- The maximizing loop of MinimaxAI._minimax: f is the one-level-deeper
search; breaking on beta ≤ alpha leaves the loop and returns max_eval. -/
def maxLoop (f : Board → MScore → MScore → MScore) (sym : Symb) (b : Board) :
    List Coord → MScore → MScore → MScore → MScore
  | [], max_eval, _alpha, _beta => max_eval
  | c :: rest, max_eval, alpha, beta =>
    let tb := (Board.make_move b sym c).1
    if check_win tb c == some sym then toScore 1000
    else
      let eval_score := f tb alpha beta
      let max_eval2 := max max_eval eval_score
      let alpha2 := max alpha eval_score
      if beta ≤ alpha2 then max_eval2
      else maxLoop f sym b rest max_eval2 alpha2 beta

/-- The inner opponent loop of the minimizing branch; error models the
early return of -1000, ok carries the updated (min_eval, beta).  A break
on beta ≤ alpha leaves only this inner loop, as in the source. -/
def minInner (f : Board → MScore → MScore → MScore) (b : Board) (c : Coord) :
    List Symb → MScore → MScore → MScore → Except MScore (MScore × MScore)
  | [], min_eval, _alpha, beta => Except.ok (min_eval, beta)
  | o :: rest, min_eval, alpha, beta =>
    let tb := (Board.make_move b o c).1
    if check_win tb c == some o then Except.error (toScore (-1000))
    else
      let eval_score := f tb alpha beta
      let min_eval2 := min min_eval eval_score
      let beta2 := min beta eval_score
      if beta2 ≤ alpha then Except.ok (min_eval2, beta2)
      else minInner f b c rest min_eval2 alpha beta2

/-- The minimizing loop of MinimaxAI._minimax over empty cells. -/
def minLoop (f : Board → MScore → MScore → MScore) (opponent_symbols : List Symb)
    (b : Board) : List Coord → MScore → MScore → MScore → MScore
  | [], min_eval, _alpha, _beta => min_eval
  | c :: rest, min_eval, alpha, beta =>
    match minInner f b c opponent_symbols min_eval alpha beta with
    | Except.error v => v
    | Except.ok (min_eval2, beta2) => minLoop f opponent_symbols b rest min_eval2 alpha beta2

/-- MinimaxAI._minimax with alpha-beta pruning, by recursion on depth. -/
def minimax (sym : Symb) (opponent_symbols : List Symb) :
    Nat → Board → Bool → MScore → MScore → MScore
  | 0, b, _maximizing, _alpha, _beta => toScore (evaluate_position sym b)
  | d + 1, b, maximizing, alpha, beta =>
    let empty_positions := get_empty_positions b
    match check_win_all_positions b with
    | some w => if w = sym then toScore 1000 else toScore (-1000)
    | none =>
      if empty_positions = [] then toScore 0
      else if maximizing then
        maxLoop (fun tb a2 b2 => minimax sym opponent_symbols d tb false a2 b2) sym b
          empty_positions ⊥ alpha beta
      else
        minLoop (fun tb a2 b2 => minimax sym opponent_symbols d tb true a2 b2)
          opponent_symbols b empty_positions ⊤ alpha beta

/-- The candidate loop of MinimaxAI.get_move: early return on an immediate
win, otherwise keep the strictly best scored move. -/
def mmSearch (sym : Symb) (opponent_symbols : List Symb) (max_depth : Nat) (b : Board) :
    List Coord → MScore → Option Coord → Option Coord
  | [], _best_score, best_move => best_move
  | c :: rest, best_score, best_move =>
    let tb := (Board.make_move b sym c).1
    if check_win tb c == some sym then some c
    else
      let score := minimax sym opponent_symbols (max_depth - 1) tb false ⊥ ⊤
      if best_score < score then mmSearch sym opponent_symbols max_depth b rest score (some c)
      else mmSearch sym opponent_symbols max_depth b rest best_score best_move

/-- MinimaxAI.get_move: detect opponents when none are supplied, fast
win-now and block paths, then the minimax loop with the first empty cell
as final fallback; none models the ValueError on a full board. -/
def MinimaxAI.get_move (sym : Symb) (max_depth : Nat) (b : Board)
    (opponent_symbols? : Option (List Symb)) : Option Coord :=
  let opponent_symbols :=
    match opponent_symbols? with
    | none => get_opponent_symbols sym b
    | some l => l
  let empty_positions := get_empty_positions b
  if hne : empty_positions = [] then none
  else
    match find_winning_move sym b with
    | some m => some m
    | none =>
      match find_blocking_move_core b opponent_symbols with
      | some m => some m
      | none =>
        some ((mmSearch sym opponent_symbols max_depth b empty_positions ⊥ none).getD
          (empty_positions.head hne))

/-- LearnedAI move_scores lookup with default 0. -/
def lookup_score (scores : List (Coord × ℚ)) (c : Coord) : ℚ :=
  ((scores.find? fun e => e.1 == c).map fun e => e.2).getD 0

/-- Floor of the base-two logarithm of a positive rational. -/
def floorLog2 (q : ℚ) : ℤ :=
  let e : ℤ := (q.num.natAbs.log2 : ℤ) - (q.den.log2 : ℤ)
  if (2 : ℚ) ^ e ≤ q then e else e - 1

/-- Nearest integer to a rational, ties going to the even integer. -/
def roundHalfEven (x : ℚ) : ℤ :=
  let f := ⌊x⌋
  let r := x - (f : ℚ)
  if r < 1 / 2 then f
  else if 1 / 2 < r then f + 1
  else if f % 2 = 0 then f else f + 1

/-- The exact value of the IEEE-754 double nearest to q (round to nearest,
ties to even, subnormals included): finite doubles are represented by
their exact rational values, and every quantity this development feeds in
stays far below the overflow threshold. -/
def roundFloat (q : ℚ) : ℚ :=
  if q = 0 then 0
  else
    let e := floorLog2 |q|
    let k := max (e - 52) (-1074)
    (roundHalfEven (q / (2 : ℚ) ^ k) : ℚ) * (2 : ℚ) ^ k

/-- The exact rational value of the double literal 0.1. -/
def floatTenth : ℚ := 3602879701896397 / 36028797018963968

/-- The exact rational value of the double literal 0.3. -/
def floatThreeTenths : ℚ := 5404319552844595 / 18014398509481984

/-- Strategy 3 of LearnedAI.get_move: prefer learned high-scoring cells,
else avoid strongly negative ones; none falls through to the centre
preference.  Scores are doubles embedded by their exact rational values;
the source's descending sort (Python list.sort, stable on tied keys) is
rendered with an insertion sort on the non-strict score comparison, which
also keeps tied entries in list order; the literals 0.1 and 0.3 enter by
their exact double values, and the one float subtraction is rounded back
to a double. -/
def learned_strategy3 (scores : List (Coord × ℚ)) (pick : List Coord → Coord)
    (empty_positions : List Coord) : Option Coord :=
  let scored_moves := empty_positions.map fun pos => (pos, lookup_score scores pos)
  let sorted := List.insertionSort (fun a b : Coord × ℚ => b.2 ≤ a.2) scored_moves
  let good_moves := (sorted.filter fun pm => 0 < pm.2).map fun pm => pm.1
  if good_moves ≠ [] then
    let threshold := roundFloat ((sorted.headD ((0, 0, 0, 0), 0)).2 - floatTenth)
    let top_moves := ((sorted.take (max 1 (sorted.length / 5))).filter fun pm =>
      threshold ≤ pm.2).map fun pm => pm.1
    some (pick top_moves)
  else
    let worst_moves := (sorted.filter fun pm => pm.2 < -floatThreeTenths).map fun pm => pm.1
    if worst_moves ≠ [] ∧ worst_moves.length < empty_positions.length then
      let available := empty_positions.filter fun p => decide (p ∉ worst_moves)
      if available ≠ [] then
        let remaining_scored := available.map fun pos => (pos, lookup_score scores pos)
        let sortedR := List.insertionSort (fun a b : Coord × ℚ => b.2 ≤ a.2) remaining_scored
        let top_remaining := (sortedR.take (max 1 (sortedR.length / 3))).map fun pm => pm.1
        some (pick top_remaining)
      else none
    else none

/-- LearnedAI.get_move: win now, block, learned preference (skipped when
the score table is empty, as for a missing or unparseable training log),
centre preference, random cell. -/
def LearnedAI.get_move (sym : Symb) (move_scores : List (Coord × ℚ))
    (pick : List Coord → Coord) (b : Board) : Option Coord :=
  let empty_positions := get_empty_positions b
  if empty_positions = [] then none
  else
    match find_winning_move sym b with
    | some m => some m
    | none =>
      match find_blocking_move_core b (get_opponent_symbols sym b) with
      | some m => some m
      | none =>
        match (if move_scores ≠ [] then learned_strategy3 move_scores pick empty_positions
               else none) with
        | some m => some m
        | none =>
          let available_centers := center_positions.filter fun p => decide (p ∈ empty_positions)
          if available_centers ≠ [] then some (pick available_centers)
          else some (pick empty_positions)

/-- Symbol s has a fully completed line on the board. -/
def hasCompletedLine (b : Board) (s : Symb) : Prop :=
  ∃ line ∈ winningLines, ∀ p ∈ line, b p = some s

/-- At most one symbol has a completed line. -/
def atMostOneWinner (b : Board) : Prop :=
  ∀ s t, hasCompletedLine b s → hasCompletedLine b t → s = t

/-- A completed line passes through the cell c. -/
def completedThrough (b : Board) (c : Coord) : Prop :=
  ∃ s, ∃ line ∈ winningLines, c ∈ line ∧ ∀ p ∈ line, b p = some s

/-- Symbol o, played at the currently empty in-range cell u, would complete
a line: u is an immediate winning cell for o. -/
def threat (b : Board) (o : Symb) (u : Coord) : Prop :=
  b u = none ∧ Board.is_valid_position u = true ∧
    ∃ line ∈ winningLines, u ∈ line ∧ ∀ p ∈ line, p ≠ u → b p = some o

/-- A legal move for sym after which no opponent symbol has an immediate
winning reply: either the move completes a line for sym itself, ending the
game on the spot so that no reply of any kind exists, or the resulting
board leaves no other symbol an immediate winning cell anywhere. -/
def nonLosingMove (sym : Symb) (b : Board) (m : Coord) : Prop :=
  m ∈ get_empty_positions b ∧
    (threat b sym m ∨
      ∀ o, o ≠ sym → ∀ u, ¬ threat (Board.make_move b sym m).1 o u)

/-- Specification-side per-line value of the static evaluation: +10 per
acting-symbol occupant when the line has no opposing occupants, -10 per
opposing occupant when it has no acting-symbol occupants, 0 for lines
mixing the two. -/
def spec_line_value (sym : Symb) (b : Board) (line : List Coord) : ℤ :=
  let symbols := line.map b
  let my := (symbols.countP fun s => s == some sym : ℤ)
  let opp := (symbols.countP fun s => s.isSome && s != some sym : ℤ)
  if opp = 0 then 10 * my
  else if my = 0 then -(10 * opp)
  else 0

/-- Specification-side static evaluation: the sum of the per-line values
over all precomputed lines. -/
def spec_evaluation (sym : Symb) (b : Board) : ℤ :=
  (winningLines.map fun line => spec_line_value sym b line).sum

/-! Concrete boards and games used as witnesses and counterexamples. -/

/-- A board with a completed X line along the z axis and nothing else. -/
def bC2 : Board := fun c =>
  if c = (0, 0, 0, 0) ∨ c = (0, 0, 0, 1) ∨ c = (0, 0, 0, 2) then some "X" else none

/-- A board where X threatens to complete the first z-axis line. -/
def bC5 : Board := fun c =>
  if c = (0, 0, 0, 0) ∨ c = (0, 0, 0, 1) then some "X" else none

/-- Four players with distinct symbols. -/
def playersFour : List Player :=
  [⟨"p1", "Alice", "M", false⟩, ⟨"p2", "Bob", "O", false⟩,
   ⟨"p3", "Carol", "A", true⟩, ⟨"p4", "Dave", "B", true⟩]

/-- The id-to-symbol map matching playersFour. -/
def symbolsFour : List (String × String) :=
  [("p1", "M"), ("p2", "O"), ("p3", "A"), ("p4", "B")]

/-- A waiting game with a full roster of four. -/
def gC8a : Game :=
  { Game.init with players := playersFour, player_symbols := symbolsFour }

/-- A waiting game with only two players. -/
def gC8b : Game :=
  { Game.init with players := playersFour.take 2, player_symbols := symbolsFour.take 2 }

/-- A board one cell short of full, every occupied cell holding M. -/
def bC9 : Board := fun c => if c = (0, 0, 0, 2) then none else some "M"

/-- A playing game on bC9: the next move both completes a line and fills
the last empty cell. -/
def gC9 : Game :=
  { Game.init with
      state := GameState.PLAYING, players := playersFour,
      player_symbols := symbolsFour, board := bC9 }

/-- The game state produced by the final move of gC9. -/
def g2C9 : Game :=
  { gC9 with
      board := (Board.make_move gC9.board "M" (0, 0, 0, 2)).1,
      move_history := gC9.move_history ++ [("p1", (0, 0, 0, 2))],
      winner := some ⟨"p1", "Alice", "M", false⟩,
      winning_line := get_winning_line (Board.make_move gC9.board "M" (0, 0, 0, 2)).1 "M",
      state := GameState.FINISHED }

/-- A board where O threatens one cell and the mover M has no win. -/
def bC3w : Board := fun c =>
  if c = (0, 0, 0, 0) ∨ c = (0, 0, 0, 1) then some "O" else none

/-- The 81 starting cells in lattice order, written out for the stepwise
replay of the precomputation below. -/
def allPositionsList : List Coord := [
  (0, 0, 0, 0), (0, 0, 0, 1), (0, 0, 0, 2), (0, 0, 1, 0), (0, 0, 1, 1),
  (0, 0, 1, 2), (0, 0, 2, 0), (0, 0, 2, 1), (0, 0, 2, 2), (0, 1, 0, 0),
  (0, 1, 0, 1), (0, 1, 0, 2), (0, 1, 1, 0), (0, 1, 1, 1), (0, 1, 1, 2),
  (0, 1, 2, 0), (0, 1, 2, 1), (0, 1, 2, 2), (0, 2, 0, 0), (0, 2, 0, 1),
  (0, 2, 0, 2), (0, 2, 1, 0), (0, 2, 1, 1), (0, 2, 1, 2), (0, 2, 2, 0),
  (0, 2, 2, 1), (0, 2, 2, 2), (1, 0, 0, 0), (1, 0, 0, 1), (1, 0, 0, 2),
  (1, 0, 1, 0), (1, 0, 1, 1), (1, 0, 1, 2), (1, 0, 2, 0), (1, 0, 2, 1),
  (1, 0, 2, 2), (1, 1, 0, 0), (1, 1, 0, 1), (1, 1, 0, 2), (1, 1, 1, 0),
  (1, 1, 1, 1), (1, 1, 1, 2), (1, 1, 2, 0), (1, 1, 2, 1), (1, 1, 2, 2),
  (1, 2, 0, 0), (1, 2, 0, 1), (1, 2, 0, 2), (1, 2, 1, 0), (1, 2, 1, 1),
  (1, 2, 1, 2), (1, 2, 2, 0), (1, 2, 2, 1), (1, 2, 2, 2), (2, 0, 0, 0),
  (2, 0, 0, 1), (2, 0, 0, 2), (2, 0, 1, 0), (2, 0, 1, 1), (2, 0, 1, 2),
  (2, 0, 2, 0), (2, 0, 2, 1), (2, 0, 2, 2), (2, 1, 0, 0), (2, 1, 0, 1),
  (2, 1, 0, 2), (2, 1, 1, 0), (2, 1, 1, 1), (2, 1, 1, 2), (2, 1, 2, 0),
  (2, 1, 2, 1), (2, 1, 2, 2), (2, 2, 0, 0), (2, 2, 0, 1), (2, 2, 0, 2),
  (2, 2, 1, 0), (2, 2, 1, 1), (2, 2, 1, 2), (2, 2, 2, 0), (2, 2, 2, 1),
  (2, 2, 2, 2)]

/-! Helper lemmas about list search, the winning-line table, and the win
checkers. -/

theorem findSome?_eq_none_iff {α β : Type} {f : α → Option β} {l : List α} :
    l.findSome? f = none ↔ ∀ a ∈ l, f a = none := by
  induction l with
  | nil => simp
  | cons a t ih =>
    rw [List.findSome?_cons]
    cases h : f a with
    | none => simp [h, ih]
    | some v => simp [h]

theorem exists_of_findSome?_eq_some {α β : Type} {f : α → Option β} {l : List α} {v : β}
    (h : l.findSome? f = some v) : ∃ a ∈ l, f a = some v := by
  induction l with
  | nil => simp [List.findSome?_nil] at h
  | cons a t ih =>
    rw [List.findSome?_cons] at h
    cases ha : f a with
    | none =>
      rw [ha] at h
      obtain ⟨x, hx, hfx⟩ := ih h
      exact ⟨x, List.mem_cons_of_mem a hx, hfx⟩
    | some w =>
      rw [ha] at h
      exact ⟨a, List.mem_cons_self a t, ha.trans h⟩

theorem findSome?_isSome_of_mem {α β : Type} {f : α → Option β} {l : List α} {a : α} {v : β}
    (ha : a ∈ l) (hv : f a = some v) : ∃ w, l.findSome? f = some w := by
  cases h : l.findSome? f with
  | some w => exact ⟨w, rfl⟩
  | none => exact absurd (findSome?_eq_none_iff.1 h a ha) (by simp [hv])

theorem winningLines_facts : ∀ l ∈ winningLines, l.length = 3 ∧ l.Nodup ∧
    ∀ c ∈ l, Board.is_valid_position c = true := by decide

theorem lineWinner_cons_some {b : Board} {p : Coord} {t : List Coord} {v : Symb}
    (hb : b p = some v) :
    lineWinner b (p :: t) =
      if (t.map b).all (fun u => u == some v) then some v else none := by
  unfold lineWinner
  rw [List.map_cons, hb]

theorem lineWinner_cons_none {b : Board} {p : Coord} {t : List Coord}
    (hb : b p = none) : lineWinner b (p :: t) = none := by
  unfold lineWinner
  rw [List.map_cons, hb]

theorem lineWinner_eq_some_iff {b : Board} {line : List Coord} {s : Symb} :
    lineWinner b line = some s ↔ line ≠ [] ∧ ∀ p ∈ line, b p = some s := by
  cases line with
  | nil => simp [lineWinner]
  | cons p t =>
    cases hb : b p with
    | none => simp [lineWinner_cons_none hb, List.forall_mem_cons, hb]
    | some v =>
      rw [lineWinner_cons_some hb]
      constructor
      · intro h
        by_cases hall : (t.map b).all (fun u => u == some v) = true
        · rw [if_pos hall] at h
          obtain rfl : v = s := Option.some.inj h
          refine ⟨by simp, List.forall_mem_cons.2 ⟨hb, fun q hq => ?_⟩⟩
          have := List.all_eq_true.1 hall (b q) (List.mem_map_of_mem b hq)
          simpa using this
        · rw [if_neg hall] at h
          simp at h
      · rintro ⟨-, hall⟩
        have hv : v = s := by
          have h1 := (List.forall_mem_cons.1 hall).1
          rw [hb] at h1
          exact Option.some.inj h1
        subst hv
        rw [if_pos]
        apply List.all_eq_true.2
        intro u hu
        obtain ⟨q, hq, rfl⟩ := List.mem_map.1 hu
        simp [(List.forall_mem_cons.1 hall).2 q hq]

theorem mem_get_all_positions {c : Coord} :
    c ∈ get_all_positions ↔ c.1 < 3 ∧ c.2.1 < 3 ∧ c.2.2.1 < 3 ∧ c.2.2.2 < 3 := by
  obtain ⟨w, x, y, z⟩ := c
  simp only [get_all_positions, List.mem_flatMap, List.mem_map, List.mem_range]
  constructor
  · rintro ⟨w', hw, x', hx, y', hy, z', hz, heq⟩
    simp only [Prod.mk.injEq] at heq
    obtain ⟨rfl, rfl, rfl, rfl⟩ := heq
    exact ⟨hw, hx, hy, hz⟩
  · rintro ⟨hw, hx, hy, hz⟩
    exact ⟨w, hw, x, hx, y, hy, z, hz, rfl⟩

theorem is_valid_position_iff {c : Coord} :
    Board.is_valid_position c = true ↔ c ∈ get_all_positions := by
  rw [Board.is_valid_position, decide_eq_true_iff, mem_get_all_positions]

theorem mem_empty_positions {b : Board} {c : Coord} :
    c ∈ get_empty_positions b ↔ c ∈ get_all_positions ∧ b c = none := by
  simp [get_empty_positions, List.mem_filter, Option.isNone_iff_eq_none]

theorem make_move_fst_of_empty {b : Board} {s : Symb} {c : Coord}
    (h : c ∈ get_empty_positions b) :
    (Board.make_move b s c).1 = Board.set b c (some s) := by
  obtain ⟨hmem, hnone⟩ := mem_empty_positions.1 h
  rw [Board.make_move, if_pos]
  rw [Board.is_valid_move, Bool.and_eq_true, is_valid_position_iff, Option.isNone_iff_eq_none]
  exact ⟨hmem, hnone⟩

theorem set_apply {b : Board} {c : Coord} {v : Option Symb} {p : Coord} :
    Board.set b c v p = if p = c then v else b p := rfl

theorem mem_linesThrough {c : Coord} {i : Nat} :
    i ∈ linesThrough c ↔ ∃ line, winningLines[i]? = some line ∧ c ∈ line := by
  simp only [linesThrough, List.mem_map, List.mem_filter, decide_eq_true_iff]
  constructor
  · rintro ⟨⟨j, line⟩, ⟨hmem, hc⟩, rfl⟩
    exact ⟨line, (List.mk_mem_enum_iff_getElem?).1 hmem, hc⟩
  · rintro ⟨line, hget, hc⟩
    exact ⟨(i, line), ⟨(List.mk_mem_enum_iff_getElem?).2 hget, hc⟩, rfl⟩

theorem check_win_eq_some_exists {b : Board} {c : Coord} {s : Symb}
    (h : check_win b c = some s) :
    ∃ line ∈ winningLines, c ∈ line ∧ ∀ p ∈ line, b p = some s := by
  rw [check_win] at h
  cases hbc : b c with
  | none => rw [hbc] at h; simp at h
  | some v =>
    rw [hbc] at h
    obtain ⟨i, hi, hwin⟩ := exists_of_findSome?_eq_some h
    obtain ⟨line, hget, hc⟩ := mem_linesThrough.1 hi
    have hlen : i < winningLines.length := (List.getElem?_eq_some_iff.1 hget).1
    have hgetD : winningLines.getD i [] = line := by
      rw [List.getD_eq_getElem?_getD, hget, Option.getD_some]
    rw [hgetD] at hwin
    obtain ⟨-, hall⟩ := lineWinner_eq_some_iff.1 hwin
    exact ⟨line, List.getElem?_mem hget, hc, hall⟩

theorem check_win_isSome_of_completedThrough {b : Board} {c : Coord}
    (h : completedThrough b c) : ∃ t, check_win b c = some t := by
  obtain ⟨s, line, hline, hc, hall⟩ := h
  have hbc : b c = some s := hall c hc
  obtain ⟨i, hlen, hgi⟩ := List.mem_iff_getElem.1 hline
  have hget : winningLines[i]? = some line := List.getElem?_eq_some_iff.2 ⟨hlen, hgi⟩
  have hi : i ∈ linesThrough c := mem_linesThrough.2 ⟨line, hget, hc⟩
  have hwin : lineWinner b (winningLines.getD i []) = some s := by
    rw [List.getD_eq_getElem?_getD, hget, Option.getD_some]
    exact lineWinner_eq_some_iff.2 ⟨List.ne_nil_of_mem hc, hall⟩
  obtain ⟨w, hw⟩ := @findSome?_isSome_of_mem Nat Symb
    (fun i => lineWinner b (winningLines.getD i [])) (linesThrough c) i s hi hwin
  refine ⟨w, ?_⟩
  rw [check_win, hbc]
  exact hw

theorem exhaustive_eq_none_iff {b : Board} :
    check_win_all_positions b = none ↔ ∀ line ∈ winningLines, lineWinner b line = none := by
  rw [check_win_all_positions]
  exact findSome?_eq_none_iff

theorem exhaustive_some_hasCompleted {b : Board} {s : Symb}
    (h : check_win_all_positions b = some s) : hasCompletedLine b s := by
  obtain ⟨line, hline, hwin⟩ := exists_of_findSome?_eq_some h
  exact ⟨line, hline, (lineWinner_eq_some_iff.1 hwin).2⟩

theorem exhaustive_isSome_of_hasCompleted {b : Board} {s : Symb}
    (h : hasCompletedLine b s) : ∃ t, check_win_all_positions b = some t := by
  obtain ⟨line, hline, hall⟩ := h
  have hne : line ≠ [] := by
    have h3 := (winningLines_facts line hline).1
    intro heq
    rw [heq] at h3
    simp at h3
  exact findSome?_isSome_of_mem hline (lineWinner_eq_some_iff.2 ⟨hne, hall⟩)

/-! Lemmas about threats, the opponent-symbol collection and the fast-path
move searches. -/

theorem exists_ne_mem_of_three {l : List Coord} (h3 : l.length = 3) (hn : l.Nodup)
    {u : Coord} (hu : u ∈ l) : ∃ p ∈ l, p ≠ u := by
  match l, h3 with
  | [a, b, c], _ =>
    rw [List.nodup_cons, List.nodup_cons] at hn
    by_cases hau : a = u
    · refine ⟨b, by simp, fun hbu => ?_⟩
      apply hn.1
      rw [hau, ← hbu]
      simp
    · exact ⟨a, by simp, hau⟩

theorem threat_mem_empty {b : Board} {o : Symb} {u : Coord} (h : threat b o u) :
    u ∈ get_empty_positions b :=
  mem_empty_positions.2 ⟨is_valid_position_iff.1 h.2.1, h.1⟩

theorem threat_symbol_on_board {b : Board} {o : Symb} {u : Coord} (h : threat b o u) :
    ∃ p ∈ get_all_positions, p ≠ u ∧ b p = some o := by
  obtain ⟨-, -, line, hline, hu, hother⟩ := h
  obtain ⟨hlen, hnodup, hvalid⟩ := winningLines_facts line hline
  obtain ⟨p, hp, hpu⟩ := exists_ne_mem_of_three hlen hnodup hu
  exact ⟨p, is_valid_position_iff.1 (hvalid p hp), hpu, hother p hp hpu⟩

theorem place_apply_of_empty {b : Board} {s : Symb} {m p : Coord}
    (hm : m ∈ get_empty_positions b) :
    (Board.make_move b s m).1 p = if p = m then some s else b p := by
  rw [make_move_fst_of_empty hm, set_apply]

/-- A threat by a symbol other than the one just placed survives placement
anywhere except on the threat cell itself. -/
theorem threat_place_of_threat {b : Board} {sym o : Symb} {m u : Coord}
    (hm : m ∈ get_empty_positions b) (hum : u ≠ m)
    (h : threat b o u) : threat (Board.make_move b sym m).1 o u := by
  obtain ⟨hempty, hvalid, line, hline, hu, hother⟩ := h
  refine ⟨?_, hvalid, line, hline, hu, ?_⟩
  · rw [place_apply_of_empty hm, if_neg hum]
    exact hempty
  · intro p hp hpu
    rw [place_apply_of_empty hm]
    rcases eq_or_ne p m with rfl | hpm
    · have := hother p hp hpu
      rw [(mem_empty_positions.1 hm).2] at this
      exact absurd this (by simp)
    · rw [if_neg hpm]
      exact hother p hp hpu

/-- Conversely, a threat by another symbol on the board after a placement
was already a threat before it, on a different cell. -/
theorem threat_of_threat_place {b : Board} {sym o : Symb} {m u : Coord}
    (hne : o ≠ sym) (hm : m ∈ get_empty_positions b)
    (h : threat (Board.make_move b sym m).1 o u) : threat b o u ∧ u ≠ m := by
  obtain ⟨hempty, hvalid, line, hline, hu, hother⟩ := h
  have hum : u ≠ m := by
    intro heq
    rw [place_apply_of_empty hm, if_pos heq] at hempty
    exact absurd hempty (by simp)
  refine ⟨⟨?_, hvalid, line, hline, hu, ?_⟩, hum⟩
  · rw [place_apply_of_empty hm, if_neg hum] at hempty
    exact hempty
  · intro p hp hpu
    have := hother p hp hpu
    rw [place_apply_of_empty hm] at this
    rcases eq_or_ne p m with rfl | hpm
    · rw [if_pos rfl] at this
      exact absurd (Option.some.inj this).symm hne
    · rw [if_neg hpm] at this
      exact this

theorem opponents_subset_step {sym : Symb} {b : Board} :
    ∀ (l : List Coord) (acc : List Symb) (a : Symb), a ∈ acc →
      a ∈ l.foldl (fun acc c =>
        match b c with
        | some s => if s ≠ sym ∧ s ∉ acc then acc ++ [s] else acc
        | none => acc) acc := by
  intro l
  induction l with
  | nil => intro acc a ha; exact ha
  | cons c t ih =>
    intro acc a ha
    rw [List.foldl_cons]
    apply ih
    cases hbc : b c with
    | none => exact ha
    | some s =>
      show a ∈ (if s ≠ sym ∧ s ∉ acc then acc ++ [s] else acc)
      by_cases hcond : s ≠ sym ∧ s ∉ acc
      · rw [if_pos hcond]
        exact List.mem_append_left _ ha
      · rw [if_neg hcond]
        exact ha

theorem mem_opponents_aux {sym : Symb} {b : Board} {o : Symb} (hne : o ≠ sym) :
    ∀ (l : List Coord) (acc : List Symb) (c : Coord), c ∈ l → b c = some o →
      o ∈ l.foldl (fun acc c =>
        match b c with
        | some s => if s ≠ sym ∧ s ∉ acc then acc ++ [s] else acc
        | none => acc) acc := by
  intro l
  induction l with
  | nil => intro acc c hc; simp at hc
  | cons a t ih =>
    intro acc c hc hbc
    rw [List.foldl_cons]
    rcases List.mem_cons.1 hc with rfl | hct
    · rw [hbc]
      show o ∈ List.foldl _ (if o ≠ sym ∧ o ∉ acc then acc ++ [o] else acc) t
      by_cases hmem : o ∈ acc
      · have hcond : ¬ (o ≠ sym ∧ o ∉ acc) := fun hc2 => hc2.2 hmem
        rw [if_neg hcond]
        exact opponents_subset_step t acc o hmem
      · rw [if_pos ⟨hne, hmem⟩]
        exact opponents_subset_step t _ o (List.mem_append_right _ (by simp))
    · exact ih _ c hct hbc

theorem mem_opponents_of_on_board {sym : Symb} {b : Board} {o : Symb} {p : Coord}
    (hp : p ∈ get_all_positions) (hb : b p = some o) (hne : o ≠ sym) :
    o ∈ get_opponent_symbols sym b :=
  mem_opponents_aux hne get_all_positions [] p hp hb

theorem opponents_ne_aux {sym : Symb} {b : Board} :
    ∀ (l : List Coord) (acc : List Symb), (∀ a ∈ acc, a ≠ sym) →
      ∀ a ∈ l.foldl (fun acc c =>
        match b c with
        | some s => if s ≠ sym ∧ s ∉ acc then acc ++ [s] else acc
        | none => acc) acc, a ≠ sym := by
  intro l
  induction l with
  | nil => intro acc hacc; exact hacc
  | cons c t ih =>
    intro acc hacc
    rw [List.foldl_cons]
    apply ih
    cases hbc : b c with
    | none => exact hacc
    | some s =>
      show ∀ a ∈ (if s ≠ sym ∧ s ∉ acc then acc ++ [s] else acc), a ≠ sym
      by_cases hcond : s ≠ sym ∧ s ∉ acc
      · rw [if_pos hcond]
        intro a ha
        rcases List.mem_append.1 ha with h1 | h2
        · exact hacc a h1
        · rw [List.mem_singleton.1 h2]
          exact hcond.1
      · rw [if_neg hcond]
        exact hacc

theorem ne_of_mem_opponents {sym : Symb} {b : Board} {o : Symb}
    (h : o ∈ get_opponent_symbols sym b) : o ≠ sym :=
  opponents_ne_aux get_all_positions [] (by simp) o h

/-- link between the code-level winning test of the fast paths and the
semantic threat predicate. -/
theorem check_win_place_eq_some_iff {b : Board} {o : Symb} {u : Coord}
    (hu : u ∈ get_empty_positions b) :
    check_win (Board.make_move b o u).1 u = some o ↔ threat b o u := by
  constructor
  · intro h
    obtain ⟨line, hline, hul, hall⟩ := check_win_eq_some_exists h
    refine ⟨(mem_empty_positions.1 hu).2,
      is_valid_position_iff.2 (mem_empty_positions.1 hu).1, line, hline, hul, ?_⟩
    intro p hp hpu
    have := hall p hp
    rw [place_apply_of_empty hu, if_neg hpu] at this
    exact this
  · rintro ⟨hempty, hvalid, line, hline, hul, hother⟩
    have hall : ∀ p ∈ line, (Board.make_move b o u).1 p = some o := by
      intro p hp
      rw [place_apply_of_empty hu]
      rcases eq_or_ne p u with rfl | hpu
      · rw [if_pos rfl]
      · rw [if_neg hpu]
        exact hother p hp hpu
    have hthru : completedThrough (Board.make_move b o u).1 u := ⟨o, line, hline, hul, hall⟩
    obtain ⟨t, ht⟩ := check_win_isSome_of_completedThrough hthru
    obtain ⟨line2, hline2, hul2, hall2⟩ := check_win_eq_some_exists ht
    have : (Board.make_move b o u).1 u = some t := hall2 u hul2
    rw [place_apply_of_empty hu, if_pos rfl] at this
    rw [← Option.some.inj this] at ht
    exact ht

theorem check_win_place_forces {b : Board} {o t : Symb} {u : Coord}
    (hu : u ∈ get_empty_positions b)
    (h : check_win (Board.make_move b o u).1 u = some t) : t = o := by
  obtain ⟨line, hline, hul, hall⟩ := check_win_eq_some_exists h
  have := hall u hul
  rw [place_apply_of_empty hu, if_pos rfl] at this
  exact (Option.some.inj this).symm

theorem find_winning_move_eq_none {sym : Symb} {b : Board}
    (h : ∀ u, ¬ threat b sym u) : find_winning_move sym b = none := by
  rw [find_winning_move, List.find?_eq_none]
  intro c hc hbeq
  have : check_win (Board.make_move b sym c).1 c = some sym := by
    simpa using hbeq
  exact h c ((check_win_place_eq_some_iff hc).1 this)

theorem find_winning_move_spec {sym : Symb} {b : Board} {m : Coord}
    (h : find_winning_move sym b = some m) :
    m ∈ get_empty_positions b ∧ threat b sym m := by
  have hmem : m ∈ get_empty_positions b := List.mem_of_find?_eq_some h
  have hp := List.find?_some h
  have : check_win (Board.make_move b sym m).1 m = some sym := by simpa using hp
  exact ⟨hmem, (check_win_place_eq_some_iff hmem).1 this⟩

theorem find_winning_move_isSome {sym : Symb} {b : Board} {u : Coord}
    (hu : threat b sym u) : ∃ m, find_winning_move sym b = some m := by
  cases h : find_winning_move sym b with
  | some m => exact ⟨m, rfl⟩
  | none =>
    rw [find_winning_move, List.find?_eq_none] at h
    have hmem := threat_mem_empty hu
    have := h u hmem
    rw [(by simp : ∀ x : Option Symb, (x == some sym) = true ↔ x = some sym)
      (check_win (Board.make_move b sym u).1 u)] at this
    exact absurd ((check_win_place_eq_some_iff hmem).2 hu) this

theorem find_blocking_some {b : Board} {opps : List Symb} {m : Coord}
    (h : find_blocking_move_core b opps = some m) :
    ∃ o ∈ opps, threat b o m ∧ m ∈ get_empty_positions b := by
  obtain ⟨o, ho, hfind⟩ := exists_of_findSome?_eq_some h
  have hmem : m ∈ get_empty_positions b := List.mem_of_find?_eq_some hfind
  have hp := List.find?_some hfind
  have : check_win (Board.make_move b o m).1 m = some o := by simpa using hp
  exact ⟨o, ho, (check_win_place_eq_some_iff hmem).1 this, hmem⟩

theorem find_blocking_none {b : Board} {opps : List Symb}
    (h : find_blocking_move_core b opps = none) :
    ∀ o ∈ opps, ∀ u, ¬ threat b o u := by
  intro o ho u hu
  have hfind := findSome?_eq_none_iff.1 h o ho
  rw [List.find?_eq_none] at hfind
  have hmem := threat_mem_empty hu
  have := hfind u hmem
  simp only [beq_iff_eq] at this
  exact this ((check_win_place_eq_some_iff hmem).2 hu)

theorem mmSearch_mem {sym : Symb} {opps : List Symb} {d : Nat} {b : Board} {S : List Coord} :
    ∀ (l : List Coord) (best_score : MScore) (best_move : Option Coord),
      (∀ m, best_move = some m → m ∈ S) → (∀ c ∈ l, c ∈ S) →
      ∀ m, mmSearch sym opps d b l best_score best_move = some m → m ∈ S := by
  intro l
  induction l with
  | nil =>
    intro best_score best_move hbest _ m hm
    exact hbest m hm
  | cons c t ih =>
    intro best_score best_move hbest hsub m hm
    rw [mmSearch] at hm
    by_cases hwin : (check_win (Board.make_move b sym c).1 c == some sym) = true
    · rw [if_pos hwin] at hm
      rw [← Option.some.inj hm]
      exact hsub c (by simp)
    · rw [if_neg hwin] at hm
      by_cases hlt : best_score < minimax sym opps (d - 1) (Board.make_move b sym c).1 false ⊥ ⊤
      · rw [if_pos hlt] at hm
        exact ih _ _ (fun m' hm' => by rw [← Option.some.inj hm']; exact hsub c (by simp))
          (fun c' hc' => hsub c' (List.mem_cons_of_mem c hc')) m hm
      · rw [if_neg hlt] at hm
        exact ih _ _ hbest (fun c' hc' => hsub c' (List.mem_cons_of_mem c hc')) m hm

/-! Claim theorems (first batch) and their witnesses. -/

theorem allPositions_literal : get_all_positions = allPositionsList := by decide

/-- Each dirLoop_step theorem replays the inner direction loop of the
precomputation from one starting cell, checked by evaluation: the
output list is always a prefix of the final table and the seen-key set
is the matching list of canonical keys. -/
theorem dirLoop_step_0 :
    dirLoop (0, 0, 0, 0) directions
      [] 
      [] =
    ([83, 249, 332, 747, 830, 996, 1079, 2241, 2324, 2490, 2573, 2988, 3071, 3237, 3320], 
     winningLines.take 15) := by decide

theorem dirLoop_step_1 :
    dirLoop (0, 0, 0, 1) directions
      [83, 249, 332, 747, 830, 996, 1079, 2241, 2324, 2490, 2573, 2988, 3071, 3237, 3320] 
      (winningLines.take 15) =
    ([83, 249, 332, 747, 830, 996, 1079, 2241, 2324, 2490, 2573, 2988, 3071, 3237, 3320, 6892, 7390, 7639, 8884, 9133, 9631, 9880],
      
     winningLines.take 22) := by decide

theorem dirLoop_step_2 :
    dirLoop (0, 0, 0, 2) directions
      [83, 249, 332, 747, 830, 996, 1079, 2241, 2324, 2490, 2573, 2988, 3071, 3237, 3320, 6892, 7390, 7639, 8884, 9133, 9631, 9880]
      
      (winningLines.take 22) =
    ([83, 249, 332, 747, 830, 996, 1079, 2241, 2324, 2490, 2573, 2988, 3071, 3237, 3320, 6892, 7390, 7639, 8884, 9133, 9631, 9880, 13452, 13535, 13950, 14033, 14199, 14282, 15444, 15527, 15693, 15776, 16191, 16274, 16440, 16523],
      
     winningLines.take 36) := by decide

theorem dirLoop_step_3 :
    dirLoop (0, 0, 1, 0) directions
      [83, 249, 332, 747, 830, 996, 1079, 2241, 2324, 2490, 2573, 2988, 3071, 3237, 3320, 6892, 7390, 7639, 8884, 9133, 9631, 9880, 13452, 13535, 13950, 14033, 14199, 14282, 15444, 15527, 15693, 15776, 16191, 16274, 16440, 16523]
      
      (winningLines.take 36) =
    ([83, 249, 332, 747, 830, 996, 1079, 2241, 2324, 2490, 2573, 2988, 3071, 3237, 3320, 6892, 7390, 7639, 8884, 9133, 9631, 9880, 13452, 13535, 13950, 14033, 14199, 14282, 15444, 15527, 15693, 15776, 16191, 16274, 16440, 16523, 20012, 20676, 20759, 22170, 22253, 22917, 23000],
      
     winningLines.take 43) := by decide

theorem dirLoop_step_4 :
    dirLoop (0, 0, 1, 1) directions
      [83, 249, 332, 747, 830, 996, 1079, 2241, 2324, 2490, 2573, 2988, 3071, 3237, 3320, 6892, 7390, 7639, 8884, 9133, 9631, 9880, 13452, 13535, 13950, 14033, 14199, 14282, 15444, 15527, 15693, 15776, 16191, 16274, 16440, 16523, 20012, 20676, 20759, 22170, 22253, 22917, 23000]
      
      (winningLines.take 43) =
    ([83, 249, 332, 747, 830, 996, 1079, 2241, 2324, 2490, 2573, 2988, 3071, 3237, 3320, 6892, 7390, 7639, 8884, 9133, 9631, 9880, 13452, 13535, 13950, 14033, 14199, 14282, 15444, 15527, 15693, 15776, 16191, 16274, 16440, 16523, 20012, 20676, 20759, 22170, 22253, 22917, 23000, 27319, 28813, 29560],
      
     winningLines.take 46) := by decide

theorem dirLoop_step_5 :
    dirLoop (0, 0, 1, 2) directions
      [83, 249, 332, 747, 830, 996, 1079, 2241, 2324, 2490, 2573, 2988, 3071, 3237, 3320, 6892, 7390, 7639, 8884, 9133, 9631, 9880, 13452, 13535, 13950, 14033, 14199, 14282, 15444, 15527, 15693, 15776, 16191, 16274, 16440, 16523, 20012, 20676, 20759, 22170, 22253, 22917, 23000, 27319, 28813, 29560]
      
      (winningLines.take 46) =
    ([83, 249, 332, 747, 830, 996, 1079, 2241, 2324, 2490, 2573, 2988, 3071, 3237, 3320, 6892, 7390, 7639, 8884, 9133, 9631, 9880, 13452, 13535, 13950, 14033, 14199, 14282, 15444, 15527, 15693, 15776, 16191, 16274, 16440, 16523, 20012, 20676, 20759, 22170, 22253, 22917, 23000, 27319, 28813, 29560, 33879, 33962, 35373, 35456, 36120, 36203],
      
     winningLines.take 52) := by decide

theorem dirLoop_step_6 :
    dirLoop (0, 0, 2, 0) directions
      [83, 249, 332, 747, 830, 996, 1079, 2241, 2324, 2490, 2573, 2988, 3071, 3237, 3320, 6892, 7390, 7639, 8884, 9133, 9631, 9880, 13452, 13535, 13950, 14033, 14199, 14282, 15444, 15527, 15693, 15776, 16191, 16274, 16440, 16523, 20012, 20676, 20759, 22170, 22253, 22917, 23000, 27319, 28813, 29560, 33879, 33962, 35373, 35456, 36120, 36203]
      
      (winningLines.take 52) =
    ([83, 249, 332, 747, 830, 996, 1079, 2241, 2324, 2490, 2573, 2988, 3071, 3237, 3320, 6892, 7390, 7639, 8884, 9133, 9631, 9880, 13452, 13535, 13950, 14033, 14199, 14282, 15444, 15527, 15693, 15776, 16191, 16274, 16440, 16523, 20012, 20676, 20759, 22170, 22253, 22917, 23000, 27319, 28813, 29560, 33879, 33962, 35373, 35456, 36120, 36203, 39941, 40356, 40439, 40605, 40688, 41850, 41933, 42099, 42182, 42597, 42680, 42846, 42929],
      
     winningLines.take 65) := by decide

theorem dirLoop_step_7 :
    dirLoop (0, 0, 2, 1) directions
      [83, 249, 332, 747, 830, 996, 1079, 2241, 2324, 2490, 2573, 2988, 3071, 3237, 3320, 6892, 7390, 7639, 8884, 9133, 9631, 9880, 13452, 13535, 13950, 14033, 14199, 14282, 15444, 15527, 15693, 15776, 16191, 16274, 16440, 16523, 20012, 20676, 20759, 22170, 22253, 22917, 23000, 27319, 28813, 29560, 33879, 33962, 35373, 35456, 36120, 36203, 39941, 40356, 40439, 40605, 40688, 41850, 41933, 42099, 42182, 42597, 42680, 42846, 42929]
      
      (winningLines.take 65) =
    ([83, 249, 332, 747, 830, 996, 1079, 2241, 2324, 2490, 2573, 2988, 3071, 3237, 3320, 6892, 7390, 7639, 8884, 9133, 9631, 9880, 13452, 13535, 13950, 14033, 14199, 14282, 15444, 15527, 15693, 15776, 16191, 16274, 16440, 16523, 20012, 20676, 20759, 22170, 22253, 22917, 23000, 27319, 28813, 29560, 33879, 33962, 35373, 35456, 36120, 36203, 39941, 40356, 40439, 40605, 40688, 41850, 41933, 42099, 42182, 42597, 42680, 42846, 42929, 46999, 47248, 48493, 48742, 49240, 49489],
      
     winningLines.take 71) := by decide

theorem dirLoop_step_8 :
    dirLoop (0, 0, 2, 2) directions
      [83, 249, 332, 747, 830, 996, 1079, 2241, 2324, 2490, 2573, 2988, 3071, 3237, 3320, 6892, 7390, 7639, 8884, 9133, 9631, 9880, 13452, 13535, 13950, 14033, 14199, 14282, 15444, 15527, 15693, 15776, 16191, 16274, 16440, 16523, 20012, 20676, 20759, 22170, 22253, 22917, 23000, 27319, 28813, 29560, 33879, 33962, 35373, 35456, 36120, 36203, 39941, 40356, 40439, 40605, 40688, 41850, 41933, 42099, 42182, 42597, 42680, 42846, 42929, 46999, 47248, 48493, 48742, 49240, 49489]
      
      (winningLines.take 71) =
    ([83, 249, 332, 747, 830, 996, 1079, 2241, 2324, 2490, 2573, 2988, 3071, 3237, 3320, 6892, 7390, 7639, 8884, 9133, 9631, 9880, 13452, 13535, 13950, 14033, 14199, 14282, 15444, 15527, 15693, 15776, 16191, 16274, 16440, 16523, 20012, 20676, 20759, 22170, 22253, 22917, 23000, 27319, 28813, 29560, 33879, 33962, 35373, 35456, 36120, 36203, 39941, 40356, 40439, 40605, 40688, 41850, 41933, 42099, 42182, 42597, 42680, 42846, 42929, 46999, 47248, 48493, 48742, 49240, 49489, 53559, 53642, 53808, 53891, 55053, 55136, 55302, 55385, 55800, 55883, 56049, 56132],
      
     winningLines.take 83) := by decide

theorem dirLoop_step_9 :
    dirLoop (0, 1, 0, 0) directions
      [83, 249, 332, 747, 830, 996, 1079, 2241, 2324, 2490, 2573, 2988, 3071, 3237, 3320, 6892, 7390, 7639, 8884, 9133, 9631, 9880, 13452, 13535, 13950, 14033, 14199, 14282, 15444, 15527, 15693, 15776, 16191, 16274, 16440, 16523, 20012, 20676, 20759, 22170, 22253, 22917, 23000, 27319, 28813, 29560, 33879, 33962, 35373, 35456, 36120, 36203, 39941, 40356, 40439, 40605, 40688, 41850, 41933, 42099, 42182, 42597, 42680, 42846, 42929, 46999, 47248, 48493, 48742, 49240, 49489, 53559, 53642, 53808, 53891, 55053, 55136, 55302, 55385, 55800, 55883, 56049, 56132]
      
      (winningLines.take 83) =
    ([83, 249, 332, 747, 830, 996, 1079, 2241, 2324, 2490, 2573, 2988, 3071, 3237, 3320, 6892, 7390, 7639, 8884, 9133, 9631, 9880, 13452, 13535, 13950, 14033, 14199, 14282, 15444, 15527, 15693, 15776, 16191, 16274, 16440, 16523, 20012, 20676, 20759, 22170, 22253, 22917, 23000, 27319, 28813, 29560, 33879, 33962, 35373, 35456, 36120, 36203, 39941, 40356, 40439, 40605, 40688, 41850, 41933, 42099, 42182, 42597, 42680, 42846, 42929, 46999, 47248, 48493, 48742, 49240, 49489, 53559, 53642, 53808, 53891, 55053, 55136, 55302, 55385, 55800, 55883, 56049, 56132, 59870, 60036, 60119, 62028, 62111, 62277, 62360],
      
     winningLines.take 90) := by decide

theorem dirLoop_step_10 :
    dirLoop (0, 1, 0, 1) directions
      [83, 249, 332, 747, 830, 996, 1079, 2241, 2324, 2490, 2573, 2988, 3071, 3237, 3320, 6892, 7390, 7639, 8884, 9133, 9631, 9880, 13452, 13535, 13950, 14033, 14199, 14282, 15444, 15527, 15693, 15776, 16191, 16274, 16440, 16523, 20012, 20676, 20759, 22170, 22253, 22917, 23000, 27319, 28813, 29560, 33879, 33962, 35373, 35456, 36120, 36203, 39941, 40356, 40439, 40605, 40688, 41850, 41933, 42099, 42182, 42597, 42680, 42846, 42929, 46999, 47248, 48493, 48742, 49240, 49489, 53559, 53642, 53808, 53891, 55053, 55136, 55302, 55385, 55800, 55883, 56049, 56132, 59870, 60036, 60119, 62028, 62111, 62277, 62360]
      
      (winningLines.take 90) =
    ([83, 249, 332, 747, 830, 996, 1079, 2241, 2324, 2490, 2573, 2988, 3071, 3237, 3320, 6892, 7390, 7639, 8884, 9133, 9631, 9880, 13452, 13535, 13950, 14033, 14199, 14282, 15444, 15527, 15693, 15776, 16191, 16274, 16440, 16523, 20012, 20676, 20759, 22170, 22253, 22917, 23000, 27319, 28813, 29560, 33879, 33962, 35373, 35456, 36120, 36203, 39941, 40356, 40439, 40605, 40688, 41850, 41933, 42099, 42182, 42597, 42680, 42846, 42929, 46999, 47248, 48493, 48742, 49240, 49489, 53559, 53642, 53808, 53891, 55053, 55136, 55302, 55385, 55800, 55883, 56049, 56132, 59870, 60036, 60119, 62028, 62111, 62277, 62360, 66679, 68671, 68920],
      
     winningLines.take 93) := by decide

theorem dirLoop_step_11 :
    dirLoop (0, 1, 0, 2) directions
      [83, 249, 332, 747, 830, 996, 1079, 2241, 2324, 2490, 2573, 2988, 3071, 3237, 3320, 6892, 7390, 7639, 8884, 9133, 9631, 9880, 13452, 13535, 13950, 14033, 14199, 14282, 15444, 15527, 15693, 15776, 16191, 16274, 16440, 16523, 20012, 20676, 20759, 22170, 22253, 22917, 23000, 27319, 28813, 29560, 33879, 33962, 35373, 35456, 36120, 36203, 39941, 40356, 40439, 40605, 40688, 41850, 41933, 42099, 42182, 42597, 42680, 42846, 42929, 46999, 47248, 48493, 48742, 49240, 49489, 53559, 53642, 53808, 53891, 55053, 55136, 55302, 55385, 55800, 55883, 56049, 56132, 59870, 60036, 60119, 62028, 62111, 62277, 62360, 66679, 68671, 68920]
      
      (winningLines.take 93) =
    ([83, 249, 332, 747, 830, 996, 1079, 2241, 2324, 2490, 2573, 2988, 3071, 3237, 3320, 6892, 7390, 7639, 8884, 9133, 9631, 9880, 13452, 13535, 13950, 14033, 14199, 14282, 15444, 15527, 15693, 15776, 16191, 16274, 16440, 16523, 20012, 20676, 20759, 22170, 22253, 22917, 23000, 27319, 28813, 29560, 33879, 33962, 35373, 35456, 36120, 36203, 39941, 40356, 40439, 40605, 40688, 41850, 41933, 42099, 42182, 42597, 42680, 42846, 42929, 46999, 47248, 48493, 48742, 49240, 49489, 53559, 53642, 53808, 53891, 55053, 55136, 55302, 55385, 55800, 55883, 56049, 56132, 59870, 60036, 60119, 62028, 62111, 62277, 62360, 66679, 68671, 68920, 73239, 73322, 75231, 75314, 75480, 75563],
      
     winningLines.take 99) := by decide

theorem dirLoop_step_12 :
    dirLoop (0, 1, 1, 0) directions
      [83, 249, 332, 747, 830, 996, 1079, 2241, 2324, 2490, 2573, 2988, 3071, 3237, 3320, 6892, 7390, 7639, 8884, 9133, 9631, 9880, 13452, 13535, 13950, 14033, 14199, 14282, 15444, 15527, 15693, 15776, 16191, 16274, 16440, 16523, 20012, 20676, 20759, 22170, 22253, 22917, 23000, 27319, 28813, 29560, 33879, 33962, 35373, 35456, 36120, 36203, 39941, 40356, 40439, 40605, 40688, 41850, 41933, 42099, 42182, 42597, 42680, 42846, 42929, 46999, 47248, 48493, 48742, 49240, 49489, 53559, 53642, 53808, 53891, 55053, 55136, 55302, 55385, 55800, 55883, 56049, 56132, 59870, 60036, 60119, 62028, 62111, 62277, 62360, 66679, 68671, 68920, 73239, 73322, 75231, 75314, 75480, 75563]
      
      (winningLines.take 99) =
    ([83, 249, 332, 747, 830, 996, 1079, 2241, 2324, 2490, 2573, 2988, 3071, 3237, 3320, 6892, 7390, 7639, 8884, 9133, 9631, 9880, 13452, 13535, 13950, 14033, 14199, 14282, 15444, 15527, 15693, 15776, 16191, 16274, 16440, 16523, 20012, 20676, 20759, 22170, 22253, 22917, 23000, 27319, 28813, 29560, 33879, 33962, 35373, 35456, 36120, 36203, 39941, 40356, 40439, 40605, 40688, 41850, 41933, 42099, 42182, 42597, 42680, 42846, 42929, 46999, 47248, 48493, 48742, 49240, 49489, 53559, 53642, 53808, 53891, 55053, 55136, 55302, 55385, 55800, 55883, 56049, 56132, 59870, 60036, 60119, 62028, 62111, 62277, 62360, 66679, 68671, 68920, 73239, 73322, 75231, 75314, 75480, 75563, 79799, 81957, 82040],
      
     winningLines.take 102) := by decide

theorem dirLoop_step_13 :
    dirLoop (0, 1, 1, 1) directions
      [83, 249, 332, 747, 830, 996, 1079, 2241, 2324, 2490, 2573, 2988, 3071, 3237, 3320, 6892, 7390, 7639, 8884, 9133, 9631, 9880, 13452, 13535, 13950, 14033, 14199, 14282, 15444, 15527, 15693, 15776, 16191, 16274, 16440, 16523, 20012, 20676, 20759, 22170, 22253, 22917, 23000, 27319, 28813, 29560, 33879, 33962, 35373, 35456, 36120, 36203, 39941, 40356, 40439, 40605, 40688, 41850, 41933, 42099, 42182, 42597, 42680, 42846, 42929, 46999, 47248, 48493, 48742, 49240, 49489, 53559, 53642, 53808, 53891, 55053, 55136, 55302, 55385, 55800, 55883, 56049, 56132, 59870, 60036, 60119, 62028, 62111, 62277, 62360, 66679, 68671, 68920, 73239, 73322, 75231, 75314, 75480, 75563, 79799, 81957, 82040]
      
      (winningLines.take 102) =
    ([83, 249, 332, 747, 830, 996, 1079, 2241, 2324, 2490, 2573, 2988, 3071, 3237, 3320, 6892, 7390, 7639, 8884, 9133, 9631, 9880, 13452, 13535, 13950, 14033, 14199, 14282, 15444, 15527, 15693, 15776, 16191, 16274, 16440, 16523, 20012, 20676, 20759, 22170, 22253, 22917, 23000, 27319, 28813, 29560, 33879, 33962, 35373, 35456, 36120, 36203, 39941, 40356, 40439, 40605, 40688, 41850, 41933, 42099, 42182, 42597, 42680, 42846, 42929, 46999, 47248, 48493, 48742, 49240, 49489, 53559, 53642, 53808, 53891, 55053, 55136, 55302, 55385, 55800, 55883, 56049, 56132, 59870, 60036, 60119, 62028, 62111, 62277, 62360, 66679, 68671, 68920, 73239, 73322, 75231, 75314, 75480, 75563, 79799, 81957, 82040, 88600],
      
     winningLines.take 103) := by decide

theorem dirLoop_step_14 :
    dirLoop (0, 1, 1, 2) directions
      [83, 249, 332, 747, 830, 996, 1079, 2241, 2324, 2490, 2573, 2988, 3071, 3237, 3320, 6892, 7390, 7639, 8884, 9133, 9631, 9880, 13452, 13535, 13950, 14033, 14199, 14282, 15444, 15527, 15693, 15776, 16191, 16274, 16440, 16523, 20012, 20676, 20759, 22170, 22253, 22917, 23000, 27319, 28813, 29560, 33879, 33962, 35373, 35456, 36120, 36203, 39941, 40356, 40439, 40605, 40688, 41850, 41933, 42099, 42182, 42597, 42680, 42846, 42929, 46999, 47248, 48493, 48742, 49240, 49489, 53559, 53642, 53808, 53891, 55053, 55136, 55302, 55385, 55800, 55883, 56049, 56132, 59870, 60036, 60119, 62028, 62111, 62277, 62360, 66679, 68671, 68920, 73239, 73322, 75231, 75314, 75480, 75563, 79799, 81957, 82040, 88600]
      
      (winningLines.take 103) =
    ([83, 249, 332, 747, 830, 996, 1079, 2241, 2324, 2490, 2573, 2988, 3071, 3237, 3320, 6892, 7390, 7639, 8884, 9133, 9631, 9880, 13452, 13535, 13950, 14033, 14199, 14282, 15444, 15527, 15693, 15776, 16191, 16274, 16440, 16523, 20012, 20676, 20759, 22170, 22253, 22917, 23000, 27319, 28813, 29560, 33879, 33962, 35373, 35456, 36120, 36203, 39941, 40356, 40439, 40605, 40688, 41850, 41933, 42099, 42182, 42597, 42680, 42846, 42929, 46999, 47248, 48493, 48742, 49240, 49489, 53559, 53642, 53808, 53891, 55053, 55136, 55302, 55385, 55800, 55883, 56049, 56132, 59870, 60036, 60119, 62028, 62111, 62277, 62360, 66679, 68671, 68920, 73239, 73322, 75231, 75314, 75480, 75563, 79799, 81957, 82040, 88600, 95160, 95243],
      
     winningLines.take 105) := by decide

theorem dirLoop_step_15 :
    dirLoop (0, 1, 2, 0) directions
      [83, 249, 332, 747, 830, 996, 1079, 2241, 2324, 2490, 2573, 2988, 3071, 3237, 3320, 6892, 7390, 7639, 8884, 9133, 9631, 9880, 13452, 13535, 13950, 14033, 14199, 14282, 15444, 15527, 15693, 15776, 16191, 16274, 16440, 16523, 20012, 20676, 20759, 22170, 22253, 22917, 23000, 27319, 28813, 29560, 33879, 33962, 35373, 35456, 36120, 36203, 39941, 40356, 40439, 40605, 40688, 41850, 41933, 42099, 42182, 42597, 42680, 42846, 42929, 46999, 47248, 48493, 48742, 49240, 49489, 53559, 53642, 53808, 53891, 55053, 55136, 55302, 55385, 55800, 55883, 56049, 56132, 59870, 60036, 60119, 62028, 62111, 62277, 62360, 66679, 68671, 68920, 73239, 73322, 75231, 75314, 75480, 75563, 79799, 81957, 82040, 88600, 95160, 95243]
      
      (winningLines.take 105) =
    ([83, 249, 332, 747, 830, 996, 1079, 2241, 2324, 2490, 2573, 2988, 3071, 3237, 3320, 6892, 7390, 7639, 8884, 9133, 9631, 9880, 13452, 13535, 13950, 14033, 14199, 14282, 15444, 15527, 15693, 15776, 16191, 16274, 16440, 16523, 20012, 20676, 20759, 22170, 22253, 22917, 23000, 27319, 28813, 29560, 33879, 33962, 35373, 35456, 36120, 36203, 39941, 40356, 40439, 40605, 40688, 41850, 41933, 42099, 42182, 42597, 42680, 42846, 42929, 46999, 47248, 48493, 48742, 49240, 49489, 53559, 53642, 53808, 53891, 55053, 55136, 55302, 55385, 55800, 55883, 56049, 56132, 59870, 60036, 60119, 62028, 62111, 62277, 62360, 66679, 68671, 68920, 73239, 73322, 75231, 75314, 75480, 75563, 79799, 81957, 82040, 88600, 95160, 95243, 99728, 101637, 101720, 101886, 101969],
      
     winningLines.take 110) := by decide

theorem dirLoop_step_16 :
    dirLoop (0, 1, 2, 1) directions
      [83, 249, 332, 747, 830, 996, 1079, 2241, 2324, 2490, 2573, 2988, 3071, 3237, 3320, 6892, 7390, 7639, 8884, 9133, 9631, 9880, 13452, 13535, 13950, 14033, 14199, 14282, 15444, 15527, 15693, 15776, 16191, 16274, 16440, 16523, 20012, 20676, 20759, 22170, 22253, 22917, 23000, 27319, 28813, 29560, 33879, 33962, 35373, 35456, 36120, 36203, 39941, 40356, 40439, 40605, 40688, 41850, 41933, 42099, 42182, 42597, 42680, 42846, 42929, 46999, 47248, 48493, 48742, 49240, 49489, 53559, 53642, 53808, 53891, 55053, 55136, 55302, 55385, 55800, 55883, 56049, 56132, 59870, 60036, 60119, 62028, 62111, 62277, 62360, 66679, 68671, 68920, 73239, 73322, 75231, 75314, 75480, 75563, 79799, 81957, 82040, 88600, 95160, 95243, 99728, 101637, 101720, 101886, 101969]
      
      (winningLines.take 110) =
    ([83, 249, 332, 747, 830, 996, 1079, 2241, 2324, 2490, 2573, 2988, 3071, 3237, 3320, 6892, 7390, 7639, 8884, 9133, 9631, 9880, 13452, 13535, 13950, 14033, 14199, 14282, 15444, 15527, 15693, 15776, 16191, 16274, 16440, 16523, 20012, 20676, 20759, 22170, 22253, 22917, 23000, 27319, 28813, 29560, 33879, 33962, 35373, 35456, 36120, 36203, 39941, 40356, 40439, 40605, 40688, 41850, 41933, 42099, 42182, 42597, 42680, 42846, 42929, 46999, 47248, 48493, 48742, 49240, 49489, 53559, 53642, 53808, 53891, 55053, 55136, 55302, 55385, 55800, 55883, 56049, 56132, 59870, 60036, 60119, 62028, 62111, 62277, 62360, 66679, 68671, 68920, 73239, 73322, 75231, 75314, 75480, 75563, 79799, 81957, 82040, 88600, 95160, 95243, 99728, 101637, 101720, 101886, 101969, 108280, 108529],
      
     winningLines.take 112) := by decide

theorem dirLoop_step_17 :
    dirLoop (0, 1, 2, 2) directions
      [83, 249, 332, 747, 830, 996, 1079, 2241, 2324, 2490, 2573, 2988, 3071, 3237, 3320, 6892, 7390, 7639, 8884, 9133, 9631, 9880, 13452, 13535, 13950, 14033, 14199, 14282, 15444, 15527, 15693, 15776, 16191, 16274, 16440, 16523, 20012, 20676, 20759, 22170, 22253, 22917, 23000, 27319, 28813, 29560, 33879, 33962, 35373, 35456, 36120, 36203, 39941, 40356, 40439, 40605, 40688, 41850, 41933, 42099, 42182, 42597, 42680, 42846, 42929, 46999, 47248, 48493, 48742, 49240, 49489, 53559, 53642, 53808, 53891, 55053, 55136, 55302, 55385, 55800, 55883, 56049, 56132, 59870, 60036, 60119, 62028, 62111, 62277, 62360, 66679, 68671, 68920, 73239, 73322, 75231, 75314, 75480, 75563, 79799, 81957, 82040, 88600, 95160, 95243, 99728, 101637, 101720, 101886, 101969, 108280, 108529]
      
      (winningLines.take 112) =
    ([83, 249, 332, 747, 830, 996, 1079, 2241, 2324, 2490, 2573, 2988, 3071, 3237, 3320, 6892, 7390, 7639, 8884, 9133, 9631, 9880, 13452, 13535, 13950, 14033, 14199, 14282, 15444, 15527, 15693, 15776, 16191, 16274, 16440, 16523, 20012, 20676, 20759, 22170, 22253, 22917, 23000, 27319, 28813, 29560, 33879, 33962, 35373, 35456, 36120, 36203, 39941, 40356, 40439, 40605, 40688, 41850, 41933, 42099, 42182, 42597, 42680, 42846, 42929, 46999, 47248, 48493, 48742, 49240, 49489, 53559, 53642, 53808, 53891, 55053, 55136, 55302, 55385, 55800, 55883, 56049, 56132, 59870, 60036, 60119, 62028, 62111, 62277, 62360, 66679, 68671, 68920, 73239, 73322, 75231, 75314, 75480, 75563, 79799, 81957, 82040, 88600, 95160, 95243, 99728, 101637, 101720, 101886, 101969, 108280, 108529, 114840, 114923, 115089, 115172],
      
     winningLines.take 116) := by decide

theorem dirLoop_step_18 :
    dirLoop (0, 2, 0, 0) directions
      [83, 249, 332, 747, 830, 996, 1079, 2241, 2324, 2490, 2573, 2988, 3071, 3237, 3320, 6892, 7390, 7639, 8884, 9133, 9631, 9880, 13452, 13535, 13950, 14033, 14199, 14282, 15444, 15527, 15693, 15776, 16191, 16274, 16440, 16523, 20012, 20676, 20759, 22170, 22253, 22917, 23000, 27319, 28813, 29560, 33879, 33962, 35373, 35456, 36120, 36203, 39941, 40356, 40439, 40605, 40688, 41850, 41933, 42099, 42182, 42597, 42680, 42846, 42929, 46999, 47248, 48493, 48742, 49240, 49489, 53559, 53642, 53808, 53891, 55053, 55136, 55302, 55385, 55800, 55883, 56049, 56132, 59870, 60036, 60119, 62028, 62111, 62277, 62360, 66679, 68671, 68920, 73239, 73322, 75231, 75314, 75480, 75563, 79799, 81957, 82040, 88600, 95160, 95243, 99728, 101637, 101720, 101886, 101969, 108280, 108529, 114840, 114923, 115089, 115172]
      
      (winningLines.take 116) =
    ([83, 249, 332, 747, 830, 996, 1079, 2241, 2324, 2490, 2573, 2988, 3071, 3237, 3320, 6892, 7390, 7639, 8884, 9133, 9631, 9880, 13452, 13535, 13950, 14033, 14199, 14282, 15444, 15527, 15693, 15776, 16191, 16274, 16440, 16523, 20012, 20676, 20759, 22170, 22253, 22917, 23000, 27319, 28813, 29560, 33879, 33962, 35373, 35456, 36120, 36203, 39941, 40356, 40439, 40605, 40688, 41850, 41933, 42099, 42182, 42597, 42680, 42846, 42929, 46999, 47248, 48493, 48742, 49240, 49489, 53559, 53642, 53808, 53891, 55053, 55136, 55302, 55385, 55800, 55883, 56049, 56132, 59870, 60036, 60119, 62028, 62111, 62277, 62360, 66679, 68671, 68920, 73239, 73322, 75231, 75314, 75480, 75563, 79799, 81957, 82040, 88600, 95160, 95243, 99728, 101637, 101720, 101886, 101969, 108280, 108529, 114840, 114923, 115089, 115172, 119657, 119823, 119906, 121068, 121151, 121317, 121400, 121815, 121898, 122064, 122147],
      
     winningLines.take 127) := by decide

theorem dirLoop_step_19 :
    dirLoop (0, 2, 0, 1) directions
      [83, 249, 332, 747, 830, 996, 1079, 2241, 2324, 2490, 2573, 2988, 3071, 3237, 3320, 6892, 7390, 7639, 8884, 9133, 9631, 9880, 13452, 13535, 13950, 14033, 14199, 14282, 15444, 15527, 15693, 15776, 16191, 16274, 16440, 16523, 20012, 20676, 20759, 22170, 22253, 22917, 23000, 27319, 28813, 29560, 33879, 33962, 35373, 35456, 36120, 36203, 39941, 40356, 40439, 40605, 40688, 41850, 41933, 42099, 42182, 42597, 42680, 42846, 42929, 46999, 47248, 48493, 48742, 49240, 49489, 53559, 53642, 53808, 53891, 55053, 55136, 55302, 55385, 55800, 55883, 56049, 56132, 59870, 60036, 60119, 62028, 62111, 62277, 62360, 66679, 68671, 68920, 73239, 73322, 75231, 75314, 75480, 75563, 79799, 81957, 82040, 88600, 95160, 95243, 99728, 101637, 101720, 101886, 101969, 108280, 108529, 114840, 114923, 115089, 115172, 119657, 119823, 119906, 121068, 121151, 121317, 121400, 121815, 121898, 122064, 122147]
      
      (winningLines.take 127) =
    ([83, 249, 332, 747, 830, 996, 1079, 2241, 2324, 2490, 2573, 2988, 3071, 3237, 3320, 6892, 7390, 7639, 8884, 9133, 9631, 9880, 13452, 13535, 13950, 14033, 14199, 14282, 15444, 15527, 15693, 15776, 16191, 16274, 16440, 16523, 20012, 20676, 20759, 22170, 22253, 22917, 23000, 27319, 28813, 29560, 33879, 33962, 35373, 35456, 36120, 36203, 39941, 40356, 40439, 40605, 40688, 41850, 41933, 42099, 42182, 42597, 42680, 42846, 42929, 46999, 47248, 48493, 48742, 49240, 49489, 53559, 53642, 53808, 53891, 55053, 55136, 55302, 55385, 55800, 55883, 56049, 56132, 59870, 60036, 60119, 62028, 62111, 62277, 62360, 66679, 68671, 68920, 73239, 73322, 75231, 75314, 75480, 75563, 79799, 81957, 82040, 88600, 95160, 95243, 99728, 101637, 101720, 101886, 101969, 108280, 108529, 114840, 114923, 115089, 115172, 119657, 119823, 119906, 121068, 121151, 121317, 121400, 121815, 121898, 122064, 122147, 126466, 127711, 127960, 128458, 128707],
      
     winningLines.take 132) := by decide

theorem dirLoop_step_20 :
    dirLoop (0, 2, 0, 2) directions
      [83, 249, 332, 747, 830, 996, 1079, 2241, 2324, 2490, 2573, 2988, 3071, 3237, 3320, 6892, 7390, 7639, 8884, 9133, 9631, 9880, 13452, 13535, 13950, 14033, 14199, 14282, 15444, 15527, 15693, 15776, 16191, 16274, 16440, 16523, 20012, 20676, 20759, 22170, 22253, 22917, 23000, 27319, 28813, 29560, 33879, 33962, 35373, 35456, 36120, 36203, 39941, 40356, 40439, 40605, 40688, 41850, 41933, 42099, 42182, 42597, 42680, 42846, 42929, 46999, 47248, 48493, 48742, 49240, 49489, 53559, 53642, 53808, 53891, 55053, 55136, 55302, 55385, 55800, 55883, 56049, 56132, 59870, 60036, 60119, 62028, 62111, 62277, 62360, 66679, 68671, 68920, 73239, 73322, 75231, 75314, 75480, 75563, 79799, 81957, 82040, 88600, 95160, 95243, 99728, 101637, 101720, 101886, 101969, 108280, 108529, 114840, 114923, 115089, 115172, 119657, 119823, 119906, 121068, 121151, 121317, 121400, 121815, 121898, 122064, 122147, 126466, 127711, 127960, 128458, 128707]
      
      (winningLines.take 132) =
    ([83, 249, 332, 747, 830, 996, 1079, 2241, 2324, 2490, 2573, 2988, 3071, 3237, 3320, 6892, 7390, 7639, 8884, 9133, 9631, 9880, 13452, 13535, 13950, 14033, 14199, 14282, 15444, 15527, 15693, 15776, 16191, 16274, 16440, 16523, 20012, 20676, 20759, 22170, 22253, 22917, 23000, 27319, 28813, 29560, 33879, 33962, 35373, 35456, 36120, 36203, 39941, 40356, 40439, 40605, 40688, 41850, 41933, 42099, 42182, 42597, 42680, 42846, 42929, 46999, 47248, 48493, 48742, 49240, 49489, 53559, 53642, 53808, 53891, 55053, 55136, 55302, 55385, 55800, 55883, 56049, 56132, 59870, 60036, 60119, 62028, 62111, 62277, 62360, 66679, 68671, 68920, 73239, 73322, 75231, 75314, 75480, 75563, 79799, 81957, 82040, 88600, 95160, 95243, 99728, 101637, 101720, 101886, 101969, 108280, 108529, 114840, 114923, 115089, 115172, 119657, 119823, 119906, 121068, 121151, 121317, 121400, 121815, 121898, 122064, 122147, 126466, 127711, 127960, 128458, 128707, 133026, 133109, 134271, 134354, 134520, 134603, 135018, 135101, 135267, 135350],
      
     winningLines.take 142) := by decide

theorem dirLoop_step_21 :
    dirLoop (0, 2, 1, 0) directions
      [83, 249, 332, 747, 830, 996, 1079, 2241, 2324, 2490, 2573, 2988, 3071, 3237, 3320, 6892, 7390, 7639, 8884, 9133, 9631, 9880, 13452, 13535, 13950, 14033, 14199, 14282, 15444, 15527, 15693, 15776, 16191, 16274, 16440, 16523, 20012, 20676, 20759, 22170, 22253, 22917, 23000, 27319, 28813, 29560, 33879, 33962, 35373, 35456, 36120, 36203, 39941, 40356, 40439, 40605, 40688, 41850, 41933, 42099, 42182, 42597, 42680, 42846, 42929, 46999, 47248, 48493, 48742, 49240, 49489, 53559, 53642, 53808, 53891, 55053, 55136, 55302, 55385, 55800, 55883, 56049, 56132, 59870, 60036, 60119, 62028, 62111, 62277, 62360, 66679, 68671, 68920, 73239, 73322, 75231, 75314, 75480, 75563, 79799, 81957, 82040, 88600, 95160, 95243, 99728, 101637, 101720, 101886, 101969, 108280, 108529, 114840, 114923, 115089, 115172, 119657, 119823, 119906, 121068, 121151, 121317, 121400, 121815, 121898, 122064, 122147, 126466, 127711, 127960, 128458, 128707, 133026, 133109, 134271, 134354, 134520, 134603, 135018, 135101, 135267, 135350]
      
      (winningLines.take 142) =
    ([83, 249, 332, 747, 830, 996, 1079, 2241, 2324, 2490, 2573, 2988, 3071, 3237, 3320, 6892, 7390, 7639, 8884, 9133, 9631, 9880, 13452, 13535, 13950, 14033, 14199, 14282, 15444, 15527, 15693, 15776, 16191, 16274, 16440, 16523, 20012, 20676, 20759, 22170, 22253, 22917, 23000, 27319, 28813, 29560, 33879, 33962, 35373, 35456, 36120, 36203, 39941, 40356, 40439, 40605, 40688, 41850, 41933, 42099, 42182, 42597, 42680, 42846, 42929, 46999, 47248, 48493, 48742, 49240, 49489, 53559, 53642, 53808, 53891, 55053, 55136, 55302, 55385, 55800, 55883, 56049, 56132, 59870, 60036, 60119, 62028, 62111, 62277, 62360, 66679, 68671, 68920, 73239, 73322, 75231, 75314, 75480, 75563, 79799, 81957, 82040, 88600, 95160, 95243, 99728, 101637, 101720, 101886, 101969, 108280, 108529, 114840, 114923, 115089, 115172, 119657, 119823, 119906, 121068, 121151, 121317, 121400, 121815, 121898, 122064, 122147, 126466, 127711, 127960, 128458, 128707, 133026, 133109, 134271, 134354, 134520, 134603, 135018, 135101, 135267, 135350, 139586, 140997, 141080, 141744, 141827],
      
     winningLines.take 147) := by decide

theorem dirLoop_step_22 :
    dirLoop (0, 2, 1, 1) directions
      [83, 249, 332, 747, 830, 996, 1079, 2241, 2324, 2490, 2573, 2988, 3071, 3237, 3320, 6892, 7390, 7639, 8884, 9133, 9631, 9880, 13452, 13535, 13950, 14033, 14199, 14282, 15444, 15527, 15693, 15776, 16191, 16274, 16440, 16523, 20012, 20676, 20759, 22170, 22253, 22917, 23000, 27319, 28813, 29560, 33879, 33962, 35373, 35456, 36120, 36203, 39941, 40356, 40439, 40605, 40688, 41850, 41933, 42099, 42182, 42597, 42680, 42846, 42929, 46999, 47248, 48493, 48742, 49240, 49489, 53559, 53642, 53808, 53891, 55053, 55136, 55302, 55385, 55800, 55883, 56049, 56132, 59870, 60036, 60119, 62028, 62111, 62277, 62360, 66679, 68671, 68920, 73239, 73322, 75231, 75314, 75480, 75563, 79799, 81957, 82040, 88600, 95160, 95243, 99728, 101637, 101720, 101886, 101969, 108280, 108529, 114840, 114923, 115089, 115172, 119657, 119823, 119906, 121068, 121151, 121317, 121400, 121815, 121898, 122064, 122147, 126466, 127711, 127960, 128458, 128707, 133026, 133109, 134271, 134354, 134520, 134603, 135018, 135101, 135267, 135350, 139586, 140997, 141080, 141744, 141827]
      
      (winningLines.take 147) =
    ([83, 249, 332, 747, 830, 996, 1079, 2241, 2324, 2490, 2573, 2988, 3071, 3237, 3320, 6892, 7390, 7639, 8884, 9133, 9631, 9880, 13452, 13535, 13950, 14033, 14199, 14282, 15444, 15527, 15693, 15776, 16191, 16274, 16440, 16523, 20012, 20676, 20759, 22170, 22253, 22917, 23000, 27319, 28813, 29560, 33879, 33962, 35373, 35456, 36120, 36203, 39941, 40356, 40439, 40605, 40688, 41850, 41933, 42099, 42182, 42597, 42680, 42846, 42929, 46999, 47248, 48493, 48742, 49240, 49489, 53559, 53642, 53808, 53891, 55053, 55136, 55302, 55385, 55800, 55883, 56049, 56132, 59870, 60036, 60119, 62028, 62111, 62277, 62360, 66679, 68671, 68920, 73239, 73322, 75231, 75314, 75480, 75563, 79799, 81957, 82040, 88600, 95160, 95243, 99728, 101637, 101720, 101886, 101969, 108280, 108529, 114840, 114923, 115089, 115172, 119657, 119823, 119906, 121068, 121151, 121317, 121400, 121815, 121898, 122064, 122147, 126466, 127711, 127960, 128458, 128707, 133026, 133109, 134271, 134354, 134520, 134603, 135018, 135101, 135267, 135350, 139586, 140997, 141080, 141744, 141827, 147640, 148387],
      
     winningLines.take 149) := by decide

theorem dirLoop_step_23 :
    dirLoop (0, 2, 1, 2) directions
      [83, 249, 332, 747, 830, 996, 1079, 2241, 2324, 2490, 2573, 2988, 3071, 3237, 3320, 6892, 7390, 7639, 8884, 9133, 9631, 9880, 13452, 13535, 13950, 14033, 14199, 14282, 15444, 15527, 15693, 15776, 16191, 16274, 16440, 16523, 20012, 20676, 20759, 22170, 22253, 22917, 23000, 27319, 28813, 29560, 33879, 33962, 35373, 35456, 36120, 36203, 39941, 40356, 40439, 40605, 40688, 41850, 41933, 42099, 42182, 42597, 42680, 42846, 42929, 46999, 47248, 48493, 48742, 49240, 49489, 53559, 53642, 53808, 53891, 55053, 55136, 55302, 55385, 55800, 55883, 56049, 56132, 59870, 60036, 60119, 62028, 62111, 62277, 62360, 66679, 68671, 68920, 73239, 73322, 75231, 75314, 75480, 75563, 79799, 81957, 82040, 88600, 95160, 95243, 99728, 101637, 101720, 101886, 101969, 108280, 108529, 114840, 114923, 115089, 115172, 119657, 119823, 119906, 121068, 121151, 121317, 121400, 121815, 121898, 122064, 122147, 126466, 127711, 127960, 128458, 128707, 133026, 133109, 134271, 134354, 134520, 134603, 135018, 135101, 135267, 135350, 139586, 140997, 141080, 141744, 141827, 147640, 148387]
      
      (winningLines.take 149) =
    ([83, 249, 332, 747, 830, 996, 1079, 2241, 2324, 2490, 2573, 2988, 3071, 3237, 3320, 6892, 7390, 7639, 8884, 9133, 9631, 9880, 13452, 13535, 13950, 14033, 14199, 14282, 15444, 15527, 15693, 15776, 16191, 16274, 16440, 16523, 20012, 20676, 20759, 22170, 22253, 22917, 23000, 27319, 28813, 29560, 33879, 33962, 35373, 35456, 36120, 36203, 39941, 40356, 40439, 40605, 40688, 41850, 41933, 42099, 42182, 42597, 42680, 42846, 42929, 46999, 47248, 48493, 48742, 49240, 49489, 53559, 53642, 53808, 53891, 55053, 55136, 55302, 55385, 55800, 55883, 56049, 56132, 59870, 60036, 60119, 62028, 62111, 62277, 62360, 66679, 68671, 68920, 73239, 73322, 75231, 75314, 75480, 75563, 79799, 81957, 82040, 88600, 95160, 95243, 99728, 101637, 101720, 101886, 101969, 108280, 108529, 114840, 114923, 115089, 115172, 119657, 119823, 119906, 121068, 121151, 121317, 121400, 121815, 121898, 122064, 122147, 126466, 127711, 127960, 128458, 128707, 133026, 133109, 134271, 134354, 134520, 134603, 135018, 135101, 135267, 135350, 139586, 140997, 141080, 141744, 141827, 147640, 148387, 154200, 154283, 154947, 155030],
      
     winningLines.take 153) := by decide

theorem dirLoop_step_24 :
    dirLoop (0, 2, 2, 0) directions
      [83, 249, 332, 747, 830, 996, 1079, 2241, 2324, 2490, 2573, 2988, 3071, 3237, 3320, 6892, 7390, 7639, 8884, 9133, 9631, 9880, 13452, 13535, 13950, 14033, 14199, 14282, 15444, 15527, 15693, 15776, 16191, 16274, 16440, 16523, 20012, 20676, 20759, 22170, 22253, 22917, 23000, 27319, 28813, 29560, 33879, 33962, 35373, 35456, 36120, 36203, 39941, 40356, 40439, 40605, 40688, 41850, 41933, 42099, 42182, 42597, 42680, 42846, 42929, 46999, 47248, 48493, 48742, 49240, 49489, 53559, 53642, 53808, 53891, 55053, 55136, 55302, 55385, 55800, 55883, 56049, 56132, 59870, 60036, 60119, 62028, 62111, 62277, 62360, 66679, 68671, 68920, 73239, 73322, 75231, 75314, 75480, 75563, 79799, 81957, 82040, 88600, 95160, 95243, 99728, 101637, 101720, 101886, 101969, 108280, 108529, 114840, 114923, 115089, 115172, 119657, 119823, 119906, 121068, 121151, 121317, 121400, 121815, 121898, 122064, 122147, 126466, 127711, 127960, 128458, 128707, 133026, 133109, 134271, 134354, 134520, 134603, 135018, 135101, 135267, 135350, 139586, 140997, 141080, 141744, 141827, 147640, 148387, 154200, 154283, 154947, 155030]
      
      (winningLines.take 153) =
    ([83, 249, 332, 747, 830, 996, 1079, 2241, 2324, 2490, 2573, 2988, 3071, 3237, 3320, 6892, 7390, 7639, 8884, 9133, 9631, 9880, 13452, 13535, 13950, 14033, 14199, 14282, 15444, 15527, 15693, 15776, 16191, 16274, 16440, 16523, 20012, 20676, 20759, 22170, 22253, 22917, 23000, 27319, 28813, 29560, 33879, 33962, 35373, 35456, 36120, 36203, 39941, 40356, 40439, 40605, 40688, 41850, 41933, 42099, 42182, 42597, 42680, 42846, 42929, 46999, 47248, 48493, 48742, 49240, 49489, 53559, 53642, 53808, 53891, 55053, 55136, 55302, 55385, 55800, 55883, 56049, 56132, 59870, 60036, 60119, 62028, 62111, 62277, 62360, 66679, 68671, 68920, 73239, 73322, 75231, 75314, 75480, 75563, 79799, 81957, 82040, 88600, 95160, 95243, 99728, 101637, 101720, 101886, 101969, 108280, 108529, 114840, 114923, 115089, 115172, 119657, 119823, 119906, 121068, 121151, 121317, 121400, 121815, 121898, 122064, 122147, 126466, 127711, 127960, 128458, 128707, 133026, 133109, 134271, 134354, 134520, 134603, 135018, 135101, 135267, 135350, 139586, 140997, 141080, 141744, 141827, 147640, 148387, 154200, 154283, 154947, 155030, 159515, 160677, 160760, 160926, 161009, 161424, 161507, 161673, 161756],
      
     winningLines.take 162) := by decide

theorem dirLoop_step_25 :
    dirLoop (0, 2, 2, 1) directions
      [83, 249, 332, 747, 830, 996, 1079, 2241, 2324, 2490, 2573, 2988, 3071, 3237, 3320, 6892, 7390, 7639, 8884, 9133, 9631, 9880, 13452, 13535, 13950, 14033, 14199, 14282, 15444, 15527, 15693, 15776, 16191, 16274, 16440, 16523, 20012, 20676, 20759, 22170, 22253, 22917, 23000, 27319, 28813, 29560, 33879, 33962, 35373, 35456, 36120, 36203, 39941, 40356, 40439, 40605, 40688, 41850, 41933, 42099, 42182, 42597, 42680, 42846, 42929, 46999, 47248, 48493, 48742, 49240, 49489, 53559, 53642, 53808, 53891, 55053, 55136, 55302, 55385, 55800, 55883, 56049, 56132, 59870, 60036, 60119, 62028, 62111, 62277, 62360, 66679, 68671, 68920, 73239, 73322, 75231, 75314, 75480, 75563, 79799, 81957, 82040, 88600, 95160, 95243, 99728, 101637, 101720, 101886, 101969, 108280, 108529, 114840, 114923, 115089, 115172, 119657, 119823, 119906, 121068, 121151, 121317, 121400, 121815, 121898, 122064, 122147, 126466, 127711, 127960, 128458, 128707, 133026, 133109, 134271, 134354, 134520, 134603, 135018, 135101, 135267, 135350, 139586, 140997, 141080, 141744, 141827, 147640, 148387, 154200, 154283, 154947, 155030, 159515, 160677, 160760, 160926, 161009, 161424, 161507, 161673, 161756]
      
      (winningLines.take 162) =
    ([83, 249, 332, 747, 830, 996, 1079, 2241, 2324, 2490, 2573, 2988, 3071, 3237, 3320, 6892, 7390, 7639, 8884, 9133, 9631, 9880, 13452, 13535, 13950, 14033, 14199, 14282, 15444, 15527, 15693, 15776, 16191, 16274, 16440, 16523, 20012, 20676, 20759, 22170, 22253, 22917, 23000, 27319, 28813, 29560, 33879, 33962, 35373, 35456, 36120, 36203, 39941, 40356, 40439, 40605, 40688, 41850, 41933, 42099, 42182, 42597, 42680, 42846, 42929, 46999, 47248, 48493, 48742, 49240, 49489, 53559, 53642, 53808, 53891, 55053, 55136, 55302, 55385, 55800, 55883, 56049, 56132, 59870, 60036, 60119, 62028, 62111, 62277, 62360, 66679, 68671, 68920, 73239, 73322, 75231, 75314, 75480, 75563, 79799, 81957, 82040, 88600, 95160, 95243, 99728, 101637, 101720, 101886, 101969, 108280, 108529, 114840, 114923, 115089, 115172, 119657, 119823, 119906, 121068, 121151, 121317, 121400, 121815, 121898, 122064, 122147, 126466, 127711, 127960, 128458, 128707, 133026, 133109, 134271, 134354, 134520, 134603, 135018, 135101, 135267, 135350, 139586, 140997, 141080, 141744, 141827, 147640, 148387, 154200, 154283, 154947, 155030, 159515, 160677, 160760, 160926, 161009, 161424, 161507, 161673, 161756, 167320, 167569, 168067, 168316],
      
     winningLines.take 166) := by decide

theorem dirLoop_step_26 :
    dirLoop (0, 2, 2, 2) directions
      [83, 249, 332, 747, 830, 996, 1079, 2241, 2324, 2490, 2573, 2988, 3071, 3237, 3320, 6892, 7390, 7639, 8884, 9133, 9631, 9880, 13452, 13535, 13950, 14033, 14199, 14282, 15444, 15527, 15693, 15776, 16191, 16274, 16440, 16523, 20012, 20676, 20759, 22170, 22253, 22917, 23000, 27319, 28813, 29560, 33879, 33962, 35373, 35456, 36120, 36203, 39941, 40356, 40439, 40605, 40688, 41850, 41933, 42099, 42182, 42597, 42680, 42846, 42929, 46999, 47248, 48493, 48742, 49240, 49489, 53559, 53642, 53808, 53891, 55053, 55136, 55302, 55385, 55800, 55883, 56049, 56132, 59870, 60036, 60119, 62028, 62111, 62277, 62360, 66679, 68671, 68920, 73239, 73322, 75231, 75314, 75480, 75563, 79799, 81957, 82040, 88600, 95160, 95243, 99728, 101637, 101720, 101886, 101969, 108280, 108529, 114840, 114923, 115089, 115172, 119657, 119823, 119906, 121068, 121151, 121317, 121400, 121815, 121898, 122064, 122147, 126466, 127711, 127960, 128458, 128707, 133026, 133109, 134271, 134354, 134520, 134603, 135018, 135101, 135267, 135350, 139586, 140997, 141080, 141744, 141827, 147640, 148387, 154200, 154283, 154947, 155030, 159515, 160677, 160760, 160926, 161009, 161424, 161507, 161673, 161756, 167320, 167569, 168067, 168316]
      
      (winningLines.take 166) =
    ([83, 249, 332, 747, 830, 996, 1079, 2241, 2324, 2490, 2573, 2988, 3071, 3237, 3320, 6892, 7390, 7639, 8884, 9133, 9631, 9880, 13452, 13535, 13950, 14033, 14199, 14282, 15444, 15527, 15693, 15776, 16191, 16274, 16440, 16523, 20012, 20676, 20759, 22170, 22253, 22917, 23000, 27319, 28813, 29560, 33879, 33962, 35373, 35456, 36120, 36203, 39941, 40356, 40439, 40605, 40688, 41850, 41933, 42099, 42182, 42597, 42680, 42846, 42929, 46999, 47248, 48493, 48742, 49240, 49489, 53559, 53642, 53808, 53891, 55053, 55136, 55302, 55385, 55800, 55883, 56049, 56132, 59870, 60036, 60119, 62028, 62111, 62277, 62360, 66679, 68671, 68920, 73239, 73322, 75231, 75314, 75480, 75563, 79799, 81957, 82040, 88600, 95160, 95243, 99728, 101637, 101720, 101886, 101969, 108280, 108529, 114840, 114923, 115089, 115172, 119657, 119823, 119906, 121068, 121151, 121317, 121400, 121815, 121898, 122064, 122147, 126466, 127711, 127960, 128458, 128707, 133026, 133109, 134271, 134354, 134520, 134603, 135018, 135101, 135267, 135350, 139586, 140997, 141080, 141744, 141827, 147640, 148387, 154200, 154283, 154947, 155030, 159515, 160677, 160760, 160926, 161009, 161424, 161507, 161673, 161756, 167320, 167569, 168067, 168316, 173880, 173963, 174129, 174212, 174627, 174710, 174876, 174959],
      
     winningLines.take 174) := by decide

theorem dirLoop_step_27 :
    dirLoop (1, 0, 0, 0) directions
      [83, 249, 332, 747, 830, 996, 1079, 2241, 2324, 2490, 2573, 2988, 3071, 3237, 3320, 6892, 7390, 7639, 8884, 9133, 9631, 9880, 13452, 13535, 13950, 14033, 14199, 14282, 15444, 15527, 15693, 15776, 16191, 16274, 16440, 16523, 20012, 20676, 20759, 22170, 22253, 22917, 23000, 27319, 28813, 29560, 33879, 33962, 35373, 35456, 36120, 36203, 39941, 40356, 40439, 40605, 40688, 41850, 41933, 42099, 42182, 42597, 42680, 42846, 42929, 46999, 47248, 48493, 48742, 49240, 49489, 53559, 53642, 53808, 53891, 55053, 55136, 55302, 55385, 55800, 55883, 56049, 56132, 59870, 60036, 60119, 62028, 62111, 62277, 62360, 66679, 68671, 68920, 73239, 73322, 75231, 75314, 75480, 75563, 79799, 81957, 82040, 88600, 95160, 95243, 99728, 101637, 101720, 101886, 101969, 108280, 108529, 114840, 114923, 115089, 115172, 119657, 119823, 119906, 121068, 121151, 121317, 121400, 121815, 121898, 122064, 122147, 126466, 127711, 127960, 128458, 128707, 133026, 133109, 134271, 134354, 134520, 134603, 135018, 135101, 135267, 135350, 139586, 140997, 141080, 141744, 141827, 147640, 148387, 154200, 154283, 154947, 155030, 159515, 160677, 160760, 160926, 161009, 161424, 161507, 161673, 161756, 167320, 167569, 168067, 168316, 173880, 173963, 174129, 174212, 174627, 174710, 174876, 174959]
      
      (winningLines.take 174) =
    ([83, 249, 332, 747, 830, 996, 1079, 2241, 2324, 2490, 2573, 2988, 3071, 3237, 3320, 6892, 7390, 7639, 8884, 9133, 9631, 9880, 13452, 13535, 13950, 14033, 14199, 14282, 15444, 15527, 15693, 15776, 16191, 16274, 16440, 16523, 20012, 20676, 20759, 22170, 22253, 22917, 23000, 27319, 28813, 29560, 33879, 33962, 35373, 35456, 36120, 36203, 39941, 40356, 40439, 40605, 40688, 41850, 41933, 42099, 42182, 42597, 42680, 42846, 42929, 46999, 47248, 48493, 48742, 49240, 49489, 53559, 53642, 53808, 53891, 55053, 55136, 55302, 55385, 55800, 55883, 56049, 56132, 59870, 60036, 60119, 62028, 62111, 62277, 62360, 66679, 68671, 68920, 73239, 73322, 75231, 75314, 75480, 75563, 79799, 81957, 82040, 88600, 95160, 95243, 99728, 101637, 101720, 101886, 101969, 108280, 108529, 114840, 114923, 115089, 115172, 119657, 119823, 119906, 121068, 121151, 121317, 121400, 121815, 121898, 122064, 122147, 126466, 127711, 127960, 128458, 128707, 133026, 133109, 134271, 134354, 134520, 134603, 135018, 135101, 135267, 135350, 139586, 140997, 141080, 141744, 141827, 147640, 148387, 154200, 154283, 154947, 155030, 159515, 160677, 160760, 160926, 161009, 161424, 161507, 161673, 161756, 167320, 167569, 168067, 168316, 173880, 173963, 174129, 174212, 174627, 174710, 174876, 174959, 179444, 179610, 179693, 180108, 180191, 180357, 180440],
      
     winningLines.take 181) := by decide

theorem dirLoop_step_28 :
    dirLoop (1, 0, 0, 1) directions
      [83, 249, 332, 747, 830, 996, 1079, 2241, 2324, 2490, 2573, 2988, 3071, 3237, 3320, 6892, 7390, 7639, 8884, 9133, 9631, 9880, 13452, 13535, 13950, 14033, 14199, 14282, 15444, 15527, 15693, 15776, 16191, 16274, 16440, 16523, 20012, 20676, 20759, 22170, 22253, 22917, 23000, 27319, 28813, 29560, 33879, 33962, 35373, 35456, 36120, 36203, 39941, 40356, 40439, 40605, 40688, 41850, 41933, 42099, 42182, 42597, 42680, 42846, 42929, 46999, 47248, 48493, 48742, 49240, 49489, 53559, 53642, 53808, 53891, 55053, 55136, 55302, 55385, 55800, 55883, 56049, 56132, 59870, 60036, 60119, 62028, 62111, 62277, 62360, 66679, 68671, 68920, 73239, 73322, 75231, 75314, 75480, 75563, 79799, 81957, 82040, 88600, 95160, 95243, 99728, 101637, 101720, 101886, 101969, 108280, 108529, 114840, 114923, 115089, 115172, 119657, 119823, 119906, 121068, 121151, 121317, 121400, 121815, 121898, 122064, 122147, 126466, 127711, 127960, 128458, 128707, 133026, 133109, 134271, 134354, 134520, 134603, 135018, 135101, 135267, 135350, 139586, 140997, 141080, 141744, 141827, 147640, 148387, 154200, 154283, 154947, 155030, 159515, 160677, 160760, 160926, 161009, 161424, 161507, 161673, 161756, 167320, 167569, 168067, 168316, 173880, 173963, 174129, 174212, 174627, 174710, 174876, 174959, 179444, 179610, 179693, 180108, 180191, 180357, 180440]
      
      (winningLines.take 181) =
    ([83, 249, 332, 747, 830, 996, 1079, 2241, 2324, 2490, 2573, 2988, 3071, 3237, 3320, 6892, 7390, 7639, 8884, 9133, 9631, 9880, 13452, 13535, 13950, 14033, 14199, 14282, 15444, 15527, 15693, 15776, 16191, 16274, 16440, 16523, 20012, 20676, 20759, 22170, 22253, 22917, 23000, 27319, 28813, 29560, 33879, 33962, 35373, 35456, 36120, 36203, 39941, 40356, 40439, 40605, 40688, 41850, 41933, 42099, 42182, 42597, 42680, 42846, 42929, 46999, 47248, 48493, 48742, 49240, 49489, 53559, 53642, 53808, 53891, 55053, 55136, 55302, 55385, 55800, 55883, 56049, 56132, 59870, 60036, 60119, 62028, 62111, 62277, 62360, 66679, 68671, 68920, 73239, 73322, 75231, 75314, 75480, 75563, 79799, 81957, 82040, 88600, 95160, 95243, 99728, 101637, 101720, 101886, 101969, 108280, 108529, 114840, 114923, 115089, 115172, 119657, 119823, 119906, 121068, 121151, 121317, 121400, 121815, 121898, 122064, 122147, 126466, 127711, 127960, 128458, 128707, 133026, 133109, 134271, 134354, 134520, 134603, 135018, 135101, 135267, 135350, 139586, 140997, 141080, 141744, 141827, 147640, 148387, 154200, 154283, 154947, 155030, 159515, 160677, 160760, 160926, 161009, 161424, 161507, 161673, 161756, 167320, 167569, 168067, 168316, 173880, 173963, 174129, 174212, 174627, 174710, 174876, 174959, 179444, 179610, 179693, 180108, 180191, 180357, 180440, 186253, 186751, 187000],
      
     winningLines.take 184) := by decide

theorem dirLoop_step_29 :
    dirLoop (1, 0, 0, 2) directions
      [83, 249, 332, 747, 830, 996, 1079, 2241, 2324, 2490, 2573, 2988, 3071, 3237, 3320, 6892, 7390, 7639, 8884, 9133, 9631, 9880, 13452, 13535, 13950, 14033, 14199, 14282, 15444, 15527, 15693, 15776, 16191, 16274, 16440, 16523, 20012, 20676, 20759, 22170, 22253, 22917, 23000, 27319, 28813, 29560, 33879, 33962, 35373, 35456, 36120, 36203, 39941, 40356, 40439, 40605, 40688, 41850, 41933, 42099, 42182, 42597, 42680, 42846, 42929, 46999, 47248, 48493, 48742, 49240, 49489, 53559, 53642, 53808, 53891, 55053, 55136, 55302, 55385, 55800, 55883, 56049, 56132, 59870, 60036, 60119, 62028, 62111, 62277, 62360, 66679, 68671, 68920, 73239, 73322, 75231, 75314, 75480, 75563, 79799, 81957, 82040, 88600, 95160, 95243, 99728, 101637, 101720, 101886, 101969, 108280, 108529, 114840, 114923, 115089, 115172, 119657, 119823, 119906, 121068, 121151, 121317, 121400, 121815, 121898, 122064, 122147, 126466, 127711, 127960, 128458, 128707, 133026, 133109, 134271, 134354, 134520, 134603, 135018, 135101, 135267, 135350, 139586, 140997, 141080, 141744, 141827, 147640, 148387, 154200, 154283, 154947, 155030, 159515, 160677, 160760, 160926, 161009, 161424, 161507, 161673, 161756, 167320, 167569, 168067, 168316, 173880, 173963, 174129, 174212, 174627, 174710, 174876, 174959, 179444, 179610, 179693, 180108, 180191, 180357, 180440, 186253, 186751, 187000]
      
      (winningLines.take 184) =
    ([83, 249, 332, 747, 830, 996, 1079, 2241, 2324, 2490, 2573, 2988, 3071, 3237, 3320, 6892, 7390, 7639, 8884, 9133, 9631, 9880, 13452, 13535, 13950, 14033, 14199, 14282, 15444, 15527, 15693, 15776, 16191, 16274, 16440, 16523, 20012, 20676, 20759, 22170, 22253, 22917, 23000, 27319, 28813, 29560, 33879, 33962, 35373, 35456, 36120, 36203, 39941, 40356, 40439, 40605, 40688, 41850, 41933, 42099, 42182, 42597, 42680, 42846, 42929, 46999, 47248, 48493, 48742, 49240, 49489, 53559, 53642, 53808, 53891, 55053, 55136, 55302, 55385, 55800, 55883, 56049, 56132, 59870, 60036, 60119, 62028, 62111, 62277, 62360, 66679, 68671, 68920, 73239, 73322, 75231, 75314, 75480, 75563, 79799, 81957, 82040, 88600, 95160, 95243, 99728, 101637, 101720, 101886, 101969, 108280, 108529, 114840, 114923, 115089, 115172, 119657, 119823, 119906, 121068, 121151, 121317, 121400, 121815, 121898, 122064, 122147, 126466, 127711, 127960, 128458, 128707, 133026, 133109, 134271, 134354, 134520, 134603, 135018, 135101, 135267, 135350, 139586, 140997, 141080, 141744, 141827, 147640, 148387, 154200, 154283, 154947, 155030, 159515, 160677, 160760, 160926, 161009, 161424, 161507, 161673, 161756, 167320, 167569, 168067, 168316, 173880, 173963, 174129, 174212, 174627, 174710, 174876, 174959, 179444, 179610, 179693, 180108, 180191, 180357, 180440, 186253, 186751, 187000, 192813, 192896, 193311, 193394, 193560, 193643],
      
     winningLines.take 190) := by decide

theorem dirLoop_step_30 :
    dirLoop (1, 0, 1, 0) directions
      [83, 249, 332, 747, 830, 996, 1079, 2241, 2324, 2490, 2573, 2988, 3071, 3237, 3320, 6892, 7390, 7639, 8884, 9133, 9631, 9880, 13452, 13535, 13950, 14033, 14199, 14282, 15444, 15527, 15693, 15776, 16191, 16274, 16440, 16523, 20012, 20676, 20759, 22170, 22253, 22917, 23000, 27319, 28813, 29560, 33879, 33962, 35373, 35456, 36120, 36203, 39941, 40356, 40439, 40605, 40688, 41850, 41933, 42099, 42182, 42597, 42680, 42846, 42929, 46999, 47248, 48493, 48742, 49240, 49489, 53559, 53642, 53808, 53891, 55053, 55136, 55302, 55385, 55800, 55883, 56049, 56132, 59870, 60036, 60119, 62028, 62111, 62277, 62360, 66679, 68671, 68920, 73239, 73322, 75231, 75314, 75480, 75563, 79799, 81957, 82040, 88600, 95160, 95243, 99728, 101637, 101720, 101886, 101969, 108280, 108529, 114840, 114923, 115089, 115172, 119657, 119823, 119906, 121068, 121151, 121317, 121400, 121815, 121898, 122064, 122147, 126466, 127711, 127960, 128458, 128707, 133026, 133109, 134271, 134354, 134520, 134603, 135018, 135101, 135267, 135350, 139586, 140997, 141080, 141744, 141827, 147640, 148387, 154200, 154283, 154947, 155030, 159515, 160677, 160760, 160926, 161009, 161424, 161507, 161673, 161756, 167320, 167569, 168067, 168316, 173880, 173963, 174129, 174212, 174627, 174710, 174876, 174959, 179444, 179610, 179693, 180108, 180191, 180357, 180440, 186253, 186751, 187000, 192813, 192896, 193311, 193394, 193560, 193643]
      
      (winningLines.take 190) =
    ([83, 249, 332, 747, 830, 996, 1079, 2241, 2324, 2490, 2573, 2988, 3071, 3237, 3320, 6892, 7390, 7639, 8884, 9133, 9631, 9880, 13452, 13535, 13950, 14033, 14199, 14282, 15444, 15527, 15693, 15776, 16191, 16274, 16440, 16523, 20012, 20676, 20759, 22170, 22253, 22917, 23000, 27319, 28813, 29560, 33879, 33962, 35373, 35456, 36120, 36203, 39941, 40356, 40439, 40605, 40688, 41850, 41933, 42099, 42182, 42597, 42680, 42846, 42929, 46999, 47248, 48493, 48742, 49240, 49489, 53559, 53642, 53808, 53891, 55053, 55136, 55302, 55385, 55800, 55883, 56049, 56132, 59870, 60036, 60119, 62028, 62111, 62277, 62360, 66679, 68671, 68920, 73239, 73322, 75231, 75314, 75480, 75563, 79799, 81957, 82040, 88600, 95160, 95243, 99728, 101637, 101720, 101886, 101969, 108280, 108529, 114840, 114923, 115089, 115172, 119657, 119823, 119906, 121068, 121151, 121317, 121400, 121815, 121898, 122064, 122147, 126466, 127711, 127960, 128458, 128707, 133026, 133109, 134271, 134354, 134520, 134603, 135018, 135101, 135267, 135350, 139586, 140997, 141080, 141744, 141827, 147640, 148387, 154200, 154283, 154947, 155030, 159515, 160677, 160760, 160926, 161009, 161424, 161507, 161673, 161756, 167320, 167569, 168067, 168316, 173880, 173963, 174129, 174212, 174627, 174710, 174876, 174959, 179444, 179610, 179693, 180108, 180191, 180357, 180440, 186253, 186751, 187000, 192813, 192896, 193311, 193394, 193560, 193643, 199373, 200037, 200120],
      
     winningLines.take 193) := by decide

theorem dirLoop_step_31 :
    dirLoop (1, 0, 1, 1) directions
      [83, 249, 332, 747, 830, 996, 1079, 2241, 2324, 2490, 2573, 2988, 3071, 3237, 3320, 6892, 7390, 7639, 8884, 9133, 9631, 9880, 13452, 13535, 13950, 14033, 14199, 14282, 15444, 15527, 15693, 15776, 16191, 16274, 16440, 16523, 20012, 20676, 20759, 22170, 22253, 22917, 23000, 27319, 28813, 29560, 33879, 33962, 35373, 35456, 36120, 36203, 39941, 40356, 40439, 40605, 40688, 41850, 41933, 42099, 42182, 42597, 42680, 42846, 42929, 46999, 47248, 48493, 48742, 49240, 49489, 53559, 53642, 53808, 53891, 55053, 55136, 55302, 55385, 55800, 55883, 56049, 56132, 59870, 60036, 60119, 62028, 62111, 62277, 62360, 66679, 68671, 68920, 73239, 73322, 75231, 75314, 75480, 75563, 79799, 81957, 82040, 88600, 95160, 95243, 99728, 101637, 101720, 101886, 101969, 108280, 108529, 114840, 114923, 115089, 115172, 119657, 119823, 119906, 121068, 121151, 121317, 121400, 121815, 121898, 122064, 122147, 126466, 127711, 127960, 128458, 128707, 133026, 133109, 134271, 134354, 134520, 134603, 135018, 135101, 135267, 135350, 139586, 140997, 141080, 141744, 141827, 147640, 148387, 154200, 154283, 154947, 155030, 159515, 160677, 160760, 160926, 161009, 161424, 161507, 161673, 161756, 167320, 167569, 168067, 168316, 173880, 173963, 174129, 174212, 174627, 174710, 174876, 174959, 179444, 179610, 179693, 180108, 180191, 180357, 180440, 186253, 186751, 187000, 192813, 192896, 193311, 193394, 193560, 193643, 199373, 200037, 200120]
      
      (winningLines.take 193) =
    ([83, 249, 332, 747, 830, 996, 1079, 2241, 2324, 2490, 2573, 2988, 3071, 3237, 3320, 6892, 7390, 7639, 8884, 9133, 9631, 9880, 13452, 13535, 13950, 14033, 14199, 14282, 15444, 15527, 15693, 15776, 16191, 16274, 16440, 16523, 20012, 20676, 20759, 22170, 22253, 22917, 23000, 27319, 28813, 29560, 33879, 33962, 35373, 35456, 36120, 36203, 39941, 40356, 40439, 40605, 40688, 41850, 41933, 42099, 42182, 42597, 42680, 42846, 42929, 46999, 47248, 48493, 48742, 49240, 49489, 53559, 53642, 53808, 53891, 55053, 55136, 55302, 55385, 55800, 55883, 56049, 56132, 59870, 60036, 60119, 62028, 62111, 62277, 62360, 66679, 68671, 68920, 73239, 73322, 75231, 75314, 75480, 75563, 79799, 81957, 82040, 88600, 95160, 95243, 99728, 101637, 101720, 101886, 101969, 108280, 108529, 114840, 114923, 115089, 115172, 119657, 119823, 119906, 121068, 121151, 121317, 121400, 121815, 121898, 122064, 122147, 126466, 127711, 127960, 128458, 128707, 133026, 133109, 134271, 134354, 134520, 134603, 135018, 135101, 135267, 135350, 139586, 140997, 141080, 141744, 141827, 147640, 148387, 154200, 154283, 154947, 155030, 159515, 160677, 160760, 160926, 161009, 161424, 161507, 161673, 161756, 167320, 167569, 168067, 168316, 173880, 173963, 174129, 174212, 174627, 174710, 174876, 174959, 179444, 179610, 179693, 180108, 180191, 180357, 180440, 186253, 186751, 187000, 192813, 192896, 193311, 193394, 193560, 193643, 199373, 200037, 200120, 206680],
      
     winningLines.take 194) := by decide

theorem dirLoop_step_32 :
    dirLoop (1, 0, 1, 2) directions
      [83, 249, 332, 747, 830, 996, 1079, 2241, 2324, 2490, 2573, 2988, 3071, 3237, 3320, 6892, 7390, 7639, 8884, 9133, 9631, 9880, 13452, 13535, 13950, 14033, 14199, 14282, 15444, 15527, 15693, 15776, 16191, 16274, 16440, 16523, 20012, 20676, 20759, 22170, 22253, 22917, 23000, 27319, 28813, 29560, 33879, 33962, 35373, 35456, 36120, 36203, 39941, 40356, 40439, 40605, 40688, 41850, 41933, 42099, 42182, 42597, 42680, 42846, 42929, 46999, 47248, 48493, 48742, 49240, 49489, 53559, 53642, 53808, 53891, 55053, 55136, 55302, 55385, 55800, 55883, 56049, 56132, 59870, 60036, 60119, 62028, 62111, 62277, 62360, 66679, 68671, 68920, 73239, 73322, 75231, 75314, 75480, 75563, 79799, 81957, 82040, 88600, 95160, 95243, 99728, 101637, 101720, 101886, 101969, 108280, 108529, 114840, 114923, 115089, 115172, 119657, 119823, 119906, 121068, 121151, 121317, 121400, 121815, 121898, 122064, 122147, 126466, 127711, 127960, 128458, 128707, 133026, 133109, 134271, 134354, 134520, 134603, 135018, 135101, 135267, 135350, 139586, 140997, 141080, 141744, 141827, 147640, 148387, 154200, 154283, 154947, 155030, 159515, 160677, 160760, 160926, 161009, 161424, 161507, 161673, 161756, 167320, 167569, 168067, 168316, 173880, 173963, 174129, 174212, 174627, 174710, 174876, 174959, 179444, 179610, 179693, 180108, 180191, 180357, 180440, 186253, 186751, 187000, 192813, 192896, 193311, 193394, 193560, 193643, 199373, 200037, 200120, 206680]
      
      (winningLines.take 194) =
    ([83, 249, 332, 747, 830, 996, 1079, 2241, 2324, 2490, 2573, 2988, 3071, 3237, 3320, 6892, 7390, 7639, 8884, 9133, 9631, 9880, 13452, 13535, 13950, 14033, 14199, 14282, 15444, 15527, 15693, 15776, 16191, 16274, 16440, 16523, 20012, 20676, 20759, 22170, 22253, 22917, 23000, 27319, 28813, 29560, 33879, 33962, 35373, 35456, 36120, 36203, 39941, 40356, 40439, 40605, 40688, 41850, 41933, 42099, 42182, 42597, 42680, 42846, 42929, 46999, 47248, 48493, 48742, 49240, 49489, 53559, 53642, 53808, 53891, 55053, 55136, 55302, 55385, 55800, 55883, 56049, 56132, 59870, 60036, 60119, 62028, 62111, 62277, 62360, 66679, 68671, 68920, 73239, 73322, 75231, 75314, 75480, 75563, 79799, 81957, 82040, 88600, 95160, 95243, 99728, 101637, 101720, 101886, 101969, 108280, 108529, 114840, 114923, 115089, 115172, 119657, 119823, 119906, 121068, 121151, 121317, 121400, 121815, 121898, 122064, 122147, 126466, 127711, 127960, 128458, 128707, 133026, 133109, 134271, 134354, 134520, 134603, 135018, 135101, 135267, 135350, 139586, 140997, 141080, 141744, 141827, 147640, 148387, 154200, 154283, 154947, 155030, 159515, 160677, 160760, 160926, 161009, 161424, 161507, 161673, 161756, 167320, 167569, 168067, 168316, 173880, 173963, 174129, 174212, 174627, 174710, 174876, 174959, 179444, 179610, 179693, 180108, 180191, 180357, 180440, 186253, 186751, 187000, 192813, 192896, 193311, 193394, 193560, 193643, 199373, 200037, 200120, 206680, 213240, 213323],
      
     winningLines.take 196) := by decide

theorem dirLoop_step_33 :
    dirLoop (1, 0, 2, 0) directions
      [83, 249, 332, 747, 830, 996, 1079, 2241, 2324, 2490, 2573, 2988, 3071, 3237, 3320, 6892, 7390, 7639, 8884, 9133, 9631, 9880, 13452, 13535, 13950, 14033, 14199, 14282, 15444, 15527, 15693, 15776, 16191, 16274, 16440, 16523, 20012, 20676, 20759, 22170, 22253, 22917, 23000, 27319, 28813, 29560, 33879, 33962, 35373, 35456, 36120, 36203, 39941, 40356, 40439, 40605, 40688, 41850, 41933, 42099, 42182, 42597, 42680, 42846, 42929, 46999, 47248, 48493, 48742, 49240, 49489, 53559, 53642, 53808, 53891, 55053, 55136, 55302, 55385, 55800, 55883, 56049, 56132, 59870, 60036, 60119, 62028, 62111, 62277, 62360, 66679, 68671, 68920, 73239, 73322, 75231, 75314, 75480, 75563, 79799, 81957, 82040, 88600, 95160, 95243, 99728, 101637, 101720, 101886, 101969, 108280, 108529, 114840, 114923, 115089, 115172, 119657, 119823, 119906, 121068, 121151, 121317, 121400, 121815, 121898, 122064, 122147, 126466, 127711, 127960, 128458, 128707, 133026, 133109, 134271, 134354, 134520, 134603, 135018, 135101, 135267, 135350, 139586, 140997, 141080, 141744, 141827, 147640, 148387, 154200, 154283, 154947, 155030, 159515, 160677, 160760, 160926, 161009, 161424, 161507, 161673, 161756, 167320, 167569, 168067, 168316, 173880, 173963, 174129, 174212, 174627, 174710, 174876, 174959, 179444, 179610, 179693, 180108, 180191, 180357, 180440, 186253, 186751, 187000, 192813, 192896, 193311, 193394, 193560, 193643, 199373, 200037, 200120, 206680, 213240, 213323]
      
      (winningLines.take 196) =
    ([83, 249, 332, 747, 830, 996, 1079, 2241, 2324, 2490, 2573, 2988, 3071, 3237, 3320, 6892, 7390, 7639, 8884, 9133, 9631, 9880, 13452, 13535, 13950, 14033, 14199, 14282, 15444, 15527, 15693, 15776, 16191, 16274, 16440, 16523, 20012, 20676, 20759, 22170, 22253, 22917, 23000, 27319, 28813, 29560, 33879, 33962, 35373, 35456, 36120, 36203, 39941, 40356, 40439, 40605, 40688, 41850, 41933, 42099, 42182, 42597, 42680, 42846, 42929, 46999, 47248, 48493, 48742, 49240, 49489, 53559, 53642, 53808, 53891, 55053, 55136, 55302, 55385, 55800, 55883, 56049, 56132, 59870, 60036, 60119, 62028, 62111, 62277, 62360, 66679, 68671, 68920, 73239, 73322, 75231, 75314, 75480, 75563, 79799, 81957, 82040, 88600, 95160, 95243, 99728, 101637, 101720, 101886, 101969, 108280, 108529, 114840, 114923, 115089, 115172, 119657, 119823, 119906, 121068, 121151, 121317, 121400, 121815, 121898, 122064, 122147, 126466, 127711, 127960, 128458, 128707, 133026, 133109, 134271, 134354, 134520, 134603, 135018, 135101, 135267, 135350, 139586, 140997, 141080, 141744, 141827, 147640, 148387, 154200, 154283, 154947, 155030, 159515, 160677, 160760, 160926, 161009, 161424, 161507, 161673, 161756, 167320, 167569, 168067, 168316, 173880, 173963, 174129, 174212, 174627, 174710, 174876, 174959, 179444, 179610, 179693, 180108, 180191, 180357, 180440, 186253, 186751, 187000, 192813, 192896, 193311, 193394, 193560, 193643, 199373, 200037, 200120, 206680, 213240, 213323, 219302, 219717, 219800, 219966, 220049],
      
     winningLines.take 201) := by decide

theorem dirLoop_step_34 :
    dirLoop (1, 0, 2, 1) directions
      [83, 249, 332, 747, 830, 996, 1079, 2241, 2324, 2490, 2573, 2988, 3071, 3237, 3320, 6892, 7390, 7639, 8884, 9133, 9631, 9880, 13452, 13535, 13950, 14033, 14199, 14282, 15444, 15527, 15693, 15776, 16191, 16274, 16440, 16523, 20012, 20676, 20759, 22170, 22253, 22917, 23000, 27319, 28813, 29560, 33879, 33962, 35373, 35456, 36120, 36203, 39941, 40356, 40439, 40605, 40688, 41850, 41933, 42099, 42182, 42597, 42680, 42846, 42929, 46999, 47248, 48493, 48742, 49240, 49489, 53559, 53642, 53808, 53891, 55053, 55136, 55302, 55385, 55800, 55883, 56049, 56132, 59870, 60036, 60119, 62028, 62111, 62277, 62360, 66679, 68671, 68920, 73239, 73322, 75231, 75314, 75480, 75563, 79799, 81957, 82040, 88600, 95160, 95243, 99728, 101637, 101720, 101886, 101969, 108280, 108529, 114840, 114923, 115089, 115172, 119657, 119823, 119906, 121068, 121151, 121317, 121400, 121815, 121898, 122064, 122147, 126466, 127711, 127960, 128458, 128707, 133026, 133109, 134271, 134354, 134520, 134603, 135018, 135101, 135267, 135350, 139586, 140997, 141080, 141744, 141827, 147640, 148387, 154200, 154283, 154947, 155030, 159515, 160677, 160760, 160926, 161009, 161424, 161507, 161673, 161756, 167320, 167569, 168067, 168316, 173880, 173963, 174129, 174212, 174627, 174710, 174876, 174959, 179444, 179610, 179693, 180108, 180191, 180357, 180440, 186253, 186751, 187000, 192813, 192896, 193311, 193394, 193560, 193643, 199373, 200037, 200120, 206680, 213240, 213323, 219302, 219717, 219800, 219966, 220049]
      
      (winningLines.take 201) =
    ([83, 249, 332, 747, 830, 996, 1079, 2241, 2324, 2490, 2573, 2988, 3071, 3237, 3320, 6892, 7390, 7639, 8884, 9133, 9631, 9880, 13452, 13535, 13950, 14033, 14199, 14282, 15444, 15527, 15693, 15776, 16191, 16274, 16440, 16523, 20012, 20676, 20759, 22170, 22253, 22917, 23000, 27319, 28813, 29560, 33879, 33962, 35373, 35456, 36120, 36203, 39941, 40356, 40439, 40605, 40688, 41850, 41933, 42099, 42182, 42597, 42680, 42846, 42929, 46999, 47248, 48493, 48742, 49240, 49489, 53559, 53642, 53808, 53891, 55053, 55136, 55302, 55385, 55800, 55883, 56049, 56132, 59870, 60036, 60119, 62028, 62111, 62277, 62360, 66679, 68671, 68920, 73239, 73322, 75231, 75314, 75480, 75563, 79799, 81957, 82040, 88600, 95160, 95243, 99728, 101637, 101720, 101886, 101969, 108280, 108529, 114840, 114923, 115089, 115172, 119657, 119823, 119906, 121068, 121151, 121317, 121400, 121815, 121898, 122064, 122147, 126466, 127711, 127960, 128458, 128707, 133026, 133109, 134271, 134354, 134520, 134603, 135018, 135101, 135267, 135350, 139586, 140997, 141080, 141744, 141827, 147640, 148387, 154200, 154283, 154947, 155030, 159515, 160677, 160760, 160926, 161009, 161424, 161507, 161673, 161756, 167320, 167569, 168067, 168316, 173880, 173963, 174129, 174212, 174627, 174710, 174876, 174959, 179444, 179610, 179693, 180108, 180191, 180357, 180440, 186253, 186751, 187000, 192813, 192896, 193311, 193394, 193560, 193643, 199373, 200037, 200120, 206680, 213240, 213323, 219302, 219717, 219800, 219966, 220049, 226360, 226609],
      
     winningLines.take 203) := by decide

theorem dirLoop_step_35 :
    dirLoop (1, 0, 2, 2) directions
      [83, 249, 332, 747, 830, 996, 1079, 2241, 2324, 2490, 2573, 2988, 3071, 3237, 3320, 6892, 7390, 7639, 8884, 9133, 9631, 9880, 13452, 13535, 13950, 14033, 14199, 14282, 15444, 15527, 15693, 15776, 16191, 16274, 16440, 16523, 20012, 20676, 20759, 22170, 22253, 22917, 23000, 27319, 28813, 29560, 33879, 33962, 35373, 35456, 36120, 36203, 39941, 40356, 40439, 40605, 40688, 41850, 41933, 42099, 42182, 42597, 42680, 42846, 42929, 46999, 47248, 48493, 48742, 49240, 49489, 53559, 53642, 53808, 53891, 55053, 55136, 55302, 55385, 55800, 55883, 56049, 56132, 59870, 60036, 60119, 62028, 62111, 62277, 62360, 66679, 68671, 68920, 73239, 73322, 75231, 75314, 75480, 75563, 79799, 81957, 82040, 88600, 95160, 95243, 99728, 101637, 101720, 101886, 101969, 108280, 108529, 114840, 114923, 115089, 115172, 119657, 119823, 119906, 121068, 121151, 121317, 121400, 121815, 121898, 122064, 122147, 126466, 127711, 127960, 128458, 128707, 133026, 133109, 134271, 134354, 134520, 134603, 135018, 135101, 135267, 135350, 139586, 140997, 141080, 141744, 141827, 147640, 148387, 154200, 154283, 154947, 155030, 159515, 160677, 160760, 160926, 161009, 161424, 161507, 161673, 161756, 167320, 167569, 168067, 168316, 173880, 173963, 174129, 174212, 174627, 174710, 174876, 174959, 179444, 179610, 179693, 180108, 180191, 180357, 180440, 186253, 186751, 187000, 192813, 192896, 193311, 193394, 193560, 193643, 199373, 200037, 200120, 206680, 213240, 213323, 219302, 219717, 219800, 219966, 220049, 226360, 226609]
      
      (winningLines.take 203) =
    ([83, 249, 332, 747, 830, 996, 1079, 2241, 2324, 2490, 2573, 2988, 3071, 3237, 3320, 6892, 7390, 7639, 8884, 9133, 9631, 9880, 13452, 13535, 13950, 14033, 14199, 14282, 15444, 15527, 15693, 15776, 16191, 16274, 16440, 16523, 20012, 20676, 20759, 22170, 22253, 22917, 23000, 27319, 28813, 29560, 33879, 33962, 35373, 35456, 36120, 36203, 39941, 40356, 40439, 40605, 40688, 41850, 41933, 42099, 42182, 42597, 42680, 42846, 42929, 46999, 47248, 48493, 48742, 49240, 49489, 53559, 53642, 53808, 53891, 55053, 55136, 55302, 55385, 55800, 55883, 56049, 56132, 59870, 60036, 60119, 62028, 62111, 62277, 62360, 66679, 68671, 68920, 73239, 73322, 75231, 75314, 75480, 75563, 79799, 81957, 82040, 88600, 95160, 95243, 99728, 101637, 101720, 101886, 101969, 108280, 108529, 114840, 114923, 115089, 115172, 119657, 119823, 119906, 121068, 121151, 121317, 121400, 121815, 121898, 122064, 122147, 126466, 127711, 127960, 128458, 128707, 133026, 133109, 134271, 134354, 134520, 134603, 135018, 135101, 135267, 135350, 139586, 140997, 141080, 141744, 141827, 147640, 148387, 154200, 154283, 154947, 155030, 159515, 160677, 160760, 160926, 161009, 161424, 161507, 161673, 161756, 167320, 167569, 168067, 168316, 173880, 173963, 174129, 174212, 174627, 174710, 174876, 174959, 179444, 179610, 179693, 180108, 180191, 180357, 180440, 186253, 186751, 187000, 192813, 192896, 193311, 193394, 193560, 193643, 199373, 200037, 200120, 206680, 213240, 213323, 219302, 219717, 219800, 219966, 220049, 226360, 226609, 232920, 233003, 233169, 233252],
      
     winningLines.take 207) := by decide

theorem dirLoop_step_36 :
    dirLoop (1, 1, 0, 0) directions
      [83, 249, 332, 747, 830, 996, 1079, 2241, 2324, 2490, 2573, 2988, 3071, 3237, 3320, 6892, 7390, 7639, 8884, 9133, 9631, 9880, 13452, 13535, 13950, 14033, 14199, 14282, 15444, 15527, 15693, 15776, 16191, 16274, 16440, 16523, 20012, 20676, 20759, 22170, 22253, 22917, 23000, 27319, 28813, 29560, 33879, 33962, 35373, 35456, 36120, 36203, 39941, 40356, 40439, 40605, 40688, 41850, 41933, 42099, 42182, 42597, 42680, 42846, 42929, 46999, 47248, 48493, 48742, 49240, 49489, 53559, 53642, 53808, 53891, 55053, 55136, 55302, 55385, 55800, 55883, 56049, 56132, 59870, 60036, 60119, 62028, 62111, 62277, 62360, 66679, 68671, 68920, 73239, 73322, 75231, 75314, 75480, 75563, 79799, 81957, 82040, 88600, 95160, 95243, 99728, 101637, 101720, 101886, 101969, 108280, 108529, 114840, 114923, 115089, 115172, 119657, 119823, 119906, 121068, 121151, 121317, 121400, 121815, 121898, 122064, 122147, 126466, 127711, 127960, 128458, 128707, 133026, 133109, 134271, 134354, 134520, 134603, 135018, 135101, 135267, 135350, 139586, 140997, 141080, 141744, 141827, 147640, 148387, 154200, 154283, 154947, 155030, 159515, 160677, 160760, 160926, 161009, 161424, 161507, 161673, 161756, 167320, 167569, 168067, 168316, 173880, 173963, 174129, 174212, 174627, 174710, 174876, 174959, 179444, 179610, 179693, 180108, 180191, 180357, 180440, 186253, 186751, 187000, 192813, 192896, 193311, 193394, 193560, 193643, 199373, 200037, 200120, 206680, 213240, 213323, 219302, 219717, 219800, 219966, 220049, 226360, 226609, 232920, 233003, 233169, 233252]
      
      (winningLines.take 207) =
    ([83, 249, 332, 747, 830, 996, 1079, 2241, 2324, 2490, 2573, 2988, 3071, 3237, 3320, 6892, 7390, 7639, 8884, 9133, 9631, 9880, 13452, 13535, 13950, 14033, 14199, 14282, 15444, 15527, 15693, 15776, 16191, 16274, 16440, 16523, 20012, 20676, 20759, 22170, 22253, 22917, 23000, 27319, 28813, 29560, 33879, 33962, 35373, 35456, 36120, 36203, 39941, 40356, 40439, 40605, 40688, 41850, 41933, 42099, 42182, 42597, 42680, 42846, 42929, 46999, 47248, 48493, 48742, 49240, 49489, 53559, 53642, 53808, 53891, 55053, 55136, 55302, 55385, 55800, 55883, 56049, 56132, 59870, 60036, 60119, 62028, 62111, 62277, 62360, 66679, 68671, 68920, 73239, 73322, 75231, 75314, 75480, 75563, 79799, 81957, 82040, 88600, 95160, 95243, 99728, 101637, 101720, 101886, 101969, 108280, 108529, 114840, 114923, 115089, 115172, 119657, 119823, 119906, 121068, 121151, 121317, 121400, 121815, 121898, 122064, 122147, 126466, 127711, 127960, 128458, 128707, 133026, 133109, 134271, 134354, 134520, 134603, 135018, 135101, 135267, 135350, 139586, 140997, 141080, 141744, 141827, 147640, 148387, 154200, 154283, 154947, 155030, 159515, 160677, 160760, 160926, 161009, 161424, 161507, 161673, 161756, 167320, 167569, 168067, 168316, 173880, 173963, 174129, 174212, 174627, 174710, 174876, 174959, 179444, 179610, 179693, 180108, 180191, 180357, 180440, 186253, 186751, 187000, 192813, 192896, 193311, 193394, 193560, 193643, 199373, 200037, 200120, 206680, 213240, 213323, 219302, 219717, 219800, 219966, 220049, 226360, 226609, 232920, 233003, 233169, 233252, 239231, 239397, 239480],
      
     winningLines.take 210) := by decide

theorem dirLoop_step_37 :
    dirLoop (1, 1, 0, 1) directions
      [83, 249, 332, 747, 830, 996, 1079, 2241, 2324, 2490, 2573, 2988, 3071, 3237, 3320, 6892, 7390, 7639, 8884, 9133, 9631, 9880, 13452, 13535, 13950, 14033, 14199, 14282, 15444, 15527, 15693, 15776, 16191, 16274, 16440, 16523, 20012, 20676, 20759, 22170, 22253, 22917, 23000, 27319, 28813, 29560, 33879, 33962, 35373, 35456, 36120, 36203, 39941, 40356, 40439, 40605, 40688, 41850, 41933, 42099, 42182, 42597, 42680, 42846, 42929, 46999, 47248, 48493, 48742, 49240, 49489, 53559, 53642, 53808, 53891, 55053, 55136, 55302, 55385, 55800, 55883, 56049, 56132, 59870, 60036, 60119, 62028, 62111, 62277, 62360, 66679, 68671, 68920, 73239, 73322, 75231, 75314, 75480, 75563, 79799, 81957, 82040, 88600, 95160, 95243, 99728, 101637, 101720, 101886, 101969, 108280, 108529, 114840, 114923, 115089, 115172, 119657, 119823, 119906, 121068, 121151, 121317, 121400, 121815, 121898, 122064, 122147, 126466, 127711, 127960, 128458, 128707, 133026, 133109, 134271, 134354, 134520, 134603, 135018, 135101, 135267, 135350, 139586, 140997, 141080, 141744, 141827, 147640, 148387, 154200, 154283, 154947, 155030, 159515, 160677, 160760, 160926, 161009, 161424, 161507, 161673, 161756, 167320, 167569, 168067, 168316, 173880, 173963, 174129, 174212, 174627, 174710, 174876, 174959, 179444, 179610, 179693, 180108, 180191, 180357, 180440, 186253, 186751, 187000, 192813, 192896, 193311, 193394, 193560, 193643, 199373, 200037, 200120, 206680, 213240, 213323, 219302, 219717, 219800, 219966, 220049, 226360, 226609, 232920, 233003, 233169, 233252, 239231, 239397, 239480]
      
      (winningLines.take 210) =
    ([83, 249, 332, 747, 830, 996, 1079, 2241, 2324, 2490, 2573, 2988, 3071, 3237, 3320, 6892, 7390, 7639, 8884, 9133, 9631, 9880, 13452, 13535, 13950, 14033, 14199, 14282, 15444, 15527, 15693, 15776, 16191, 16274, 16440, 16523, 20012, 20676, 20759, 22170, 22253, 22917, 23000, 27319, 28813, 29560, 33879, 33962, 35373, 35456, 36120, 36203, 39941, 40356, 40439, 40605, 40688, 41850, 41933, 42099, 42182, 42597, 42680, 42846, 42929, 46999, 47248, 48493, 48742, 49240, 49489, 53559, 53642, 53808, 53891, 55053, 55136, 55302, 55385, 55800, 55883, 56049, 56132, 59870, 60036, 60119, 62028, 62111, 62277, 62360, 66679, 68671, 68920, 73239, 73322, 75231, 75314, 75480, 75563, 79799, 81957, 82040, 88600, 95160, 95243, 99728, 101637, 101720, 101886, 101969, 108280, 108529, 114840, 114923, 115089, 115172, 119657, 119823, 119906, 121068, 121151, 121317, 121400, 121815, 121898, 122064, 122147, 126466, 127711, 127960, 128458, 128707, 133026, 133109, 134271, 134354, 134520, 134603, 135018, 135101, 135267, 135350, 139586, 140997, 141080, 141744, 141827, 147640, 148387, 154200, 154283, 154947, 155030, 159515, 160677, 160760, 160926, 161009, 161424, 161507, 161673, 161756, 167320, 167569, 168067, 168316, 173880, 173963, 174129, 174212, 174627, 174710, 174876, 174959, 179444, 179610, 179693, 180108, 180191, 180357, 180440, 186253, 186751, 187000, 192813, 192896, 193311, 193394, 193560, 193643, 199373, 200037, 200120, 206680, 213240, 213323, 219302, 219717, 219800, 219966, 220049, 226360, 226609, 232920, 233003, 233169, 233252, 239231, 239397, 239480, 246040],
      
     winningLines.take 211) := by decide

theorem dirLoop_step_38 :
    dirLoop (1, 1, 0, 2) directions
      [83, 249, 332, 747, 830, 996, 1079, 2241, 2324, 2490, 2573, 2988, 3071, 3237, 3320, 6892, 7390, 7639, 8884, 9133, 9631, 9880, 13452, 13535, 13950, 14033, 14199, 14282, 15444, 15527, 15693, 15776, 16191, 16274, 16440, 16523, 20012, 20676, 20759, 22170, 22253, 22917, 23000, 27319, 28813, 29560, 33879, 33962, 35373, 35456, 36120, 36203, 39941, 40356, 40439, 40605, 40688, 41850, 41933, 42099, 42182, 42597, 42680, 42846, 42929, 46999, 47248, 48493, 48742, 49240, 49489, 53559, 53642, 53808, 53891, 55053, 55136, 55302, 55385, 55800, 55883, 56049, 56132, 59870, 60036, 60119, 62028, 62111, 62277, 62360, 66679, 68671, 68920, 73239, 73322, 75231, 75314, 75480, 75563, 79799, 81957, 82040, 88600, 95160, 95243, 99728, 101637, 101720, 101886, 101969, 108280, 108529, 114840, 114923, 115089, 115172, 119657, 119823, 119906, 121068, 121151, 121317, 121400, 121815, 121898, 122064, 122147, 126466, 127711, 127960, 128458, 128707, 133026, 133109, 134271, 134354, 134520, 134603, 135018, 135101, 135267, 135350, 139586, 140997, 141080, 141744, 141827, 147640, 148387, 154200, 154283, 154947, 155030, 159515, 160677, 160760, 160926, 161009, 161424, 161507, 161673, 161756, 167320, 167569, 168067, 168316, 173880, 173963, 174129, 174212, 174627, 174710, 174876, 174959, 179444, 179610, 179693, 180108, 180191, 180357, 180440, 186253, 186751, 187000, 192813, 192896, 193311, 193394, 193560, 193643, 199373, 200037, 200120, 206680, 213240, 213323, 219302, 219717, 219800, 219966, 220049, 226360, 226609, 232920, 233003, 233169, 233252, 239231, 239397, 239480, 246040]
      
      (winningLines.take 211) =
    ([83, 249, 332, 747, 830, 996, 1079, 2241, 2324, 2490, 2573, 2988, 3071, 3237, 3320, 6892, 7390, 7639, 8884, 9133, 9631, 9880, 13452, 13535, 13950, 14033, 14199, 14282, 15444, 15527, 15693, 15776, 16191, 16274, 16440, 16523, 20012, 20676, 20759, 22170, 22253, 22917, 23000, 27319, 28813, 29560, 33879, 33962, 35373, 35456, 36120, 36203, 39941, 40356, 40439, 40605, 40688, 41850, 41933, 42099, 42182, 42597, 42680, 42846, 42929, 46999, 47248, 48493, 48742, 49240, 49489, 53559, 53642, 53808, 53891, 55053, 55136, 55302, 55385, 55800, 55883, 56049, 56132, 59870, 60036, 60119, 62028, 62111, 62277, 62360, 66679, 68671, 68920, 73239, 73322, 75231, 75314, 75480, 75563, 79799, 81957, 82040, 88600, 95160, 95243, 99728, 101637, 101720, 101886, 101969, 108280, 108529, 114840, 114923, 115089, 115172, 119657, 119823, 119906, 121068, 121151, 121317, 121400, 121815, 121898, 122064, 122147, 126466, 127711, 127960, 128458, 128707, 133026, 133109, 134271, 134354, 134520, 134603, 135018, 135101, 135267, 135350, 139586, 140997, 141080, 141744, 141827, 147640, 148387, 154200, 154283, 154947, 155030, 159515, 160677, 160760, 160926, 161009, 161424, 161507, 161673, 161756, 167320, 167569, 168067, 168316, 173880, 173963, 174129, 174212, 174627, 174710, 174876, 174959, 179444, 179610, 179693, 180108, 180191, 180357, 180440, 186253, 186751, 187000, 192813, 192896, 193311, 193394, 193560, 193643, 199373, 200037, 200120, 206680, 213240, 213323, 219302, 219717, 219800, 219966, 220049, 226360, 226609, 232920, 233003, 233169, 233252, 239231, 239397, 239480, 246040, 252600, 252683],
      
     winningLines.take 213) := by decide

theorem dirLoop_step_39 :
    dirLoop (1, 1, 1, 0) directions
      [83, 249, 332, 747, 830, 996, 1079, 2241, 2324, 2490, 2573, 2988, 3071, 3237, 3320, 6892, 7390, 7639, 8884, 9133, 9631, 9880, 13452, 13535, 13950, 14033, 14199, 14282, 15444, 15527, 15693, 15776, 16191, 16274, 16440, 16523, 20012, 20676, 20759, 22170, 22253, 22917, 23000, 27319, 28813, 29560, 33879, 33962, 35373, 35456, 36120, 36203, 39941, 40356, 40439, 40605, 40688, 41850, 41933, 42099, 42182, 42597, 42680, 42846, 42929, 46999, 47248, 48493, 48742, 49240, 49489, 53559, 53642, 53808, 53891, 55053, 55136, 55302, 55385, 55800, 55883, 56049, 56132, 59870, 60036, 60119, 62028, 62111, 62277, 62360, 66679, 68671, 68920, 73239, 73322, 75231, 75314, 75480, 75563, 79799, 81957, 82040, 88600, 95160, 95243, 99728, 101637, 101720, 101886, 101969, 108280, 108529, 114840, 114923, 115089, 115172, 119657, 119823, 119906, 121068, 121151, 121317, 121400, 121815, 121898, 122064, 122147, 126466, 127711, 127960, 128458, 128707, 133026, 133109, 134271, 134354, 134520, 134603, 135018, 135101, 135267, 135350, 139586, 140997, 141080, 141744, 141827, 147640, 148387, 154200, 154283, 154947, 155030, 159515, 160677, 160760, 160926, 161009, 161424, 161507, 161673, 161756, 167320, 167569, 168067, 168316, 173880, 173963, 174129, 174212, 174627, 174710, 174876, 174959, 179444, 179610, 179693, 180108, 180191, 180357, 180440, 186253, 186751, 187000, 192813, 192896, 193311, 193394, 193560, 193643, 199373, 200037, 200120, 206680, 213240, 213323, 219302, 219717, 219800, 219966, 220049, 226360, 226609, 232920, 233003, 233169, 233252, 239231, 239397, 239480, 246040, 252600, 252683]
      
      (winningLines.take 213) =
    ([83, 249, 332, 747, 830, 996, 1079, 2241, 2324, 2490, 2573, 2988, 3071, 3237, 3320, 6892, 7390, 7639, 8884, 9133, 9631, 9880, 13452, 13535, 13950, 14033, 14199, 14282, 15444, 15527, 15693, 15776, 16191, 16274, 16440, 16523, 20012, 20676, 20759, 22170, 22253, 22917, 23000, 27319, 28813, 29560, 33879, 33962, 35373, 35456, 36120, 36203, 39941, 40356, 40439, 40605, 40688, 41850, 41933, 42099, 42182, 42597, 42680, 42846, 42929, 46999, 47248, 48493, 48742, 49240, 49489, 53559, 53642, 53808, 53891, 55053, 55136, 55302, 55385, 55800, 55883, 56049, 56132, 59870, 60036, 60119, 62028, 62111, 62277, 62360, 66679, 68671, 68920, 73239, 73322, 75231, 75314, 75480, 75563, 79799, 81957, 82040, 88600, 95160, 95243, 99728, 101637, 101720, 101886, 101969, 108280, 108529, 114840, 114923, 115089, 115172, 119657, 119823, 119906, 121068, 121151, 121317, 121400, 121815, 121898, 122064, 122147, 126466, 127711, 127960, 128458, 128707, 133026, 133109, 134271, 134354, 134520, 134603, 135018, 135101, 135267, 135350, 139586, 140997, 141080, 141744, 141827, 147640, 148387, 154200, 154283, 154947, 155030, 159515, 160677, 160760, 160926, 161009, 161424, 161507, 161673, 161756, 167320, 167569, 168067, 168316, 173880, 173963, 174129, 174212, 174627, 174710, 174876, 174959, 179444, 179610, 179693, 180108, 180191, 180357, 180440, 186253, 186751, 187000, 192813, 192896, 193311, 193394, 193560, 193643, 199373, 200037, 200120, 206680, 213240, 213323, 219302, 219717, 219800, 219966, 220049, 226360, 226609, 232920, 233003, 233169, 233252, 239231, 239397, 239480, 246040, 252600, 252683, 259160],
      
     winningLines.take 214) := by decide

theorem dirLoop_step_40 :
    dirLoop (1, 1, 1, 1) directions
      [83, 249, 332, 747, 830, 996, 1079, 2241, 2324, 2490, 2573, 2988, 3071, 3237, 3320, 6892, 7390, 7639, 8884, 9133, 9631, 9880, 13452, 13535, 13950, 14033, 14199, 14282, 15444, 15527, 15693, 15776, 16191, 16274, 16440, 16523, 20012, 20676, 20759, 22170, 22253, 22917, 23000, 27319, 28813, 29560, 33879, 33962, 35373, 35456, 36120, 36203, 39941, 40356, 40439, 40605, 40688, 41850, 41933, 42099, 42182, 42597, 42680, 42846, 42929, 46999, 47248, 48493, 48742, 49240, 49489, 53559, 53642, 53808, 53891, 55053, 55136, 55302, 55385, 55800, 55883, 56049, 56132, 59870, 60036, 60119, 62028, 62111, 62277, 62360, 66679, 68671, 68920, 73239, 73322, 75231, 75314, 75480, 75563, 79799, 81957, 82040, 88600, 95160, 95243, 99728, 101637, 101720, 101886, 101969, 108280, 108529, 114840, 114923, 115089, 115172, 119657, 119823, 119906, 121068, 121151, 121317, 121400, 121815, 121898, 122064, 122147, 126466, 127711, 127960, 128458, 128707, 133026, 133109, 134271, 134354, 134520, 134603, 135018, 135101, 135267, 135350, 139586, 140997, 141080, 141744, 141827, 147640, 148387, 154200, 154283, 154947, 155030, 159515, 160677, 160760, 160926, 161009, 161424, 161507, 161673, 161756, 167320, 167569, 168067, 168316, 173880, 173963, 174129, 174212, 174627, 174710, 174876, 174959, 179444, 179610, 179693, 180108, 180191, 180357, 180440, 186253, 186751, 187000, 192813, 192896, 193311, 193394, 193560, 193643, 199373, 200037, 200120, 206680, 213240, 213323, 219302, 219717, 219800, 219966, 220049, 226360, 226609, 232920, 233003, 233169, 233252, 239231, 239397, 239480, 246040, 252600, 252683, 259160]
      
      (winningLines.take 214) =
    ([83, 249, 332, 747, 830, 996, 1079, 2241, 2324, 2490, 2573, 2988, 3071, 3237, 3320, 6892, 7390, 7639, 8884, 9133, 9631, 9880, 13452, 13535, 13950, 14033, 14199, 14282, 15444, 15527, 15693, 15776, 16191, 16274, 16440, 16523, 20012, 20676, 20759, 22170, 22253, 22917, 23000, 27319, 28813, 29560, 33879, 33962, 35373, 35456, 36120, 36203, 39941, 40356, 40439, 40605, 40688, 41850, 41933, 42099, 42182, 42597, 42680, 42846, 42929, 46999, 47248, 48493, 48742, 49240, 49489, 53559, 53642, 53808, 53891, 55053, 55136, 55302, 55385, 55800, 55883, 56049, 56132, 59870, 60036, 60119, 62028, 62111, 62277, 62360, 66679, 68671, 68920, 73239, 73322, 75231, 75314, 75480, 75563, 79799, 81957, 82040, 88600, 95160, 95243, 99728, 101637, 101720, 101886, 101969, 108280, 108529, 114840, 114923, 115089, 115172, 119657, 119823, 119906, 121068, 121151, 121317, 121400, 121815, 121898, 122064, 122147, 126466, 127711, 127960, 128458, 128707, 133026, 133109, 134271, 134354, 134520, 134603, 135018, 135101, 135267, 135350, 139586, 140997, 141080, 141744, 141827, 147640, 148387, 154200, 154283, 154947, 155030, 159515, 160677, 160760, 160926, 161009, 161424, 161507, 161673, 161756, 167320, 167569, 168067, 168316, 173880, 173963, 174129, 174212, 174627, 174710, 174876, 174959, 179444, 179610, 179693, 180108, 180191, 180357, 180440, 186253, 186751, 187000, 192813, 192896, 193311, 193394, 193560, 193643, 199373, 200037, 200120, 206680, 213240, 213323, 219302, 219717, 219800, 219966, 220049, 226360, 226609, 232920, 233003, 233169, 233252, 239231, 239397, 239480, 246040, 252600, 252683, 259160],
      
     winningLines.take 214) := by decide

theorem dirLoop_step_41 :
    dirLoop (1, 1, 1, 2) directions
      [83, 249, 332, 747, 830, 996, 1079, 2241, 2324, 2490, 2573, 2988, 3071, 3237, 3320, 6892, 7390, 7639, 8884, 9133, 9631, 9880, 13452, 13535, 13950, 14033, 14199, 14282, 15444, 15527, 15693, 15776, 16191, 16274, 16440, 16523, 20012, 20676, 20759, 22170, 22253, 22917, 23000, 27319, 28813, 29560, 33879, 33962, 35373, 35456, 36120, 36203, 39941, 40356, 40439, 40605, 40688, 41850, 41933, 42099, 42182, 42597, 42680, 42846, 42929, 46999, 47248, 48493, 48742, 49240, 49489, 53559, 53642, 53808, 53891, 55053, 55136, 55302, 55385, 55800, 55883, 56049, 56132, 59870, 60036, 60119, 62028, 62111, 62277, 62360, 66679, 68671, 68920, 73239, 73322, 75231, 75314, 75480, 75563, 79799, 81957, 82040, 88600, 95160, 95243, 99728, 101637, 101720, 101886, 101969, 108280, 108529, 114840, 114923, 115089, 115172, 119657, 119823, 119906, 121068, 121151, 121317, 121400, 121815, 121898, 122064, 122147, 126466, 127711, 127960, 128458, 128707, 133026, 133109, 134271, 134354, 134520, 134603, 135018, 135101, 135267, 135350, 139586, 140997, 141080, 141744, 141827, 147640, 148387, 154200, 154283, 154947, 155030, 159515, 160677, 160760, 160926, 161009, 161424, 161507, 161673, 161756, 167320, 167569, 168067, 168316, 173880, 173963, 174129, 174212, 174627, 174710, 174876, 174959, 179444, 179610, 179693, 180108, 180191, 180357, 180440, 186253, 186751, 187000, 192813, 192896, 193311, 193394, 193560, 193643, 199373, 200037, 200120, 206680, 213240, 213323, 219302, 219717, 219800, 219966, 220049, 226360, 226609, 232920, 233003, 233169, 233252, 239231, 239397, 239480, 246040, 252600, 252683, 259160]
      
      (winningLines.take 214) =
    ([83, 249, 332, 747, 830, 996, 1079, 2241, 2324, 2490, 2573, 2988, 3071, 3237, 3320, 6892, 7390, 7639, 8884, 9133, 9631, 9880, 13452, 13535, 13950, 14033, 14199, 14282, 15444, 15527, 15693, 15776, 16191, 16274, 16440, 16523, 20012, 20676, 20759, 22170, 22253, 22917, 23000, 27319, 28813, 29560, 33879, 33962, 35373, 35456, 36120, 36203, 39941, 40356, 40439, 40605, 40688, 41850, 41933, 42099, 42182, 42597, 42680, 42846, 42929, 46999, 47248, 48493, 48742, 49240, 49489, 53559, 53642, 53808, 53891, 55053, 55136, 55302, 55385, 55800, 55883, 56049, 56132, 59870, 60036, 60119, 62028, 62111, 62277, 62360, 66679, 68671, 68920, 73239, 73322, 75231, 75314, 75480, 75563, 79799, 81957, 82040, 88600, 95160, 95243, 99728, 101637, 101720, 101886, 101969, 108280, 108529, 114840, 114923, 115089, 115172, 119657, 119823, 119906, 121068, 121151, 121317, 121400, 121815, 121898, 122064, 122147, 126466, 127711, 127960, 128458, 128707, 133026, 133109, 134271, 134354, 134520, 134603, 135018, 135101, 135267, 135350, 139586, 140997, 141080, 141744, 141827, 147640, 148387, 154200, 154283, 154947, 155030, 159515, 160677, 160760, 160926, 161009, 161424, 161507, 161673, 161756, 167320, 167569, 168067, 168316, 173880, 173963, 174129, 174212, 174627, 174710, 174876, 174959, 179444, 179610, 179693, 180108, 180191, 180357, 180440, 186253, 186751, 187000, 192813, 192896, 193311, 193394, 193560, 193643, 199373, 200037, 200120, 206680, 213240, 213323, 219302, 219717, 219800, 219966, 220049, 226360, 226609, 232920, 233003, 233169, 233252, 239231, 239397, 239480, 246040, 252600, 252683, 259160],
      
     winningLines.take 214) := by decide

theorem dirLoop_step_42 :
    dirLoop (1, 1, 2, 0) directions
      [83, 249, 332, 747, 830, 996, 1079, 2241, 2324, 2490, 2573, 2988, 3071, 3237, 3320, 6892, 7390, 7639, 8884, 9133, 9631, 9880, 13452, 13535, 13950, 14033, 14199, 14282, 15444, 15527, 15693, 15776, 16191, 16274, 16440, 16523, 20012, 20676, 20759, 22170, 22253, 22917, 23000, 27319, 28813, 29560, 33879, 33962, 35373, 35456, 36120, 36203, 39941, 40356, 40439, 40605, 40688, 41850, 41933, 42099, 42182, 42597, 42680, 42846, 42929, 46999, 47248, 48493, 48742, 49240, 49489, 53559, 53642, 53808, 53891, 55053, 55136, 55302, 55385, 55800, 55883, 56049, 56132, 59870, 60036, 60119, 62028, 62111, 62277, 62360, 66679, 68671, 68920, 73239, 73322, 75231, 75314, 75480, 75563, 79799, 81957, 82040, 88600, 95160, 95243, 99728, 101637, 101720, 101886, 101969, 108280, 108529, 114840, 114923, 115089, 115172, 119657, 119823, 119906, 121068, 121151, 121317, 121400, 121815, 121898, 122064, 122147, 126466, 127711, 127960, 128458, 128707, 133026, 133109, 134271, 134354, 134520, 134603, 135018, 135101, 135267, 135350, 139586, 140997, 141080, 141744, 141827, 147640, 148387, 154200, 154283, 154947, 155030, 159515, 160677, 160760, 160926, 161009, 161424, 161507, 161673, 161756, 167320, 167569, 168067, 168316, 173880, 173963, 174129, 174212, 174627, 174710, 174876, 174959, 179444, 179610, 179693, 180108, 180191, 180357, 180440, 186253, 186751, 187000, 192813, 192896, 193311, 193394, 193560, 193643, 199373, 200037, 200120, 206680, 213240, 213323, 219302, 219717, 219800, 219966, 220049, 226360, 226609, 232920, 233003, 233169, 233252, 239231, 239397, 239480, 246040, 252600, 252683, 259160]
      
      (winningLines.take 214) =
    ([83, 249, 332, 747, 830, 996, 1079, 2241, 2324, 2490, 2573, 2988, 3071, 3237, 3320, 6892, 7390, 7639, 8884, 9133, 9631, 9880, 13452, 13535, 13950, 14033, 14199, 14282, 15444, 15527, 15693, 15776, 16191, 16274, 16440, 16523, 20012, 20676, 20759, 22170, 22253, 22917, 23000, 27319, 28813, 29560, 33879, 33962, 35373, 35456, 36120, 36203, 39941, 40356, 40439, 40605, 40688, 41850, 41933, 42099, 42182, 42597, 42680, 42846, 42929, 46999, 47248, 48493, 48742, 49240, 49489, 53559, 53642, 53808, 53891, 55053, 55136, 55302, 55385, 55800, 55883, 56049, 56132, 59870, 60036, 60119, 62028, 62111, 62277, 62360, 66679, 68671, 68920, 73239, 73322, 75231, 75314, 75480, 75563, 79799, 81957, 82040, 88600, 95160, 95243, 99728, 101637, 101720, 101886, 101969, 108280, 108529, 114840, 114923, 115089, 115172, 119657, 119823, 119906, 121068, 121151, 121317, 121400, 121815, 121898, 122064, 122147, 126466, 127711, 127960, 128458, 128707, 133026, 133109, 134271, 134354, 134520, 134603, 135018, 135101, 135267, 135350, 139586, 140997, 141080, 141744, 141827, 147640, 148387, 154200, 154283, 154947, 155030, 159515, 160677, 160760, 160926, 161009, 161424, 161507, 161673, 161756, 167320, 167569, 168067, 168316, 173880, 173963, 174129, 174212, 174627, 174710, 174876, 174959, 179444, 179610, 179693, 180108, 180191, 180357, 180440, 186253, 186751, 187000, 192813, 192896, 193311, 193394, 193560, 193643, 199373, 200037, 200120, 206680, 213240, 213323, 219302, 219717, 219800, 219966, 220049, 226360, 226609, 232920, 233003, 233169, 233252, 239231, 239397, 239480, 246040, 252600, 252683, 259160, 279089],
      
     winningLines.take 215) := by decide

theorem dirLoop_step_43 :
    dirLoop (1, 1, 2, 1) directions
      [83, 249, 332, 747, 830, 996, 1079, 2241, 2324, 2490, 2573, 2988, 3071, 3237, 3320, 6892, 7390, 7639, 8884, 9133, 9631, 9880, 13452, 13535, 13950, 14033, 14199, 14282, 15444, 15527, 15693, 15776, 16191, 16274, 16440, 16523, 20012, 20676, 20759, 22170, 22253, 22917, 23000, 27319, 28813, 29560, 33879, 33962, 35373, 35456, 36120, 36203, 39941, 40356, 40439, 40605, 40688, 41850, 41933, 42099, 42182, 42597, 42680, 42846, 42929, 46999, 47248, 48493, 48742, 49240, 49489, 53559, 53642, 53808, 53891, 55053, 55136, 55302, 55385, 55800, 55883, 56049, 56132, 59870, 60036, 60119, 62028, 62111, 62277, 62360, 66679, 68671, 68920, 73239, 73322, 75231, 75314, 75480, 75563, 79799, 81957, 82040, 88600, 95160, 95243, 99728, 101637, 101720, 101886, 101969, 108280, 108529, 114840, 114923, 115089, 115172, 119657, 119823, 119906, 121068, 121151, 121317, 121400, 121815, 121898, 122064, 122147, 126466, 127711, 127960, 128458, 128707, 133026, 133109, 134271, 134354, 134520, 134603, 135018, 135101, 135267, 135350, 139586, 140997, 141080, 141744, 141827, 147640, 148387, 154200, 154283, 154947, 155030, 159515, 160677, 160760, 160926, 161009, 161424, 161507, 161673, 161756, 167320, 167569, 168067, 168316, 173880, 173963, 174129, 174212, 174627, 174710, 174876, 174959, 179444, 179610, 179693, 180108, 180191, 180357, 180440, 186253, 186751, 187000, 192813, 192896, 193311, 193394, 193560, 193643, 199373, 200037, 200120, 206680, 213240, 213323, 219302, 219717, 219800, 219966, 220049, 226360, 226609, 232920, 233003, 233169, 233252, 239231, 239397, 239480, 246040, 252600, 252683, 259160, 279089]
      
      (winningLines.take 215) =
    ([83, 249, 332, 747, 830, 996, 1079, 2241, 2324, 2490, 2573, 2988, 3071, 3237, 3320, 6892, 7390, 7639, 8884, 9133, 9631, 9880, 13452, 13535, 13950, 14033, 14199, 14282, 15444, 15527, 15693, 15776, 16191, 16274, 16440, 16523, 20012, 20676, 20759, 22170, 22253, 22917, 23000, 27319, 28813, 29560, 33879, 33962, 35373, 35456, 36120, 36203, 39941, 40356, 40439, 40605, 40688, 41850, 41933, 42099, 42182, 42597, 42680, 42846, 42929, 46999, 47248, 48493, 48742, 49240, 49489, 53559, 53642, 53808, 53891, 55053, 55136, 55302, 55385, 55800, 55883, 56049, 56132, 59870, 60036, 60119, 62028, 62111, 62277, 62360, 66679, 68671, 68920, 73239, 73322, 75231, 75314, 75480, 75563, 79799, 81957, 82040, 88600, 95160, 95243, 99728, 101637, 101720, 101886, 101969, 108280, 108529, 114840, 114923, 115089, 115172, 119657, 119823, 119906, 121068, 121151, 121317, 121400, 121815, 121898, 122064, 122147, 126466, 127711, 127960, 128458, 128707, 133026, 133109, 134271, 134354, 134520, 134603, 135018, 135101, 135267, 135350, 139586, 140997, 141080, 141744, 141827, 147640, 148387, 154200, 154283, 154947, 155030, 159515, 160677, 160760, 160926, 161009, 161424, 161507, 161673, 161756, 167320, 167569, 168067, 168316, 173880, 173963, 174129, 174212, 174627, 174710, 174876, 174959, 179444, 179610, 179693, 180108, 180191, 180357, 180440, 186253, 186751, 187000, 192813, 192896, 193311, 193394, 193560, 193643, 199373, 200037, 200120, 206680, 213240, 213323, 219302, 219717, 219800, 219966, 220049, 226360, 226609, 232920, 233003, 233169, 233252, 239231, 239397, 239480, 246040, 252600, 252683, 259160, 279089],
      
     winningLines.take 215) := by decide

theorem dirLoop_step_44 :
    dirLoop (1, 1, 2, 2) directions
      [83, 249, 332, 747, 830, 996, 1079, 2241, 2324, 2490, 2573, 2988, 3071, 3237, 3320, 6892, 7390, 7639, 8884, 9133, 9631, 9880, 13452, 13535, 13950, 14033, 14199, 14282, 15444, 15527, 15693, 15776, 16191, 16274, 16440, 16523, 20012, 20676, 20759, 22170, 22253, 22917, 23000, 27319, 28813, 29560, 33879, 33962, 35373, 35456, 36120, 36203, 39941, 40356, 40439, 40605, 40688, 41850, 41933, 42099, 42182, 42597, 42680, 42846, 42929, 46999, 47248, 48493, 48742, 49240, 49489, 53559, 53642, 53808, 53891, 55053, 55136, 55302, 55385, 55800, 55883, 56049, 56132, 59870, 60036, 60119, 62028, 62111, 62277, 62360, 66679, 68671, 68920, 73239, 73322, 75231, 75314, 75480, 75563, 79799, 81957, 82040, 88600, 95160, 95243, 99728, 101637, 101720, 101886, 101969, 108280, 108529, 114840, 114923, 115089, 115172, 119657, 119823, 119906, 121068, 121151, 121317, 121400, 121815, 121898, 122064, 122147, 126466, 127711, 127960, 128458, 128707, 133026, 133109, 134271, 134354, 134520, 134603, 135018, 135101, 135267, 135350, 139586, 140997, 141080, 141744, 141827, 147640, 148387, 154200, 154283, 154947, 155030, 159515, 160677, 160760, 160926, 161009, 161424, 161507, 161673, 161756, 167320, 167569, 168067, 168316, 173880, 173963, 174129, 174212, 174627, 174710, 174876, 174959, 179444, 179610, 179693, 180108, 180191, 180357, 180440, 186253, 186751, 187000, 192813, 192896, 193311, 193394, 193560, 193643, 199373, 200037, 200120, 206680, 213240, 213323, 219302, 219717, 219800, 219966, 220049, 226360, 226609, 232920, 233003, 233169, 233252, 239231, 239397, 239480, 246040, 252600, 252683, 259160, 279089]
      
      (winningLines.take 215) =
    ([83, 249, 332, 747, 830, 996, 1079, 2241, 2324, 2490, 2573, 2988, 3071, 3237, 3320, 6892, 7390, 7639, 8884, 9133, 9631, 9880, 13452, 13535, 13950, 14033, 14199, 14282, 15444, 15527, 15693, 15776, 16191, 16274, 16440, 16523, 20012, 20676, 20759, 22170, 22253, 22917, 23000, 27319, 28813, 29560, 33879, 33962, 35373, 35456, 36120, 36203, 39941, 40356, 40439, 40605, 40688, 41850, 41933, 42099, 42182, 42597, 42680, 42846, 42929, 46999, 47248, 48493, 48742, 49240, 49489, 53559, 53642, 53808, 53891, 55053, 55136, 55302, 55385, 55800, 55883, 56049, 56132, 59870, 60036, 60119, 62028, 62111, 62277, 62360, 66679, 68671, 68920, 73239, 73322, 75231, 75314, 75480, 75563, 79799, 81957, 82040, 88600, 95160, 95243, 99728, 101637, 101720, 101886, 101969, 108280, 108529, 114840, 114923, 115089, 115172, 119657, 119823, 119906, 121068, 121151, 121317, 121400, 121815, 121898, 122064, 122147, 126466, 127711, 127960, 128458, 128707, 133026, 133109, 134271, 134354, 134520, 134603, 135018, 135101, 135267, 135350, 139586, 140997, 141080, 141744, 141827, 147640, 148387, 154200, 154283, 154947, 155030, 159515, 160677, 160760, 160926, 161009, 161424, 161507, 161673, 161756, 167320, 167569, 168067, 168316, 173880, 173963, 174129, 174212, 174627, 174710, 174876, 174959, 179444, 179610, 179693, 180108, 180191, 180357, 180440, 186253, 186751, 187000, 192813, 192896, 193311, 193394, 193560, 193643, 199373, 200037, 200120, 206680, 213240, 213323, 219302, 219717, 219800, 219966, 220049, 226360, 226609, 232920, 233003, 233169, 233252, 239231, 239397, 239480, 246040, 252600, 252683, 259160, 279089],
      
     winningLines.take 215) := by decide

theorem dirLoop_step_45 :
    dirLoop (1, 2, 0, 0) directions
      [83, 249, 332, 747, 830, 996, 1079, 2241, 2324, 2490, 2573, 2988, 3071, 3237, 3320, 6892, 7390, 7639, 8884, 9133, 9631, 9880, 13452, 13535, 13950, 14033, 14199, 14282, 15444, 15527, 15693, 15776, 16191, 16274, 16440, 16523, 20012, 20676, 20759, 22170, 22253, 22917, 23000, 27319, 28813, 29560, 33879, 33962, 35373, 35456, 36120, 36203, 39941, 40356, 40439, 40605, 40688, 41850, 41933, 42099, 42182, 42597, 42680, 42846, 42929, 46999, 47248, 48493, 48742, 49240, 49489, 53559, 53642, 53808, 53891, 55053, 55136, 55302, 55385, 55800, 55883, 56049, 56132, 59870, 60036, 60119, 62028, 62111, 62277, 62360, 66679, 68671, 68920, 73239, 73322, 75231, 75314, 75480, 75563, 79799, 81957, 82040, 88600, 95160, 95243, 99728, 101637, 101720, 101886, 101969, 108280, 108529, 114840, 114923, 115089, 115172, 119657, 119823, 119906, 121068, 121151, 121317, 121400, 121815, 121898, 122064, 122147, 126466, 127711, 127960, 128458, 128707, 133026, 133109, 134271, 134354, 134520, 134603, 135018, 135101, 135267, 135350, 139586, 140997, 141080, 141744, 141827, 147640, 148387, 154200, 154283, 154947, 155030, 159515, 160677, 160760, 160926, 161009, 161424, 161507, 161673, 161756, 167320, 167569, 168067, 168316, 173880, 173963, 174129, 174212, 174627, 174710, 174876, 174959, 179444, 179610, 179693, 180108, 180191, 180357, 180440, 186253, 186751, 187000, 192813, 192896, 193311, 193394, 193560, 193643, 199373, 200037, 200120, 206680, 213240, 213323, 219302, 219717, 219800, 219966, 220049, 226360, 226609, 232920, 233003, 233169, 233252, 239231, 239397, 239480, 246040, 252600, 252683, 259160, 279089]
      
      (winningLines.take 215) =
    ([83, 249, 332, 747, 830, 996, 1079, 2241, 2324, 2490, 2573, 2988, 3071, 3237, 3320, 6892, 7390, 7639, 8884, 9133, 9631, 9880, 13452, 13535, 13950, 14033, 14199, 14282, 15444, 15527, 15693, 15776, 16191, 16274, 16440, 16523, 20012, 20676, 20759, 22170, 22253, 22917, 23000, 27319, 28813, 29560, 33879, 33962, 35373, 35456, 36120, 36203, 39941, 40356, 40439, 40605, 40688, 41850, 41933, 42099, 42182, 42597, 42680, 42846, 42929, 46999, 47248, 48493, 48742, 49240, 49489, 53559, 53642, 53808, 53891, 55053, 55136, 55302, 55385, 55800, 55883, 56049, 56132, 59870, 60036, 60119, 62028, 62111, 62277, 62360, 66679, 68671, 68920, 73239, 73322, 75231, 75314, 75480, 75563, 79799, 81957, 82040, 88600, 95160, 95243, 99728, 101637, 101720, 101886, 101969, 108280, 108529, 114840, 114923, 115089, 115172, 119657, 119823, 119906, 121068, 121151, 121317, 121400, 121815, 121898, 122064, 122147, 126466, 127711, 127960, 128458, 128707, 133026, 133109, 134271, 134354, 134520, 134603, 135018, 135101, 135267, 135350, 139586, 140997, 141080, 141744, 141827, 147640, 148387, 154200, 154283, 154947, 155030, 159515, 160677, 160760, 160926, 161009, 161424, 161507, 161673, 161756, 167320, 167569, 168067, 168316, 173880, 173963, 174129, 174212, 174627, 174710, 174876, 174959, 179444, 179610, 179693, 180108, 180191, 180357, 180440, 186253, 186751, 187000, 192813, 192896, 193311, 193394, 193560, 193643, 199373, 200037, 200120, 206680, 213240, 213323, 219302, 219717, 219800, 219966, 220049, 226360, 226609, 232920, 233003, 233169, 233252, 239231, 239397, 239480, 246040, 252600, 252683, 259160, 279089, 299018, 299184, 299267],
      
     winningLines.take 218) := by decide

theorem dirLoop_step_46 :
    dirLoop (1, 2, 0, 1) directions
      [83, 249, 332, 747, 830, 996, 1079, 2241, 2324, 2490, 2573, 2988, 3071, 3237, 3320, 6892, 7390, 7639, 8884, 9133, 9631, 9880, 13452, 13535, 13950, 14033, 14199, 14282, 15444, 15527, 15693, 15776, 16191, 16274, 16440, 16523, 20012, 20676, 20759, 22170, 22253, 22917, 23000, 27319, 28813, 29560, 33879, 33962, 35373, 35456, 36120, 36203, 39941, 40356, 40439, 40605, 40688, 41850, 41933, 42099, 42182, 42597, 42680, 42846, 42929, 46999, 47248, 48493, 48742, 49240, 49489, 53559, 53642, 53808, 53891, 55053, 55136, 55302, 55385, 55800, 55883, 56049, 56132, 59870, 60036, 60119, 62028, 62111, 62277, 62360, 66679, 68671, 68920, 73239, 73322, 75231, 75314, 75480, 75563, 79799, 81957, 82040, 88600, 95160, 95243, 99728, 101637, 101720, 101886, 101969, 108280, 108529, 114840, 114923, 115089, 115172, 119657, 119823, 119906, 121068, 121151, 121317, 121400, 121815, 121898, 122064, 122147, 126466, 127711, 127960, 128458, 128707, 133026, 133109, 134271, 134354, 134520, 134603, 135018, 135101, 135267, 135350, 139586, 140997, 141080, 141744, 141827, 147640, 148387, 154200, 154283, 154947, 155030, 159515, 160677, 160760, 160926, 161009, 161424, 161507, 161673, 161756, 167320, 167569, 168067, 168316, 173880, 173963, 174129, 174212, 174627, 174710, 174876, 174959, 179444, 179610, 179693, 180108, 180191, 180357, 180440, 186253, 186751, 187000, 192813, 192896, 193311, 193394, 193560, 193643, 199373, 200037, 200120, 206680, 213240, 213323, 219302, 219717, 219800, 219966, 220049, 226360, 226609, 232920, 233003, 233169, 233252, 239231, 239397, 239480, 246040, 252600, 252683, 259160, 279089, 299018, 299184, 299267]
      
      (winningLines.take 218) =
    ([83, 249, 332, 747, 830, 996, 1079, 2241, 2324, 2490, 2573, 2988, 3071, 3237, 3320, 6892, 7390, 7639, 8884, 9133, 9631, 9880, 13452, 13535, 13950, 14033, 14199, 14282, 15444, 15527, 15693, 15776, 16191, 16274, 16440, 16523, 20012, 20676, 20759, 22170, 22253, 22917, 23000, 27319, 28813, 29560, 33879, 33962, 35373, 35456, 36120, 36203, 39941, 40356, 40439, 40605, 40688, 41850, 41933, 42099, 42182, 42597, 42680, 42846, 42929, 46999, 47248, 48493, 48742, 49240, 49489, 53559, 53642, 53808, 53891, 55053, 55136, 55302, 55385, 55800, 55883, 56049, 56132, 59870, 60036, 60119, 62028, 62111, 62277, 62360, 66679, 68671, 68920, 73239, 73322, 75231, 75314, 75480, 75563, 79799, 81957, 82040, 88600, 95160, 95243, 99728, 101637, 101720, 101886, 101969, 108280, 108529, 114840, 114923, 115089, 115172, 119657, 119823, 119906, 121068, 121151, 121317, 121400, 121815, 121898, 122064, 122147, 126466, 127711, 127960, 128458, 128707, 133026, 133109, 134271, 134354, 134520, 134603, 135018, 135101, 135267, 135350, 139586, 140997, 141080, 141744, 141827, 147640, 148387, 154200, 154283, 154947, 155030, 159515, 160677, 160760, 160926, 161009, 161424, 161507, 161673, 161756, 167320, 167569, 168067, 168316, 173880, 173963, 174129, 174212, 174627, 174710, 174876, 174959, 179444, 179610, 179693, 180108, 180191, 180357, 180440, 186253, 186751, 187000, 192813, 192896, 193311, 193394, 193560, 193643, 199373, 200037, 200120, 206680, 213240, 213323, 219302, 219717, 219800, 219966, 220049, 226360, 226609, 232920, 233003, 233169, 233252, 239231, 239397, 239480, 246040, 252600, 252683, 259160, 279089, 299018, 299184, 299267, 305827],
      
     winningLines.take 219) := by decide

theorem dirLoop_step_47 :
    dirLoop (1, 2, 0, 2) directions
      [83, 249, 332, 747, 830, 996, 1079, 2241, 2324, 2490, 2573, 2988, 3071, 3237, 3320, 6892, 7390, 7639, 8884, 9133, 9631, 9880, 13452, 13535, 13950, 14033, 14199, 14282, 15444, 15527, 15693, 15776, 16191, 16274, 16440, 16523, 20012, 20676, 20759, 22170, 22253, 22917, 23000, 27319, 28813, 29560, 33879, 33962, 35373, 35456, 36120, 36203, 39941, 40356, 40439, 40605, 40688, 41850, 41933, 42099, 42182, 42597, 42680, 42846, 42929, 46999, 47248, 48493, 48742, 49240, 49489, 53559, 53642, 53808, 53891, 55053, 55136, 55302, 55385, 55800, 55883, 56049, 56132, 59870, 60036, 60119, 62028, 62111, 62277, 62360, 66679, 68671, 68920, 73239, 73322, 75231, 75314, 75480, 75563, 79799, 81957, 82040, 88600, 95160, 95243, 99728, 101637, 101720, 101886, 101969, 108280, 108529, 114840, 114923, 115089, 115172, 119657, 119823, 119906, 121068, 121151, 121317, 121400, 121815, 121898, 122064, 122147, 126466, 127711, 127960, 128458, 128707, 133026, 133109, 134271, 134354, 134520, 134603, 135018, 135101, 135267, 135350, 139586, 140997, 141080, 141744, 141827, 147640, 148387, 154200, 154283, 154947, 155030, 159515, 160677, 160760, 160926, 161009, 161424, 161507, 161673, 161756, 167320, 167569, 168067, 168316, 173880, 173963, 174129, 174212, 174627, 174710, 174876, 174959, 179444, 179610, 179693, 180108, 180191, 180357, 180440, 186253, 186751, 187000, 192813, 192896, 193311, 193394, 193560, 193643, 199373, 200037, 200120, 206680, 213240, 213323, 219302, 219717, 219800, 219966, 220049, 226360, 226609, 232920, 233003, 233169, 233252, 239231, 239397, 239480, 246040, 252600, 252683, 259160, 279089, 299018, 299184, 299267, 305827]
      
      (winningLines.take 219) =
    ([83, 249, 332, 747, 830, 996, 1079, 2241, 2324, 2490, 2573, 2988, 3071, 3237, 3320, 6892, 7390, 7639, 8884, 9133, 9631, 9880, 13452, 13535, 13950, 14033, 14199, 14282, 15444, 15527, 15693, 15776, 16191, 16274, 16440, 16523, 20012, 20676, 20759, 22170, 22253, 22917, 23000, 27319, 28813, 29560, 33879, 33962, 35373, 35456, 36120, 36203, 39941, 40356, 40439, 40605, 40688, 41850, 41933, 42099, 42182, 42597, 42680, 42846, 42929, 46999, 47248, 48493, 48742, 49240, 49489, 53559, 53642, 53808, 53891, 55053, 55136, 55302, 55385, 55800, 55883, 56049, 56132, 59870, 60036, 60119, 62028, 62111, 62277, 62360, 66679, 68671, 68920, 73239, 73322, 75231, 75314, 75480, 75563, 79799, 81957, 82040, 88600, 95160, 95243, 99728, 101637, 101720, 101886, 101969, 108280, 108529, 114840, 114923, 115089, 115172, 119657, 119823, 119906, 121068, 121151, 121317, 121400, 121815, 121898, 122064, 122147, 126466, 127711, 127960, 128458, 128707, 133026, 133109, 134271, 134354, 134520, 134603, 135018, 135101, 135267, 135350, 139586, 140997, 141080, 141744, 141827, 147640, 148387, 154200, 154283, 154947, 155030, 159515, 160677, 160760, 160926, 161009, 161424, 161507, 161673, 161756, 167320, 167569, 168067, 168316, 173880, 173963, 174129, 174212, 174627, 174710, 174876, 174959, 179444, 179610, 179693, 180108, 180191, 180357, 180440, 186253, 186751, 187000, 192813, 192896, 193311, 193394, 193560, 193643, 199373, 200037, 200120, 206680, 213240, 213323, 219302, 219717, 219800, 219966, 220049, 226360, 226609, 232920, 233003, 233169, 233252, 239231, 239397, 239480, 246040, 252600, 252683, 259160, 279089, 299018, 299184, 299267, 305827, 312387, 312470],
      
     winningLines.take 221) := by decide

theorem dirLoop_step_48 :
    dirLoop (1, 2, 1, 0) directions
      [83, 249, 332, 747, 830, 996, 1079, 2241, 2324, 2490, 2573, 2988, 3071, 3237, 3320, 6892, 7390, 7639, 8884, 9133, 9631, 9880, 13452, 13535, 13950, 14033, 14199, 14282, 15444, 15527, 15693, 15776, 16191, 16274, 16440, 16523, 20012, 20676, 20759, 22170, 22253, 22917, 23000, 27319, 28813, 29560, 33879, 33962, 35373, 35456, 36120, 36203, 39941, 40356, 40439, 40605, 40688, 41850, 41933, 42099, 42182, 42597, 42680, 42846, 42929, 46999, 47248, 48493, 48742, 49240, 49489, 53559, 53642, 53808, 53891, 55053, 55136, 55302, 55385, 55800, 55883, 56049, 56132, 59870, 60036, 60119, 62028, 62111, 62277, 62360, 66679, 68671, 68920, 73239, 73322, 75231, 75314, 75480, 75563, 79799, 81957, 82040, 88600, 95160, 95243, 99728, 101637, 101720, 101886, 101969, 108280, 108529, 114840, 114923, 115089, 115172, 119657, 119823, 119906, 121068, 121151, 121317, 121400, 121815, 121898, 122064, 122147, 126466, 127711, 127960, 128458, 128707, 133026, 133109, 134271, 134354, 134520, 134603, 135018, 135101, 135267, 135350, 139586, 140997, 141080, 141744, 141827, 147640, 148387, 154200, 154283, 154947, 155030, 159515, 160677, 160760, 160926, 161009, 161424, 161507, 161673, 161756, 167320, 167569, 168067, 168316, 173880, 173963, 174129, 174212, 174627, 174710, 174876, 174959, 179444, 179610, 179693, 180108, 180191, 180357, 180440, 186253, 186751, 187000, 192813, 192896, 193311, 193394, 193560, 193643, 199373, 200037, 200120, 206680, 213240, 213323, 219302, 219717, 219800, 219966, 220049, 226360, 226609, 232920, 233003, 233169, 233252, 239231, 239397, 239480, 246040, 252600, 252683, 259160, 279089, 299018, 299184, 299267, 305827, 312387, 312470]
      
      (winningLines.take 221) =
    ([83, 249, 332, 747, 830, 996, 1079, 2241, 2324, 2490, 2573, 2988, 3071, 3237, 3320, 6892, 7390, 7639, 8884, 9133, 9631, 9880, 13452, 13535, 13950, 14033, 14199, 14282, 15444, 15527, 15693, 15776, 16191, 16274, 16440, 16523, 20012, 20676, 20759, 22170, 22253, 22917, 23000, 27319, 28813, 29560, 33879, 33962, 35373, 35456, 36120, 36203, 39941, 40356, 40439, 40605, 40688, 41850, 41933, 42099, 42182, 42597, 42680, 42846, 42929, 46999, 47248, 48493, 48742, 49240, 49489, 53559, 53642, 53808, 53891, 55053, 55136, 55302, 55385, 55800, 55883, 56049, 56132, 59870, 60036, 60119, 62028, 62111, 62277, 62360, 66679, 68671, 68920, 73239, 73322, 75231, 75314, 75480, 75563, 79799, 81957, 82040, 88600, 95160, 95243, 99728, 101637, 101720, 101886, 101969, 108280, 108529, 114840, 114923, 115089, 115172, 119657, 119823, 119906, 121068, 121151, 121317, 121400, 121815, 121898, 122064, 122147, 126466, 127711, 127960, 128458, 128707, 133026, 133109, 134271, 134354, 134520, 134603, 135018, 135101, 135267, 135350, 139586, 140997, 141080, 141744, 141827, 147640, 148387, 154200, 154283, 154947, 155030, 159515, 160677, 160760, 160926, 161009, 161424, 161507, 161673, 161756, 167320, 167569, 168067, 168316, 173880, 173963, 174129, 174212, 174627, 174710, 174876, 174959, 179444, 179610, 179693, 180108, 180191, 180357, 180440, 186253, 186751, 187000, 192813, 192896, 193311, 193394, 193560, 193643, 199373, 200037, 200120, 206680, 213240, 213323, 219302, 219717, 219800, 219966, 220049, 226360, 226609, 232920, 233003, 233169, 233252, 239231, 239397, 239480, 246040, 252600, 252683, 259160, 279089, 299018, 299184, 299267, 305827, 312387, 312470, 318947],
      
     winningLines.take 222) := by decide

theorem dirLoop_step_49 :
    dirLoop (1, 2, 1, 1) directions
      [83, 249, 332, 747, 830, 996, 1079, 2241, 2324, 2490, 2573, 2988, 3071, 3237, 3320, 6892, 7390, 7639, 8884, 9133, 9631, 9880, 13452, 13535, 13950, 14033, 14199, 14282, 15444, 15527, 15693, 15776, 16191, 16274, 16440, 16523, 20012, 20676, 20759, 22170, 22253, 22917, 23000, 27319, 28813, 29560, 33879, 33962, 35373, 35456, 36120, 36203, 39941, 40356, 40439, 40605, 40688, 41850, 41933, 42099, 42182, 42597, 42680, 42846, 42929, 46999, 47248, 48493, 48742, 49240, 49489, 53559, 53642, 53808, 53891, 55053, 55136, 55302, 55385, 55800, 55883, 56049, 56132, 59870, 60036, 60119, 62028, 62111, 62277, 62360, 66679, 68671, 68920, 73239, 73322, 75231, 75314, 75480, 75563, 79799, 81957, 82040, 88600, 95160, 95243, 99728, 101637, 101720, 101886, 101969, 108280, 108529, 114840, 114923, 115089, 115172, 119657, 119823, 119906, 121068, 121151, 121317, 121400, 121815, 121898, 122064, 122147, 126466, 127711, 127960, 128458, 128707, 133026, 133109, 134271, 134354, 134520, 134603, 135018, 135101, 135267, 135350, 139586, 140997, 141080, 141744, 141827, 147640, 148387, 154200, 154283, 154947, 155030, 159515, 160677, 160760, 160926, 161009, 161424, 161507, 161673, 161756, 167320, 167569, 168067, 168316, 173880, 173963, 174129, 174212, 174627, 174710, 174876, 174959, 179444, 179610, 179693, 180108, 180191, 180357, 180440, 186253, 186751, 187000, 192813, 192896, 193311, 193394, 193560, 193643, 199373, 200037, 200120, 206680, 213240, 213323, 219302, 219717, 219800, 219966, 220049, 226360, 226609, 232920, 233003, 233169, 233252, 239231, 239397, 239480, 246040, 252600, 252683, 259160, 279089, 299018, 299184, 299267, 305827, 312387, 312470, 318947]
      
      (winningLines.take 222) =
    ([83, 249, 332, 747, 830, 996, 1079, 2241, 2324, 2490, 2573, 2988, 3071, 3237, 3320, 6892, 7390, 7639, 8884, 9133, 9631, 9880, 13452, 13535, 13950, 14033, 14199, 14282, 15444, 15527, 15693, 15776, 16191, 16274, 16440, 16523, 20012, 20676, 20759, 22170, 22253, 22917, 23000, 27319, 28813, 29560, 33879, 33962, 35373, 35456, 36120, 36203, 39941, 40356, 40439, 40605, 40688, 41850, 41933, 42099, 42182, 42597, 42680, 42846, 42929, 46999, 47248, 48493, 48742, 49240, 49489, 53559, 53642, 53808, 53891, 55053, 55136, 55302, 55385, 55800, 55883, 56049, 56132, 59870, 60036, 60119, 62028, 62111, 62277, 62360, 66679, 68671, 68920, 73239, 73322, 75231, 75314, 75480, 75563, 79799, 81957, 82040, 88600, 95160, 95243, 99728, 101637, 101720, 101886, 101969, 108280, 108529, 114840, 114923, 115089, 115172, 119657, 119823, 119906, 121068, 121151, 121317, 121400, 121815, 121898, 122064, 122147, 126466, 127711, 127960, 128458, 128707, 133026, 133109, 134271, 134354, 134520, 134603, 135018, 135101, 135267, 135350, 139586, 140997, 141080, 141744, 141827, 147640, 148387, 154200, 154283, 154947, 155030, 159515, 160677, 160760, 160926, 161009, 161424, 161507, 161673, 161756, 167320, 167569, 168067, 168316, 173880, 173963, 174129, 174212, 174627, 174710, 174876, 174959, 179444, 179610, 179693, 180108, 180191, 180357, 180440, 186253, 186751, 187000, 192813, 192896, 193311, 193394, 193560, 193643, 199373, 200037, 200120, 206680, 213240, 213323, 219302, 219717, 219800, 219966, 220049, 226360, 226609, 232920, 233003, 233169, 233252, 239231, 239397, 239480, 246040, 252600, 252683, 259160, 279089, 299018, 299184, 299267, 305827, 312387, 312470, 318947],
      
     winningLines.take 222) := by decide

theorem dirLoop_step_50 :
    dirLoop (1, 2, 1, 2) directions
      [83, 249, 332, 747, 830, 996, 1079, 2241, 2324, 2490, 2573, 2988, 3071, 3237, 3320, 6892, 7390, 7639, 8884, 9133, 9631, 9880, 13452, 13535, 13950, 14033, 14199, 14282, 15444, 15527, 15693, 15776, 16191, 16274, 16440, 16523, 20012, 20676, 20759, 22170, 22253, 22917, 23000, 27319, 28813, 29560, 33879, 33962, 35373, 35456, 36120, 36203, 39941, 40356, 40439, 40605, 40688, 41850, 41933, 42099, 42182, 42597, 42680, 42846, 42929, 46999, 47248, 48493, 48742, 49240, 49489, 53559, 53642, 53808, 53891, 55053, 55136, 55302, 55385, 55800, 55883, 56049, 56132, 59870, 60036, 60119, 62028, 62111, 62277, 62360, 66679, 68671, 68920, 73239, 73322, 75231, 75314, 75480, 75563, 79799, 81957, 82040, 88600, 95160, 95243, 99728, 101637, 101720, 101886, 101969, 108280, 108529, 114840, 114923, 115089, 115172, 119657, 119823, 119906, 121068, 121151, 121317, 121400, 121815, 121898, 122064, 122147, 126466, 127711, 127960, 128458, 128707, 133026, 133109, 134271, 134354, 134520, 134603, 135018, 135101, 135267, 135350, 139586, 140997, 141080, 141744, 141827, 147640, 148387, 154200, 154283, 154947, 155030, 159515, 160677, 160760, 160926, 161009, 161424, 161507, 161673, 161756, 167320, 167569, 168067, 168316, 173880, 173963, 174129, 174212, 174627, 174710, 174876, 174959, 179444, 179610, 179693, 180108, 180191, 180357, 180440, 186253, 186751, 187000, 192813, 192896, 193311, 193394, 193560, 193643, 199373, 200037, 200120, 206680, 213240, 213323, 219302, 219717, 219800, 219966, 220049, 226360, 226609, 232920, 233003, 233169, 233252, 239231, 239397, 239480, 246040, 252600, 252683, 259160, 279089, 299018, 299184, 299267, 305827, 312387, 312470, 318947]
      
      (winningLines.take 222) =
    ([83, 249, 332, 747, 830, 996, 1079, 2241, 2324, 2490, 2573, 2988, 3071, 3237, 3320, 6892, 7390, 7639, 8884, 9133, 9631, 9880, 13452, 13535, 13950, 14033, 14199, 14282, 15444, 15527, 15693, 15776, 16191, 16274, 16440, 16523, 20012, 20676, 20759, 22170, 22253, 22917, 23000, 27319, 28813, 29560, 33879, 33962, 35373, 35456, 36120, 36203, 39941, 40356, 40439, 40605, 40688, 41850, 41933, 42099, 42182, 42597, 42680, 42846, 42929, 46999, 47248, 48493, 48742, 49240, 49489, 53559, 53642, 53808, 53891, 55053, 55136, 55302, 55385, 55800, 55883, 56049, 56132, 59870, 60036, 60119, 62028, 62111, 62277, 62360, 66679, 68671, 68920, 73239, 73322, 75231, 75314, 75480, 75563, 79799, 81957, 82040, 88600, 95160, 95243, 99728, 101637, 101720, 101886, 101969, 108280, 108529, 114840, 114923, 115089, 115172, 119657, 119823, 119906, 121068, 121151, 121317, 121400, 121815, 121898, 122064, 122147, 126466, 127711, 127960, 128458, 128707, 133026, 133109, 134271, 134354, 134520, 134603, 135018, 135101, 135267, 135350, 139586, 140997, 141080, 141744, 141827, 147640, 148387, 154200, 154283, 154947, 155030, 159515, 160677, 160760, 160926, 161009, 161424, 161507, 161673, 161756, 167320, 167569, 168067, 168316, 173880, 173963, 174129, 174212, 174627, 174710, 174876, 174959, 179444, 179610, 179693, 180108, 180191, 180357, 180440, 186253, 186751, 187000, 192813, 192896, 193311, 193394, 193560, 193643, 199373, 200037, 200120, 206680, 213240, 213323, 219302, 219717, 219800, 219966, 220049, 226360, 226609, 232920, 233003, 233169, 233252, 239231, 239397, 239480, 246040, 252600, 252683, 259160, 279089, 299018, 299184, 299267, 305827, 312387, 312470, 318947],
      
     winningLines.take 222) := by decide

theorem dirLoop_step_51 :
    dirLoop (1, 2, 2, 0) directions
      [83, 249, 332, 747, 830, 996, 1079, 2241, 2324, 2490, 2573, 2988, 3071, 3237, 3320, 6892, 7390, 7639, 8884, 9133, 9631, 9880, 13452, 13535, 13950, 14033, 14199, 14282, 15444, 15527, 15693, 15776, 16191, 16274, 16440, 16523, 20012, 20676, 20759, 22170, 22253, 22917, 23000, 27319, 28813, 29560, 33879, 33962, 35373, 35456, 36120, 36203, 39941, 40356, 40439, 40605, 40688, 41850, 41933, 42099, 42182, 42597, 42680, 42846, 42929, 46999, 47248, 48493, 48742, 49240, 49489, 53559, 53642, 53808, 53891, 55053, 55136, 55302, 55385, 55800, 55883, 56049, 56132, 59870, 60036, 60119, 62028, 62111, 62277, 62360, 66679, 68671, 68920, 73239, 73322, 75231, 75314, 75480, 75563, 79799, 81957, 82040, 88600, 95160, 95243, 99728, 101637, 101720, 101886, 101969, 108280, 108529, 114840, 114923, 115089, 115172, 119657, 119823, 119906, 121068, 121151, 121317, 121400, 121815, 121898, 122064, 122147, 126466, 127711, 127960, 128458, 128707, 133026, 133109, 134271, 134354, 134520, 134603, 135018, 135101, 135267, 135350, 139586, 140997, 141080, 141744, 141827, 147640, 148387, 154200, 154283, 154947, 155030, 159515, 160677, 160760, 160926, 161009, 161424, 161507, 161673, 161756, 167320, 167569, 168067, 168316, 173880, 173963, 174129, 174212, 174627, 174710, 174876, 174959, 179444, 179610, 179693, 180108, 180191, 180357, 180440, 186253, 186751, 187000, 192813, 192896, 193311, 193394, 193560, 193643, 199373, 200037, 200120, 206680, 213240, 213323, 219302, 219717, 219800, 219966, 220049, 226360, 226609, 232920, 233003, 233169, 233252, 239231, 239397, 239480, 246040, 252600, 252683, 259160, 279089, 299018, 299184, 299267, 305827, 312387, 312470, 318947]
      
      (winningLines.take 222) =
    ([83, 249, 332, 747, 830, 996, 1079, 2241, 2324, 2490, 2573, 2988, 3071, 3237, 3320, 6892, 7390, 7639, 8884, 9133, 9631, 9880, 13452, 13535, 13950, 14033, 14199, 14282, 15444, 15527, 15693, 15776, 16191, 16274, 16440, 16523, 20012, 20676, 20759, 22170, 22253, 22917, 23000, 27319, 28813, 29560, 33879, 33962, 35373, 35456, 36120, 36203, 39941, 40356, 40439, 40605, 40688, 41850, 41933, 42099, 42182, 42597, 42680, 42846, 42929, 46999, 47248, 48493, 48742, 49240, 49489, 53559, 53642, 53808, 53891, 55053, 55136, 55302, 55385, 55800, 55883, 56049, 56132, 59870, 60036, 60119, 62028, 62111, 62277, 62360, 66679, 68671, 68920, 73239, 73322, 75231, 75314, 75480, 75563, 79799, 81957, 82040, 88600, 95160, 95243, 99728, 101637, 101720, 101886, 101969, 108280, 108529, 114840, 114923, 115089, 115172, 119657, 119823, 119906, 121068, 121151, 121317, 121400, 121815, 121898, 122064, 122147, 126466, 127711, 127960, 128458, 128707, 133026, 133109, 134271, 134354, 134520, 134603, 135018, 135101, 135267, 135350, 139586, 140997, 141080, 141744, 141827, 147640, 148387, 154200, 154283, 154947, 155030, 159515, 160677, 160760, 160926, 161009, 161424, 161507, 161673, 161756, 167320, 167569, 168067, 168316, 173880, 173963, 174129, 174212, 174627, 174710, 174876, 174959, 179444, 179610, 179693, 180108, 180191, 180357, 180440, 186253, 186751, 187000, 192813, 192896, 193311, 193394, 193560, 193643, 199373, 200037, 200120, 206680, 213240, 213323, 219302, 219717, 219800, 219966, 220049, 226360, 226609, 232920, 233003, 233169, 233252, 239231, 239397, 239480, 246040, 252600, 252683, 259160, 279089, 299018, 299184, 299267, 305827, 312387, 312470, 318947, 338876],
      
     winningLines.take 223) := by decide

theorem dirLoop_step_52 :
    dirLoop (1, 2, 2, 1) directions
      [83, 249, 332, 747, 830, 996, 1079, 2241, 2324, 2490, 2573, 2988, 3071, 3237, 3320, 6892, 7390, 7639, 8884, 9133, 9631, 9880, 13452, 13535, 13950, 14033, 14199, 14282, 15444, 15527, 15693, 15776, 16191, 16274, 16440, 16523, 20012, 20676, 20759, 22170, 22253, 22917, 23000, 27319, 28813, 29560, 33879, 33962, 35373, 35456, 36120, 36203, 39941, 40356, 40439, 40605, 40688, 41850, 41933, 42099, 42182, 42597, 42680, 42846, 42929, 46999, 47248, 48493, 48742, 49240, 49489, 53559, 53642, 53808, 53891, 55053, 55136, 55302, 55385, 55800, 55883, 56049, 56132, 59870, 60036, 60119, 62028, 62111, 62277, 62360, 66679, 68671, 68920, 73239, 73322, 75231, 75314, 75480, 75563, 79799, 81957, 82040, 88600, 95160, 95243, 99728, 101637, 101720, 101886, 101969, 108280, 108529, 114840, 114923, 115089, 115172, 119657, 119823, 119906, 121068, 121151, 121317, 121400, 121815, 121898, 122064, 122147, 126466, 127711, 127960, 128458, 128707, 133026, 133109, 134271, 134354, 134520, 134603, 135018, 135101, 135267, 135350, 139586, 140997, 141080, 141744, 141827, 147640, 148387, 154200, 154283, 154947, 155030, 159515, 160677, 160760, 160926, 161009, 161424, 161507, 161673, 161756, 167320, 167569, 168067, 168316, 173880, 173963, 174129, 174212, 174627, 174710, 174876, 174959, 179444, 179610, 179693, 180108, 180191, 180357, 180440, 186253, 186751, 187000, 192813, 192896, 193311, 193394, 193560, 193643, 199373, 200037, 200120, 206680, 213240, 213323, 219302, 219717, 219800, 219966, 220049, 226360, 226609, 232920, 233003, 233169, 233252, 239231, 239397, 239480, 246040, 252600, 252683, 259160, 279089, 299018, 299184, 299267, 305827, 312387, 312470, 318947, 338876]
      
      (winningLines.take 223) =
    ([83, 249, 332, 747, 830, 996, 1079, 2241, 2324, 2490, 2573, 2988, 3071, 3237, 3320, 6892, 7390, 7639, 8884, 9133, 9631, 9880, 13452, 13535, 13950, 14033, 14199, 14282, 15444, 15527, 15693, 15776, 16191, 16274, 16440, 16523, 20012, 20676, 20759, 22170, 22253, 22917, 23000, 27319, 28813, 29560, 33879, 33962, 35373, 35456, 36120, 36203, 39941, 40356, 40439, 40605, 40688, 41850, 41933, 42099, 42182, 42597, 42680, 42846, 42929, 46999, 47248, 48493, 48742, 49240, 49489, 53559, 53642, 53808, 53891, 55053, 55136, 55302, 55385, 55800, 55883, 56049, 56132, 59870, 60036, 60119, 62028, 62111, 62277, 62360, 66679, 68671, 68920, 73239, 73322, 75231, 75314, 75480, 75563, 79799, 81957, 82040, 88600, 95160, 95243, 99728, 101637, 101720, 101886, 101969, 108280, 108529, 114840, 114923, 115089, 115172, 119657, 119823, 119906, 121068, 121151, 121317, 121400, 121815, 121898, 122064, 122147, 126466, 127711, 127960, 128458, 128707, 133026, 133109, 134271, 134354, 134520, 134603, 135018, 135101, 135267, 135350, 139586, 140997, 141080, 141744, 141827, 147640, 148387, 154200, 154283, 154947, 155030, 159515, 160677, 160760, 160926, 161009, 161424, 161507, 161673, 161756, 167320, 167569, 168067, 168316, 173880, 173963, 174129, 174212, 174627, 174710, 174876, 174959, 179444, 179610, 179693, 180108, 180191, 180357, 180440, 186253, 186751, 187000, 192813, 192896, 193311, 193394, 193560, 193643, 199373, 200037, 200120, 206680, 213240, 213323, 219302, 219717, 219800, 219966, 220049, 226360, 226609, 232920, 233003, 233169, 233252, 239231, 239397, 239480, 246040, 252600, 252683, 259160, 279089, 299018, 299184, 299267, 305827, 312387, 312470, 318947, 338876],
      
     winningLines.take 223) := by decide

theorem dirLoop_step_53 :
    dirLoop (1, 2, 2, 2) directions
      [83, 249, 332, 747, 830, 996, 1079, 2241, 2324, 2490, 2573, 2988, 3071, 3237, 3320, 6892, 7390, 7639, 8884, 9133, 9631, 9880, 13452, 13535, 13950, 14033, 14199, 14282, 15444, 15527, 15693, 15776, 16191, 16274, 16440, 16523, 20012, 20676, 20759, 22170, 22253, 22917, 23000, 27319, 28813, 29560, 33879, 33962, 35373, 35456, 36120, 36203, 39941, 40356, 40439, 40605, 40688, 41850, 41933, 42099, 42182, 42597, 42680, 42846, 42929, 46999, 47248, 48493, 48742, 49240, 49489, 53559, 53642, 53808, 53891, 55053, 55136, 55302, 55385, 55800, 55883, 56049, 56132, 59870, 60036, 60119, 62028, 62111, 62277, 62360, 66679, 68671, 68920, 73239, 73322, 75231, 75314, 75480, 75563, 79799, 81957, 82040, 88600, 95160, 95243, 99728, 101637, 101720, 101886, 101969, 108280, 108529, 114840, 114923, 115089, 115172, 119657, 119823, 119906, 121068, 121151, 121317, 121400, 121815, 121898, 122064, 122147, 126466, 127711, 127960, 128458, 128707, 133026, 133109, 134271, 134354, 134520, 134603, 135018, 135101, 135267, 135350, 139586, 140997, 141080, 141744, 141827, 147640, 148387, 154200, 154283, 154947, 155030, 159515, 160677, 160760, 160926, 161009, 161424, 161507, 161673, 161756, 167320, 167569, 168067, 168316, 173880, 173963, 174129, 174212, 174627, 174710, 174876, 174959, 179444, 179610, 179693, 180108, 180191, 180357, 180440, 186253, 186751, 187000, 192813, 192896, 193311, 193394, 193560, 193643, 199373, 200037, 200120, 206680, 213240, 213323, 219302, 219717, 219800, 219966, 220049, 226360, 226609, 232920, 233003, 233169, 233252, 239231, 239397, 239480, 246040, 252600, 252683, 259160, 279089, 299018, 299184, 299267, 305827, 312387, 312470, 318947, 338876]
      
      (winningLines.take 223) =
    ([83, 249, 332, 747, 830, 996, 1079, 2241, 2324, 2490, 2573, 2988, 3071, 3237, 3320, 6892, 7390, 7639, 8884, 9133, 9631, 9880, 13452, 13535, 13950, 14033, 14199, 14282, 15444, 15527, 15693, 15776, 16191, 16274, 16440, 16523, 20012, 20676, 20759, 22170, 22253, 22917, 23000, 27319, 28813, 29560, 33879, 33962, 35373, 35456, 36120, 36203, 39941, 40356, 40439, 40605, 40688, 41850, 41933, 42099, 42182, 42597, 42680, 42846, 42929, 46999, 47248, 48493, 48742, 49240, 49489, 53559, 53642, 53808, 53891, 55053, 55136, 55302, 55385, 55800, 55883, 56049, 56132, 59870, 60036, 60119, 62028, 62111, 62277, 62360, 66679, 68671, 68920, 73239, 73322, 75231, 75314, 75480, 75563, 79799, 81957, 82040, 88600, 95160, 95243, 99728, 101637, 101720, 101886, 101969, 108280, 108529, 114840, 114923, 115089, 115172, 119657, 119823, 119906, 121068, 121151, 121317, 121400, 121815, 121898, 122064, 122147, 126466, 127711, 127960, 128458, 128707, 133026, 133109, 134271, 134354, 134520, 134603, 135018, 135101, 135267, 135350, 139586, 140997, 141080, 141744, 141827, 147640, 148387, 154200, 154283, 154947, 155030, 159515, 160677, 160760, 160926, 161009, 161424, 161507, 161673, 161756, 167320, 167569, 168067, 168316, 173880, 173963, 174129, 174212, 174627, 174710, 174876, 174959, 179444, 179610, 179693, 180108, 180191, 180357, 180440, 186253, 186751, 187000, 192813, 192896, 193311, 193394, 193560, 193643, 199373, 200037, 200120, 206680, 213240, 213323, 219302, 219717, 219800, 219966, 220049, 226360, 226609, 232920, 233003, 233169, 233252, 239231, 239397, 239480, 246040, 252600, 252683, 259160, 279089, 299018, 299184, 299267, 305827, 312387, 312470, 318947, 338876],
      
     winningLines.take 223) := by decide

theorem dirLoop_step_54 :
    dirLoop (2, 0, 0, 0) directions
      [83, 249, 332, 747, 830, 996, 1079, 2241, 2324, 2490, 2573, 2988, 3071, 3237, 3320, 6892, 7390, 7639, 8884, 9133, 9631, 9880, 13452, 13535, 13950, 14033, 14199, 14282, 15444, 15527, 15693, 15776, 16191, 16274, 16440, 16523, 20012, 20676, 20759, 22170, 22253, 22917, 23000, 27319, 28813, 29560, 33879, 33962, 35373, 35456, 36120, 36203, 39941, 40356, 40439, 40605, 40688, 41850, 41933, 42099, 42182, 42597, 42680, 42846, 42929, 46999, 47248, 48493, 48742, 49240, 49489, 53559, 53642, 53808, 53891, 55053, 55136, 55302, 55385, 55800, 55883, 56049, 56132, 59870, 60036, 60119, 62028, 62111, 62277, 62360, 66679, 68671, 68920, 73239, 73322, 75231, 75314, 75480, 75563, 79799, 81957, 82040, 88600, 95160, 95243, 99728, 101637, 101720, 101886, 101969, 108280, 108529, 114840, 114923, 115089, 115172, 119657, 119823, 119906, 121068, 121151, 121317, 121400, 121815, 121898, 122064, 122147, 126466, 127711, 127960, 128458, 128707, 133026, 133109, 134271, 134354, 134520, 134603, 135018, 135101, 135267, 135350, 139586, 140997, 141080, 141744, 141827, 147640, 148387, 154200, 154283, 154947, 155030, 159515, 160677, 160760, 160926, 161009, 161424, 161507, 161673, 161756, 167320, 167569, 168067, 168316, 173880, 173963, 174129, 174212, 174627, 174710, 174876, 174959, 179444, 179610, 179693, 180108, 180191, 180357, 180440, 186253, 186751, 187000, 192813, 192896, 193311, 193394, 193560, 193643, 199373, 200037, 200120, 206680, 213240, 213323, 219302, 219717, 219800, 219966, 220049, 226360, 226609, 232920, 233003, 233169, 233252, 239231, 239397, 239480, 246040, 252600, 252683, 259160, 279089, 299018, 299184, 299267, 305827, 312387, 312470, 318947, 338876]
      
      (winningLines.take 223) =
    ([83, 249, 332, 747, 830, 996, 1079, 2241, 2324, 2490, 2573, 2988, 3071, 3237, 3320, 6892, 7390, 7639, 8884, 9133, 9631, 9880, 13452, 13535, 13950, 14033, 14199, 14282, 15444, 15527, 15693, 15776, 16191, 16274, 16440, 16523, 20012, 20676, 20759, 22170, 22253, 22917, 23000, 27319, 28813, 29560, 33879, 33962, 35373, 35456, 36120, 36203, 39941, 40356, 40439, 40605, 40688, 41850, 41933, 42099, 42182, 42597, 42680, 42846, 42929, 46999, 47248, 48493, 48742, 49240, 49489, 53559, 53642, 53808, 53891, 55053, 55136, 55302, 55385, 55800, 55883, 56049, 56132, 59870, 60036, 60119, 62028, 62111, 62277, 62360, 66679, 68671, 68920, 73239, 73322, 75231, 75314, 75480, 75563, 79799, 81957, 82040, 88600, 95160, 95243, 99728, 101637, 101720, 101886, 101969, 108280, 108529, 114840, 114923, 115089, 115172, 119657, 119823, 119906, 121068, 121151, 121317, 121400, 121815, 121898, 122064, 122147, 126466, 127711, 127960, 128458, 128707, 133026, 133109, 134271, 134354, 134520, 134603, 135018, 135101, 135267, 135350, 139586, 140997, 141080, 141744, 141827, 147640, 148387, 154200, 154283, 154947, 155030, 159515, 160677, 160760, 160926, 161009, 161424, 161507, 161673, 161756, 167320, 167569, 168067, 168316, 173880, 173963, 174129, 174212, 174627, 174710, 174876, 174959, 179444, 179610, 179693, 180108, 180191, 180357, 180440, 186253, 186751, 187000, 192813, 192896, 193311, 193394, 193560, 193643, 199373, 200037, 200120, 206680, 213240, 213323, 219302, 219717, 219800, 219966, 220049, 226360, 226609, 232920, 233003, 233169, 233252, 239231, 239397, 239480, 246040, 252600, 252683, 259160, 279089, 299018, 299184, 299267, 305827, 312387, 312470, 318947, 338876, 358805, 358971, 359054, 359469, 359552, 359718, 359801],
      
     winningLines.take 230) := by decide

theorem dirLoop_step_55 :
    dirLoop (2, 0, 0, 1) directions
      [83, 249, 332, 747, 830, 996, 1079, 2241, 2324, 2490, 2573, 2988, 3071, 3237, 3320, 6892, 7390, 7639, 8884, 9133, 9631, 9880, 13452, 13535, 13950, 14033, 14199, 14282, 15444, 15527, 15693, 15776, 16191, 16274, 16440, 16523, 20012, 20676, 20759, 22170, 22253, 22917, 23000, 27319, 28813, 29560, 33879, 33962, 35373, 35456, 36120, 36203, 39941, 40356, 40439, 40605, 40688, 41850, 41933, 42099, 42182, 42597, 42680, 42846, 42929, 46999, 47248, 48493, 48742, 49240, 49489, 53559, 53642, 53808, 53891, 55053, 55136, 55302, 55385, 55800, 55883, 56049, 56132, 59870, 60036, 60119, 62028, 62111, 62277, 62360, 66679, 68671, 68920, 73239, 73322, 75231, 75314, 75480, 75563, 79799, 81957, 82040, 88600, 95160, 95243, 99728, 101637, 101720, 101886, 101969, 108280, 108529, 114840, 114923, 115089, 115172, 119657, 119823, 119906, 121068, 121151, 121317, 121400, 121815, 121898, 122064, 122147, 126466, 127711, 127960, 128458, 128707, 133026, 133109, 134271, 134354, 134520, 134603, 135018, 135101, 135267, 135350, 139586, 140997, 141080, 141744, 141827, 147640, 148387, 154200, 154283, 154947, 155030, 159515, 160677, 160760, 160926, 161009, 161424, 161507, 161673, 161756, 167320, 167569, 168067, 168316, 173880, 173963, 174129, 174212, 174627, 174710, 174876, 174959, 179444, 179610, 179693, 180108, 180191, 180357, 180440, 186253, 186751, 187000, 192813, 192896, 193311, 193394, 193560, 193643, 199373, 200037, 200120, 206680, 213240, 213323, 219302, 219717, 219800, 219966, 220049, 226360, 226609, 232920, 233003, 233169, 233252, 239231, 239397, 239480, 246040, 252600, 252683, 259160, 279089, 299018, 299184, 299267, 305827, 312387, 312470, 318947, 338876, 358805, 358971, 359054, 359469, 359552, 359718, 359801]
      
      (winningLines.take 230) =
    ([83, 249, 332, 747, 830, 996, 1079, 2241, 2324, 2490, 2573, 2988, 3071, 3237, 3320, 6892, 7390, 7639, 8884, 9133, 9631, 9880, 13452, 13535, 13950, 14033, 14199, 14282, 15444, 15527, 15693, 15776, 16191, 16274, 16440, 16523, 20012, 20676, 20759, 22170, 22253, 22917, 23000, 27319, 28813, 29560, 33879, 33962, 35373, 35456, 36120, 36203, 39941, 40356, 40439, 40605, 40688, 41850, 41933, 42099, 42182, 42597, 42680, 42846, 42929, 46999, 47248, 48493, 48742, 49240, 49489, 53559, 53642, 53808, 53891, 55053, 55136, 55302, 55385, 55800, 55883, 56049, 56132, 59870, 60036, 60119, 62028, 62111, 62277, 62360, 66679, 68671, 68920, 73239, 73322, 75231, 75314, 75480, 75563, 79799, 81957, 82040, 88600, 95160, 95243, 99728, 101637, 101720, 101886, 101969, 108280, 108529, 114840, 114923, 115089, 115172, 119657, 119823, 119906, 121068, 121151, 121317, 121400, 121815, 121898, 122064, 122147, 126466, 127711, 127960, 128458, 128707, 133026, 133109, 134271, 134354, 134520, 134603, 135018, 135101, 135267, 135350, 139586, 140997, 141080, 141744, 141827, 147640, 148387, 154200, 154283, 154947, 155030, 159515, 160677, 160760, 160926, 161009, 161424, 161507, 161673, 161756, 167320, 167569, 168067, 168316, 173880, 173963, 174129, 174212, 174627, 174710, 174876, 174959, 179444, 179610, 179693, 180108, 180191, 180357, 180440, 186253, 186751, 187000, 192813, 192896, 193311, 193394, 193560, 193643, 199373, 200037, 200120, 206680, 213240, 213323, 219302, 219717, 219800, 219966, 220049, 226360, 226609, 232920, 233003, 233169, 233252, 239231, 239397, 239480, 246040, 252600, 252683, 259160, 279089, 299018, 299184, 299267, 305827, 312387, 312470, 318947, 338876, 358805, 358971, 359054, 359469, 359552, 359718, 359801, 365614, 366112, 366361],
      
     winningLines.take 233) := by decide

theorem dirLoop_step_56 :
    dirLoop (2, 0, 0, 2) directions
      [83, 249, 332, 747, 830, 996, 1079, 2241, 2324, 2490, 2573, 2988, 3071, 3237, 3320, 6892, 7390, 7639, 8884, 9133, 9631, 9880, 13452, 13535, 13950, 14033, 14199, 14282, 15444, 15527, 15693, 15776, 16191, 16274, 16440, 16523, 20012, 20676, 20759, 22170, 22253, 22917, 23000, 27319, 28813, 29560, 33879, 33962, 35373, 35456, 36120, 36203, 39941, 40356, 40439, 40605, 40688, 41850, 41933, 42099, 42182, 42597, 42680, 42846, 42929, 46999, 47248, 48493, 48742, 49240, 49489, 53559, 53642, 53808, 53891, 55053, 55136, 55302, 55385, 55800, 55883, 56049, 56132, 59870, 60036, 60119, 62028, 62111, 62277, 62360, 66679, 68671, 68920, 73239, 73322, 75231, 75314, 75480, 75563, 79799, 81957, 82040, 88600, 95160, 95243, 99728, 101637, 101720, 101886, 101969, 108280, 108529, 114840, 114923, 115089, 115172, 119657, 119823, 119906, 121068, 121151, 121317, 121400, 121815, 121898, 122064, 122147, 126466, 127711, 127960, 128458, 128707, 133026, 133109, 134271, 134354, 134520, 134603, 135018, 135101, 135267, 135350, 139586, 140997, 141080, 141744, 141827, 147640, 148387, 154200, 154283, 154947, 155030, 159515, 160677, 160760, 160926, 161009, 161424, 161507, 161673, 161756, 167320, 167569, 168067, 168316, 173880, 173963, 174129, 174212, 174627, 174710, 174876, 174959, 179444, 179610, 179693, 180108, 180191, 180357, 180440, 186253, 186751, 187000, 192813, 192896, 193311, 193394, 193560, 193643, 199373, 200037, 200120, 206680, 213240, 213323, 219302, 219717, 219800, 219966, 220049, 226360, 226609, 232920, 233003, 233169, 233252, 239231, 239397, 239480, 246040, 252600, 252683, 259160, 279089, 299018, 299184, 299267, 305827, 312387, 312470, 318947, 338876, 358805, 358971, 359054, 359469, 359552, 359718, 359801, 365614, 366112, 366361]
      
      (winningLines.take 233) =
    ([83, 249, 332, 747, 830, 996, 1079, 2241, 2324, 2490, 2573, 2988, 3071, 3237, 3320, 6892, 7390, 7639, 8884, 9133, 9631, 9880, 13452, 13535, 13950, 14033, 14199, 14282, 15444, 15527, 15693, 15776, 16191, 16274, 16440, 16523, 20012, 20676, 20759, 22170, 22253, 22917, 23000, 27319, 28813, 29560, 33879, 33962, 35373, 35456, 36120, 36203, 39941, 40356, 40439, 40605, 40688, 41850, 41933, 42099, 42182, 42597, 42680, 42846, 42929, 46999, 47248, 48493, 48742, 49240, 49489, 53559, 53642, 53808, 53891, 55053, 55136, 55302, 55385, 55800, 55883, 56049, 56132, 59870, 60036, 60119, 62028, 62111, 62277, 62360, 66679, 68671, 68920, 73239, 73322, 75231, 75314, 75480, 75563, 79799, 81957, 82040, 88600, 95160, 95243, 99728, 101637, 101720, 101886, 101969, 108280, 108529, 114840, 114923, 115089, 115172, 119657, 119823, 119906, 121068, 121151, 121317, 121400, 121815, 121898, 122064, 122147, 126466, 127711, 127960, 128458, 128707, 133026, 133109, 134271, 134354, 134520, 134603, 135018, 135101, 135267, 135350, 139586, 140997, 141080, 141744, 141827, 147640, 148387, 154200, 154283, 154947, 155030, 159515, 160677, 160760, 160926, 161009, 161424, 161507, 161673, 161756, 167320, 167569, 168067, 168316, 173880, 173963, 174129, 174212, 174627, 174710, 174876, 174959, 179444, 179610, 179693, 180108, 180191, 180357, 180440, 186253, 186751, 187000, 192813, 192896, 193311, 193394, 193560, 193643, 199373, 200037, 200120, 206680, 213240, 213323, 219302, 219717, 219800, 219966, 220049, 226360, 226609, 232920, 233003, 233169, 233252, 239231, 239397, 239480, 246040, 252600, 252683, 259160, 279089, 299018, 299184, 299267, 305827, 312387, 312470, 318947, 338876, 358805, 358971, 359054, 359469, 359552, 359718, 359801, 365614, 366112, 366361, 372174, 372257, 372672, 372755, 372921, 373004],
      
     winningLines.take 239) := by decide

theorem dirLoop_step_57 :
    dirLoop (2, 0, 1, 0) directions
      [83, 249, 332, 747, 830, 996, 1079, 2241, 2324, 2490, 2573, 2988, 3071, 3237, 3320, 6892, 7390, 7639, 8884, 9133, 9631, 9880, 13452, 13535, 13950, 14033, 14199, 14282, 15444, 15527, 15693, 15776, 16191, 16274, 16440, 16523, 20012, 20676, 20759, 22170, 22253, 22917, 23000, 27319, 28813, 29560, 33879, 33962, 35373, 35456, 36120, 36203, 39941, 40356, 40439, 40605, 40688, 41850, 41933, 42099, 42182, 42597, 42680, 42846, 42929, 46999, 47248, 48493, 48742, 49240, 49489, 53559, 53642, 53808, 53891, 55053, 55136, 55302, 55385, 55800, 55883, 56049, 56132, 59870, 60036, 60119, 62028, 62111, 62277, 62360, 66679, 68671, 68920, 73239, 73322, 75231, 75314, 75480, 75563, 79799, 81957, 82040, 88600, 95160, 95243, 99728, 101637, 101720, 101886, 101969, 108280, 108529, 114840, 114923, 115089, 115172, 119657, 119823, 119906, 121068, 121151, 121317, 121400, 121815, 121898, 122064, 122147, 126466, 127711, 127960, 128458, 128707, 133026, 133109, 134271, 134354, 134520, 134603, 135018, 135101, 135267, 135350, 139586, 140997, 141080, 141744, 141827, 147640, 148387, 154200, 154283, 154947, 155030, 159515, 160677, 160760, 160926, 161009, 161424, 161507, 161673, 161756, 167320, 167569, 168067, 168316, 173880, 173963, 174129, 174212, 174627, 174710, 174876, 174959, 179444, 179610, 179693, 180108, 180191, 180357, 180440, 186253, 186751, 187000, 192813, 192896, 193311, 193394, 193560, 193643, 199373, 200037, 200120, 206680, 213240, 213323, 219302, 219717, 219800, 219966, 220049, 226360, 226609, 232920, 233003, 233169, 233252, 239231, 239397, 239480, 246040, 252600, 252683, 259160, 279089, 299018, 299184, 299267, 305827, 312387, 312470, 318947, 338876, 358805, 358971, 359054, 359469, 359552, 359718, 359801, 365614, 366112, 366361, 372174, 372257, 372672, 372755, 372921, 373004]
      
      (winningLines.take 239) =
    ([83, 249, 332, 747, 830, 996, 1079, 2241, 2324, 2490, 2573, 2988, 3071, 3237, 3320, 6892, 7390, 7639, 8884, 9133, 9631, 9880, 13452, 13535, 13950, 14033, 14199, 14282, 15444, 15527, 15693, 15776, 16191, 16274, 16440, 16523, 20012, 20676, 20759, 22170, 22253, 22917, 23000, 27319, 28813, 29560, 33879, 33962, 35373, 35456, 36120, 36203, 39941, 40356, 40439, 40605, 40688, 41850, 41933, 42099, 42182, 42597, 42680, 42846, 42929, 46999, 47248, 48493, 48742, 49240, 49489, 53559, 53642, 53808, 53891, 55053, 55136, 55302, 55385, 55800, 55883, 56049, 56132, 59870, 60036, 60119, 62028, 62111, 62277, 62360, 66679, 68671, 68920, 73239, 73322, 75231, 75314, 75480, 75563, 79799, 81957, 82040, 88600, 95160, 95243, 99728, 101637, 101720, 101886, 101969, 108280, 108529, 114840, 114923, 115089, 115172, 119657, 119823, 119906, 121068, 121151, 121317, 121400, 121815, 121898, 122064, 122147, 126466, 127711, 127960, 128458, 128707, 133026, 133109, 134271, 134354, 134520, 134603, 135018, 135101, 135267, 135350, 139586, 140997, 141080, 141744, 141827, 147640, 148387, 154200, 154283, 154947, 155030, 159515, 160677, 160760, 160926, 161009, 161424, 161507, 161673, 161756, 167320, 167569, 168067, 168316, 173880, 173963, 174129, 174212, 174627, 174710, 174876, 174959, 179444, 179610, 179693, 180108, 180191, 180357, 180440, 186253, 186751, 187000, 192813, 192896, 193311, 193394, 193560, 193643, 199373, 200037, 200120, 206680, 213240, 213323, 219302, 219717, 219800, 219966, 220049, 226360, 226609, 232920, 233003, 233169, 233252, 239231, 239397, 239480, 246040, 252600, 252683, 259160, 279089, 299018, 299184, 299267, 305827, 312387, 312470, 318947, 338876, 358805, 358971, 359054, 359469, 359552, 359718, 359801, 365614, 366112, 366361, 372174, 372257, 372672, 372755, 372921, 373004, 378734, 379398, 379481],
      
     winningLines.take 242) := by decide

theorem dirLoop_step_58 :
    dirLoop (2, 0, 1, 1) directions
      [83, 249, 332, 747, 830, 996, 1079, 2241, 2324, 2490, 2573, 2988, 3071, 3237, 3320, 6892, 7390, 7639, 8884, 9133, 9631, 9880, 13452, 13535, 13950, 14033, 14199, 14282, 15444, 15527, 15693, 15776, 16191, 16274, 16440, 16523, 20012, 20676, 20759, 22170, 22253, 22917, 23000, 27319, 28813, 29560, 33879, 33962, 35373, 35456, 36120, 36203, 39941, 40356, 40439, 40605, 40688, 41850, 41933, 42099, 42182, 42597, 42680, 42846, 42929, 46999, 47248, 48493, 48742, 49240, 49489, 53559, 53642, 53808, 53891, 55053, 55136, 55302, 55385, 55800, 55883, 56049, 56132, 59870, 60036, 60119, 62028, 62111, 62277, 62360, 66679, 68671, 68920, 73239, 73322, 75231, 75314, 75480, 75563, 79799, 81957, 82040, 88600, 95160, 95243, 99728, 101637, 101720, 101886, 101969, 108280, 108529, 114840, 114923, 115089, 115172, 119657, 119823, 119906, 121068, 121151, 121317, 121400, 121815, 121898, 122064, 122147, 126466, 127711, 127960, 128458, 128707, 133026, 133109, 134271, 134354, 134520, 134603, 135018, 135101, 135267, 135350, 139586, 140997, 141080, 141744, 141827, 147640, 148387, 154200, 154283, 154947, 155030, 159515, 160677, 160760, 160926, 161009, 161424, 161507, 161673, 161756, 167320, 167569, 168067, 168316, 173880, 173963, 174129, 174212, 174627, 174710, 174876, 174959, 179444, 179610, 179693, 180108, 180191, 180357, 180440, 186253, 186751, 187000, 192813, 192896, 193311, 193394, 193560, 193643, 199373, 200037, 200120, 206680, 213240, 213323, 219302, 219717, 219800, 219966, 220049, 226360, 226609, 232920, 233003, 233169, 233252, 239231, 239397, 239480, 246040, 252600, 252683, 259160, 279089, 299018, 299184, 299267, 305827, 312387, 312470, 318947, 338876, 358805, 358971, 359054, 359469, 359552, 359718, 359801, 365614, 366112, 366361, 372174, 372257, 372672, 372755, 372921, 373004, 378734, 379398, 379481]
      
      (winningLines.take 242) =
    ([83, 249, 332, 747, 830, 996, 1079, 2241, 2324, 2490, 2573, 2988, 3071, 3237, 3320, 6892, 7390, 7639, 8884, 9133, 9631, 9880, 13452, 13535, 13950, 14033, 14199, 14282, 15444, 15527, 15693, 15776, 16191, 16274, 16440, 16523, 20012, 20676, 20759, 22170, 22253, 22917, 23000, 27319, 28813, 29560, 33879, 33962, 35373, 35456, 36120, 36203, 39941, 40356, 40439, 40605, 40688, 41850, 41933, 42099, 42182, 42597, 42680, 42846, 42929, 46999, 47248, 48493, 48742, 49240, 49489, 53559, 53642, 53808, 53891, 55053, 55136, 55302, 55385, 55800, 55883, 56049, 56132, 59870, 60036, 60119, 62028, 62111, 62277, 62360, 66679, 68671, 68920, 73239, 73322, 75231, 75314, 75480, 75563, 79799, 81957, 82040, 88600, 95160, 95243, 99728, 101637, 101720, 101886, 101969, 108280, 108529, 114840, 114923, 115089, 115172, 119657, 119823, 119906, 121068, 121151, 121317, 121400, 121815, 121898, 122064, 122147, 126466, 127711, 127960, 128458, 128707, 133026, 133109, 134271, 134354, 134520, 134603, 135018, 135101, 135267, 135350, 139586, 140997, 141080, 141744, 141827, 147640, 148387, 154200, 154283, 154947, 155030, 159515, 160677, 160760, 160926, 161009, 161424, 161507, 161673, 161756, 167320, 167569, 168067, 168316, 173880, 173963, 174129, 174212, 174627, 174710, 174876, 174959, 179444, 179610, 179693, 180108, 180191, 180357, 180440, 186253, 186751, 187000, 192813, 192896, 193311, 193394, 193560, 193643, 199373, 200037, 200120, 206680, 213240, 213323, 219302, 219717, 219800, 219966, 220049, 226360, 226609, 232920, 233003, 233169, 233252, 239231, 239397, 239480, 246040, 252600, 252683, 259160, 279089, 299018, 299184, 299267, 305827, 312387, 312470, 318947, 338876, 358805, 358971, 359054, 359469, 359552, 359718, 359801, 365614, 366112, 366361, 372174, 372257, 372672, 372755, 372921, 373004, 378734, 379398, 379481, 386041],
      
     winningLines.take 243) := by decide

theorem dirLoop_step_59 :
    dirLoop (2, 0, 1, 2) directions
      [83, 249, 332, 747, 830, 996, 1079, 2241, 2324, 2490, 2573, 2988, 3071, 3237, 3320, 6892, 7390, 7639, 8884, 9133, 9631, 9880, 13452, 13535, 13950, 14033, 14199, 14282, 15444, 15527, 15693, 15776, 16191, 16274, 16440, 16523, 20012, 20676, 20759, 22170, 22253, 22917, 23000, 27319, 28813, 29560, 33879, 33962, 35373, 35456, 36120, 36203, 39941, 40356, 40439, 40605, 40688, 41850, 41933, 42099, 42182, 42597, 42680, 42846, 42929, 46999, 47248, 48493, 48742, 49240, 49489, 53559, 53642, 53808, 53891, 55053, 55136, 55302, 55385, 55800, 55883, 56049, 56132, 59870, 60036, 60119, 62028, 62111, 62277, 62360, 66679, 68671, 68920, 73239, 73322, 75231, 75314, 75480, 75563, 79799, 81957, 82040, 88600, 95160, 95243, 99728, 101637, 101720, 101886, 101969, 108280, 108529, 114840, 114923, 115089, 115172, 119657, 119823, 119906, 121068, 121151, 121317, 121400, 121815, 121898, 122064, 122147, 126466, 127711, 127960, 128458, 128707, 133026, 133109, 134271, 134354, 134520, 134603, 135018, 135101, 135267, 135350, 139586, 140997, 141080, 141744, 141827, 147640, 148387, 154200, 154283, 154947, 155030, 159515, 160677, 160760, 160926, 161009, 161424, 161507, 161673, 161756, 167320, 167569, 168067, 168316, 173880, 173963, 174129, 174212, 174627, 174710, 174876, 174959, 179444, 179610, 179693, 180108, 180191, 180357, 180440, 186253, 186751, 187000, 192813, 192896, 193311, 193394, 193560, 193643, 199373, 200037, 200120, 206680, 213240, 213323, 219302, 219717, 219800, 219966, 220049, 226360, 226609, 232920, 233003, 233169, 233252, 239231, 239397, 239480, 246040, 252600, 252683, 259160, 279089, 299018, 299184, 299267, 305827, 312387, 312470, 318947, 338876, 358805, 358971, 359054, 359469, 359552, 359718, 359801, 365614, 366112, 366361, 372174, 372257, 372672, 372755, 372921, 373004, 378734, 379398, 379481, 386041]
      
      (winningLines.take 243) =
    ([83, 249, 332, 747, 830, 996, 1079, 2241, 2324, 2490, 2573, 2988, 3071, 3237, 3320, 6892, 7390, 7639, 8884, 9133, 9631, 9880, 13452, 13535, 13950, 14033, 14199, 14282, 15444, 15527, 15693, 15776, 16191, 16274, 16440, 16523, 20012, 20676, 20759, 22170, 22253, 22917, 23000, 27319, 28813, 29560, 33879, 33962, 35373, 35456, 36120, 36203, 39941, 40356, 40439, 40605, 40688, 41850, 41933, 42099, 42182, 42597, 42680, 42846, 42929, 46999, 47248, 48493, 48742, 49240, 49489, 53559, 53642, 53808, 53891, 55053, 55136, 55302, 55385, 55800, 55883, 56049, 56132, 59870, 60036, 60119, 62028, 62111, 62277, 62360, 66679, 68671, 68920, 73239, 73322, 75231, 75314, 75480, 75563, 79799, 81957, 82040, 88600, 95160, 95243, 99728, 101637, 101720, 101886, 101969, 108280, 108529, 114840, 114923, 115089, 115172, 119657, 119823, 119906, 121068, 121151, 121317, 121400, 121815, 121898, 122064, 122147, 126466, 127711, 127960, 128458, 128707, 133026, 133109, 134271, 134354, 134520, 134603, 135018, 135101, 135267, 135350, 139586, 140997, 141080, 141744, 141827, 147640, 148387, 154200, 154283, 154947, 155030, 159515, 160677, 160760, 160926, 161009, 161424, 161507, 161673, 161756, 167320, 167569, 168067, 168316, 173880, 173963, 174129, 174212, 174627, 174710, 174876, 174959, 179444, 179610, 179693, 180108, 180191, 180357, 180440, 186253, 186751, 187000, 192813, 192896, 193311, 193394, 193560, 193643, 199373, 200037, 200120, 206680, 213240, 213323, 219302, 219717, 219800, 219966, 220049, 226360, 226609, 232920, 233003, 233169, 233252, 239231, 239397, 239480, 246040, 252600, 252683, 259160, 279089, 299018, 299184, 299267, 305827, 312387, 312470, 318947, 338876, 358805, 358971, 359054, 359469, 359552, 359718, 359801, 365614, 366112, 366361, 372174, 372257, 372672, 372755, 372921, 373004, 378734, 379398, 379481, 386041, 392601, 392684],
      
     winningLines.take 245) := by decide

theorem dirLoop_step_60 :
    dirLoop (2, 0, 2, 0) directions
      [83, 249, 332, 747, 830, 996, 1079, 2241, 2324, 2490, 2573, 2988, 3071, 3237, 3320, 6892, 7390, 7639, 8884, 9133, 9631, 9880, 13452, 13535, 13950, 14033, 14199, 14282, 15444, 15527, 15693, 15776, 16191, 16274, 16440, 16523, 20012, 20676, 20759, 22170, 22253, 22917, 23000, 27319, 28813, 29560, 33879, 33962, 35373, 35456, 36120, 36203, 39941, 40356, 40439, 40605, 40688, 41850, 41933, 42099, 42182, 42597, 42680, 42846, 42929, 46999, 47248, 48493, 48742, 49240, 49489, 53559, 53642, 53808, 53891, 55053, 55136, 55302, 55385, 55800, 55883, 56049, 56132, 59870, 60036, 60119, 62028, 62111, 62277, 62360, 66679, 68671, 68920, 73239, 73322, 75231, 75314, 75480, 75563, 79799, 81957, 82040, 88600, 95160, 95243, 99728, 101637, 101720, 101886, 101969, 108280, 108529, 114840, 114923, 115089, 115172, 119657, 119823, 119906, 121068, 121151, 121317, 121400, 121815, 121898, 122064, 122147, 126466, 127711, 127960, 128458, 128707, 133026, 133109, 134271, 134354, 134520, 134603, 135018, 135101, 135267, 135350, 139586, 140997, 141080, 141744, 141827, 147640, 148387, 154200, 154283, 154947, 155030, 159515, 160677, 160760, 160926, 161009, 161424, 161507, 161673, 161756, 167320, 167569, 168067, 168316, 173880, 173963, 174129, 174212, 174627, 174710, 174876, 174959, 179444, 179610, 179693, 180108, 180191, 180357, 180440, 186253, 186751, 187000, 192813, 192896, 193311, 193394, 193560, 193643, 199373, 200037, 200120, 206680, 213240, 213323, 219302, 219717, 219800, 219966, 220049, 226360, 226609, 232920, 233003, 233169, 233252, 239231, 239397, 239480, 246040, 252600, 252683, 259160, 279089, 299018, 299184, 299267, 305827, 312387, 312470, 318947, 338876, 358805, 358971, 359054, 359469, 359552, 359718, 359801, 365614, 366112, 366361, 372174, 372257, 372672, 372755, 372921, 373004, 378734, 379398, 379481, 386041, 392601, 392684]
      
      (winningLines.take 245) =
    ([83, 249, 332, 747, 830, 996, 1079, 2241, 2324, 2490, 2573, 2988, 3071, 3237, 3320, 6892, 7390, 7639, 8884, 9133, 9631, 9880, 13452, 13535, 13950, 14033, 14199, 14282, 15444, 15527, 15693, 15776, 16191, 16274, 16440, 16523, 20012, 20676, 20759, 22170, 22253, 22917, 23000, 27319, 28813, 29560, 33879, 33962, 35373, 35456, 36120, 36203, 39941, 40356, 40439, 40605, 40688, 41850, 41933, 42099, 42182, 42597, 42680, 42846, 42929, 46999, 47248, 48493, 48742, 49240, 49489, 53559, 53642, 53808, 53891, 55053, 55136, 55302, 55385, 55800, 55883, 56049, 56132, 59870, 60036, 60119, 62028, 62111, 62277, 62360, 66679, 68671, 68920, 73239, 73322, 75231, 75314, 75480, 75563, 79799, 81957, 82040, 88600, 95160, 95243, 99728, 101637, 101720, 101886, 101969, 108280, 108529, 114840, 114923, 115089, 115172, 119657, 119823, 119906, 121068, 121151, 121317, 121400, 121815, 121898, 122064, 122147, 126466, 127711, 127960, 128458, 128707, 133026, 133109, 134271, 134354, 134520, 134603, 135018, 135101, 135267, 135350, 139586, 140997, 141080, 141744, 141827, 147640, 148387, 154200, 154283, 154947, 155030, 159515, 160677, 160760, 160926, 161009, 161424, 161507, 161673, 161756, 167320, 167569, 168067, 168316, 173880, 173963, 174129, 174212, 174627, 174710, 174876, 174959, 179444, 179610, 179693, 180108, 180191, 180357, 180440, 186253, 186751, 187000, 192813, 192896, 193311, 193394, 193560, 193643, 199373, 200037, 200120, 206680, 213240, 213323, 219302, 219717, 219800, 219966, 220049, 226360, 226609, 232920, 233003, 233169, 233252, 239231, 239397, 239480, 246040, 252600, 252683, 259160, 279089, 299018, 299184, 299267, 305827, 312387, 312470, 318947, 338876, 358805, 358971, 359054, 359469, 359552, 359718, 359801, 365614, 366112, 366361, 372174, 372257, 372672, 372755, 372921, 373004, 378734, 379398, 379481, 386041, 392601, 392684, 398663, 399078, 399161, 399327, 399410],
      
     winningLines.take 250) := by decide

theorem dirLoop_step_61 :
    dirLoop (2, 0, 2, 1) directions
      [83, 249, 332, 747, 830, 996, 1079, 2241, 2324, 2490, 2573, 2988, 3071, 3237, 3320, 6892, 7390, 7639, 8884, 9133, 9631, 9880, 13452, 13535, 13950, 14033, 14199, 14282, 15444, 15527, 15693, 15776, 16191, 16274, 16440, 16523, 20012, 20676, 20759, 22170, 22253, 22917, 23000, 27319, 28813, 29560, 33879, 33962, 35373, 35456, 36120, 36203, 39941, 40356, 40439, 40605, 40688, 41850, 41933, 42099, 42182, 42597, 42680, 42846, 42929, 46999, 47248, 48493, 48742, 49240, 49489, 53559, 53642, 53808, 53891, 55053, 55136, 55302, 55385, 55800, 55883, 56049, 56132, 59870, 60036, 60119, 62028, 62111, 62277, 62360, 66679, 68671, 68920, 73239, 73322, 75231, 75314, 75480, 75563, 79799, 81957, 82040, 88600, 95160, 95243, 99728, 101637, 101720, 101886, 101969, 108280, 108529, 114840, 114923, 115089, 115172, 119657, 119823, 119906, 121068, 121151, 121317, 121400, 121815, 121898, 122064, 122147, 126466, 127711, 127960, 128458, 128707, 133026, 133109, 134271, 134354, 134520, 134603, 135018, 135101, 135267, 135350, 139586, 140997, 141080, 141744, 141827, 147640, 148387, 154200, 154283, 154947, 155030, 159515, 160677, 160760, 160926, 161009, 161424, 161507, 161673, 161756, 167320, 167569, 168067, 168316, 173880, 173963, 174129, 174212, 174627, 174710, 174876, 174959, 179444, 179610, 179693, 180108, 180191, 180357, 180440, 186253, 186751, 187000, 192813, 192896, 193311, 193394, 193560, 193643, 199373, 200037, 200120, 206680, 213240, 213323, 219302, 219717, 219800, 219966, 220049, 226360, 226609, 232920, 233003, 233169, 233252, 239231, 239397, 239480, 246040, 252600, 252683, 259160, 279089, 299018, 299184, 299267, 305827, 312387, 312470, 318947, 338876, 358805, 358971, 359054, 359469, 359552, 359718, 359801, 365614, 366112, 366361, 372174, 372257, 372672, 372755, 372921, 373004, 378734, 379398, 379481, 386041, 392601, 392684, 398663, 399078, 399161, 399327, 399410]
      
      (winningLines.take 250) =
    ([83, 249, 332, 747, 830, 996, 1079, 2241, 2324, 2490, 2573, 2988, 3071, 3237, 3320, 6892, 7390, 7639, 8884, 9133, 9631, 9880, 13452, 13535, 13950, 14033, 14199, 14282, 15444, 15527, 15693, 15776, 16191, 16274, 16440, 16523, 20012, 20676, 20759, 22170, 22253, 22917, 23000, 27319, 28813, 29560, 33879, 33962, 35373, 35456, 36120, 36203, 39941, 40356, 40439, 40605, 40688, 41850, 41933, 42099, 42182, 42597, 42680, 42846, 42929, 46999, 47248, 48493, 48742, 49240, 49489, 53559, 53642, 53808, 53891, 55053, 55136, 55302, 55385, 55800, 55883, 56049, 56132, 59870, 60036, 60119, 62028, 62111, 62277, 62360, 66679, 68671, 68920, 73239, 73322, 75231, 75314, 75480, 75563, 79799, 81957, 82040, 88600, 95160, 95243, 99728, 101637, 101720, 101886, 101969, 108280, 108529, 114840, 114923, 115089, 115172, 119657, 119823, 119906, 121068, 121151, 121317, 121400, 121815, 121898, 122064, 122147, 126466, 127711, 127960, 128458, 128707, 133026, 133109, 134271, 134354, 134520, 134603, 135018, 135101, 135267, 135350, 139586, 140997, 141080, 141744, 141827, 147640, 148387, 154200, 154283, 154947, 155030, 159515, 160677, 160760, 160926, 161009, 161424, 161507, 161673, 161756, 167320, 167569, 168067, 168316, 173880, 173963, 174129, 174212, 174627, 174710, 174876, 174959, 179444, 179610, 179693, 180108, 180191, 180357, 180440, 186253, 186751, 187000, 192813, 192896, 193311, 193394, 193560, 193643, 199373, 200037, 200120, 206680, 213240, 213323, 219302, 219717, 219800, 219966, 220049, 226360, 226609, 232920, 233003, 233169, 233252, 239231, 239397, 239480, 246040, 252600, 252683, 259160, 279089, 299018, 299184, 299267, 305827, 312387, 312470, 318947, 338876, 358805, 358971, 359054, 359469, 359552, 359718, 359801, 365614, 366112, 366361, 372174, 372257, 372672, 372755, 372921, 373004, 378734, 379398, 379481, 386041, 392601, 392684, 398663, 399078, 399161, 399327, 399410, 405721, 405970],
      
     winningLines.take 252) := by decide

theorem dirLoop_step_62 :
    dirLoop (2, 0, 2, 2) directions
      [83, 249, 332, 747, 830, 996, 1079, 2241, 2324, 2490, 2573, 2988, 3071, 3237, 3320, 6892, 7390, 7639, 8884, 9133, 9631, 9880, 13452, 13535, 13950, 14033, 14199, 14282, 15444, 15527, 15693, 15776, 16191, 16274, 16440, 16523, 20012, 20676, 20759, 22170, 22253, 22917, 23000, 27319, 28813, 29560, 33879, 33962, 35373, 35456, 36120, 36203, 39941, 40356, 40439, 40605, 40688, 41850, 41933, 42099, 42182, 42597, 42680, 42846, 42929, 46999, 47248, 48493, 48742, 49240, 49489, 53559, 53642, 53808, 53891, 55053, 55136, 55302, 55385, 55800, 55883, 56049, 56132, 59870, 60036, 60119, 62028, 62111, 62277, 62360, 66679, 68671, 68920, 73239, 73322, 75231, 75314, 75480, 75563, 79799, 81957, 82040, 88600, 95160, 95243, 99728, 101637, 101720, 101886, 101969, 108280, 108529, 114840, 114923, 115089, 115172, 119657, 119823, 119906, 121068, 121151, 121317, 121400, 121815, 121898, 122064, 122147, 126466, 127711, 127960, 128458, 128707, 133026, 133109, 134271, 134354, 134520, 134603, 135018, 135101, 135267, 135350, 139586, 140997, 141080, 141744, 141827, 147640, 148387, 154200, 154283, 154947, 155030, 159515, 160677, 160760, 160926, 161009, 161424, 161507, 161673, 161756, 167320, 167569, 168067, 168316, 173880, 173963, 174129, 174212, 174627, 174710, 174876, 174959, 179444, 179610, 179693, 180108, 180191, 180357, 180440, 186253, 186751, 187000, 192813, 192896, 193311, 193394, 193560, 193643, 199373, 200037, 200120, 206680, 213240, 213323, 219302, 219717, 219800, 219966, 220049, 226360, 226609, 232920, 233003, 233169, 233252, 239231, 239397, 239480, 246040, 252600, 252683, 259160, 279089, 299018, 299184, 299267, 305827, 312387, 312470, 318947, 338876, 358805, 358971, 359054, 359469, 359552, 359718, 359801, 365614, 366112, 366361, 372174, 372257, 372672, 372755, 372921, 373004, 378734, 379398, 379481, 386041, 392601, 392684, 398663, 399078, 399161, 399327, 399410, 405721, 405970]
      
      (winningLines.take 252) =
    ([83, 249, 332, 747, 830, 996, 1079, 2241, 2324, 2490, 2573, 2988, 3071, 3237, 3320, 6892, 7390, 7639, 8884, 9133, 9631, 9880, 13452, 13535, 13950, 14033, 14199, 14282, 15444, 15527, 15693, 15776, 16191, 16274, 16440, 16523, 20012, 20676, 20759, 22170, 22253, 22917, 23000, 27319, 28813, 29560, 33879, 33962, 35373, 35456, 36120, 36203, 39941, 40356, 40439, 40605, 40688, 41850, 41933, 42099, 42182, 42597, 42680, 42846, 42929, 46999, 47248, 48493, 48742, 49240, 49489, 53559, 53642, 53808, 53891, 55053, 55136, 55302, 55385, 55800, 55883, 56049, 56132, 59870, 60036, 60119, 62028, 62111, 62277, 62360, 66679, 68671, 68920, 73239, 73322, 75231, 75314, 75480, 75563, 79799, 81957, 82040, 88600, 95160, 95243, 99728, 101637, 101720, 101886, 101969, 108280, 108529, 114840, 114923, 115089, 115172, 119657, 119823, 119906, 121068, 121151, 121317, 121400, 121815, 121898, 122064, 122147, 126466, 127711, 127960, 128458, 128707, 133026, 133109, 134271, 134354, 134520, 134603, 135018, 135101, 135267, 135350, 139586, 140997, 141080, 141744, 141827, 147640, 148387, 154200, 154283, 154947, 155030, 159515, 160677, 160760, 160926, 161009, 161424, 161507, 161673, 161756, 167320, 167569, 168067, 168316, 173880, 173963, 174129, 174212, 174627, 174710, 174876, 174959, 179444, 179610, 179693, 180108, 180191, 180357, 180440, 186253, 186751, 187000, 192813, 192896, 193311, 193394, 193560, 193643, 199373, 200037, 200120, 206680, 213240, 213323, 219302, 219717, 219800, 219966, 220049, 226360, 226609, 232920, 233003, 233169, 233252, 239231, 239397, 239480, 246040, 252600, 252683, 259160, 279089, 299018, 299184, 299267, 305827, 312387, 312470, 318947, 338876, 358805, 358971, 359054, 359469, 359552, 359718, 359801, 365614, 366112, 366361, 372174, 372257, 372672, 372755, 372921, 373004, 378734, 379398, 379481, 386041, 392601, 392684, 398663, 399078, 399161, 399327, 399410, 405721, 405970, 412281, 412364, 412530, 412613],
      
     winningLines.take 256) := by decide

theorem dirLoop_step_63 :
    dirLoop (2, 1, 0, 0) directions
      [83, 249, 332, 747, 830, 996, 1079, 2241, 2324, 2490, 2573, 2988, 3071, 3237, 3320, 6892, 7390, 7639, 8884, 9133, 9631, 9880, 13452, 13535, 13950, 14033, 14199, 14282, 15444, 15527, 15693, 15776, 16191, 16274, 16440, 16523, 20012, 20676, 20759, 22170, 22253, 22917, 23000, 27319, 28813, 29560, 33879, 33962, 35373, 35456, 36120, 36203, 39941, 40356, 40439, 40605, 40688, 41850, 41933, 42099, 42182, 42597, 42680, 42846, 42929, 46999, 47248, 48493, 48742, 49240, 49489, 53559, 53642, 53808, 53891, 55053, 55136, 55302, 55385, 55800, 55883, 56049, 56132, 59870, 60036, 60119, 62028, 62111, 62277, 62360, 66679, 68671, 68920, 73239, 73322, 75231, 75314, 75480, 75563, 79799, 81957, 82040, 88600, 95160, 95243, 99728, 101637, 101720, 101886, 101969, 108280, 108529, 114840, 114923, 115089, 115172, 119657, 119823, 119906, 121068, 121151, 121317, 121400, 121815, 121898, 122064, 122147, 126466, 127711, 127960, 128458, 128707, 133026, 133109, 134271, 134354, 134520, 134603, 135018, 135101, 135267, 135350, 139586, 140997, 141080, 141744, 141827, 147640, 148387, 154200, 154283, 154947, 155030, 159515, 160677, 160760, 160926, 161009, 161424, 161507, 161673, 161756, 167320, 167569, 168067, 168316, 173880, 173963, 174129, 174212, 174627, 174710, 174876, 174959, 179444, 179610, 179693, 180108, 180191, 180357, 180440, 186253, 186751, 187000, 192813, 192896, 193311, 193394, 193560, 193643, 199373, 200037, 200120, 206680, 213240, 213323, 219302, 219717, 219800, 219966, 220049, 226360, 226609, 232920, 233003, 233169, 233252, 239231, 239397, 239480, 246040, 252600, 252683, 259160, 279089, 299018, 299184, 299267, 305827, 312387, 312470, 318947, 338876, 358805, 358971, 359054, 359469, 359552, 359718, 359801, 365614, 366112, 366361, 372174, 372257, 372672, 372755, 372921, 373004, 378734, 379398, 379481, 386041, 392601, 392684, 398663, 399078, 399161, 399327, 399410, 405721, 405970, 412281, 412364, 412530, 412613]
      
      (winningLines.take 256) =
    ([83, 249, 332, 747, 830, 996, 1079, 2241, 2324, 2490, 2573, 2988, 3071, 3237, 3320, 6892, 7390, 7639, 8884, 9133, 9631, 9880, 13452, 13535, 13950, 14033, 14199, 14282, 15444, 15527, 15693, 15776, 16191, 16274, 16440, 16523, 20012, 20676, 20759, 22170, 22253, 22917, 23000, 27319, 28813, 29560, 33879, 33962, 35373, 35456, 36120, 36203, 39941, 40356, 40439, 40605, 40688, 41850, 41933, 42099, 42182, 42597, 42680, 42846, 42929, 46999, 47248, 48493, 48742, 49240, 49489, 53559, 53642, 53808, 53891, 55053, 55136, 55302, 55385, 55800, 55883, 56049, 56132, 59870, 60036, 60119, 62028, 62111, 62277, 62360, 66679, 68671, 68920, 73239, 73322, 75231, 75314, 75480, 75563, 79799, 81957, 82040, 88600, 95160, 95243, 99728, 101637, 101720, 101886, 101969, 108280, 108529, 114840, 114923, 115089, 115172, 119657, 119823, 119906, 121068, 121151, 121317, 121400, 121815, 121898, 122064, 122147, 126466, 127711, 127960, 128458, 128707, 133026, 133109, 134271, 134354, 134520, 134603, 135018, 135101, 135267, 135350, 139586, 140997, 141080, 141744, 141827, 147640, 148387, 154200, 154283, 154947, 155030, 159515, 160677, 160760, 160926, 161009, 161424, 161507, 161673, 161756, 167320, 167569, 168067, 168316, 173880, 173963, 174129, 174212, 174627, 174710, 174876, 174959, 179444, 179610, 179693, 180108, 180191, 180357, 180440, 186253, 186751, 187000, 192813, 192896, 193311, 193394, 193560, 193643, 199373, 200037, 200120, 206680, 213240, 213323, 219302, 219717, 219800, 219966, 220049, 226360, 226609, 232920, 233003, 233169, 233252, 239231, 239397, 239480, 246040, 252600, 252683, 259160, 279089, 299018, 299184, 299267, 305827, 312387, 312470, 318947, 338876, 358805, 358971, 359054, 359469, 359552, 359718, 359801, 365614, 366112, 366361, 372174, 372257, 372672, 372755, 372921, 373004, 378734, 379398, 379481, 386041, 392601, 392684, 398663, 399078, 399161, 399327, 399410, 405721, 405970, 412281, 412364, 412530, 412613, 418592, 418758, 418841],
      
     winningLines.take 259) := by decide

theorem dirLoop_step_64 :
    dirLoop (2, 1, 0, 1) directions
      [83, 249, 332, 747, 830, 996, 1079, 2241, 2324, 2490, 2573, 2988, 3071, 3237, 3320, 6892, 7390, 7639, 8884, 9133, 9631, 9880, 13452, 13535, 13950, 14033, 14199, 14282, 15444, 15527, 15693, 15776, 16191, 16274, 16440, 16523, 20012, 20676, 20759, 22170, 22253, 22917, 23000, 27319, 28813, 29560, 33879, 33962, 35373, 35456, 36120, 36203, 39941, 40356, 40439, 40605, 40688, 41850, 41933, 42099, 42182, 42597, 42680, 42846, 42929, 46999, 47248, 48493, 48742, 49240, 49489, 53559, 53642, 53808, 53891, 55053, 55136, 55302, 55385, 55800, 55883, 56049, 56132, 59870, 60036, 60119, 62028, 62111, 62277, 62360, 66679, 68671, 68920, 73239, 73322, 75231, 75314, 75480, 75563, 79799, 81957, 82040, 88600, 95160, 95243, 99728, 101637, 101720, 101886, 101969, 108280, 108529, 114840, 114923, 115089, 115172, 119657, 119823, 119906, 121068, 121151, 121317, 121400, 121815, 121898, 122064, 122147, 126466, 127711, 127960, 128458, 128707, 133026, 133109, 134271, 134354, 134520, 134603, 135018, 135101, 135267, 135350, 139586, 140997, 141080, 141744, 141827, 147640, 148387, 154200, 154283, 154947, 155030, 159515, 160677, 160760, 160926, 161009, 161424, 161507, 161673, 161756, 167320, 167569, 168067, 168316, 173880, 173963, 174129, 174212, 174627, 174710, 174876, 174959, 179444, 179610, 179693, 180108, 180191, 180357, 180440, 186253, 186751, 187000, 192813, 192896, 193311, 193394, 193560, 193643, 199373, 200037, 200120, 206680, 213240, 213323, 219302, 219717, 219800, 219966, 220049, 226360, 226609, 232920, 233003, 233169, 233252, 239231, 239397, 239480, 246040, 252600, 252683, 259160, 279089, 299018, 299184, 299267, 305827, 312387, 312470, 318947, 338876, 358805, 358971, 359054, 359469, 359552, 359718, 359801, 365614, 366112, 366361, 372174, 372257, 372672, 372755, 372921, 373004, 378734, 379398, 379481, 386041, 392601, 392684, 398663, 399078, 399161, 399327, 399410, 405721, 405970, 412281, 412364, 412530, 412613, 418592, 418758, 418841]
      
      (winningLines.take 259) =
    ([83, 249, 332, 747, 830, 996, 1079, 2241, 2324, 2490, 2573, 2988, 3071, 3237, 3320, 6892, 7390, 7639, 8884, 9133, 9631, 9880, 13452, 13535, 13950, 14033, 14199, 14282, 15444, 15527, 15693, 15776, 16191, 16274, 16440, 16523, 20012, 20676, 20759, 22170, 22253, 22917, 23000, 27319, 28813, 29560, 33879, 33962, 35373, 35456, 36120, 36203, 39941, 40356, 40439, 40605, 40688, 41850, 41933, 42099, 42182, 42597, 42680, 42846, 42929, 46999, 47248, 48493, 48742, 49240, 49489, 53559, 53642, 53808, 53891, 55053, 55136, 55302, 55385, 55800, 55883, 56049, 56132, 59870, 60036, 60119, 62028, 62111, 62277, 62360, 66679, 68671, 68920, 73239, 73322, 75231, 75314, 75480, 75563, 79799, 81957, 82040, 88600, 95160, 95243, 99728, 101637, 101720, 101886, 101969, 108280, 108529, 114840, 114923, 115089, 115172, 119657, 119823, 119906, 121068, 121151, 121317, 121400, 121815, 121898, 122064, 122147, 126466, 127711, 127960, 128458, 128707, 133026, 133109, 134271, 134354, 134520, 134603, 135018, 135101, 135267, 135350, 139586, 140997, 141080, 141744, 141827, 147640, 148387, 154200, 154283, 154947, 155030, 159515, 160677, 160760, 160926, 161009, 161424, 161507, 161673, 161756, 167320, 167569, 168067, 168316, 173880, 173963, 174129, 174212, 174627, 174710, 174876, 174959, 179444, 179610, 179693, 180108, 180191, 180357, 180440, 186253, 186751, 187000, 192813, 192896, 193311, 193394, 193560, 193643, 199373, 200037, 200120, 206680, 213240, 213323, 219302, 219717, 219800, 219966, 220049, 226360, 226609, 232920, 233003, 233169, 233252, 239231, 239397, 239480, 246040, 252600, 252683, 259160, 279089, 299018, 299184, 299267, 305827, 312387, 312470, 318947, 338876, 358805, 358971, 359054, 359469, 359552, 359718, 359801, 365614, 366112, 366361, 372174, 372257, 372672, 372755, 372921, 373004, 378734, 379398, 379481, 386041, 392601, 392684, 398663, 399078, 399161, 399327, 399410, 405721, 405970, 412281, 412364, 412530, 412613, 418592, 418758, 418841, 425401],
      
     winningLines.take 260) := by decide

theorem dirLoop_step_65 :
    dirLoop (2, 1, 0, 2) directions
      [83, 249, 332, 747, 830, 996, 1079, 2241, 2324, 2490, 2573, 2988, 3071, 3237, 3320, 6892, 7390, 7639, 8884, 9133, 9631, 9880, 13452, 13535, 13950, 14033, 14199, 14282, 15444, 15527, 15693, 15776, 16191, 16274, 16440, 16523, 20012, 20676, 20759, 22170, 22253, 22917, 23000, 27319, 28813, 29560, 33879, 33962, 35373, 35456, 36120, 36203, 39941, 40356, 40439, 40605, 40688, 41850, 41933, 42099, 42182, 42597, 42680, 42846, 42929, 46999, 47248, 48493, 48742, 49240, 49489, 53559, 53642, 53808, 53891, 55053, 55136, 55302, 55385, 55800, 55883, 56049, 56132, 59870, 60036, 60119, 62028, 62111, 62277, 62360, 66679, 68671, 68920, 73239, 73322, 75231, 75314, 75480, 75563, 79799, 81957, 82040, 88600, 95160, 95243, 99728, 101637, 101720, 101886, 101969, 108280, 108529, 114840, 114923, 115089, 115172, 119657, 119823, 119906, 121068, 121151, 121317, 121400, 121815, 121898, 122064, 122147, 126466, 127711, 127960, 128458, 128707, 133026, 133109, 134271, 134354, 134520, 134603, 135018, 135101, 135267, 135350, 139586, 140997, 141080, 141744, 141827, 147640, 148387, 154200, 154283, 154947, 155030, 159515, 160677, 160760, 160926, 161009, 161424, 161507, 161673, 161756, 167320, 167569, 168067, 168316, 173880, 173963, 174129, 174212, 174627, 174710, 174876, 174959, 179444, 179610, 179693, 180108, 180191, 180357, 180440, 186253, 186751, 187000, 192813, 192896, 193311, 193394, 193560, 193643, 199373, 200037, 200120, 206680, 213240, 213323, 219302, 219717, 219800, 219966, 220049, 226360, 226609, 232920, 233003, 233169, 233252, 239231, 239397, 239480, 246040, 252600, 252683, 259160, 279089, 299018, 299184, 299267, 305827, 312387, 312470, 318947, 338876, 358805, 358971, 359054, 359469, 359552, 359718, 359801, 365614, 366112, 366361, 372174, 372257, 372672, 372755, 372921, 373004, 378734, 379398, 379481, 386041, 392601, 392684, 398663, 399078, 399161, 399327, 399410, 405721, 405970, 412281, 412364, 412530, 412613, 418592, 418758, 418841, 425401]
      
      (winningLines.take 260) =
    ([83, 249, 332, 747, 830, 996, 1079, 2241, 2324, 2490, 2573, 2988, 3071, 3237, 3320, 6892, 7390, 7639, 8884, 9133, 9631, 9880, 13452, 13535, 13950, 14033, 14199, 14282, 15444, 15527, 15693, 15776, 16191, 16274, 16440, 16523, 20012, 20676, 20759, 22170, 22253, 22917, 23000, 27319, 28813, 29560, 33879, 33962, 35373, 35456, 36120, 36203, 39941, 40356, 40439, 40605, 40688, 41850, 41933, 42099, 42182, 42597, 42680, 42846, 42929, 46999, 47248, 48493, 48742, 49240, 49489, 53559, 53642, 53808, 53891, 55053, 55136, 55302, 55385, 55800, 55883, 56049, 56132, 59870, 60036, 60119, 62028, 62111, 62277, 62360, 66679, 68671, 68920, 73239, 73322, 75231, 75314, 75480, 75563, 79799, 81957, 82040, 88600, 95160, 95243, 99728, 101637, 101720, 101886, 101969, 108280, 108529, 114840, 114923, 115089, 115172, 119657, 119823, 119906, 121068, 121151, 121317, 121400, 121815, 121898, 122064, 122147, 126466, 127711, 127960, 128458, 128707, 133026, 133109, 134271, 134354, 134520, 134603, 135018, 135101, 135267, 135350, 139586, 140997, 141080, 141744, 141827, 147640, 148387, 154200, 154283, 154947, 155030, 159515, 160677, 160760, 160926, 161009, 161424, 161507, 161673, 161756, 167320, 167569, 168067, 168316, 173880, 173963, 174129, 174212, 174627, 174710, 174876, 174959, 179444, 179610, 179693, 180108, 180191, 180357, 180440, 186253, 186751, 187000, 192813, 192896, 193311, 193394, 193560, 193643, 199373, 200037, 200120, 206680, 213240, 213323, 219302, 219717, 219800, 219966, 220049, 226360, 226609, 232920, 233003, 233169, 233252, 239231, 239397, 239480, 246040, 252600, 252683, 259160, 279089, 299018, 299184, 299267, 305827, 312387, 312470, 318947, 338876, 358805, 358971, 359054, 359469, 359552, 359718, 359801, 365614, 366112, 366361, 372174, 372257, 372672, 372755, 372921, 373004, 378734, 379398, 379481, 386041, 392601, 392684, 398663, 399078, 399161, 399327, 399410, 405721, 405970, 412281, 412364, 412530, 412613, 418592, 418758, 418841, 425401, 431961, 432044],
      
     winningLines.take 262) := by decide

theorem dirLoop_step_66 :
    dirLoop (2, 1, 1, 0) directions
      [83, 249, 332, 747, 830, 996, 1079, 2241, 2324, 2490, 2573, 2988, 3071, 3237, 3320, 6892, 7390, 7639, 8884, 9133, 9631, 9880, 13452, 13535, 13950, 14033, 14199, 14282, 15444, 15527, 15693, 15776, 16191, 16274, 16440, 16523, 20012, 20676, 20759, 22170, 22253, 22917, 23000, 27319, 28813, 29560, 33879, 33962, 35373, 35456, 36120, 36203, 39941, 40356, 40439, 40605, 40688, 41850, 41933, 42099, 42182, 42597, 42680, 42846, 42929, 46999, 47248, 48493, 48742, 49240, 49489, 53559, 53642, 53808, 53891, 55053, 55136, 55302, 55385, 55800, 55883, 56049, 56132, 59870, 60036, 60119, 62028, 62111, 62277, 62360, 66679, 68671, 68920, 73239, 73322, 75231, 75314, 75480, 75563, 79799, 81957, 82040, 88600, 95160, 95243, 99728, 101637, 101720, 101886, 101969, 108280, 108529, 114840, 114923, 115089, 115172, 119657, 119823, 119906, 121068, 121151, 121317, 121400, 121815, 121898, 122064, 122147, 126466, 127711, 127960, 128458, 128707, 133026, 133109, 134271, 134354, 134520, 134603, 135018, 135101, 135267, 135350, 139586, 140997, 141080, 141744, 141827, 147640, 148387, 154200, 154283, 154947, 155030, 159515, 160677, 160760, 160926, 161009, 161424, 161507, 161673, 161756, 167320, 167569, 168067, 168316, 173880, 173963, 174129, 174212, 174627, 174710, 174876, 174959, 179444, 179610, 179693, 180108, 180191, 180357, 180440, 186253, 186751, 187000, 192813, 192896, 193311, 193394, 193560, 193643, 199373, 200037, 200120, 206680, 213240, 213323, 219302, 219717, 219800, 219966, 220049, 226360, 226609, 232920, 233003, 233169, 233252, 239231, 239397, 239480, 246040, 252600, 252683, 259160, 279089, 299018, 299184, 299267, 305827, 312387, 312470, 318947, 338876, 358805, 358971, 359054, 359469, 359552, 359718, 359801, 365614, 366112, 366361, 372174, 372257, 372672, 372755, 372921, 373004, 378734, 379398, 379481, 386041, 392601, 392684, 398663, 399078, 399161, 399327, 399410, 405721, 405970, 412281, 412364, 412530, 412613, 418592, 418758, 418841, 425401, 431961, 432044]
      
      (winningLines.take 262) =
    ([83, 249, 332, 747, 830, 996, 1079, 2241, 2324, 2490, 2573, 2988, 3071, 3237, 3320, 6892, 7390, 7639, 8884, 9133, 9631, 9880, 13452, 13535, 13950, 14033, 14199, 14282, 15444, 15527, 15693, 15776, 16191, 16274, 16440, 16523, 20012, 20676, 20759, 22170, 22253, 22917, 23000, 27319, 28813, 29560, 33879, 33962, 35373, 35456, 36120, 36203, 39941, 40356, 40439, 40605, 40688, 41850, 41933, 42099, 42182, 42597, 42680, 42846, 42929, 46999, 47248, 48493, 48742, 49240, 49489, 53559, 53642, 53808, 53891, 55053, 55136, 55302, 55385, 55800, 55883, 56049, 56132, 59870, 60036, 60119, 62028, 62111, 62277, 62360, 66679, 68671, 68920, 73239, 73322, 75231, 75314, 75480, 75563, 79799, 81957, 82040, 88600, 95160, 95243, 99728, 101637, 101720, 101886, 101969, 108280, 108529, 114840, 114923, 115089, 115172, 119657, 119823, 119906, 121068, 121151, 121317, 121400, 121815, 121898, 122064, 122147, 126466, 127711, 127960, 128458, 128707, 133026, 133109, 134271, 134354, 134520, 134603, 135018, 135101, 135267, 135350, 139586, 140997, 141080, 141744, 141827, 147640, 148387, 154200, 154283, 154947, 155030, 159515, 160677, 160760, 160926, 161009, 161424, 161507, 161673, 161756, 167320, 167569, 168067, 168316, 173880, 173963, 174129, 174212, 174627, 174710, 174876, 174959, 179444, 179610, 179693, 180108, 180191, 180357, 180440, 186253, 186751, 187000, 192813, 192896, 193311, 193394, 193560, 193643, 199373, 200037, 200120, 206680, 213240, 213323, 219302, 219717, 219800, 219966, 220049, 226360, 226609, 232920, 233003, 233169, 233252, 239231, 239397, 239480, 246040, 252600, 252683, 259160, 279089, 299018, 299184, 299267, 305827, 312387, 312470, 318947, 338876, 358805, 358971, 359054, 359469, 359552, 359718, 359801, 365614, 366112, 366361, 372174, 372257, 372672, 372755, 372921, 373004, 378734, 379398, 379481, 386041, 392601, 392684, 398663, 399078, 399161, 399327, 399410, 405721, 405970, 412281, 412364, 412530, 412613, 418592, 418758, 418841, 425401, 431961, 432044, 438521],
      
     winningLines.take 263) := by decide

theorem dirLoop_step_67 :
    dirLoop (2, 1, 1, 1) directions
      [83, 249, 332, 747, 830, 996, 1079, 2241, 2324, 2490, 2573, 2988, 3071, 3237, 3320, 6892, 7390, 7639, 8884, 9133, 9631, 9880, 13452, 13535, 13950, 14033, 14199, 14282, 15444, 15527, 15693, 15776, 16191, 16274, 16440, 16523, 20012, 20676, 20759, 22170, 22253, 22917, 23000, 27319, 28813, 29560, 33879, 33962, 35373, 35456, 36120, 36203, 39941, 40356, 40439, 40605, 40688, 41850, 41933, 42099, 42182, 42597, 42680, 42846, 42929, 46999, 47248, 48493, 48742, 49240, 49489, 53559, 53642, 53808, 53891, 55053, 55136, 55302, 55385, 55800, 55883, 56049, 56132, 59870, 60036, 60119, 62028, 62111, 62277, 62360, 66679, 68671, 68920, 73239, 73322, 75231, 75314, 75480, 75563, 79799, 81957, 82040, 88600, 95160, 95243, 99728, 101637, 101720, 101886, 101969, 108280, 108529, 114840, 114923, 115089, 115172, 119657, 119823, 119906, 121068, 121151, 121317, 121400, 121815, 121898, 122064, 122147, 126466, 127711, 127960, 128458, 128707, 133026, 133109, 134271, 134354, 134520, 134603, 135018, 135101, 135267, 135350, 139586, 140997, 141080, 141744, 141827, 147640, 148387, 154200, 154283, 154947, 155030, 159515, 160677, 160760, 160926, 161009, 161424, 161507, 161673, 161756, 167320, 167569, 168067, 168316, 173880, 173963, 174129, 174212, 174627, 174710, 174876, 174959, 179444, 179610, 179693, 180108, 180191, 180357, 180440, 186253, 186751, 187000, 192813, 192896, 193311, 193394, 193560, 193643, 199373, 200037, 200120, 206680, 213240, 213323, 219302, 219717, 219800, 219966, 220049, 226360, 226609, 232920, 233003, 233169, 233252, 239231, 239397, 239480, 246040, 252600, 252683, 259160, 279089, 299018, 299184, 299267, 305827, 312387, 312470, 318947, 338876, 358805, 358971, 359054, 359469, 359552, 359718, 359801, 365614, 366112, 366361, 372174, 372257, 372672, 372755, 372921, 373004, 378734, 379398, 379481, 386041, 392601, 392684, 398663, 399078, 399161, 399327, 399410, 405721, 405970, 412281, 412364, 412530, 412613, 418592, 418758, 418841, 425401, 431961, 432044, 438521]
      
      (winningLines.take 263) =
    ([83, 249, 332, 747, 830, 996, 1079, 2241, 2324, 2490, 2573, 2988, 3071, 3237, 3320, 6892, 7390, 7639, 8884, 9133, 9631, 9880, 13452, 13535, 13950, 14033, 14199, 14282, 15444, 15527, 15693, 15776, 16191, 16274, 16440, 16523, 20012, 20676, 20759, 22170, 22253, 22917, 23000, 27319, 28813, 29560, 33879, 33962, 35373, 35456, 36120, 36203, 39941, 40356, 40439, 40605, 40688, 41850, 41933, 42099, 42182, 42597, 42680, 42846, 42929, 46999, 47248, 48493, 48742, 49240, 49489, 53559, 53642, 53808, 53891, 55053, 55136, 55302, 55385, 55800, 55883, 56049, 56132, 59870, 60036, 60119, 62028, 62111, 62277, 62360, 66679, 68671, 68920, 73239, 73322, 75231, 75314, 75480, 75563, 79799, 81957, 82040, 88600, 95160, 95243, 99728, 101637, 101720, 101886, 101969, 108280, 108529, 114840, 114923, 115089, 115172, 119657, 119823, 119906, 121068, 121151, 121317, 121400, 121815, 121898, 122064, 122147, 126466, 127711, 127960, 128458, 128707, 133026, 133109, 134271, 134354, 134520, 134603, 135018, 135101, 135267, 135350, 139586, 140997, 141080, 141744, 141827, 147640, 148387, 154200, 154283, 154947, 155030, 159515, 160677, 160760, 160926, 161009, 161424, 161507, 161673, 161756, 167320, 167569, 168067, 168316, 173880, 173963, 174129, 174212, 174627, 174710, 174876, 174959, 179444, 179610, 179693, 180108, 180191, 180357, 180440, 186253, 186751, 187000, 192813, 192896, 193311, 193394, 193560, 193643, 199373, 200037, 200120, 206680, 213240, 213323, 219302, 219717, 219800, 219966, 220049, 226360, 226609, 232920, 233003, 233169, 233252, 239231, 239397, 239480, 246040, 252600, 252683, 259160, 279089, 299018, 299184, 299267, 305827, 312387, 312470, 318947, 338876, 358805, 358971, 359054, 359469, 359552, 359718, 359801, 365614, 366112, 366361, 372174, 372257, 372672, 372755, 372921, 373004, 378734, 379398, 379481, 386041, 392601, 392684, 398663, 399078, 399161, 399327, 399410, 405721, 405970, 412281, 412364, 412530, 412613, 418592, 418758, 418841, 425401, 431961, 432044, 438521],
      
     winningLines.take 263) := by decide

theorem dirLoop_step_68 :
    dirLoop (2, 1, 1, 2) directions
      [83, 249, 332, 747, 830, 996, 1079, 2241, 2324, 2490, 2573, 2988, 3071, 3237, 3320, 6892, 7390, 7639, 8884, 9133, 9631, 9880, 13452, 13535, 13950, 14033, 14199, 14282, 15444, 15527, 15693, 15776, 16191, 16274, 16440, 16523, 20012, 20676, 20759, 22170, 22253, 22917, 23000, 27319, 28813, 29560, 33879, 33962, 35373, 35456, 36120, 36203, 39941, 40356, 40439, 40605, 40688, 41850, 41933, 42099, 42182, 42597, 42680, 42846, 42929, 46999, 47248, 48493, 48742, 49240, 49489, 53559, 53642, 53808, 53891, 55053, 55136, 55302, 55385, 55800, 55883, 56049, 56132, 59870, 60036, 60119, 62028, 62111, 62277, 62360, 66679, 68671, 68920, 73239, 73322, 75231, 75314, 75480, 75563, 79799, 81957, 82040, 88600, 95160, 95243, 99728, 101637, 101720, 101886, 101969, 108280, 108529, 114840, 114923, 115089, 115172, 119657, 119823, 119906, 121068, 121151, 121317, 121400, 121815, 121898, 122064, 122147, 126466, 127711, 127960, 128458, 128707, 133026, 133109, 134271, 134354, 134520, 134603, 135018, 135101, 135267, 135350, 139586, 140997, 141080, 141744, 141827, 147640, 148387, 154200, 154283, 154947, 155030, 159515, 160677, 160760, 160926, 161009, 161424, 161507, 161673, 161756, 167320, 167569, 168067, 168316, 173880, 173963, 174129, 174212, 174627, 174710, 174876, 174959, 179444, 179610, 179693, 180108, 180191, 180357, 180440, 186253, 186751, 187000, 192813, 192896, 193311, 193394, 193560, 193643, 199373, 200037, 200120, 206680, 213240, 213323, 219302, 219717, 219800, 219966, 220049, 226360, 226609, 232920, 233003, 233169, 233252, 239231, 239397, 239480, 246040, 252600, 252683, 259160, 279089, 299018, 299184, 299267, 305827, 312387, 312470, 318947, 338876, 358805, 358971, 359054, 359469, 359552, 359718, 359801, 365614, 366112, 366361, 372174, 372257, 372672, 372755, 372921, 373004, 378734, 379398, 379481, 386041, 392601, 392684, 398663, 399078, 399161, 399327, 399410, 405721, 405970, 412281, 412364, 412530, 412613, 418592, 418758, 418841, 425401, 431961, 432044, 438521]
      
      (winningLines.take 263) =
    ([83, 249, 332, 747, 830, 996, 1079, 2241, 2324, 2490, 2573, 2988, 3071, 3237, 3320, 6892, 7390, 7639, 8884, 9133, 9631, 9880, 13452, 13535, 13950, 14033, 14199, 14282, 15444, 15527, 15693, 15776, 16191, 16274, 16440, 16523, 20012, 20676, 20759, 22170, 22253, 22917, 23000, 27319, 28813, 29560, 33879, 33962, 35373, 35456, 36120, 36203, 39941, 40356, 40439, 40605, 40688, 41850, 41933, 42099, 42182, 42597, 42680, 42846, 42929, 46999, 47248, 48493, 48742, 49240, 49489, 53559, 53642, 53808, 53891, 55053, 55136, 55302, 55385, 55800, 55883, 56049, 56132, 59870, 60036, 60119, 62028, 62111, 62277, 62360, 66679, 68671, 68920, 73239, 73322, 75231, 75314, 75480, 75563, 79799, 81957, 82040, 88600, 95160, 95243, 99728, 101637, 101720, 101886, 101969, 108280, 108529, 114840, 114923, 115089, 115172, 119657, 119823, 119906, 121068, 121151, 121317, 121400, 121815, 121898, 122064, 122147, 126466, 127711, 127960, 128458, 128707, 133026, 133109, 134271, 134354, 134520, 134603, 135018, 135101, 135267, 135350, 139586, 140997, 141080, 141744, 141827, 147640, 148387, 154200, 154283, 154947, 155030, 159515, 160677, 160760, 160926, 161009, 161424, 161507, 161673, 161756, 167320, 167569, 168067, 168316, 173880, 173963, 174129, 174212, 174627, 174710, 174876, 174959, 179444, 179610, 179693, 180108, 180191, 180357, 180440, 186253, 186751, 187000, 192813, 192896, 193311, 193394, 193560, 193643, 199373, 200037, 200120, 206680, 213240, 213323, 219302, 219717, 219800, 219966, 220049, 226360, 226609, 232920, 233003, 233169, 233252, 239231, 239397, 239480, 246040, 252600, 252683, 259160, 279089, 299018, 299184, 299267, 305827, 312387, 312470, 318947, 338876, 358805, 358971, 359054, 359469, 359552, 359718, 359801, 365614, 366112, 366361, 372174, 372257, 372672, 372755, 372921, 373004, 378734, 379398, 379481, 386041, 392601, 392684, 398663, 399078, 399161, 399327, 399410, 405721, 405970, 412281, 412364, 412530, 412613, 418592, 418758, 418841, 425401, 431961, 432044, 438521],
      
     winningLines.take 263) := by decide

theorem dirLoop_step_69 :
    dirLoop (2, 1, 2, 0) directions
      [83, 249, 332, 747, 830, 996, 1079, 2241, 2324, 2490, 2573, 2988, 3071, 3237, 3320, 6892, 7390, 7639, 8884, 9133, 9631, 9880, 13452, 13535, 13950, 14033, 14199, 14282, 15444, 15527, 15693, 15776, 16191, 16274, 16440, 16523, 20012, 20676, 20759, 22170, 22253, 22917, 23000, 27319, 28813, 29560, 33879, 33962, 35373, 35456, 36120, 36203, 39941, 40356, 40439, 40605, 40688, 41850, 41933, 42099, 42182, 42597, 42680, 42846, 42929, 46999, 47248, 48493, 48742, 49240, 49489, 53559, 53642, 53808, 53891, 55053, 55136, 55302, 55385, 55800, 55883, 56049, 56132, 59870, 60036, 60119, 62028, 62111, 62277, 62360, 66679, 68671, 68920, 73239, 73322, 75231, 75314, 75480, 75563, 79799, 81957, 82040, 88600, 95160, 95243, 99728, 101637, 101720, 101886, 101969, 108280, 108529, 114840, 114923, 115089, 115172, 119657, 119823, 119906, 121068, 121151, 121317, 121400, 121815, 121898, 122064, 122147, 126466, 127711, 127960, 128458, 128707, 133026, 133109, 134271, 134354, 134520, 134603, 135018, 135101, 135267, 135350, 139586, 140997, 141080, 141744, 141827, 147640, 148387, 154200, 154283, 154947, 155030, 159515, 160677, 160760, 160926, 161009, 161424, 161507, 161673, 161756, 167320, 167569, 168067, 168316, 173880, 173963, 174129, 174212, 174627, 174710, 174876, 174959, 179444, 179610, 179693, 180108, 180191, 180357, 180440, 186253, 186751, 187000, 192813, 192896, 193311, 193394, 193560, 193643, 199373, 200037, 200120, 206680, 213240, 213323, 219302, 219717, 219800, 219966, 220049, 226360, 226609, 232920, 233003, 233169, 233252, 239231, 239397, 239480, 246040, 252600, 252683, 259160, 279089, 299018, 299184, 299267, 305827, 312387, 312470, 318947, 338876, 358805, 358971, 359054, 359469, 359552, 359718, 359801, 365614, 366112, 366361, 372174, 372257, 372672, 372755, 372921, 373004, 378734, 379398, 379481, 386041, 392601, 392684, 398663, 399078, 399161, 399327, 399410, 405721, 405970, 412281, 412364, 412530, 412613, 418592, 418758, 418841, 425401, 431961, 432044, 438521]
      
      (winningLines.take 263) =
    ([83, 249, 332, 747, 830, 996, 1079, 2241, 2324, 2490, 2573, 2988, 3071, 3237, 3320, 6892, 7390, 7639, 8884, 9133, 9631, 9880, 13452, 13535, 13950, 14033, 14199, 14282, 15444, 15527, 15693, 15776, 16191, 16274, 16440, 16523, 20012, 20676, 20759, 22170, 22253, 22917, 23000, 27319, 28813, 29560, 33879, 33962, 35373, 35456, 36120, 36203, 39941, 40356, 40439, 40605, 40688, 41850, 41933, 42099, 42182, 42597, 42680, 42846, 42929, 46999, 47248, 48493, 48742, 49240, 49489, 53559, 53642, 53808, 53891, 55053, 55136, 55302, 55385, 55800, 55883, 56049, 56132, 59870, 60036, 60119, 62028, 62111, 62277, 62360, 66679, 68671, 68920, 73239, 73322, 75231, 75314, 75480, 75563, 79799, 81957, 82040, 88600, 95160, 95243, 99728, 101637, 101720, 101886, 101969, 108280, 108529, 114840, 114923, 115089, 115172, 119657, 119823, 119906, 121068, 121151, 121317, 121400, 121815, 121898, 122064, 122147, 126466, 127711, 127960, 128458, 128707, 133026, 133109, 134271, 134354, 134520, 134603, 135018, 135101, 135267, 135350, 139586, 140997, 141080, 141744, 141827, 147640, 148387, 154200, 154283, 154947, 155030, 159515, 160677, 160760, 160926, 161009, 161424, 161507, 161673, 161756, 167320, 167569, 168067, 168316, 173880, 173963, 174129, 174212, 174627, 174710, 174876, 174959, 179444, 179610, 179693, 180108, 180191, 180357, 180440, 186253, 186751, 187000, 192813, 192896, 193311, 193394, 193560, 193643, 199373, 200037, 200120, 206680, 213240, 213323, 219302, 219717, 219800, 219966, 220049, 226360, 226609, 232920, 233003, 233169, 233252, 239231, 239397, 239480, 246040, 252600, 252683, 259160, 279089, 299018, 299184, 299267, 305827, 312387, 312470, 318947, 338876, 358805, 358971, 359054, 359469, 359552, 359718, 359801, 365614, 366112, 366361, 372174, 372257, 372672, 372755, 372921, 373004, 378734, 379398, 379481, 386041, 392601, 392684, 398663, 399078, 399161, 399327, 399410, 405721, 405970, 412281, 412364, 412530, 412613, 418592, 418758, 418841, 425401, 431961, 432044, 438521, 458450],
      
     winningLines.take 264) := by decide

theorem dirLoop_step_70 :
    dirLoop (2, 1, 2, 1) directions
      [83, 249, 332, 747, 830, 996, 1079, 2241, 2324, 2490, 2573, 2988, 3071, 3237, 3320, 6892, 7390, 7639, 8884, 9133, 9631, 9880, 13452, 13535, 13950, 14033, 14199, 14282, 15444, 15527, 15693, 15776, 16191, 16274, 16440, 16523, 20012, 20676, 20759, 22170, 22253, 22917, 23000, 27319, 28813, 29560, 33879, 33962, 35373, 35456, 36120, 36203, 39941, 40356, 40439, 40605, 40688, 41850, 41933, 42099, 42182, 42597, 42680, 42846, 42929, 46999, 47248, 48493, 48742, 49240, 49489, 53559, 53642, 53808, 53891, 55053, 55136, 55302, 55385, 55800, 55883, 56049, 56132, 59870, 60036, 60119, 62028, 62111, 62277, 62360, 66679, 68671, 68920, 73239, 73322, 75231, 75314, 75480, 75563, 79799, 81957, 82040, 88600, 95160, 95243, 99728, 101637, 101720, 101886, 101969, 108280, 108529, 114840, 114923, 115089, 115172, 119657, 119823, 119906, 121068, 121151, 121317, 121400, 121815, 121898, 122064, 122147, 126466, 127711, 127960, 128458, 128707, 133026, 133109, 134271, 134354, 134520, 134603, 135018, 135101, 135267, 135350, 139586, 140997, 141080, 141744, 141827, 147640, 148387, 154200, 154283, 154947, 155030, 159515, 160677, 160760, 160926, 161009, 161424, 161507, 161673, 161756, 167320, 167569, 168067, 168316, 173880, 173963, 174129, 174212, 174627, 174710, 174876, 174959, 179444, 179610, 179693, 180108, 180191, 180357, 180440, 186253, 186751, 187000, 192813, 192896, 193311, 193394, 193560, 193643, 199373, 200037, 200120, 206680, 213240, 213323, 219302, 219717, 219800, 219966, 220049, 226360, 226609, 232920, 233003, 233169, 233252, 239231, 239397, 239480, 246040, 252600, 252683, 259160, 279089, 299018, 299184, 299267, 305827, 312387, 312470, 318947, 338876, 358805, 358971, 359054, 359469, 359552, 359718, 359801, 365614, 366112, 366361, 372174, 372257, 372672, 372755, 372921, 373004, 378734, 379398, 379481, 386041, 392601, 392684, 398663, 399078, 399161, 399327, 399410, 405721, 405970, 412281, 412364, 412530, 412613, 418592, 418758, 418841, 425401, 431961, 432044, 438521, 458450]
      
      (winningLines.take 264) =
    ([83, 249, 332, 747, 830, 996, 1079, 2241, 2324, 2490, 2573, 2988, 3071, 3237, 3320, 6892, 7390, 7639, 8884, 9133, 9631, 9880, 13452, 13535, 13950, 14033, 14199, 14282, 15444, 15527, 15693, 15776, 16191, 16274, 16440, 16523, 20012, 20676, 20759, 22170, 22253, 22917, 23000, 27319, 28813, 29560, 33879, 33962, 35373, 35456, 36120, 36203, 39941, 40356, 40439, 40605, 40688, 41850, 41933, 42099, 42182, 42597, 42680, 42846, 42929, 46999, 47248, 48493, 48742, 49240, 49489, 53559, 53642, 53808, 53891, 55053, 55136, 55302, 55385, 55800, 55883, 56049, 56132, 59870, 60036, 60119, 62028, 62111, 62277, 62360, 66679, 68671, 68920, 73239, 73322, 75231, 75314, 75480, 75563, 79799, 81957, 82040, 88600, 95160, 95243, 99728, 101637, 101720, 101886, 101969, 108280, 108529, 114840, 114923, 115089, 115172, 119657, 119823, 119906, 121068, 121151, 121317, 121400, 121815, 121898, 122064, 122147, 126466, 127711, 127960, 128458, 128707, 133026, 133109, 134271, 134354, 134520, 134603, 135018, 135101, 135267, 135350, 139586, 140997, 141080, 141744, 141827, 147640, 148387, 154200, 154283, 154947, 155030, 159515, 160677, 160760, 160926, 161009, 161424, 161507, 161673, 161756, 167320, 167569, 168067, 168316, 173880, 173963, 174129, 174212, 174627, 174710, 174876, 174959, 179444, 179610, 179693, 180108, 180191, 180357, 180440, 186253, 186751, 187000, 192813, 192896, 193311, 193394, 193560, 193643, 199373, 200037, 200120, 206680, 213240, 213323, 219302, 219717, 219800, 219966, 220049, 226360, 226609, 232920, 233003, 233169, 233252, 239231, 239397, 239480, 246040, 252600, 252683, 259160, 279089, 299018, 299184, 299267, 305827, 312387, 312470, 318947, 338876, 358805, 358971, 359054, 359469, 359552, 359718, 359801, 365614, 366112, 366361, 372174, 372257, 372672, 372755, 372921, 373004, 378734, 379398, 379481, 386041, 392601, 392684, 398663, 399078, 399161, 399327, 399410, 405721, 405970, 412281, 412364, 412530, 412613, 418592, 418758, 418841, 425401, 431961, 432044, 438521, 458450],
      
     winningLines.take 264) := by decide

theorem dirLoop_step_71 :
    dirLoop (2, 1, 2, 2) directions
      [83, 249, 332, 747, 830, 996, 1079, 2241, 2324, 2490, 2573, 2988, 3071, 3237, 3320, 6892, 7390, 7639, 8884, 9133, 9631, 9880, 13452, 13535, 13950, 14033, 14199, 14282, 15444, 15527, 15693, 15776, 16191, 16274, 16440, 16523, 20012, 20676, 20759, 22170, 22253, 22917, 23000, 27319, 28813, 29560, 33879, 33962, 35373, 35456, 36120, 36203, 39941, 40356, 40439, 40605, 40688, 41850, 41933, 42099, 42182, 42597, 42680, 42846, 42929, 46999, 47248, 48493, 48742, 49240, 49489, 53559, 53642, 53808, 53891, 55053, 55136, 55302, 55385, 55800, 55883, 56049, 56132, 59870, 60036, 60119, 62028, 62111, 62277, 62360, 66679, 68671, 68920, 73239, 73322, 75231, 75314, 75480, 75563, 79799, 81957, 82040, 88600, 95160, 95243, 99728, 101637, 101720, 101886, 101969, 108280, 108529, 114840, 114923, 115089, 115172, 119657, 119823, 119906, 121068, 121151, 121317, 121400, 121815, 121898, 122064, 122147, 126466, 127711, 127960, 128458, 128707, 133026, 133109, 134271, 134354, 134520, 134603, 135018, 135101, 135267, 135350, 139586, 140997, 141080, 141744, 141827, 147640, 148387, 154200, 154283, 154947, 155030, 159515, 160677, 160760, 160926, 161009, 161424, 161507, 161673, 161756, 167320, 167569, 168067, 168316, 173880, 173963, 174129, 174212, 174627, 174710, 174876, 174959, 179444, 179610, 179693, 180108, 180191, 180357, 180440, 186253, 186751, 187000, 192813, 192896, 193311, 193394, 193560, 193643, 199373, 200037, 200120, 206680, 213240, 213323, 219302, 219717, 219800, 219966, 220049, 226360, 226609, 232920, 233003, 233169, 233252, 239231, 239397, 239480, 246040, 252600, 252683, 259160, 279089, 299018, 299184, 299267, 305827, 312387, 312470, 318947, 338876, 358805, 358971, 359054, 359469, 359552, 359718, 359801, 365614, 366112, 366361, 372174, 372257, 372672, 372755, 372921, 373004, 378734, 379398, 379481, 386041, 392601, 392684, 398663, 399078, 399161, 399327, 399410, 405721, 405970, 412281, 412364, 412530, 412613, 418592, 418758, 418841, 425401, 431961, 432044, 438521, 458450]
      
      (winningLines.take 264) =
    ([83, 249, 332, 747, 830, 996, 1079, 2241, 2324, 2490, 2573, 2988, 3071, 3237, 3320, 6892, 7390, 7639, 8884, 9133, 9631, 9880, 13452, 13535, 13950, 14033, 14199, 14282, 15444, 15527, 15693, 15776, 16191, 16274, 16440, 16523, 20012, 20676, 20759, 22170, 22253, 22917, 23000, 27319, 28813, 29560, 33879, 33962, 35373, 35456, 36120, 36203, 39941, 40356, 40439, 40605, 40688, 41850, 41933, 42099, 42182, 42597, 42680, 42846, 42929, 46999, 47248, 48493, 48742, 49240, 49489, 53559, 53642, 53808, 53891, 55053, 55136, 55302, 55385, 55800, 55883, 56049, 56132, 59870, 60036, 60119, 62028, 62111, 62277, 62360, 66679, 68671, 68920, 73239, 73322, 75231, 75314, 75480, 75563, 79799, 81957, 82040, 88600, 95160, 95243, 99728, 101637, 101720, 101886, 101969, 108280, 108529, 114840, 114923, 115089, 115172, 119657, 119823, 119906, 121068, 121151, 121317, 121400, 121815, 121898, 122064, 122147, 126466, 127711, 127960, 128458, 128707, 133026, 133109, 134271, 134354, 134520, 134603, 135018, 135101, 135267, 135350, 139586, 140997, 141080, 141744, 141827, 147640, 148387, 154200, 154283, 154947, 155030, 159515, 160677, 160760, 160926, 161009, 161424, 161507, 161673, 161756, 167320, 167569, 168067, 168316, 173880, 173963, 174129, 174212, 174627, 174710, 174876, 174959, 179444, 179610, 179693, 180108, 180191, 180357, 180440, 186253, 186751, 187000, 192813, 192896, 193311, 193394, 193560, 193643, 199373, 200037, 200120, 206680, 213240, 213323, 219302, 219717, 219800, 219966, 220049, 226360, 226609, 232920, 233003, 233169, 233252, 239231, 239397, 239480, 246040, 252600, 252683, 259160, 279089, 299018, 299184, 299267, 305827, 312387, 312470, 318947, 338876, 358805, 358971, 359054, 359469, 359552, 359718, 359801, 365614, 366112, 366361, 372174, 372257, 372672, 372755, 372921, 373004, 378734, 379398, 379481, 386041, 392601, 392684, 398663, 399078, 399161, 399327, 399410, 405721, 405970, 412281, 412364, 412530, 412613, 418592, 418758, 418841, 425401, 431961, 432044, 438521, 458450],
      
     winningLines.take 264) := by decide

theorem dirLoop_step_72 :
    dirLoop (2, 2, 0, 0) directions
      [83, 249, 332, 747, 830, 996, 1079, 2241, 2324, 2490, 2573, 2988, 3071, 3237, 3320, 6892, 7390, 7639, 8884, 9133, 9631, 9880, 13452, 13535, 13950, 14033, 14199, 14282, 15444, 15527, 15693, 15776, 16191, 16274, 16440, 16523, 20012, 20676, 20759, 22170, 22253, 22917, 23000, 27319, 28813, 29560, 33879, 33962, 35373, 35456, 36120, 36203, 39941, 40356, 40439, 40605, 40688, 41850, 41933, 42099, 42182, 42597, 42680, 42846, 42929, 46999, 47248, 48493, 48742, 49240, 49489, 53559, 53642, 53808, 53891, 55053, 55136, 55302, 55385, 55800, 55883, 56049, 56132, 59870, 60036, 60119, 62028, 62111, 62277, 62360, 66679, 68671, 68920, 73239, 73322, 75231, 75314, 75480, 75563, 79799, 81957, 82040, 88600, 95160, 95243, 99728, 101637, 101720, 101886, 101969, 108280, 108529, 114840, 114923, 115089, 115172, 119657, 119823, 119906, 121068, 121151, 121317, 121400, 121815, 121898, 122064, 122147, 126466, 127711, 127960, 128458, 128707, 133026, 133109, 134271, 134354, 134520, 134603, 135018, 135101, 135267, 135350, 139586, 140997, 141080, 141744, 141827, 147640, 148387, 154200, 154283, 154947, 155030, 159515, 160677, 160760, 160926, 161009, 161424, 161507, 161673, 161756, 167320, 167569, 168067, 168316, 173880, 173963, 174129, 174212, 174627, 174710, 174876, 174959, 179444, 179610, 179693, 180108, 180191, 180357, 180440, 186253, 186751, 187000, 192813, 192896, 193311, 193394, 193560, 193643, 199373, 200037, 200120, 206680, 213240, 213323, 219302, 219717, 219800, 219966, 220049, 226360, 226609, 232920, 233003, 233169, 233252, 239231, 239397, 239480, 246040, 252600, 252683, 259160, 279089, 299018, 299184, 299267, 305827, 312387, 312470, 318947, 338876, 358805, 358971, 359054, 359469, 359552, 359718, 359801, 365614, 366112, 366361, 372174, 372257, 372672, 372755, 372921, 373004, 378734, 379398, 379481, 386041, 392601, 392684, 398663, 399078, 399161, 399327, 399410, 405721, 405970, 412281, 412364, 412530, 412613, 418592, 418758, 418841, 425401, 431961, 432044, 438521, 458450]
      
      (winningLines.take 264) =
    ([83, 249, 332, 747, 830, 996, 1079, 2241, 2324, 2490, 2573, 2988, 3071, 3237, 3320, 6892, 7390, 7639, 8884, 9133, 9631, 9880, 13452, 13535, 13950, 14033, 14199, 14282, 15444, 15527, 15693, 15776, 16191, 16274, 16440, 16523, 20012, 20676, 20759, 22170, 22253, 22917, 23000, 27319, 28813, 29560, 33879, 33962, 35373, 35456, 36120, 36203, 39941, 40356, 40439, 40605, 40688, 41850, 41933, 42099, 42182, 42597, 42680, 42846, 42929, 46999, 47248, 48493, 48742, 49240, 49489, 53559, 53642, 53808, 53891, 55053, 55136, 55302, 55385, 55800, 55883, 56049, 56132, 59870, 60036, 60119, 62028, 62111, 62277, 62360, 66679, 68671, 68920, 73239, 73322, 75231, 75314, 75480, 75563, 79799, 81957, 82040, 88600, 95160, 95243, 99728, 101637, 101720, 101886, 101969, 108280, 108529, 114840, 114923, 115089, 115172, 119657, 119823, 119906, 121068, 121151, 121317, 121400, 121815, 121898, 122064, 122147, 126466, 127711, 127960, 128458, 128707, 133026, 133109, 134271, 134354, 134520, 134603, 135018, 135101, 135267, 135350, 139586, 140997, 141080, 141744, 141827, 147640, 148387, 154200, 154283, 154947, 155030, 159515, 160677, 160760, 160926, 161009, 161424, 161507, 161673, 161756, 167320, 167569, 168067, 168316, 173880, 173963, 174129, 174212, 174627, 174710, 174876, 174959, 179444, 179610, 179693, 180108, 180191, 180357, 180440, 186253, 186751, 187000, 192813, 192896, 193311, 193394, 193560, 193643, 199373, 200037, 200120, 206680, 213240, 213323, 219302, 219717, 219800, 219966, 220049, 226360, 226609, 232920, 233003, 233169, 233252, 239231, 239397, 239480, 246040, 252600, 252683, 259160, 279089, 299018, 299184, 299267, 305827, 312387, 312470, 318947, 338876, 358805, 358971, 359054, 359469, 359552, 359718, 359801, 365614, 366112, 366361, 372174, 372257, 372672, 372755, 372921, 373004, 378734, 379398, 379481, 386041, 392601, 392684, 398663, 399078, 399161, 399327, 399410, 405721, 405970, 412281, 412364, 412530, 412613, 418592, 418758, 418841, 425401, 431961, 432044, 438521, 458450, 478379, 478545, 478628],
      
     winningLines.take 267) := by decide

theorem dirLoop_step_73 :
    dirLoop (2, 2, 0, 1) directions
      [83, 249, 332, 747, 830, 996, 1079, 2241, 2324, 2490, 2573, 2988, 3071, 3237, 3320, 6892, 7390, 7639, 8884, 9133, 9631, 9880, 13452, 13535, 13950, 14033, 14199, 14282, 15444, 15527, 15693, 15776, 16191, 16274, 16440, 16523, 20012, 20676, 20759, 22170, 22253, 22917, 23000, 27319, 28813, 29560, 33879, 33962, 35373, 35456, 36120, 36203, 39941, 40356, 40439, 40605, 40688, 41850, 41933, 42099, 42182, 42597, 42680, 42846, 42929, 46999, 47248, 48493, 48742, 49240, 49489, 53559, 53642, 53808, 53891, 55053, 55136, 55302, 55385, 55800, 55883, 56049, 56132, 59870, 60036, 60119, 62028, 62111, 62277, 62360, 66679, 68671, 68920, 73239, 73322, 75231, 75314, 75480, 75563, 79799, 81957, 82040, 88600, 95160, 95243, 99728, 101637, 101720, 101886, 101969, 108280, 108529, 114840, 114923, 115089, 115172, 119657, 119823, 119906, 121068, 121151, 121317, 121400, 121815, 121898, 122064, 122147, 126466, 127711, 127960, 128458, 128707, 133026, 133109, 134271, 134354, 134520, 134603, 135018, 135101, 135267, 135350, 139586, 140997, 141080, 141744, 141827, 147640, 148387, 154200, 154283, 154947, 155030, 159515, 160677, 160760, 160926, 161009, 161424, 161507, 161673, 161756, 167320, 167569, 168067, 168316, 173880, 173963, 174129, 174212, 174627, 174710, 174876, 174959, 179444, 179610, 179693, 180108, 180191, 180357, 180440, 186253, 186751, 187000, 192813, 192896, 193311, 193394, 193560, 193643, 199373, 200037, 200120, 206680, 213240, 213323, 219302, 219717, 219800, 219966, 220049, 226360, 226609, 232920, 233003, 233169, 233252, 239231, 239397, 239480, 246040, 252600, 252683, 259160, 279089, 299018, 299184, 299267, 305827, 312387, 312470, 318947, 338876, 358805, 358971, 359054, 359469, 359552, 359718, 359801, 365614, 366112, 366361, 372174, 372257, 372672, 372755, 372921, 373004, 378734, 379398, 379481, 386041, 392601, 392684, 398663, 399078, 399161, 399327, 399410, 405721, 405970, 412281, 412364, 412530, 412613, 418592, 418758, 418841, 425401, 431961, 432044, 438521, 458450, 478379, 478545, 478628]
      
      (winningLines.take 267) =
    ([83, 249, 332, 747, 830, 996, 1079, 2241, 2324, 2490, 2573, 2988, 3071, 3237, 3320, 6892, 7390, 7639, 8884, 9133, 9631, 9880, 13452, 13535, 13950, 14033, 14199, 14282, 15444, 15527, 15693, 15776, 16191, 16274, 16440, 16523, 20012, 20676, 20759, 22170, 22253, 22917, 23000, 27319, 28813, 29560, 33879, 33962, 35373, 35456, 36120, 36203, 39941, 40356, 40439, 40605, 40688, 41850, 41933, 42099, 42182, 42597, 42680, 42846, 42929, 46999, 47248, 48493, 48742, 49240, 49489, 53559, 53642, 53808, 53891, 55053, 55136, 55302, 55385, 55800, 55883, 56049, 56132, 59870, 60036, 60119, 62028, 62111, 62277, 62360, 66679, 68671, 68920, 73239, 73322, 75231, 75314, 75480, 75563, 79799, 81957, 82040, 88600, 95160, 95243, 99728, 101637, 101720, 101886, 101969, 108280, 108529, 114840, 114923, 115089, 115172, 119657, 119823, 119906, 121068, 121151, 121317, 121400, 121815, 121898, 122064, 122147, 126466, 127711, 127960, 128458, 128707, 133026, 133109, 134271, 134354, 134520, 134603, 135018, 135101, 135267, 135350, 139586, 140997, 141080, 141744, 141827, 147640, 148387, 154200, 154283, 154947, 155030, 159515, 160677, 160760, 160926, 161009, 161424, 161507, 161673, 161756, 167320, 167569, 168067, 168316, 173880, 173963, 174129, 174212, 174627, 174710, 174876, 174959, 179444, 179610, 179693, 180108, 180191, 180357, 180440, 186253, 186751, 187000, 192813, 192896, 193311, 193394, 193560, 193643, 199373, 200037, 200120, 206680, 213240, 213323, 219302, 219717, 219800, 219966, 220049, 226360, 226609, 232920, 233003, 233169, 233252, 239231, 239397, 239480, 246040, 252600, 252683, 259160, 279089, 299018, 299184, 299267, 305827, 312387, 312470, 318947, 338876, 358805, 358971, 359054, 359469, 359552, 359718, 359801, 365614, 366112, 366361, 372174, 372257, 372672, 372755, 372921, 373004, 378734, 379398, 379481, 386041, 392601, 392684, 398663, 399078, 399161, 399327, 399410, 405721, 405970, 412281, 412364, 412530, 412613, 418592, 418758, 418841, 425401, 431961, 432044, 438521, 458450, 478379, 478545, 478628, 485188],
      
     winningLines.take 268) := by decide

theorem dirLoop_step_74 :
    dirLoop (2, 2, 0, 2) directions
      [83, 249, 332, 747, 830, 996, 1079, 2241, 2324, 2490, 2573, 2988, 3071, 3237, 3320, 6892, 7390, 7639, 8884, 9133, 9631, 9880, 13452, 13535, 13950, 14033, 14199, 14282, 15444, 15527, 15693, 15776, 16191, 16274, 16440, 16523, 20012, 20676, 20759, 22170, 22253, 22917, 23000, 27319, 28813, 29560, 33879, 33962, 35373, 35456, 36120, 36203, 39941, 40356, 40439, 40605, 40688, 41850, 41933, 42099, 42182, 42597, 42680, 42846, 42929, 46999, 47248, 48493, 48742, 49240, 49489, 53559, 53642, 53808, 53891, 55053, 55136, 55302, 55385, 55800, 55883, 56049, 56132, 59870, 60036, 60119, 62028, 62111, 62277, 62360, 66679, 68671, 68920, 73239, 73322, 75231, 75314, 75480, 75563, 79799, 81957, 82040, 88600, 95160, 95243, 99728, 101637, 101720, 101886, 101969, 108280, 108529, 114840, 114923, 115089, 115172, 119657, 119823, 119906, 121068, 121151, 121317, 121400, 121815, 121898, 122064, 122147, 126466, 127711, 127960, 128458, 128707, 133026, 133109, 134271, 134354, 134520, 134603, 135018, 135101, 135267, 135350, 139586, 140997, 141080, 141744, 141827, 147640, 148387, 154200, 154283, 154947, 155030, 159515, 160677, 160760, 160926, 161009, 161424, 161507, 161673, 161756, 167320, 167569, 168067, 168316, 173880, 173963, 174129, 174212, 174627, 174710, 174876, 174959, 179444, 179610, 179693, 180108, 180191, 180357, 180440, 186253, 186751, 187000, 192813, 192896, 193311, 193394, 193560, 193643, 199373, 200037, 200120, 206680, 213240, 213323, 219302, 219717, 219800, 219966, 220049, 226360, 226609, 232920, 233003, 233169, 233252, 239231, 239397, 239480, 246040, 252600, 252683, 259160, 279089, 299018, 299184, 299267, 305827, 312387, 312470, 318947, 338876, 358805, 358971, 359054, 359469, 359552, 359718, 359801, 365614, 366112, 366361, 372174, 372257, 372672, 372755, 372921, 373004, 378734, 379398, 379481, 386041, 392601, 392684, 398663, 399078, 399161, 399327, 399410, 405721, 405970, 412281, 412364, 412530, 412613, 418592, 418758, 418841, 425401, 431961, 432044, 438521, 458450, 478379, 478545, 478628, 485188]
      
      (winningLines.take 268) =
    ([83, 249, 332, 747, 830, 996, 1079, 2241, 2324, 2490, 2573, 2988, 3071, 3237, 3320, 6892, 7390, 7639, 8884, 9133, 9631, 9880, 13452, 13535, 13950, 14033, 14199, 14282, 15444, 15527, 15693, 15776, 16191, 16274, 16440, 16523, 20012, 20676, 20759, 22170, 22253, 22917, 23000, 27319, 28813, 29560, 33879, 33962, 35373, 35456, 36120, 36203, 39941, 40356, 40439, 40605, 40688, 41850, 41933, 42099, 42182, 42597, 42680, 42846, 42929, 46999, 47248, 48493, 48742, 49240, 49489, 53559, 53642, 53808, 53891, 55053, 55136, 55302, 55385, 55800, 55883, 56049, 56132, 59870, 60036, 60119, 62028, 62111, 62277, 62360, 66679, 68671, 68920, 73239, 73322, 75231, 75314, 75480, 75563, 79799, 81957, 82040, 88600, 95160, 95243, 99728, 101637, 101720, 101886, 101969, 108280, 108529, 114840, 114923, 115089, 115172, 119657, 119823, 119906, 121068, 121151, 121317, 121400, 121815, 121898, 122064, 122147, 126466, 127711, 127960, 128458, 128707, 133026, 133109, 134271, 134354, 134520, 134603, 135018, 135101, 135267, 135350, 139586, 140997, 141080, 141744, 141827, 147640, 148387, 154200, 154283, 154947, 155030, 159515, 160677, 160760, 160926, 161009, 161424, 161507, 161673, 161756, 167320, 167569, 168067, 168316, 173880, 173963, 174129, 174212, 174627, 174710, 174876, 174959, 179444, 179610, 179693, 180108, 180191, 180357, 180440, 186253, 186751, 187000, 192813, 192896, 193311, 193394, 193560, 193643, 199373, 200037, 200120, 206680, 213240, 213323, 219302, 219717, 219800, 219966, 220049, 226360, 226609, 232920, 233003, 233169, 233252, 239231, 239397, 239480, 246040, 252600, 252683, 259160, 279089, 299018, 299184, 299267, 305827, 312387, 312470, 318947, 338876, 358805, 358971, 359054, 359469, 359552, 359718, 359801, 365614, 366112, 366361, 372174, 372257, 372672, 372755, 372921, 373004, 378734, 379398, 379481, 386041, 392601, 392684, 398663, 399078, 399161, 399327, 399410, 405721, 405970, 412281, 412364, 412530, 412613, 418592, 418758, 418841, 425401, 431961, 432044, 438521, 458450, 478379, 478545, 478628, 485188, 491748, 491831],
      
     winningLines.take 270) := by decide

theorem dirLoop_step_75 :
    dirLoop (2, 2, 1, 0) directions
      [83, 249, 332, 747, 830, 996, 1079, 2241, 2324, 2490, 2573, 2988, 3071, 3237, 3320, 6892, 7390, 7639, 8884, 9133, 9631, 9880, 13452, 13535, 13950, 14033, 14199, 14282, 15444, 15527, 15693, 15776, 16191, 16274, 16440, 16523, 20012, 20676, 20759, 22170, 22253, 22917, 23000, 27319, 28813, 29560, 33879, 33962, 35373, 35456, 36120, 36203, 39941, 40356, 40439, 40605, 40688, 41850, 41933, 42099, 42182, 42597, 42680, 42846, 42929, 46999, 47248, 48493, 48742, 49240, 49489, 53559, 53642, 53808, 53891, 55053, 55136, 55302, 55385, 55800, 55883, 56049, 56132, 59870, 60036, 60119, 62028, 62111, 62277, 62360, 66679, 68671, 68920, 73239, 73322, 75231, 75314, 75480, 75563, 79799, 81957, 82040, 88600, 95160, 95243, 99728, 101637, 101720, 101886, 101969, 108280, 108529, 114840, 114923, 115089, 115172, 119657, 119823, 119906, 121068, 121151, 121317, 121400, 121815, 121898, 122064, 122147, 126466, 127711, 127960, 128458, 128707, 133026, 133109, 134271, 134354, 134520, 134603, 135018, 135101, 135267, 135350, 139586, 140997, 141080, 141744, 141827, 147640, 148387, 154200, 154283, 154947, 155030, 159515, 160677, 160760, 160926, 161009, 161424, 161507, 161673, 161756, 167320, 167569, 168067, 168316, 173880, 173963, 174129, 174212, 174627, 174710, 174876, 174959, 179444, 179610, 179693, 180108, 180191, 180357, 180440, 186253, 186751, 187000, 192813, 192896, 193311, 193394, 193560, 193643, 199373, 200037, 200120, 206680, 213240, 213323, 219302, 219717, 219800, 219966, 220049, 226360, 226609, 232920, 233003, 233169, 233252, 239231, 239397, 239480, 246040, 252600, 252683, 259160, 279089, 299018, 299184, 299267, 305827, 312387, 312470, 318947, 338876, 358805, 358971, 359054, 359469, 359552, 359718, 359801, 365614, 366112, 366361, 372174, 372257, 372672, 372755, 372921, 373004, 378734, 379398, 379481, 386041, 392601, 392684, 398663, 399078, 399161, 399327, 399410, 405721, 405970, 412281, 412364, 412530, 412613, 418592, 418758, 418841, 425401, 431961, 432044, 438521, 458450, 478379, 478545, 478628, 485188, 491748, 491831]
      
      (winningLines.take 270) =
    ([83, 249, 332, 747, 830, 996, 1079, 2241, 2324, 2490, 2573, 2988, 3071, 3237, 3320, 6892, 7390, 7639, 8884, 9133, 9631, 9880, 13452, 13535, 13950, 14033, 14199, 14282, 15444, 15527, 15693, 15776, 16191, 16274, 16440, 16523, 20012, 20676, 20759, 22170, 22253, 22917, 23000, 27319, 28813, 29560, 33879, 33962, 35373, 35456, 36120, 36203, 39941, 40356, 40439, 40605, 40688, 41850, 41933, 42099, 42182, 42597, 42680, 42846, 42929, 46999, 47248, 48493, 48742, 49240, 49489, 53559, 53642, 53808, 53891, 55053, 55136, 55302, 55385, 55800, 55883, 56049, 56132, 59870, 60036, 60119, 62028, 62111, 62277, 62360, 66679, 68671, 68920, 73239, 73322, 75231, 75314, 75480, 75563, 79799, 81957, 82040, 88600, 95160, 95243, 99728, 101637, 101720, 101886, 101969, 108280, 108529, 114840, 114923, 115089, 115172, 119657, 119823, 119906, 121068, 121151, 121317, 121400, 121815, 121898, 122064, 122147, 126466, 127711, 127960, 128458, 128707, 133026, 133109, 134271, 134354, 134520, 134603, 135018, 135101, 135267, 135350, 139586, 140997, 141080, 141744, 141827, 147640, 148387, 154200, 154283, 154947, 155030, 159515, 160677, 160760, 160926, 161009, 161424, 161507, 161673, 161756, 167320, 167569, 168067, 168316, 173880, 173963, 174129, 174212, 174627, 174710, 174876, 174959, 179444, 179610, 179693, 180108, 180191, 180357, 180440, 186253, 186751, 187000, 192813, 192896, 193311, 193394, 193560, 193643, 199373, 200037, 200120, 206680, 213240, 213323, 219302, 219717, 219800, 219966, 220049, 226360, 226609, 232920, 233003, 233169, 233252, 239231, 239397, 239480, 246040, 252600, 252683, 259160, 279089, 299018, 299184, 299267, 305827, 312387, 312470, 318947, 338876, 358805, 358971, 359054, 359469, 359552, 359718, 359801, 365614, 366112, 366361, 372174, 372257, 372672, 372755, 372921, 373004, 378734, 379398, 379481, 386041, 392601, 392684, 398663, 399078, 399161, 399327, 399410, 405721, 405970, 412281, 412364, 412530, 412613, 418592, 418758, 418841, 425401, 431961, 432044, 438521, 458450, 478379, 478545, 478628, 485188, 491748, 491831, 498308],
      
     winningLines.take 271) := by decide

theorem dirLoop_step_76 :
    dirLoop (2, 2, 1, 1) directions
      [83, 249, 332, 747, 830, 996, 1079, 2241, 2324, 2490, 2573, 2988, 3071, 3237, 3320, 6892, 7390, 7639, 8884, 9133, 9631, 9880, 13452, 13535, 13950, 14033, 14199, 14282, 15444, 15527, 15693, 15776, 16191, 16274, 16440, 16523, 20012, 20676, 20759, 22170, 22253, 22917, 23000, 27319, 28813, 29560, 33879, 33962, 35373, 35456, 36120, 36203, 39941, 40356, 40439, 40605, 40688, 41850, 41933, 42099, 42182, 42597, 42680, 42846, 42929, 46999, 47248, 48493, 48742, 49240, 49489, 53559, 53642, 53808, 53891, 55053, 55136, 55302, 55385, 55800, 55883, 56049, 56132, 59870, 60036, 60119, 62028, 62111, 62277, 62360, 66679, 68671, 68920, 73239, 73322, 75231, 75314, 75480, 75563, 79799, 81957, 82040, 88600, 95160, 95243, 99728, 101637, 101720, 101886, 101969, 108280, 108529, 114840, 114923, 115089, 115172, 119657, 119823, 119906, 121068, 121151, 121317, 121400, 121815, 121898, 122064, 122147, 126466, 127711, 127960, 128458, 128707, 133026, 133109, 134271, 134354, 134520, 134603, 135018, 135101, 135267, 135350, 139586, 140997, 141080, 141744, 141827, 147640, 148387, 154200, 154283, 154947, 155030, 159515, 160677, 160760, 160926, 161009, 161424, 161507, 161673, 161756, 167320, 167569, 168067, 168316, 173880, 173963, 174129, 174212, 174627, 174710, 174876, 174959, 179444, 179610, 179693, 180108, 180191, 180357, 180440, 186253, 186751, 187000, 192813, 192896, 193311, 193394, 193560, 193643, 199373, 200037, 200120, 206680, 213240, 213323, 219302, 219717, 219800, 219966, 220049, 226360, 226609, 232920, 233003, 233169, 233252, 239231, 239397, 239480, 246040, 252600, 252683, 259160, 279089, 299018, 299184, 299267, 305827, 312387, 312470, 318947, 338876, 358805, 358971, 359054, 359469, 359552, 359718, 359801, 365614, 366112, 366361, 372174, 372257, 372672, 372755, 372921, 373004, 378734, 379398, 379481, 386041, 392601, 392684, 398663, 399078, 399161, 399327, 399410, 405721, 405970, 412281, 412364, 412530, 412613, 418592, 418758, 418841, 425401, 431961, 432044, 438521, 458450, 478379, 478545, 478628, 485188, 491748, 491831, 498308]
      
      (winningLines.take 271) =
    ([83, 249, 332, 747, 830, 996, 1079, 2241, 2324, 2490, 2573, 2988, 3071, 3237, 3320, 6892, 7390, 7639, 8884, 9133, 9631, 9880, 13452, 13535, 13950, 14033, 14199, 14282, 15444, 15527, 15693, 15776, 16191, 16274, 16440, 16523, 20012, 20676, 20759, 22170, 22253, 22917, 23000, 27319, 28813, 29560, 33879, 33962, 35373, 35456, 36120, 36203, 39941, 40356, 40439, 40605, 40688, 41850, 41933, 42099, 42182, 42597, 42680, 42846, 42929, 46999, 47248, 48493, 48742, 49240, 49489, 53559, 53642, 53808, 53891, 55053, 55136, 55302, 55385, 55800, 55883, 56049, 56132, 59870, 60036, 60119, 62028, 62111, 62277, 62360, 66679, 68671, 68920, 73239, 73322, 75231, 75314, 75480, 75563, 79799, 81957, 82040, 88600, 95160, 95243, 99728, 101637, 101720, 101886, 101969, 108280, 108529, 114840, 114923, 115089, 115172, 119657, 119823, 119906, 121068, 121151, 121317, 121400, 121815, 121898, 122064, 122147, 126466, 127711, 127960, 128458, 128707, 133026, 133109, 134271, 134354, 134520, 134603, 135018, 135101, 135267, 135350, 139586, 140997, 141080, 141744, 141827, 147640, 148387, 154200, 154283, 154947, 155030, 159515, 160677, 160760, 160926, 161009, 161424, 161507, 161673, 161756, 167320, 167569, 168067, 168316, 173880, 173963, 174129, 174212, 174627, 174710, 174876, 174959, 179444, 179610, 179693, 180108, 180191, 180357, 180440, 186253, 186751, 187000, 192813, 192896, 193311, 193394, 193560, 193643, 199373, 200037, 200120, 206680, 213240, 213323, 219302, 219717, 219800, 219966, 220049, 226360, 226609, 232920, 233003, 233169, 233252, 239231, 239397, 239480, 246040, 252600, 252683, 259160, 279089, 299018, 299184, 299267, 305827, 312387, 312470, 318947, 338876, 358805, 358971, 359054, 359469, 359552, 359718, 359801, 365614, 366112, 366361, 372174, 372257, 372672, 372755, 372921, 373004, 378734, 379398, 379481, 386041, 392601, 392684, 398663, 399078, 399161, 399327, 399410, 405721, 405970, 412281, 412364, 412530, 412613, 418592, 418758, 418841, 425401, 431961, 432044, 438521, 458450, 478379, 478545, 478628, 485188, 491748, 491831, 498308],
      
     winningLines.take 271) := by decide

theorem dirLoop_step_77 :
    dirLoop (2, 2, 1, 2) directions
      [83, 249, 332, 747, 830, 996, 1079, 2241, 2324, 2490, 2573, 2988, 3071, 3237, 3320, 6892, 7390, 7639, 8884, 9133, 9631, 9880, 13452, 13535, 13950, 14033, 14199, 14282, 15444, 15527, 15693, 15776, 16191, 16274, 16440, 16523, 20012, 20676, 20759, 22170, 22253, 22917, 23000, 27319, 28813, 29560, 33879, 33962, 35373, 35456, 36120, 36203, 39941, 40356, 40439, 40605, 40688, 41850, 41933, 42099, 42182, 42597, 42680, 42846, 42929, 46999, 47248, 48493, 48742, 49240, 49489, 53559, 53642, 53808, 53891, 55053, 55136, 55302, 55385, 55800, 55883, 56049, 56132, 59870, 60036, 60119, 62028, 62111, 62277, 62360, 66679, 68671, 68920, 73239, 73322, 75231, 75314, 75480, 75563, 79799, 81957, 82040, 88600, 95160, 95243, 99728, 101637, 101720, 101886, 101969, 108280, 108529, 114840, 114923, 115089, 115172, 119657, 119823, 119906, 121068, 121151, 121317, 121400, 121815, 121898, 122064, 122147, 126466, 127711, 127960, 128458, 128707, 133026, 133109, 134271, 134354, 134520, 134603, 135018, 135101, 135267, 135350, 139586, 140997, 141080, 141744, 141827, 147640, 148387, 154200, 154283, 154947, 155030, 159515, 160677, 160760, 160926, 161009, 161424, 161507, 161673, 161756, 167320, 167569, 168067, 168316, 173880, 173963, 174129, 174212, 174627, 174710, 174876, 174959, 179444, 179610, 179693, 180108, 180191, 180357, 180440, 186253, 186751, 187000, 192813, 192896, 193311, 193394, 193560, 193643, 199373, 200037, 200120, 206680, 213240, 213323, 219302, 219717, 219800, 219966, 220049, 226360, 226609, 232920, 233003, 233169, 233252, 239231, 239397, 239480, 246040, 252600, 252683, 259160, 279089, 299018, 299184, 299267, 305827, 312387, 312470, 318947, 338876, 358805, 358971, 359054, 359469, 359552, 359718, 359801, 365614, 366112, 366361, 372174, 372257, 372672, 372755, 372921, 373004, 378734, 379398, 379481, 386041, 392601, 392684, 398663, 399078, 399161, 399327, 399410, 405721, 405970, 412281, 412364, 412530, 412613, 418592, 418758, 418841, 425401, 431961, 432044, 438521, 458450, 478379, 478545, 478628, 485188, 491748, 491831, 498308]
      
      (winningLines.take 271) =
    ([83, 249, 332, 747, 830, 996, 1079, 2241, 2324, 2490, 2573, 2988, 3071, 3237, 3320, 6892, 7390, 7639, 8884, 9133, 9631, 9880, 13452, 13535, 13950, 14033, 14199, 14282, 15444, 15527, 15693, 15776, 16191, 16274, 16440, 16523, 20012, 20676, 20759, 22170, 22253, 22917, 23000, 27319, 28813, 29560, 33879, 33962, 35373, 35456, 36120, 36203, 39941, 40356, 40439, 40605, 40688, 41850, 41933, 42099, 42182, 42597, 42680, 42846, 42929, 46999, 47248, 48493, 48742, 49240, 49489, 53559, 53642, 53808, 53891, 55053, 55136, 55302, 55385, 55800, 55883, 56049, 56132, 59870, 60036, 60119, 62028, 62111, 62277, 62360, 66679, 68671, 68920, 73239, 73322, 75231, 75314, 75480, 75563, 79799, 81957, 82040, 88600, 95160, 95243, 99728, 101637, 101720, 101886, 101969, 108280, 108529, 114840, 114923, 115089, 115172, 119657, 119823, 119906, 121068, 121151, 121317, 121400, 121815, 121898, 122064, 122147, 126466, 127711, 127960, 128458, 128707, 133026, 133109, 134271, 134354, 134520, 134603, 135018, 135101, 135267, 135350, 139586, 140997, 141080, 141744, 141827, 147640, 148387, 154200, 154283, 154947, 155030, 159515, 160677, 160760, 160926, 161009, 161424, 161507, 161673, 161756, 167320, 167569, 168067, 168316, 173880, 173963, 174129, 174212, 174627, 174710, 174876, 174959, 179444, 179610, 179693, 180108, 180191, 180357, 180440, 186253, 186751, 187000, 192813, 192896, 193311, 193394, 193560, 193643, 199373, 200037, 200120, 206680, 213240, 213323, 219302, 219717, 219800, 219966, 220049, 226360, 226609, 232920, 233003, 233169, 233252, 239231, 239397, 239480, 246040, 252600, 252683, 259160, 279089, 299018, 299184, 299267, 305827, 312387, 312470, 318947, 338876, 358805, 358971, 359054, 359469, 359552, 359718, 359801, 365614, 366112, 366361, 372174, 372257, 372672, 372755, 372921, 373004, 378734, 379398, 379481, 386041, 392601, 392684, 398663, 399078, 399161, 399327, 399410, 405721, 405970, 412281, 412364, 412530, 412613, 418592, 418758, 418841, 425401, 431961, 432044, 438521, 458450, 478379, 478545, 478628, 485188, 491748, 491831, 498308],
      
     winningLines.take 271) := by decide

theorem dirLoop_step_78 :
    dirLoop (2, 2, 2, 0) directions
      [83, 249, 332, 747, 830, 996, 1079, 2241, 2324, 2490, 2573, 2988, 3071, 3237, 3320, 6892, 7390, 7639, 8884, 9133, 9631, 9880, 13452, 13535, 13950, 14033, 14199, 14282, 15444, 15527, 15693, 15776, 16191, 16274, 16440, 16523, 20012, 20676, 20759, 22170, 22253, 22917, 23000, 27319, 28813, 29560, 33879, 33962, 35373, 35456, 36120, 36203, 39941, 40356, 40439, 40605, 40688, 41850, 41933, 42099, 42182, 42597, 42680, 42846, 42929, 46999, 47248, 48493, 48742, 49240, 49489, 53559, 53642, 53808, 53891, 55053, 55136, 55302, 55385, 55800, 55883, 56049, 56132, 59870, 60036, 60119, 62028, 62111, 62277, 62360, 66679, 68671, 68920, 73239, 73322, 75231, 75314, 75480, 75563, 79799, 81957, 82040, 88600, 95160, 95243, 99728, 101637, 101720, 101886, 101969, 108280, 108529, 114840, 114923, 115089, 115172, 119657, 119823, 119906, 121068, 121151, 121317, 121400, 121815, 121898, 122064, 122147, 126466, 127711, 127960, 128458, 128707, 133026, 133109, 134271, 134354, 134520, 134603, 135018, 135101, 135267, 135350, 139586, 140997, 141080, 141744, 141827, 147640, 148387, 154200, 154283, 154947, 155030, 159515, 160677, 160760, 160926, 161009, 161424, 161507, 161673, 161756, 167320, 167569, 168067, 168316, 173880, 173963, 174129, 174212, 174627, 174710, 174876, 174959, 179444, 179610, 179693, 180108, 180191, 180357, 180440, 186253, 186751, 187000, 192813, 192896, 193311, 193394, 193560, 193643, 199373, 200037, 200120, 206680, 213240, 213323, 219302, 219717, 219800, 219966, 220049, 226360, 226609, 232920, 233003, 233169, 233252, 239231, 239397, 239480, 246040, 252600, 252683, 259160, 279089, 299018, 299184, 299267, 305827, 312387, 312470, 318947, 338876, 358805, 358971, 359054, 359469, 359552, 359718, 359801, 365614, 366112, 366361, 372174, 372257, 372672, 372755, 372921, 373004, 378734, 379398, 379481, 386041, 392601, 392684, 398663, 399078, 399161, 399327, 399410, 405721, 405970, 412281, 412364, 412530, 412613, 418592, 418758, 418841, 425401, 431961, 432044, 438521, 458450, 478379, 478545, 478628, 485188, 491748, 491831, 498308]
      
      (winningLines.take 271) =
    ([83, 249, 332, 747, 830, 996, 1079, 2241, 2324, 2490, 2573, 2988, 3071, 3237, 3320, 6892, 7390, 7639, 8884, 9133, 9631, 9880, 13452, 13535, 13950, 14033, 14199, 14282, 15444, 15527, 15693, 15776, 16191, 16274, 16440, 16523, 20012, 20676, 20759, 22170, 22253, 22917, 23000, 27319, 28813, 29560, 33879, 33962, 35373, 35456, 36120, 36203, 39941, 40356, 40439, 40605, 40688, 41850, 41933, 42099, 42182, 42597, 42680, 42846, 42929, 46999, 47248, 48493, 48742, 49240, 49489, 53559, 53642, 53808, 53891, 55053, 55136, 55302, 55385, 55800, 55883, 56049, 56132, 59870, 60036, 60119, 62028, 62111, 62277, 62360, 66679, 68671, 68920, 73239, 73322, 75231, 75314, 75480, 75563, 79799, 81957, 82040, 88600, 95160, 95243, 99728, 101637, 101720, 101886, 101969, 108280, 108529, 114840, 114923, 115089, 115172, 119657, 119823, 119906, 121068, 121151, 121317, 121400, 121815, 121898, 122064, 122147, 126466, 127711, 127960, 128458, 128707, 133026, 133109, 134271, 134354, 134520, 134603, 135018, 135101, 135267, 135350, 139586, 140997, 141080, 141744, 141827, 147640, 148387, 154200, 154283, 154947, 155030, 159515, 160677, 160760, 160926, 161009, 161424, 161507, 161673, 161756, 167320, 167569, 168067, 168316, 173880, 173963, 174129, 174212, 174627, 174710, 174876, 174959, 179444, 179610, 179693, 180108, 180191, 180357, 180440, 186253, 186751, 187000, 192813, 192896, 193311, 193394, 193560, 193643, 199373, 200037, 200120, 206680, 213240, 213323, 219302, 219717, 219800, 219966, 220049, 226360, 226609, 232920, 233003, 233169, 233252, 239231, 239397, 239480, 246040, 252600, 252683, 259160, 279089, 299018, 299184, 299267, 305827, 312387, 312470, 318947, 338876, 358805, 358971, 359054, 359469, 359552, 359718, 359801, 365614, 366112, 366361, 372174, 372257, 372672, 372755, 372921, 373004, 378734, 379398, 379481, 386041, 392601, 392684, 398663, 399078, 399161, 399327, 399410, 405721, 405970, 412281, 412364, 412530, 412613, 418592, 418758, 418841, 425401, 431961, 432044, 438521, 458450, 478379, 478545, 478628, 485188, 491748, 491831, 498308, 518237],
      
     winningLines.take 272) := by decide

theorem dirLoop_step_79 :
    dirLoop (2, 2, 2, 1) directions
      [83, 249, 332, 747, 830, 996, 1079, 2241, 2324, 2490, 2573, 2988, 3071, 3237, 3320, 6892, 7390, 7639, 8884, 9133, 9631, 9880, 13452, 13535, 13950, 14033, 14199, 14282, 15444, 15527, 15693, 15776, 16191, 16274, 16440, 16523, 20012, 20676, 20759, 22170, 22253, 22917, 23000, 27319, 28813, 29560, 33879, 33962, 35373, 35456, 36120, 36203, 39941, 40356, 40439, 40605, 40688, 41850, 41933, 42099, 42182, 42597, 42680, 42846, 42929, 46999, 47248, 48493, 48742, 49240, 49489, 53559, 53642, 53808, 53891, 55053, 55136, 55302, 55385, 55800, 55883, 56049, 56132, 59870, 60036, 60119, 62028, 62111, 62277, 62360, 66679, 68671, 68920, 73239, 73322, 75231, 75314, 75480, 75563, 79799, 81957, 82040, 88600, 95160, 95243, 99728, 101637, 101720, 101886, 101969, 108280, 108529, 114840, 114923, 115089, 115172, 119657, 119823, 119906, 121068, 121151, 121317, 121400, 121815, 121898, 122064, 122147, 126466, 127711, 127960, 128458, 128707, 133026, 133109, 134271, 134354, 134520, 134603, 135018, 135101, 135267, 135350, 139586, 140997, 141080, 141744, 141827, 147640, 148387, 154200, 154283, 154947, 155030, 159515, 160677, 160760, 160926, 161009, 161424, 161507, 161673, 161756, 167320, 167569, 168067, 168316, 173880, 173963, 174129, 174212, 174627, 174710, 174876, 174959, 179444, 179610, 179693, 180108, 180191, 180357, 180440, 186253, 186751, 187000, 192813, 192896, 193311, 193394, 193560, 193643, 199373, 200037, 200120, 206680, 213240, 213323, 219302, 219717, 219800, 219966, 220049, 226360, 226609, 232920, 233003, 233169, 233252, 239231, 239397, 239480, 246040, 252600, 252683, 259160, 279089, 299018, 299184, 299267, 305827, 312387, 312470, 318947, 338876, 358805, 358971, 359054, 359469, 359552, 359718, 359801, 365614, 366112, 366361, 372174, 372257, 372672, 372755, 372921, 373004, 378734, 379398, 379481, 386041, 392601, 392684, 398663, 399078, 399161, 399327, 399410, 405721, 405970, 412281, 412364, 412530, 412613, 418592, 418758, 418841, 425401, 431961, 432044, 438521, 458450, 478379, 478545, 478628, 485188, 491748, 491831, 498308, 518237]
      
      (winningLines.take 272) =
    ([83, 249, 332, 747, 830, 996, 1079, 2241, 2324, 2490, 2573, 2988, 3071, 3237, 3320, 6892, 7390, 7639, 8884, 9133, 9631, 9880, 13452, 13535, 13950, 14033, 14199, 14282, 15444, 15527, 15693, 15776, 16191, 16274, 16440, 16523, 20012, 20676, 20759, 22170, 22253, 22917, 23000, 27319, 28813, 29560, 33879, 33962, 35373, 35456, 36120, 36203, 39941, 40356, 40439, 40605, 40688, 41850, 41933, 42099, 42182, 42597, 42680, 42846, 42929, 46999, 47248, 48493, 48742, 49240, 49489, 53559, 53642, 53808, 53891, 55053, 55136, 55302, 55385, 55800, 55883, 56049, 56132, 59870, 60036, 60119, 62028, 62111, 62277, 62360, 66679, 68671, 68920, 73239, 73322, 75231, 75314, 75480, 75563, 79799, 81957, 82040, 88600, 95160, 95243, 99728, 101637, 101720, 101886, 101969, 108280, 108529, 114840, 114923, 115089, 115172, 119657, 119823, 119906, 121068, 121151, 121317, 121400, 121815, 121898, 122064, 122147, 126466, 127711, 127960, 128458, 128707, 133026, 133109, 134271, 134354, 134520, 134603, 135018, 135101, 135267, 135350, 139586, 140997, 141080, 141744, 141827, 147640, 148387, 154200, 154283, 154947, 155030, 159515, 160677, 160760, 160926, 161009, 161424, 161507, 161673, 161756, 167320, 167569, 168067, 168316, 173880, 173963, 174129, 174212, 174627, 174710, 174876, 174959, 179444, 179610, 179693, 180108, 180191, 180357, 180440, 186253, 186751, 187000, 192813, 192896, 193311, 193394, 193560, 193643, 199373, 200037, 200120, 206680, 213240, 213323, 219302, 219717, 219800, 219966, 220049, 226360, 226609, 232920, 233003, 233169, 233252, 239231, 239397, 239480, 246040, 252600, 252683, 259160, 279089, 299018, 299184, 299267, 305827, 312387, 312470, 318947, 338876, 358805, 358971, 359054, 359469, 359552, 359718, 359801, 365614, 366112, 366361, 372174, 372257, 372672, 372755, 372921, 373004, 378734, 379398, 379481, 386041, 392601, 392684, 398663, 399078, 399161, 399327, 399410, 405721, 405970, 412281, 412364, 412530, 412613, 418592, 418758, 418841, 425401, 431961, 432044, 438521, 458450, 478379, 478545, 478628, 485188, 491748, 491831, 498308, 518237],
      
     winningLines.take 272) := by decide

theorem dirLoop_step_80 :
    dirLoop (2, 2, 2, 2) directions
      [83, 249, 332, 747, 830, 996, 1079, 2241, 2324, 2490, 2573, 2988, 3071, 3237, 3320, 6892, 7390, 7639, 8884, 9133, 9631, 9880, 13452, 13535, 13950, 14033, 14199, 14282, 15444, 15527, 15693, 15776, 16191, 16274, 16440, 16523, 20012, 20676, 20759, 22170, 22253, 22917, 23000, 27319, 28813, 29560, 33879, 33962, 35373, 35456, 36120, 36203, 39941, 40356, 40439, 40605, 40688, 41850, 41933, 42099, 42182, 42597, 42680, 42846, 42929, 46999, 47248, 48493, 48742, 49240, 49489, 53559, 53642, 53808, 53891, 55053, 55136, 55302, 55385, 55800, 55883, 56049, 56132, 59870, 60036, 60119, 62028, 62111, 62277, 62360, 66679, 68671, 68920, 73239, 73322, 75231, 75314, 75480, 75563, 79799, 81957, 82040, 88600, 95160, 95243, 99728, 101637, 101720, 101886, 101969, 108280, 108529, 114840, 114923, 115089, 115172, 119657, 119823, 119906, 121068, 121151, 121317, 121400, 121815, 121898, 122064, 122147, 126466, 127711, 127960, 128458, 128707, 133026, 133109, 134271, 134354, 134520, 134603, 135018, 135101, 135267, 135350, 139586, 140997, 141080, 141744, 141827, 147640, 148387, 154200, 154283, 154947, 155030, 159515, 160677, 160760, 160926, 161009, 161424, 161507, 161673, 161756, 167320, 167569, 168067, 168316, 173880, 173963, 174129, 174212, 174627, 174710, 174876, 174959, 179444, 179610, 179693, 180108, 180191, 180357, 180440, 186253, 186751, 187000, 192813, 192896, 193311, 193394, 193560, 193643, 199373, 200037, 200120, 206680, 213240, 213323, 219302, 219717, 219800, 219966, 220049, 226360, 226609, 232920, 233003, 233169, 233252, 239231, 239397, 239480, 246040, 252600, 252683, 259160, 279089, 299018, 299184, 299267, 305827, 312387, 312470, 318947, 338876, 358805, 358971, 359054, 359469, 359552, 359718, 359801, 365614, 366112, 366361, 372174, 372257, 372672, 372755, 372921, 373004, 378734, 379398, 379481, 386041, 392601, 392684, 398663, 399078, 399161, 399327, 399410, 405721, 405970, 412281, 412364, 412530, 412613, 418592, 418758, 418841, 425401, 431961, 432044, 438521, 458450, 478379, 478545, 478628, 485188, 491748, 491831, 498308, 518237]
      
      (winningLines.take 272) =
    ([83, 249, 332, 747, 830, 996, 1079, 2241, 2324, 2490, 2573, 2988, 3071, 3237, 3320, 6892, 7390, 7639, 8884, 9133, 9631, 9880, 13452, 13535, 13950, 14033, 14199, 14282, 15444, 15527, 15693, 15776, 16191, 16274, 16440, 16523, 20012, 20676, 20759, 22170, 22253, 22917, 23000, 27319, 28813, 29560, 33879, 33962, 35373, 35456, 36120, 36203, 39941, 40356, 40439, 40605, 40688, 41850, 41933, 42099, 42182, 42597, 42680, 42846, 42929, 46999, 47248, 48493, 48742, 49240, 49489, 53559, 53642, 53808, 53891, 55053, 55136, 55302, 55385, 55800, 55883, 56049, 56132, 59870, 60036, 60119, 62028, 62111, 62277, 62360, 66679, 68671, 68920, 73239, 73322, 75231, 75314, 75480, 75563, 79799, 81957, 82040, 88600, 95160, 95243, 99728, 101637, 101720, 101886, 101969, 108280, 108529, 114840, 114923, 115089, 115172, 119657, 119823, 119906, 121068, 121151, 121317, 121400, 121815, 121898, 122064, 122147, 126466, 127711, 127960, 128458, 128707, 133026, 133109, 134271, 134354, 134520, 134603, 135018, 135101, 135267, 135350, 139586, 140997, 141080, 141744, 141827, 147640, 148387, 154200, 154283, 154947, 155030, 159515, 160677, 160760, 160926, 161009, 161424, 161507, 161673, 161756, 167320, 167569, 168067, 168316, 173880, 173963, 174129, 174212, 174627, 174710, 174876, 174959, 179444, 179610, 179693, 180108, 180191, 180357, 180440, 186253, 186751, 187000, 192813, 192896, 193311, 193394, 193560, 193643, 199373, 200037, 200120, 206680, 213240, 213323, 219302, 219717, 219800, 219966, 220049, 226360, 226609, 232920, 233003, 233169, 233252, 239231, 239397, 239480, 246040, 252600, 252683, 259160, 279089, 299018, 299184, 299267, 305827, 312387, 312470, 318947, 338876, 358805, 358971, 359054, 359469, 359552, 359718, 359801, 365614, 366112, 366361, 372174, 372257, 372672, 372755, 372921, 373004, 378734, 379398, 379481, 386041, 392601, 392684, 398663, 399078, 399161, 399327, 399410, 405721, 405970, 412281, 412364, 412530, 412613, 418592, 418758, 418841, 425401, 431961, 432044, 438521, 458450, 478379, 478545, 478628, 485188, 491748, 491831, 498308, 518237],
      
     winningLines.take 272) := by decide

/-- The posChain theorems splice the outer-loop steps together: from
any intermediate state of the precomputation the loop finishes with the
full table. -/
theorem posChain_81 :
    posLoop (allPositionsList.drop 81)
      [83, 249, 332, 747, 830, 996, 1079, 2241, 2324, 2490, 2573, 2988, 3071, 3237, 3320, 6892, 7390, 7639, 8884, 9133, 9631, 9880, 13452, 13535, 13950, 14033, 14199, 14282, 15444, 15527, 15693, 15776, 16191, 16274, 16440, 16523, 20012, 20676, 20759, 22170, 22253, 22917, 23000, 27319, 28813, 29560, 33879, 33962, 35373, 35456, 36120, 36203, 39941, 40356, 40439, 40605, 40688, 41850, 41933, 42099, 42182, 42597, 42680, 42846, 42929, 46999, 47248, 48493, 48742, 49240, 49489, 53559, 53642, 53808, 53891, 55053, 55136, 55302, 55385, 55800, 55883, 56049, 56132, 59870, 60036, 60119, 62028, 62111, 62277, 62360, 66679, 68671, 68920, 73239, 73322, 75231, 75314, 75480, 75563, 79799, 81957, 82040, 88600, 95160, 95243, 99728, 101637, 101720, 101886, 101969, 108280, 108529, 114840, 114923, 115089, 115172, 119657, 119823, 119906, 121068, 121151, 121317, 121400, 121815, 121898, 122064, 122147, 126466, 127711, 127960, 128458, 128707, 133026, 133109, 134271, 134354, 134520, 134603, 135018, 135101, 135267, 135350, 139586, 140997, 141080, 141744, 141827, 147640, 148387, 154200, 154283, 154947, 155030, 159515, 160677, 160760, 160926, 161009, 161424, 161507, 161673, 161756, 167320, 167569, 168067, 168316, 173880, 173963, 174129, 174212, 174627, 174710, 174876, 174959, 179444, 179610, 179693, 180108, 180191, 180357, 180440, 186253, 186751, 187000, 192813, 192896, 193311, 193394, 193560, 193643, 199373, 200037, 200120, 206680, 213240, 213323, 219302, 219717, 219800, 219966, 220049, 226360, 226609, 232920, 233003, 233169, 233252, 239231, 239397, 239480, 246040, 252600, 252683, 259160, 279089, 299018, 299184, 299267, 305827, 312387, 312470, 318947, 338876, 358805, 358971, 359054, 359469, 359552, 359718, 359801, 365614, 366112, 366361, 372174, 372257, 372672, 372755, 372921, 373004, 378734, 379398, 379481, 386041, 392601, 392684, 398663, 399078, 399161, 399327, 399410, 405721, 405970, 412281, 412364, 412530, 412613, 418592, 418758, 418841, 425401, 431961, 432044, 438521, 458450, 478379, 478545, 478628, 485188, 491748, 491831, 498308, 518237]
      
      (winningLines.take 272) = winningLines := by
  rw [show allPositionsList.drop 81 = [] from rfl, posLoop]
  decide

theorem posChain_80 :
    posLoop (allPositionsList.drop 80)
      [83, 249, 332, 747, 830, 996, 1079, 2241, 2324, 2490, 2573, 2988, 3071, 3237, 3320, 6892, 7390, 7639, 8884, 9133, 9631, 9880, 13452, 13535, 13950, 14033, 14199, 14282, 15444, 15527, 15693, 15776, 16191, 16274, 16440, 16523, 20012, 20676, 20759, 22170, 22253, 22917, 23000, 27319, 28813, 29560, 33879, 33962, 35373, 35456, 36120, 36203, 39941, 40356, 40439, 40605, 40688, 41850, 41933, 42099, 42182, 42597, 42680, 42846, 42929, 46999, 47248, 48493, 48742, 49240, 49489, 53559, 53642, 53808, 53891, 55053, 55136, 55302, 55385, 55800, 55883, 56049, 56132, 59870, 60036, 60119, 62028, 62111, 62277, 62360, 66679, 68671, 68920, 73239, 73322, 75231, 75314, 75480, 75563, 79799, 81957, 82040, 88600, 95160, 95243, 99728, 101637, 101720, 101886, 101969, 108280, 108529, 114840, 114923, 115089, 115172, 119657, 119823, 119906, 121068, 121151, 121317, 121400, 121815, 121898, 122064, 122147, 126466, 127711, 127960, 128458, 128707, 133026, 133109, 134271, 134354, 134520, 134603, 135018, 135101, 135267, 135350, 139586, 140997, 141080, 141744, 141827, 147640, 148387, 154200, 154283, 154947, 155030, 159515, 160677, 160760, 160926, 161009, 161424, 161507, 161673, 161756, 167320, 167569, 168067, 168316, 173880, 173963, 174129, 174212, 174627, 174710, 174876, 174959, 179444, 179610, 179693, 180108, 180191, 180357, 180440, 186253, 186751, 187000, 192813, 192896, 193311, 193394, 193560, 193643, 199373, 200037, 200120, 206680, 213240, 213323, 219302, 219717, 219800, 219966, 220049, 226360, 226609, 232920, 233003, 233169, 233252, 239231, 239397, 239480, 246040, 252600, 252683, 259160, 279089, 299018, 299184, 299267, 305827, 312387, 312470, 318947, 338876, 358805, 358971, 359054, 359469, 359552, 359718, 359801, 365614, 366112, 366361, 372174, 372257, 372672, 372755, 372921, 373004, 378734, 379398, 379481, 386041, 392601, 392684, 398663, 399078, 399161, 399327, 399410, 405721, 405970, 412281, 412364, 412530, 412613, 418592, 418758, 418841, 425401, 431961, 432044, 438521, 458450, 478379, 478545, 478628, 485188, 491748, 491831, 498308, 518237]
      
      (winningLines.take 272) = winningLines := by
  rw [show allPositionsList.drop 80 = (2, 2, 2, 2) :: allPositionsList.drop 81 from rfl,
    posLoop, dirLoop_step_80]
  exact posChain_81

theorem posChain_79 :
    posLoop (allPositionsList.drop 79)
      [83, 249, 332, 747, 830, 996, 1079, 2241, 2324, 2490, 2573, 2988, 3071, 3237, 3320, 6892, 7390, 7639, 8884, 9133, 9631, 9880, 13452, 13535, 13950, 14033, 14199, 14282, 15444, 15527, 15693, 15776, 16191, 16274, 16440, 16523, 20012, 20676, 20759, 22170, 22253, 22917, 23000, 27319, 28813, 29560, 33879, 33962, 35373, 35456, 36120, 36203, 39941, 40356, 40439, 40605, 40688, 41850, 41933, 42099, 42182, 42597, 42680, 42846, 42929, 46999, 47248, 48493, 48742, 49240, 49489, 53559, 53642, 53808, 53891, 55053, 55136, 55302, 55385, 55800, 55883, 56049, 56132, 59870, 60036, 60119, 62028, 62111, 62277, 62360, 66679, 68671, 68920, 73239, 73322, 75231, 75314, 75480, 75563, 79799, 81957, 82040, 88600, 95160, 95243, 99728, 101637, 101720, 101886, 101969, 108280, 108529, 114840, 114923, 115089, 115172, 119657, 119823, 119906, 121068, 121151, 121317, 121400, 121815, 121898, 122064, 122147, 126466, 127711, 127960, 128458, 128707, 133026, 133109, 134271, 134354, 134520, 134603, 135018, 135101, 135267, 135350, 139586, 140997, 141080, 141744, 141827, 147640, 148387, 154200, 154283, 154947, 155030, 159515, 160677, 160760, 160926, 161009, 161424, 161507, 161673, 161756, 167320, 167569, 168067, 168316, 173880, 173963, 174129, 174212, 174627, 174710, 174876, 174959, 179444, 179610, 179693, 180108, 180191, 180357, 180440, 186253, 186751, 187000, 192813, 192896, 193311, 193394, 193560, 193643, 199373, 200037, 200120, 206680, 213240, 213323, 219302, 219717, 219800, 219966, 220049, 226360, 226609, 232920, 233003, 233169, 233252, 239231, 239397, 239480, 246040, 252600, 252683, 259160, 279089, 299018, 299184, 299267, 305827, 312387, 312470, 318947, 338876, 358805, 358971, 359054, 359469, 359552, 359718, 359801, 365614, 366112, 366361, 372174, 372257, 372672, 372755, 372921, 373004, 378734, 379398, 379481, 386041, 392601, 392684, 398663, 399078, 399161, 399327, 399410, 405721, 405970, 412281, 412364, 412530, 412613, 418592, 418758, 418841, 425401, 431961, 432044, 438521, 458450, 478379, 478545, 478628, 485188, 491748, 491831, 498308, 518237]
      
      (winningLines.take 272) = winningLines := by
  rw [show allPositionsList.drop 79 = (2, 2, 2, 1) :: allPositionsList.drop 80 from rfl,
    posLoop, dirLoop_step_79]
  exact posChain_80

theorem posChain_78 :
    posLoop (allPositionsList.drop 78)
      [83, 249, 332, 747, 830, 996, 1079, 2241, 2324, 2490, 2573, 2988, 3071, 3237, 3320, 6892, 7390, 7639, 8884, 9133, 9631, 9880, 13452, 13535, 13950, 14033, 14199, 14282, 15444, 15527, 15693, 15776, 16191, 16274, 16440, 16523, 20012, 20676, 20759, 22170, 22253, 22917, 23000, 27319, 28813, 29560, 33879, 33962, 35373, 35456, 36120, 36203, 39941, 40356, 40439, 40605, 40688, 41850, 41933, 42099, 42182, 42597, 42680, 42846, 42929, 46999, 47248, 48493, 48742, 49240, 49489, 53559, 53642, 53808, 53891, 55053, 55136, 55302, 55385, 55800, 55883, 56049, 56132, 59870, 60036, 60119, 62028, 62111, 62277, 62360, 66679, 68671, 68920, 73239, 73322, 75231, 75314, 75480, 75563, 79799, 81957, 82040, 88600, 95160, 95243, 99728, 101637, 101720, 101886, 101969, 108280, 108529, 114840, 114923, 115089, 115172, 119657, 119823, 119906, 121068, 121151, 121317, 121400, 121815, 121898, 122064, 122147, 126466, 127711, 127960, 128458, 128707, 133026, 133109, 134271, 134354, 134520, 134603, 135018, 135101, 135267, 135350, 139586, 140997, 141080, 141744, 141827, 147640, 148387, 154200, 154283, 154947, 155030, 159515, 160677, 160760, 160926, 161009, 161424, 161507, 161673, 161756, 167320, 167569, 168067, 168316, 173880, 173963, 174129, 174212, 174627, 174710, 174876, 174959, 179444, 179610, 179693, 180108, 180191, 180357, 180440, 186253, 186751, 187000, 192813, 192896, 193311, 193394, 193560, 193643, 199373, 200037, 200120, 206680, 213240, 213323, 219302, 219717, 219800, 219966, 220049, 226360, 226609, 232920, 233003, 233169, 233252, 239231, 239397, 239480, 246040, 252600, 252683, 259160, 279089, 299018, 299184, 299267, 305827, 312387, 312470, 318947, 338876, 358805, 358971, 359054, 359469, 359552, 359718, 359801, 365614, 366112, 366361, 372174, 372257, 372672, 372755, 372921, 373004, 378734, 379398, 379481, 386041, 392601, 392684, 398663, 399078, 399161, 399327, 399410, 405721, 405970, 412281, 412364, 412530, 412613, 418592, 418758, 418841, 425401, 431961, 432044, 438521, 458450, 478379, 478545, 478628, 485188, 491748, 491831, 498308]
      
      (winningLines.take 271) = winningLines := by
  rw [show allPositionsList.drop 78 = (2, 2, 2, 0) :: allPositionsList.drop 79 from rfl,
    posLoop, dirLoop_step_78]
  exact posChain_79

theorem posChain_77 :
    posLoop (allPositionsList.drop 77)
      [83, 249, 332, 747, 830, 996, 1079, 2241, 2324, 2490, 2573, 2988, 3071, 3237, 3320, 6892, 7390, 7639, 8884, 9133, 9631, 9880, 13452, 13535, 13950, 14033, 14199, 14282, 15444, 15527, 15693, 15776, 16191, 16274, 16440, 16523, 20012, 20676, 20759, 22170, 22253, 22917, 23000, 27319, 28813, 29560, 33879, 33962, 35373, 35456, 36120, 36203, 39941, 40356, 40439, 40605, 40688, 41850, 41933, 42099, 42182, 42597, 42680, 42846, 42929, 46999, 47248, 48493, 48742, 49240, 49489, 53559, 53642, 53808, 53891, 55053, 55136, 55302, 55385, 55800, 55883, 56049, 56132, 59870, 60036, 60119, 62028, 62111, 62277, 62360, 66679, 68671, 68920, 73239, 73322, 75231, 75314, 75480, 75563, 79799, 81957, 82040, 88600, 95160, 95243, 99728, 101637, 101720, 101886, 101969, 108280, 108529, 114840, 114923, 115089, 115172, 119657, 119823, 119906, 121068, 121151, 121317, 121400, 121815, 121898, 122064, 122147, 126466, 127711, 127960, 128458, 128707, 133026, 133109, 134271, 134354, 134520, 134603, 135018, 135101, 135267, 135350, 139586, 140997, 141080, 141744, 141827, 147640, 148387, 154200, 154283, 154947, 155030, 159515, 160677, 160760, 160926, 161009, 161424, 161507, 161673, 161756, 167320, 167569, 168067, 168316, 173880, 173963, 174129, 174212, 174627, 174710, 174876, 174959, 179444, 179610, 179693, 180108, 180191, 180357, 180440, 186253, 186751, 187000, 192813, 192896, 193311, 193394, 193560, 193643, 199373, 200037, 200120, 206680, 213240, 213323, 219302, 219717, 219800, 219966, 220049, 226360, 226609, 232920, 233003, 233169, 233252, 239231, 239397, 239480, 246040, 252600, 252683, 259160, 279089, 299018, 299184, 299267, 305827, 312387, 312470, 318947, 338876, 358805, 358971, 359054, 359469, 359552, 359718, 359801, 365614, 366112, 366361, 372174, 372257, 372672, 372755, 372921, 373004, 378734, 379398, 379481, 386041, 392601, 392684, 398663, 399078, 399161, 399327, 399410, 405721, 405970, 412281, 412364, 412530, 412613, 418592, 418758, 418841, 425401, 431961, 432044, 438521, 458450, 478379, 478545, 478628, 485188, 491748, 491831, 498308]
      
      (winningLines.take 271) = winningLines := by
  rw [show allPositionsList.drop 77 = (2, 2, 1, 2) :: allPositionsList.drop 78 from rfl,
    posLoop, dirLoop_step_77]
  exact posChain_78

theorem posChain_76 :
    posLoop (allPositionsList.drop 76)
      [83, 249, 332, 747, 830, 996, 1079, 2241, 2324, 2490, 2573, 2988, 3071, 3237, 3320, 6892, 7390, 7639, 8884, 9133, 9631, 9880, 13452, 13535, 13950, 14033, 14199, 14282, 15444, 15527, 15693, 15776, 16191, 16274, 16440, 16523, 20012, 20676, 20759, 22170, 22253, 22917, 23000, 27319, 28813, 29560, 33879, 33962, 35373, 35456, 36120, 36203, 39941, 40356, 40439, 40605, 40688, 41850, 41933, 42099, 42182, 42597, 42680, 42846, 42929, 46999, 47248, 48493, 48742, 49240, 49489, 53559, 53642, 53808, 53891, 55053, 55136, 55302, 55385, 55800, 55883, 56049, 56132, 59870, 60036, 60119, 62028, 62111, 62277, 62360, 66679, 68671, 68920, 73239, 73322, 75231, 75314, 75480, 75563, 79799, 81957, 82040, 88600, 95160, 95243, 99728, 101637, 101720, 101886, 101969, 108280, 108529, 114840, 114923, 115089, 115172, 119657, 119823, 119906, 121068, 121151, 121317, 121400, 121815, 121898, 122064, 122147, 126466, 127711, 127960, 128458, 128707, 133026, 133109, 134271, 134354, 134520, 134603, 135018, 135101, 135267, 135350, 139586, 140997, 141080, 141744, 141827, 147640, 148387, 154200, 154283, 154947, 155030, 159515, 160677, 160760, 160926, 161009, 161424, 161507, 161673, 161756, 167320, 167569, 168067, 168316, 173880, 173963, 174129, 174212, 174627, 174710, 174876, 174959, 179444, 179610, 179693, 180108, 180191, 180357, 180440, 186253, 186751, 187000, 192813, 192896, 193311, 193394, 193560, 193643, 199373, 200037, 200120, 206680, 213240, 213323, 219302, 219717, 219800, 219966, 220049, 226360, 226609, 232920, 233003, 233169, 233252, 239231, 239397, 239480, 246040, 252600, 252683, 259160, 279089, 299018, 299184, 299267, 305827, 312387, 312470, 318947, 338876, 358805, 358971, 359054, 359469, 359552, 359718, 359801, 365614, 366112, 366361, 372174, 372257, 372672, 372755, 372921, 373004, 378734, 379398, 379481, 386041, 392601, 392684, 398663, 399078, 399161, 399327, 399410, 405721, 405970, 412281, 412364, 412530, 412613, 418592, 418758, 418841, 425401, 431961, 432044, 438521, 458450, 478379, 478545, 478628, 485188, 491748, 491831, 498308]
      
      (winningLines.take 271) = winningLines := by
  rw [show allPositionsList.drop 76 = (2, 2, 1, 1) :: allPositionsList.drop 77 from rfl,
    posLoop, dirLoop_step_76]
  exact posChain_77

theorem posChain_75 :
    posLoop (allPositionsList.drop 75)
      [83, 249, 332, 747, 830, 996, 1079, 2241, 2324, 2490, 2573, 2988, 3071, 3237, 3320, 6892, 7390, 7639, 8884, 9133, 9631, 9880, 13452, 13535, 13950, 14033, 14199, 14282, 15444, 15527, 15693, 15776, 16191, 16274, 16440, 16523, 20012, 20676, 20759, 22170, 22253, 22917, 23000, 27319, 28813, 29560, 33879, 33962, 35373, 35456, 36120, 36203, 39941, 40356, 40439, 40605, 40688, 41850, 41933, 42099, 42182, 42597, 42680, 42846, 42929, 46999, 47248, 48493, 48742, 49240, 49489, 53559, 53642, 53808, 53891, 55053, 55136, 55302, 55385, 55800, 55883, 56049, 56132, 59870, 60036, 60119, 62028, 62111, 62277, 62360, 66679, 68671, 68920, 73239, 73322, 75231, 75314, 75480, 75563, 79799, 81957, 82040, 88600, 95160, 95243, 99728, 101637, 101720, 101886, 101969, 108280, 108529, 114840, 114923, 115089, 115172, 119657, 119823, 119906, 121068, 121151, 121317, 121400, 121815, 121898, 122064, 122147, 126466, 127711, 127960, 128458, 128707, 133026, 133109, 134271, 134354, 134520, 134603, 135018, 135101, 135267, 135350, 139586, 140997, 141080, 141744, 141827, 147640, 148387, 154200, 154283, 154947, 155030, 159515, 160677, 160760, 160926, 161009, 161424, 161507, 161673, 161756, 167320, 167569, 168067, 168316, 173880, 173963, 174129, 174212, 174627, 174710, 174876, 174959, 179444, 179610, 179693, 180108, 180191, 180357, 180440, 186253, 186751, 187000, 192813, 192896, 193311, 193394, 193560, 193643, 199373, 200037, 200120, 206680, 213240, 213323, 219302, 219717, 219800, 219966, 220049, 226360, 226609, 232920, 233003, 233169, 233252, 239231, 239397, 239480, 246040, 252600, 252683, 259160, 279089, 299018, 299184, 299267, 305827, 312387, 312470, 318947, 338876, 358805, 358971, 359054, 359469, 359552, 359718, 359801, 365614, 366112, 366361, 372174, 372257, 372672, 372755, 372921, 373004, 378734, 379398, 379481, 386041, 392601, 392684, 398663, 399078, 399161, 399327, 399410, 405721, 405970, 412281, 412364, 412530, 412613, 418592, 418758, 418841, 425401, 431961, 432044, 438521, 458450, 478379, 478545, 478628, 485188, 491748, 491831]
      
      (winningLines.take 270) = winningLines := by
  rw [show allPositionsList.drop 75 = (2, 2, 1, 0) :: allPositionsList.drop 76 from rfl,
    posLoop, dirLoop_step_75]
  exact posChain_76

theorem posChain_74 :
    posLoop (allPositionsList.drop 74)
      [83, 249, 332, 747, 830, 996, 1079, 2241, 2324, 2490, 2573, 2988, 3071, 3237, 3320, 6892, 7390, 7639, 8884, 9133, 9631, 9880, 13452, 13535, 13950, 14033, 14199, 14282, 15444, 15527, 15693, 15776, 16191, 16274, 16440, 16523, 20012, 20676, 20759, 22170, 22253, 22917, 23000, 27319, 28813, 29560, 33879, 33962, 35373, 35456, 36120, 36203, 39941, 40356, 40439, 40605, 40688, 41850, 41933, 42099, 42182, 42597, 42680, 42846, 42929, 46999, 47248, 48493, 48742, 49240, 49489, 53559, 53642, 53808, 53891, 55053, 55136, 55302, 55385, 55800, 55883, 56049, 56132, 59870, 60036, 60119, 62028, 62111, 62277, 62360, 66679, 68671, 68920, 73239, 73322, 75231, 75314, 75480, 75563, 79799, 81957, 82040, 88600, 95160, 95243, 99728, 101637, 101720, 101886, 101969, 108280, 108529, 114840, 114923, 115089, 115172, 119657, 119823, 119906, 121068, 121151, 121317, 121400, 121815, 121898, 122064, 122147, 126466, 127711, 127960, 128458, 128707, 133026, 133109, 134271, 134354, 134520, 134603, 135018, 135101, 135267, 135350, 139586, 140997, 141080, 141744, 141827, 147640, 148387, 154200, 154283, 154947, 155030, 159515, 160677, 160760, 160926, 161009, 161424, 161507, 161673, 161756, 167320, 167569, 168067, 168316, 173880, 173963, 174129, 174212, 174627, 174710, 174876, 174959, 179444, 179610, 179693, 180108, 180191, 180357, 180440, 186253, 186751, 187000, 192813, 192896, 193311, 193394, 193560, 193643, 199373, 200037, 200120, 206680, 213240, 213323, 219302, 219717, 219800, 219966, 220049, 226360, 226609, 232920, 233003, 233169, 233252, 239231, 239397, 239480, 246040, 252600, 252683, 259160, 279089, 299018, 299184, 299267, 305827, 312387, 312470, 318947, 338876, 358805, 358971, 359054, 359469, 359552, 359718, 359801, 365614, 366112, 366361, 372174, 372257, 372672, 372755, 372921, 373004, 378734, 379398, 379481, 386041, 392601, 392684, 398663, 399078, 399161, 399327, 399410, 405721, 405970, 412281, 412364, 412530, 412613, 418592, 418758, 418841, 425401, 431961, 432044, 438521, 458450, 478379, 478545, 478628, 485188]
      
      (winningLines.take 268) = winningLines := by
  rw [show allPositionsList.drop 74 = (2, 2, 0, 2) :: allPositionsList.drop 75 from rfl,
    posLoop, dirLoop_step_74]
  exact posChain_75

theorem posChain_73 :
    posLoop (allPositionsList.drop 73)
      [83, 249, 332, 747, 830, 996, 1079, 2241, 2324, 2490, 2573, 2988, 3071, 3237, 3320, 6892, 7390, 7639, 8884, 9133, 9631, 9880, 13452, 13535, 13950, 14033, 14199, 14282, 15444, 15527, 15693, 15776, 16191, 16274, 16440, 16523, 20012, 20676, 20759, 22170, 22253, 22917, 23000, 27319, 28813, 29560, 33879, 33962, 35373, 35456, 36120, 36203, 39941, 40356, 40439, 40605, 40688, 41850, 41933, 42099, 42182, 42597, 42680, 42846, 42929, 46999, 47248, 48493, 48742, 49240, 49489, 53559, 53642, 53808, 53891, 55053, 55136, 55302, 55385, 55800, 55883, 56049, 56132, 59870, 60036, 60119, 62028, 62111, 62277, 62360, 66679, 68671, 68920, 73239, 73322, 75231, 75314, 75480, 75563, 79799, 81957, 82040, 88600, 95160, 95243, 99728, 101637, 101720, 101886, 101969, 108280, 108529, 114840, 114923, 115089, 115172, 119657, 119823, 119906, 121068, 121151, 121317, 121400, 121815, 121898, 122064, 122147, 126466, 127711, 127960, 128458, 128707, 133026, 133109, 134271, 134354, 134520, 134603, 135018, 135101, 135267, 135350, 139586, 140997, 141080, 141744, 141827, 147640, 148387, 154200, 154283, 154947, 155030, 159515, 160677, 160760, 160926, 161009, 161424, 161507, 161673, 161756, 167320, 167569, 168067, 168316, 173880, 173963, 174129, 174212, 174627, 174710, 174876, 174959, 179444, 179610, 179693, 180108, 180191, 180357, 180440, 186253, 186751, 187000, 192813, 192896, 193311, 193394, 193560, 193643, 199373, 200037, 200120, 206680, 213240, 213323, 219302, 219717, 219800, 219966, 220049, 226360, 226609, 232920, 233003, 233169, 233252, 239231, 239397, 239480, 246040, 252600, 252683, 259160, 279089, 299018, 299184, 299267, 305827, 312387, 312470, 318947, 338876, 358805, 358971, 359054, 359469, 359552, 359718, 359801, 365614, 366112, 366361, 372174, 372257, 372672, 372755, 372921, 373004, 378734, 379398, 379481, 386041, 392601, 392684, 398663, 399078, 399161, 399327, 399410, 405721, 405970, 412281, 412364, 412530, 412613, 418592, 418758, 418841, 425401, 431961, 432044, 438521, 458450, 478379, 478545, 478628]
      
      (winningLines.take 267) = winningLines := by
  rw [show allPositionsList.drop 73 = (2, 2, 0, 1) :: allPositionsList.drop 74 from rfl,
    posLoop, dirLoop_step_73]
  exact posChain_74

theorem posChain_72 :
    posLoop (allPositionsList.drop 72)
      [83, 249, 332, 747, 830, 996, 1079, 2241, 2324, 2490, 2573, 2988, 3071, 3237, 3320, 6892, 7390, 7639, 8884, 9133, 9631, 9880, 13452, 13535, 13950, 14033, 14199, 14282, 15444, 15527, 15693, 15776, 16191, 16274, 16440, 16523, 20012, 20676, 20759, 22170, 22253, 22917, 23000, 27319, 28813, 29560, 33879, 33962, 35373, 35456, 36120, 36203, 39941, 40356, 40439, 40605, 40688, 41850, 41933, 42099, 42182, 42597, 42680, 42846, 42929, 46999, 47248, 48493, 48742, 49240, 49489, 53559, 53642, 53808, 53891, 55053, 55136, 55302, 55385, 55800, 55883, 56049, 56132, 59870, 60036, 60119, 62028, 62111, 62277, 62360, 66679, 68671, 68920, 73239, 73322, 75231, 75314, 75480, 75563, 79799, 81957, 82040, 88600, 95160, 95243, 99728, 101637, 101720, 101886, 101969, 108280, 108529, 114840, 114923, 115089, 115172, 119657, 119823, 119906, 121068, 121151, 121317, 121400, 121815, 121898, 122064, 122147, 126466, 127711, 127960, 128458, 128707, 133026, 133109, 134271, 134354, 134520, 134603, 135018, 135101, 135267, 135350, 139586, 140997, 141080, 141744, 141827, 147640, 148387, 154200, 154283, 154947, 155030, 159515, 160677, 160760, 160926, 161009, 161424, 161507, 161673, 161756, 167320, 167569, 168067, 168316, 173880, 173963, 174129, 174212, 174627, 174710, 174876, 174959, 179444, 179610, 179693, 180108, 180191, 180357, 180440, 186253, 186751, 187000, 192813, 192896, 193311, 193394, 193560, 193643, 199373, 200037, 200120, 206680, 213240, 213323, 219302, 219717, 219800, 219966, 220049, 226360, 226609, 232920, 233003, 233169, 233252, 239231, 239397, 239480, 246040, 252600, 252683, 259160, 279089, 299018, 299184, 299267, 305827, 312387, 312470, 318947, 338876, 358805, 358971, 359054, 359469, 359552, 359718, 359801, 365614, 366112, 366361, 372174, 372257, 372672, 372755, 372921, 373004, 378734, 379398, 379481, 386041, 392601, 392684, 398663, 399078, 399161, 399327, 399410, 405721, 405970, 412281, 412364, 412530, 412613, 418592, 418758, 418841, 425401, 431961, 432044, 438521, 458450]
      
      (winningLines.take 264) = winningLines := by
  rw [show allPositionsList.drop 72 = (2, 2, 0, 0) :: allPositionsList.drop 73 from rfl,
    posLoop, dirLoop_step_72]
  exact posChain_73

theorem posChain_71 :
    posLoop (allPositionsList.drop 71)
      [83, 249, 332, 747, 830, 996, 1079, 2241, 2324, 2490, 2573, 2988, 3071, 3237, 3320, 6892, 7390, 7639, 8884, 9133, 9631, 9880, 13452, 13535, 13950, 14033, 14199, 14282, 15444, 15527, 15693, 15776, 16191, 16274, 16440, 16523, 20012, 20676, 20759, 22170, 22253, 22917, 23000, 27319, 28813, 29560, 33879, 33962, 35373, 35456, 36120, 36203, 39941, 40356, 40439, 40605, 40688, 41850, 41933, 42099, 42182, 42597, 42680, 42846, 42929, 46999, 47248, 48493, 48742, 49240, 49489, 53559, 53642, 53808, 53891, 55053, 55136, 55302, 55385, 55800, 55883, 56049, 56132, 59870, 60036, 60119, 62028, 62111, 62277, 62360, 66679, 68671, 68920, 73239, 73322, 75231, 75314, 75480, 75563, 79799, 81957, 82040, 88600, 95160, 95243, 99728, 101637, 101720, 101886, 101969, 108280, 108529, 114840, 114923, 115089, 115172, 119657, 119823, 119906, 121068, 121151, 121317, 121400, 121815, 121898, 122064, 122147, 126466, 127711, 127960, 128458, 128707, 133026, 133109, 134271, 134354, 134520, 134603, 135018, 135101, 135267, 135350, 139586, 140997, 141080, 141744, 141827, 147640, 148387, 154200, 154283, 154947, 155030, 159515, 160677, 160760, 160926, 161009, 161424, 161507, 161673, 161756, 167320, 167569, 168067, 168316, 173880, 173963, 174129, 174212, 174627, 174710, 174876, 174959, 179444, 179610, 179693, 180108, 180191, 180357, 180440, 186253, 186751, 187000, 192813, 192896, 193311, 193394, 193560, 193643, 199373, 200037, 200120, 206680, 213240, 213323, 219302, 219717, 219800, 219966, 220049, 226360, 226609, 232920, 233003, 233169, 233252, 239231, 239397, 239480, 246040, 252600, 252683, 259160, 279089, 299018, 299184, 299267, 305827, 312387, 312470, 318947, 338876, 358805, 358971, 359054, 359469, 359552, 359718, 359801, 365614, 366112, 366361, 372174, 372257, 372672, 372755, 372921, 373004, 378734, 379398, 379481, 386041, 392601, 392684, 398663, 399078, 399161, 399327, 399410, 405721, 405970, 412281, 412364, 412530, 412613, 418592, 418758, 418841, 425401, 431961, 432044, 438521, 458450]
      
      (winningLines.take 264) = winningLines := by
  rw [show allPositionsList.drop 71 = (2, 1, 2, 2) :: allPositionsList.drop 72 from rfl,
    posLoop, dirLoop_step_71]
  exact posChain_72

theorem posChain_70 :
    posLoop (allPositionsList.drop 70)
      [83, 249, 332, 747, 830, 996, 1079, 2241, 2324, 2490, 2573, 2988, 3071, 3237, 3320, 6892, 7390, 7639, 8884, 9133, 9631, 9880, 13452, 13535, 13950, 14033, 14199, 14282, 15444, 15527, 15693, 15776, 16191, 16274, 16440, 16523, 20012, 20676, 20759, 22170, 22253, 22917, 23000, 27319, 28813, 29560, 33879, 33962, 35373, 35456, 36120, 36203, 39941, 40356, 40439, 40605, 40688, 41850, 41933, 42099, 42182, 42597, 42680, 42846, 42929, 46999, 47248, 48493, 48742, 49240, 49489, 53559, 53642, 53808, 53891, 55053, 55136, 55302, 55385, 55800, 55883, 56049, 56132, 59870, 60036, 60119, 62028, 62111, 62277, 62360, 66679, 68671, 68920, 73239, 73322, 75231, 75314, 75480, 75563, 79799, 81957, 82040, 88600, 95160, 95243, 99728, 101637, 101720, 101886, 101969, 108280, 108529, 114840, 114923, 115089, 115172, 119657, 119823, 119906, 121068, 121151, 121317, 121400, 121815, 121898, 122064, 122147, 126466, 127711, 127960, 128458, 128707, 133026, 133109, 134271, 134354, 134520, 134603, 135018, 135101, 135267, 135350, 139586, 140997, 141080, 141744, 141827, 147640, 148387, 154200, 154283, 154947, 155030, 159515, 160677, 160760, 160926, 161009, 161424, 161507, 161673, 161756, 167320, 167569, 168067, 168316, 173880, 173963, 174129, 174212, 174627, 174710, 174876, 174959, 179444, 179610, 179693, 180108, 180191, 180357, 180440, 186253, 186751, 187000, 192813, 192896, 193311, 193394, 193560, 193643, 199373, 200037, 200120, 206680, 213240, 213323, 219302, 219717, 219800, 219966, 220049, 226360, 226609, 232920, 233003, 233169, 233252, 239231, 239397, 239480, 246040, 252600, 252683, 259160, 279089, 299018, 299184, 299267, 305827, 312387, 312470, 318947, 338876, 358805, 358971, 359054, 359469, 359552, 359718, 359801, 365614, 366112, 366361, 372174, 372257, 372672, 372755, 372921, 373004, 378734, 379398, 379481, 386041, 392601, 392684, 398663, 399078, 399161, 399327, 399410, 405721, 405970, 412281, 412364, 412530, 412613, 418592, 418758, 418841, 425401, 431961, 432044, 438521, 458450]
      
      (winningLines.take 264) = winningLines := by
  rw [show allPositionsList.drop 70 = (2, 1, 2, 1) :: allPositionsList.drop 71 from rfl,
    posLoop, dirLoop_step_70]
  exact posChain_71

theorem posChain_69 :
    posLoop (allPositionsList.drop 69)
      [83, 249, 332, 747, 830, 996, 1079, 2241, 2324, 2490, 2573, 2988, 3071, 3237, 3320, 6892, 7390, 7639, 8884, 9133, 9631, 9880, 13452, 13535, 13950, 14033, 14199, 14282, 15444, 15527, 15693, 15776, 16191, 16274, 16440, 16523, 20012, 20676, 20759, 22170, 22253, 22917, 23000, 27319, 28813, 29560, 33879, 33962, 35373, 35456, 36120, 36203, 39941, 40356, 40439, 40605, 40688, 41850, 41933, 42099, 42182, 42597, 42680, 42846, 42929, 46999, 47248, 48493, 48742, 49240, 49489, 53559, 53642, 53808, 53891, 55053, 55136, 55302, 55385, 55800, 55883, 56049, 56132, 59870, 60036, 60119, 62028, 62111, 62277, 62360, 66679, 68671, 68920, 73239, 73322, 75231, 75314, 75480, 75563, 79799, 81957, 82040, 88600, 95160, 95243, 99728, 101637, 101720, 101886, 101969, 108280, 108529, 114840, 114923, 115089, 115172, 119657, 119823, 119906, 121068, 121151, 121317, 121400, 121815, 121898, 122064, 122147, 126466, 127711, 127960, 128458, 128707, 133026, 133109, 134271, 134354, 134520, 134603, 135018, 135101, 135267, 135350, 139586, 140997, 141080, 141744, 141827, 147640, 148387, 154200, 154283, 154947, 155030, 159515, 160677, 160760, 160926, 161009, 161424, 161507, 161673, 161756, 167320, 167569, 168067, 168316, 173880, 173963, 174129, 174212, 174627, 174710, 174876, 174959, 179444, 179610, 179693, 180108, 180191, 180357, 180440, 186253, 186751, 187000, 192813, 192896, 193311, 193394, 193560, 193643, 199373, 200037, 200120, 206680, 213240, 213323, 219302, 219717, 219800, 219966, 220049, 226360, 226609, 232920, 233003, 233169, 233252, 239231, 239397, 239480, 246040, 252600, 252683, 259160, 279089, 299018, 299184, 299267, 305827, 312387, 312470, 318947, 338876, 358805, 358971, 359054, 359469, 359552, 359718, 359801, 365614, 366112, 366361, 372174, 372257, 372672, 372755, 372921, 373004, 378734, 379398, 379481, 386041, 392601, 392684, 398663, 399078, 399161, 399327, 399410, 405721, 405970, 412281, 412364, 412530, 412613, 418592, 418758, 418841, 425401, 431961, 432044, 438521]
      
      (winningLines.take 263) = winningLines := by
  rw [show allPositionsList.drop 69 = (2, 1, 2, 0) :: allPositionsList.drop 70 from rfl,
    posLoop, dirLoop_step_69]
  exact posChain_70

theorem posChain_68 :
    posLoop (allPositionsList.drop 68)
      [83, 249, 332, 747, 830, 996, 1079, 2241, 2324, 2490, 2573, 2988, 3071, 3237, 3320, 6892, 7390, 7639, 8884, 9133, 9631, 9880, 13452, 13535, 13950, 14033, 14199, 14282, 15444, 15527, 15693, 15776, 16191, 16274, 16440, 16523, 20012, 20676, 20759, 22170, 22253, 22917, 23000, 27319, 28813, 29560, 33879, 33962, 35373, 35456, 36120, 36203, 39941, 40356, 40439, 40605, 40688, 41850, 41933, 42099, 42182, 42597, 42680, 42846, 42929, 46999, 47248, 48493, 48742, 49240, 49489, 53559, 53642, 53808, 53891, 55053, 55136, 55302, 55385, 55800, 55883, 56049, 56132, 59870, 60036, 60119, 62028, 62111, 62277, 62360, 66679, 68671, 68920, 73239, 73322, 75231, 75314, 75480, 75563, 79799, 81957, 82040, 88600, 95160, 95243, 99728, 101637, 101720, 101886, 101969, 108280, 108529, 114840, 114923, 115089, 115172, 119657, 119823, 119906, 121068, 121151, 121317, 121400, 121815, 121898, 122064, 122147, 126466, 127711, 127960, 128458, 128707, 133026, 133109, 134271, 134354, 134520, 134603, 135018, 135101, 135267, 135350, 139586, 140997, 141080, 141744, 141827, 147640, 148387, 154200, 154283, 154947, 155030, 159515, 160677, 160760, 160926, 161009, 161424, 161507, 161673, 161756, 167320, 167569, 168067, 168316, 173880, 173963, 174129, 174212, 174627, 174710, 174876, 174959, 179444, 179610, 179693, 180108, 180191, 180357, 180440, 186253, 186751, 187000, 192813, 192896, 193311, 193394, 193560, 193643, 199373, 200037, 200120, 206680, 213240, 213323, 219302, 219717, 219800, 219966, 220049, 226360, 226609, 232920, 233003, 233169, 233252, 239231, 239397, 239480, 246040, 252600, 252683, 259160, 279089, 299018, 299184, 299267, 305827, 312387, 312470, 318947, 338876, 358805, 358971, 359054, 359469, 359552, 359718, 359801, 365614, 366112, 366361, 372174, 372257, 372672, 372755, 372921, 373004, 378734, 379398, 379481, 386041, 392601, 392684, 398663, 399078, 399161, 399327, 399410, 405721, 405970, 412281, 412364, 412530, 412613, 418592, 418758, 418841, 425401, 431961, 432044, 438521]
      
      (winningLines.take 263) = winningLines := by
  rw [show allPositionsList.drop 68 = (2, 1, 1, 2) :: allPositionsList.drop 69 from rfl,
    posLoop, dirLoop_step_68]
  exact posChain_69

theorem posChain_67 :
    posLoop (allPositionsList.drop 67)
      [83, 249, 332, 747, 830, 996, 1079, 2241, 2324, 2490, 2573, 2988, 3071, 3237, 3320, 6892, 7390, 7639, 8884, 9133, 9631, 9880, 13452, 13535, 13950, 14033, 14199, 14282, 15444, 15527, 15693, 15776, 16191, 16274, 16440, 16523, 20012, 20676, 20759, 22170, 22253, 22917, 23000, 27319, 28813, 29560, 33879, 33962, 35373, 35456, 36120, 36203, 39941, 40356, 40439, 40605, 40688, 41850, 41933, 42099, 42182, 42597, 42680, 42846, 42929, 46999, 47248, 48493, 48742, 49240, 49489, 53559, 53642, 53808, 53891, 55053, 55136, 55302, 55385, 55800, 55883, 56049, 56132, 59870, 60036, 60119, 62028, 62111, 62277, 62360, 66679, 68671, 68920, 73239, 73322, 75231, 75314, 75480, 75563, 79799, 81957, 82040, 88600, 95160, 95243, 99728, 101637, 101720, 101886, 101969, 108280, 108529, 114840, 114923, 115089, 115172, 119657, 119823, 119906, 121068, 121151, 121317, 121400, 121815, 121898, 122064, 122147, 126466, 127711, 127960, 128458, 128707, 133026, 133109, 134271, 134354, 134520, 134603, 135018, 135101, 135267, 135350, 139586, 140997, 141080, 141744, 141827, 147640, 148387, 154200, 154283, 154947, 155030, 159515, 160677, 160760, 160926, 161009, 161424, 161507, 161673, 161756, 167320, 167569, 168067, 168316, 173880, 173963, 174129, 174212, 174627, 174710, 174876, 174959, 179444, 179610, 179693, 180108, 180191, 180357, 180440, 186253, 186751, 187000, 192813, 192896, 193311, 193394, 193560, 193643, 199373, 200037, 200120, 206680, 213240, 213323, 219302, 219717, 219800, 219966, 220049, 226360, 226609, 232920, 233003, 233169, 233252, 239231, 239397, 239480, 246040, 252600, 252683, 259160, 279089, 299018, 299184, 299267, 305827, 312387, 312470, 318947, 338876, 358805, 358971, 359054, 359469, 359552, 359718, 359801, 365614, 366112, 366361, 372174, 372257, 372672, 372755, 372921, 373004, 378734, 379398, 379481, 386041, 392601, 392684, 398663, 399078, 399161, 399327, 399410, 405721, 405970, 412281, 412364, 412530, 412613, 418592, 418758, 418841, 425401, 431961, 432044, 438521]
      
      (winningLines.take 263) = winningLines := by
  rw [show allPositionsList.drop 67 = (2, 1, 1, 1) :: allPositionsList.drop 68 from rfl,
    posLoop, dirLoop_step_67]
  exact posChain_68

theorem posChain_66 :
    posLoop (allPositionsList.drop 66)
      [83, 249, 332, 747, 830, 996, 1079, 2241, 2324, 2490, 2573, 2988, 3071, 3237, 3320, 6892, 7390, 7639, 8884, 9133, 9631, 9880, 13452, 13535, 13950, 14033, 14199, 14282, 15444, 15527, 15693, 15776, 16191, 16274, 16440, 16523, 20012, 20676, 20759, 22170, 22253, 22917, 23000, 27319, 28813, 29560, 33879, 33962, 35373, 35456, 36120, 36203, 39941, 40356, 40439, 40605, 40688, 41850, 41933, 42099, 42182, 42597, 42680, 42846, 42929, 46999, 47248, 48493, 48742, 49240, 49489, 53559, 53642, 53808, 53891, 55053, 55136, 55302, 55385, 55800, 55883, 56049, 56132, 59870, 60036, 60119, 62028, 62111, 62277, 62360, 66679, 68671, 68920, 73239, 73322, 75231, 75314, 75480, 75563, 79799, 81957, 82040, 88600, 95160, 95243, 99728, 101637, 101720, 101886, 101969, 108280, 108529, 114840, 114923, 115089, 115172, 119657, 119823, 119906, 121068, 121151, 121317, 121400, 121815, 121898, 122064, 122147, 126466, 127711, 127960, 128458, 128707, 133026, 133109, 134271, 134354, 134520, 134603, 135018, 135101, 135267, 135350, 139586, 140997, 141080, 141744, 141827, 147640, 148387, 154200, 154283, 154947, 155030, 159515, 160677, 160760, 160926, 161009, 161424, 161507, 161673, 161756, 167320, 167569, 168067, 168316, 173880, 173963, 174129, 174212, 174627, 174710, 174876, 174959, 179444, 179610, 179693, 180108, 180191, 180357, 180440, 186253, 186751, 187000, 192813, 192896, 193311, 193394, 193560, 193643, 199373, 200037, 200120, 206680, 213240, 213323, 219302, 219717, 219800, 219966, 220049, 226360, 226609, 232920, 233003, 233169, 233252, 239231, 239397, 239480, 246040, 252600, 252683, 259160, 279089, 299018, 299184, 299267, 305827, 312387, 312470, 318947, 338876, 358805, 358971, 359054, 359469, 359552, 359718, 359801, 365614, 366112, 366361, 372174, 372257, 372672, 372755, 372921, 373004, 378734, 379398, 379481, 386041, 392601, 392684, 398663, 399078, 399161, 399327, 399410, 405721, 405970, 412281, 412364, 412530, 412613, 418592, 418758, 418841, 425401, 431961, 432044]
      
      (winningLines.take 262) = winningLines := by
  rw [show allPositionsList.drop 66 = (2, 1, 1, 0) :: allPositionsList.drop 67 from rfl,
    posLoop, dirLoop_step_66]
  exact posChain_67

theorem posChain_65 :
    posLoop (allPositionsList.drop 65)
      [83, 249, 332, 747, 830, 996, 1079, 2241, 2324, 2490, 2573, 2988, 3071, 3237, 3320, 6892, 7390, 7639, 8884, 9133, 9631, 9880, 13452, 13535, 13950, 14033, 14199, 14282, 15444, 15527, 15693, 15776, 16191, 16274, 16440, 16523, 20012, 20676, 20759, 22170, 22253, 22917, 23000, 27319, 28813, 29560, 33879, 33962, 35373, 35456, 36120, 36203, 39941, 40356, 40439, 40605, 40688, 41850, 41933, 42099, 42182, 42597, 42680, 42846, 42929, 46999, 47248, 48493, 48742, 49240, 49489, 53559, 53642, 53808, 53891, 55053, 55136, 55302, 55385, 55800, 55883, 56049, 56132, 59870, 60036, 60119, 62028, 62111, 62277, 62360, 66679, 68671, 68920, 73239, 73322, 75231, 75314, 75480, 75563, 79799, 81957, 82040, 88600, 95160, 95243, 99728, 101637, 101720, 101886, 101969, 108280, 108529, 114840, 114923, 115089, 115172, 119657, 119823, 119906, 121068, 121151, 121317, 121400, 121815, 121898, 122064, 122147, 126466, 127711, 127960, 128458, 128707, 133026, 133109, 134271, 134354, 134520, 134603, 135018, 135101, 135267, 135350, 139586, 140997, 141080, 141744, 141827, 147640, 148387, 154200, 154283, 154947, 155030, 159515, 160677, 160760, 160926, 161009, 161424, 161507, 161673, 161756, 167320, 167569, 168067, 168316, 173880, 173963, 174129, 174212, 174627, 174710, 174876, 174959, 179444, 179610, 179693, 180108, 180191, 180357, 180440, 186253, 186751, 187000, 192813, 192896, 193311, 193394, 193560, 193643, 199373, 200037, 200120, 206680, 213240, 213323, 219302, 219717, 219800, 219966, 220049, 226360, 226609, 232920, 233003, 233169, 233252, 239231, 239397, 239480, 246040, 252600, 252683, 259160, 279089, 299018, 299184, 299267, 305827, 312387, 312470, 318947, 338876, 358805, 358971, 359054, 359469, 359552, 359718, 359801, 365614, 366112, 366361, 372174, 372257, 372672, 372755, 372921, 373004, 378734, 379398, 379481, 386041, 392601, 392684, 398663, 399078, 399161, 399327, 399410, 405721, 405970, 412281, 412364, 412530, 412613, 418592, 418758, 418841, 425401]
      
      (winningLines.take 260) = winningLines := by
  rw [show allPositionsList.drop 65 = (2, 1, 0, 2) :: allPositionsList.drop 66 from rfl,
    posLoop, dirLoop_step_65]
  exact posChain_66

theorem posChain_64 :
    posLoop (allPositionsList.drop 64)
      [83, 249, 332, 747, 830, 996, 1079, 2241, 2324, 2490, 2573, 2988, 3071, 3237, 3320, 6892, 7390, 7639, 8884, 9133, 9631, 9880, 13452, 13535, 13950, 14033, 14199, 14282, 15444, 15527, 15693, 15776, 16191, 16274, 16440, 16523, 20012, 20676, 20759, 22170, 22253, 22917, 23000, 27319, 28813, 29560, 33879, 33962, 35373, 35456, 36120, 36203, 39941, 40356, 40439, 40605, 40688, 41850, 41933, 42099, 42182, 42597, 42680, 42846, 42929, 46999, 47248, 48493, 48742, 49240, 49489, 53559, 53642, 53808, 53891, 55053, 55136, 55302, 55385, 55800, 55883, 56049, 56132, 59870, 60036, 60119, 62028, 62111, 62277, 62360, 66679, 68671, 68920, 73239, 73322, 75231, 75314, 75480, 75563, 79799, 81957, 82040, 88600, 95160, 95243, 99728, 101637, 101720, 101886, 101969, 108280, 108529, 114840, 114923, 115089, 115172, 119657, 119823, 119906, 121068, 121151, 121317, 121400, 121815, 121898, 122064, 122147, 126466, 127711, 127960, 128458, 128707, 133026, 133109, 134271, 134354, 134520, 134603, 135018, 135101, 135267, 135350, 139586, 140997, 141080, 141744, 141827, 147640, 148387, 154200, 154283, 154947, 155030, 159515, 160677, 160760, 160926, 161009, 161424, 161507, 161673, 161756, 167320, 167569, 168067, 168316, 173880, 173963, 174129, 174212, 174627, 174710, 174876, 174959, 179444, 179610, 179693, 180108, 180191, 180357, 180440, 186253, 186751, 187000, 192813, 192896, 193311, 193394, 193560, 193643, 199373, 200037, 200120, 206680, 213240, 213323, 219302, 219717, 219800, 219966, 220049, 226360, 226609, 232920, 233003, 233169, 233252, 239231, 239397, 239480, 246040, 252600, 252683, 259160, 279089, 299018, 299184, 299267, 305827, 312387, 312470, 318947, 338876, 358805, 358971, 359054, 359469, 359552, 359718, 359801, 365614, 366112, 366361, 372174, 372257, 372672, 372755, 372921, 373004, 378734, 379398, 379481, 386041, 392601, 392684, 398663, 399078, 399161, 399327, 399410, 405721, 405970, 412281, 412364, 412530, 412613, 418592, 418758, 418841]
      
      (winningLines.take 259) = winningLines := by
  rw [show allPositionsList.drop 64 = (2, 1, 0, 1) :: allPositionsList.drop 65 from rfl,
    posLoop, dirLoop_step_64]
  exact posChain_65

theorem posChain_63 :
    posLoop (allPositionsList.drop 63)
      [83, 249, 332, 747, 830, 996, 1079, 2241, 2324, 2490, 2573, 2988, 3071, 3237, 3320, 6892, 7390, 7639, 8884, 9133, 9631, 9880, 13452, 13535, 13950, 14033, 14199, 14282, 15444, 15527, 15693, 15776, 16191, 16274, 16440, 16523, 20012, 20676, 20759, 22170, 22253, 22917, 23000, 27319, 28813, 29560, 33879, 33962, 35373, 35456, 36120, 36203, 39941, 40356, 40439, 40605, 40688, 41850, 41933, 42099, 42182, 42597, 42680, 42846, 42929, 46999, 47248, 48493, 48742, 49240, 49489, 53559, 53642, 53808, 53891, 55053, 55136, 55302, 55385, 55800, 55883, 56049, 56132, 59870, 60036, 60119, 62028, 62111, 62277, 62360, 66679, 68671, 68920, 73239, 73322, 75231, 75314, 75480, 75563, 79799, 81957, 82040, 88600, 95160, 95243, 99728, 101637, 101720, 101886, 101969, 108280, 108529, 114840, 114923, 115089, 115172, 119657, 119823, 119906, 121068, 121151, 121317, 121400, 121815, 121898, 122064, 122147, 126466, 127711, 127960, 128458, 128707, 133026, 133109, 134271, 134354, 134520, 134603, 135018, 135101, 135267, 135350, 139586, 140997, 141080, 141744, 141827, 147640, 148387, 154200, 154283, 154947, 155030, 159515, 160677, 160760, 160926, 161009, 161424, 161507, 161673, 161756, 167320, 167569, 168067, 168316, 173880, 173963, 174129, 174212, 174627, 174710, 174876, 174959, 179444, 179610, 179693, 180108, 180191, 180357, 180440, 186253, 186751, 187000, 192813, 192896, 193311, 193394, 193560, 193643, 199373, 200037, 200120, 206680, 213240, 213323, 219302, 219717, 219800, 219966, 220049, 226360, 226609, 232920, 233003, 233169, 233252, 239231, 239397, 239480, 246040, 252600, 252683, 259160, 279089, 299018, 299184, 299267, 305827, 312387, 312470, 318947, 338876, 358805, 358971, 359054, 359469, 359552, 359718, 359801, 365614, 366112, 366361, 372174, 372257, 372672, 372755, 372921, 373004, 378734, 379398, 379481, 386041, 392601, 392684, 398663, 399078, 399161, 399327, 399410, 405721, 405970, 412281, 412364, 412530, 412613]
      
      (winningLines.take 256) = winningLines := by
  rw [show allPositionsList.drop 63 = (2, 1, 0, 0) :: allPositionsList.drop 64 from rfl,
    posLoop, dirLoop_step_63]
  exact posChain_64

theorem posChain_62 :
    posLoop (allPositionsList.drop 62)
      [83, 249, 332, 747, 830, 996, 1079, 2241, 2324, 2490, 2573, 2988, 3071, 3237, 3320, 6892, 7390, 7639, 8884, 9133, 9631, 9880, 13452, 13535, 13950, 14033, 14199, 14282, 15444, 15527, 15693, 15776, 16191, 16274, 16440, 16523, 20012, 20676, 20759, 22170, 22253, 22917, 23000, 27319, 28813, 29560, 33879, 33962, 35373, 35456, 36120, 36203, 39941, 40356, 40439, 40605, 40688, 41850, 41933, 42099, 42182, 42597, 42680, 42846, 42929, 46999, 47248, 48493, 48742, 49240, 49489, 53559, 53642, 53808, 53891, 55053, 55136, 55302, 55385, 55800, 55883, 56049, 56132, 59870, 60036, 60119, 62028, 62111, 62277, 62360, 66679, 68671, 68920, 73239, 73322, 75231, 75314, 75480, 75563, 79799, 81957, 82040, 88600, 95160, 95243, 99728, 101637, 101720, 101886, 101969, 108280, 108529, 114840, 114923, 115089, 115172, 119657, 119823, 119906, 121068, 121151, 121317, 121400, 121815, 121898, 122064, 122147, 126466, 127711, 127960, 128458, 128707, 133026, 133109, 134271, 134354, 134520, 134603, 135018, 135101, 135267, 135350, 139586, 140997, 141080, 141744, 141827, 147640, 148387, 154200, 154283, 154947, 155030, 159515, 160677, 160760, 160926, 161009, 161424, 161507, 161673, 161756, 167320, 167569, 168067, 168316, 173880, 173963, 174129, 174212, 174627, 174710, 174876, 174959, 179444, 179610, 179693, 180108, 180191, 180357, 180440, 186253, 186751, 187000, 192813, 192896, 193311, 193394, 193560, 193643, 199373, 200037, 200120, 206680, 213240, 213323, 219302, 219717, 219800, 219966, 220049, 226360, 226609, 232920, 233003, 233169, 233252, 239231, 239397, 239480, 246040, 252600, 252683, 259160, 279089, 299018, 299184, 299267, 305827, 312387, 312470, 318947, 338876, 358805, 358971, 359054, 359469, 359552, 359718, 359801, 365614, 366112, 366361, 372174, 372257, 372672, 372755, 372921, 373004, 378734, 379398, 379481, 386041, 392601, 392684, 398663, 399078, 399161, 399327, 399410, 405721, 405970]
      
      (winningLines.take 252) = winningLines := by
  rw [show allPositionsList.drop 62 = (2, 0, 2, 2) :: allPositionsList.drop 63 from rfl,
    posLoop, dirLoop_step_62]
  exact posChain_63

theorem posChain_61 :
    posLoop (allPositionsList.drop 61)
      [83, 249, 332, 747, 830, 996, 1079, 2241, 2324, 2490, 2573, 2988, 3071, 3237, 3320, 6892, 7390, 7639, 8884, 9133, 9631, 9880, 13452, 13535, 13950, 14033, 14199, 14282, 15444, 15527, 15693, 15776, 16191, 16274, 16440, 16523, 20012, 20676, 20759, 22170, 22253, 22917, 23000, 27319, 28813, 29560, 33879, 33962, 35373, 35456, 36120, 36203, 39941, 40356, 40439, 40605, 40688, 41850, 41933, 42099, 42182, 42597, 42680, 42846, 42929, 46999, 47248, 48493, 48742, 49240, 49489, 53559, 53642, 53808, 53891, 55053, 55136, 55302, 55385, 55800, 55883, 56049, 56132, 59870, 60036, 60119, 62028, 62111, 62277, 62360, 66679, 68671, 68920, 73239, 73322, 75231, 75314, 75480, 75563, 79799, 81957, 82040, 88600, 95160, 95243, 99728, 101637, 101720, 101886, 101969, 108280, 108529, 114840, 114923, 115089, 115172, 119657, 119823, 119906, 121068, 121151, 121317, 121400, 121815, 121898, 122064, 122147, 126466, 127711, 127960, 128458, 128707, 133026, 133109, 134271, 134354, 134520, 134603, 135018, 135101, 135267, 135350, 139586, 140997, 141080, 141744, 141827, 147640, 148387, 154200, 154283, 154947, 155030, 159515, 160677, 160760, 160926, 161009, 161424, 161507, 161673, 161756, 167320, 167569, 168067, 168316, 173880, 173963, 174129, 174212, 174627, 174710, 174876, 174959, 179444, 179610, 179693, 180108, 180191, 180357, 180440, 186253, 186751, 187000, 192813, 192896, 193311, 193394, 193560, 193643, 199373, 200037, 200120, 206680, 213240, 213323, 219302, 219717, 219800, 219966, 220049, 226360, 226609, 232920, 233003, 233169, 233252, 239231, 239397, 239480, 246040, 252600, 252683, 259160, 279089, 299018, 299184, 299267, 305827, 312387, 312470, 318947, 338876, 358805, 358971, 359054, 359469, 359552, 359718, 359801, 365614, 366112, 366361, 372174, 372257, 372672, 372755, 372921, 373004, 378734, 379398, 379481, 386041, 392601, 392684, 398663, 399078, 399161, 399327, 399410]
      
      (winningLines.take 250) = winningLines := by
  rw [show allPositionsList.drop 61 = (2, 0, 2, 1) :: allPositionsList.drop 62 from rfl,
    posLoop, dirLoop_step_61]
  exact posChain_62

theorem posChain_60 :
    posLoop (allPositionsList.drop 60)
      [83, 249, 332, 747, 830, 996, 1079, 2241, 2324, 2490, 2573, 2988, 3071, 3237, 3320, 6892, 7390, 7639, 8884, 9133, 9631, 9880, 13452, 13535, 13950, 14033, 14199, 14282, 15444, 15527, 15693, 15776, 16191, 16274, 16440, 16523, 20012, 20676, 20759, 22170, 22253, 22917, 23000, 27319, 28813, 29560, 33879, 33962, 35373, 35456, 36120, 36203, 39941, 40356, 40439, 40605, 40688, 41850, 41933, 42099, 42182, 42597, 42680, 42846, 42929, 46999, 47248, 48493, 48742, 49240, 49489, 53559, 53642, 53808, 53891, 55053, 55136, 55302, 55385, 55800, 55883, 56049, 56132, 59870, 60036, 60119, 62028, 62111, 62277, 62360, 66679, 68671, 68920, 73239, 73322, 75231, 75314, 75480, 75563, 79799, 81957, 82040, 88600, 95160, 95243, 99728, 101637, 101720, 101886, 101969, 108280, 108529, 114840, 114923, 115089, 115172, 119657, 119823, 119906, 121068, 121151, 121317, 121400, 121815, 121898, 122064, 122147, 126466, 127711, 127960, 128458, 128707, 133026, 133109, 134271, 134354, 134520, 134603, 135018, 135101, 135267, 135350, 139586, 140997, 141080, 141744, 141827, 147640, 148387, 154200, 154283, 154947, 155030, 159515, 160677, 160760, 160926, 161009, 161424, 161507, 161673, 161756, 167320, 167569, 168067, 168316, 173880, 173963, 174129, 174212, 174627, 174710, 174876, 174959, 179444, 179610, 179693, 180108, 180191, 180357, 180440, 186253, 186751, 187000, 192813, 192896, 193311, 193394, 193560, 193643, 199373, 200037, 200120, 206680, 213240, 213323, 219302, 219717, 219800, 219966, 220049, 226360, 226609, 232920, 233003, 233169, 233252, 239231, 239397, 239480, 246040, 252600, 252683, 259160, 279089, 299018, 299184, 299267, 305827, 312387, 312470, 318947, 338876, 358805, 358971, 359054, 359469, 359552, 359718, 359801, 365614, 366112, 366361, 372174, 372257, 372672, 372755, 372921, 373004, 378734, 379398, 379481, 386041, 392601, 392684]
      
      (winningLines.take 245) = winningLines := by
  rw [show allPositionsList.drop 60 = (2, 0, 2, 0) :: allPositionsList.drop 61 from rfl,
    posLoop, dirLoop_step_60]
  exact posChain_61

theorem posChain_59 :
    posLoop (allPositionsList.drop 59)
      [83, 249, 332, 747, 830, 996, 1079, 2241, 2324, 2490, 2573, 2988, 3071, 3237, 3320, 6892, 7390, 7639, 8884, 9133, 9631, 9880, 13452, 13535, 13950, 14033, 14199, 14282, 15444, 15527, 15693, 15776, 16191, 16274, 16440, 16523, 20012, 20676, 20759, 22170, 22253, 22917, 23000, 27319, 28813, 29560, 33879, 33962, 35373, 35456, 36120, 36203, 39941, 40356, 40439, 40605, 40688, 41850, 41933, 42099, 42182, 42597, 42680, 42846, 42929, 46999, 47248, 48493, 48742, 49240, 49489, 53559, 53642, 53808, 53891, 55053, 55136, 55302, 55385, 55800, 55883, 56049, 56132, 59870, 60036, 60119, 62028, 62111, 62277, 62360, 66679, 68671, 68920, 73239, 73322, 75231, 75314, 75480, 75563, 79799, 81957, 82040, 88600, 95160, 95243, 99728, 101637, 101720, 101886, 101969, 108280, 108529, 114840, 114923, 115089, 115172, 119657, 119823, 119906, 121068, 121151, 121317, 121400, 121815, 121898, 122064, 122147, 126466, 127711, 127960, 128458, 128707, 133026, 133109, 134271, 134354, 134520, 134603, 135018, 135101, 135267, 135350, 139586, 140997, 141080, 141744, 141827, 147640, 148387, 154200, 154283, 154947, 155030, 159515, 160677, 160760, 160926, 161009, 161424, 161507, 161673, 161756, 167320, 167569, 168067, 168316, 173880, 173963, 174129, 174212, 174627, 174710, 174876, 174959, 179444, 179610, 179693, 180108, 180191, 180357, 180440, 186253, 186751, 187000, 192813, 192896, 193311, 193394, 193560, 193643, 199373, 200037, 200120, 206680, 213240, 213323, 219302, 219717, 219800, 219966, 220049, 226360, 226609, 232920, 233003, 233169, 233252, 239231, 239397, 239480, 246040, 252600, 252683, 259160, 279089, 299018, 299184, 299267, 305827, 312387, 312470, 318947, 338876, 358805, 358971, 359054, 359469, 359552, 359718, 359801, 365614, 366112, 366361, 372174, 372257, 372672, 372755, 372921, 373004, 378734, 379398, 379481, 386041]
      
      (winningLines.take 243) = winningLines := by
  rw [show allPositionsList.drop 59 = (2, 0, 1, 2) :: allPositionsList.drop 60 from rfl,
    posLoop, dirLoop_step_59]
  exact posChain_60

theorem posChain_58 :
    posLoop (allPositionsList.drop 58)
      [83, 249, 332, 747, 830, 996, 1079, 2241, 2324, 2490, 2573, 2988, 3071, 3237, 3320, 6892, 7390, 7639, 8884, 9133, 9631, 9880, 13452, 13535, 13950, 14033, 14199, 14282, 15444, 15527, 15693, 15776, 16191, 16274, 16440, 16523, 20012, 20676, 20759, 22170, 22253, 22917, 23000, 27319, 28813, 29560, 33879, 33962, 35373, 35456, 36120, 36203, 39941, 40356, 40439, 40605, 40688, 41850, 41933, 42099, 42182, 42597, 42680, 42846, 42929, 46999, 47248, 48493, 48742, 49240, 49489, 53559, 53642, 53808, 53891, 55053, 55136, 55302, 55385, 55800, 55883, 56049, 56132, 59870, 60036, 60119, 62028, 62111, 62277, 62360, 66679, 68671, 68920, 73239, 73322, 75231, 75314, 75480, 75563, 79799, 81957, 82040, 88600, 95160, 95243, 99728, 101637, 101720, 101886, 101969, 108280, 108529, 114840, 114923, 115089, 115172, 119657, 119823, 119906, 121068, 121151, 121317, 121400, 121815, 121898, 122064, 122147, 126466, 127711, 127960, 128458, 128707, 133026, 133109, 134271, 134354, 134520, 134603, 135018, 135101, 135267, 135350, 139586, 140997, 141080, 141744, 141827, 147640, 148387, 154200, 154283, 154947, 155030, 159515, 160677, 160760, 160926, 161009, 161424, 161507, 161673, 161756, 167320, 167569, 168067, 168316, 173880, 173963, 174129, 174212, 174627, 174710, 174876, 174959, 179444, 179610, 179693, 180108, 180191, 180357, 180440, 186253, 186751, 187000, 192813, 192896, 193311, 193394, 193560, 193643, 199373, 200037, 200120, 206680, 213240, 213323, 219302, 219717, 219800, 219966, 220049, 226360, 226609, 232920, 233003, 233169, 233252, 239231, 239397, 239480, 246040, 252600, 252683, 259160, 279089, 299018, 299184, 299267, 305827, 312387, 312470, 318947, 338876, 358805, 358971, 359054, 359469, 359552, 359718, 359801, 365614, 366112, 366361, 372174, 372257, 372672, 372755, 372921, 373004, 378734, 379398, 379481]
      
      (winningLines.take 242) = winningLines := by
  rw [show allPositionsList.drop 58 = (2, 0, 1, 1) :: allPositionsList.drop 59 from rfl,
    posLoop, dirLoop_step_58]
  exact posChain_59

theorem posChain_57 :
    posLoop (allPositionsList.drop 57)
      [83, 249, 332, 747, 830, 996, 1079, 2241, 2324, 2490, 2573, 2988, 3071, 3237, 3320, 6892, 7390, 7639, 8884, 9133, 9631, 9880, 13452, 13535, 13950, 14033, 14199, 14282, 15444, 15527, 15693, 15776, 16191, 16274, 16440, 16523, 20012, 20676, 20759, 22170, 22253, 22917, 23000, 27319, 28813, 29560, 33879, 33962, 35373, 35456, 36120, 36203, 39941, 40356, 40439, 40605, 40688, 41850, 41933, 42099, 42182, 42597, 42680, 42846, 42929, 46999, 47248, 48493, 48742, 49240, 49489, 53559, 53642, 53808, 53891, 55053, 55136, 55302, 55385, 55800, 55883, 56049, 56132, 59870, 60036, 60119, 62028, 62111, 62277, 62360, 66679, 68671, 68920, 73239, 73322, 75231, 75314, 75480, 75563, 79799, 81957, 82040, 88600, 95160, 95243, 99728, 101637, 101720, 101886, 101969, 108280, 108529, 114840, 114923, 115089, 115172, 119657, 119823, 119906, 121068, 121151, 121317, 121400, 121815, 121898, 122064, 122147, 126466, 127711, 127960, 128458, 128707, 133026, 133109, 134271, 134354, 134520, 134603, 135018, 135101, 135267, 135350, 139586, 140997, 141080, 141744, 141827, 147640, 148387, 154200, 154283, 154947, 155030, 159515, 160677, 160760, 160926, 161009, 161424, 161507, 161673, 161756, 167320, 167569, 168067, 168316, 173880, 173963, 174129, 174212, 174627, 174710, 174876, 174959, 179444, 179610, 179693, 180108, 180191, 180357, 180440, 186253, 186751, 187000, 192813, 192896, 193311, 193394, 193560, 193643, 199373, 200037, 200120, 206680, 213240, 213323, 219302, 219717, 219800, 219966, 220049, 226360, 226609, 232920, 233003, 233169, 233252, 239231, 239397, 239480, 246040, 252600, 252683, 259160, 279089, 299018, 299184, 299267, 305827, 312387, 312470, 318947, 338876, 358805, 358971, 359054, 359469, 359552, 359718, 359801, 365614, 366112, 366361, 372174, 372257, 372672, 372755, 372921, 373004]
      
      (winningLines.take 239) = winningLines := by
  rw [show allPositionsList.drop 57 = (2, 0, 1, 0) :: allPositionsList.drop 58 from rfl,
    posLoop, dirLoop_step_57]
  exact posChain_58

theorem posChain_56 :
    posLoop (allPositionsList.drop 56)
      [83, 249, 332, 747, 830, 996, 1079, 2241, 2324, 2490, 2573, 2988, 3071, 3237, 3320, 6892, 7390, 7639, 8884, 9133, 9631, 9880, 13452, 13535, 13950, 14033, 14199, 14282, 15444, 15527, 15693, 15776, 16191, 16274, 16440, 16523, 20012, 20676, 20759, 22170, 22253, 22917, 23000, 27319, 28813, 29560, 33879, 33962, 35373, 35456, 36120, 36203, 39941, 40356, 40439, 40605, 40688, 41850, 41933, 42099, 42182, 42597, 42680, 42846, 42929, 46999, 47248, 48493, 48742, 49240, 49489, 53559, 53642, 53808, 53891, 55053, 55136, 55302, 55385, 55800, 55883, 56049, 56132, 59870, 60036, 60119, 62028, 62111, 62277, 62360, 66679, 68671, 68920, 73239, 73322, 75231, 75314, 75480, 75563, 79799, 81957, 82040, 88600, 95160, 95243, 99728, 101637, 101720, 101886, 101969, 108280, 108529, 114840, 114923, 115089, 115172, 119657, 119823, 119906, 121068, 121151, 121317, 121400, 121815, 121898, 122064, 122147, 126466, 127711, 127960, 128458, 128707, 133026, 133109, 134271, 134354, 134520, 134603, 135018, 135101, 135267, 135350, 139586, 140997, 141080, 141744, 141827, 147640, 148387, 154200, 154283, 154947, 155030, 159515, 160677, 160760, 160926, 161009, 161424, 161507, 161673, 161756, 167320, 167569, 168067, 168316, 173880, 173963, 174129, 174212, 174627, 174710, 174876, 174959, 179444, 179610, 179693, 180108, 180191, 180357, 180440, 186253, 186751, 187000, 192813, 192896, 193311, 193394, 193560, 193643, 199373, 200037, 200120, 206680, 213240, 213323, 219302, 219717, 219800, 219966, 220049, 226360, 226609, 232920, 233003, 233169, 233252, 239231, 239397, 239480, 246040, 252600, 252683, 259160, 279089, 299018, 299184, 299267, 305827, 312387, 312470, 318947, 338876, 358805, 358971, 359054, 359469, 359552, 359718, 359801, 365614, 366112, 366361]
      
      (winningLines.take 233) = winningLines := by
  rw [show allPositionsList.drop 56 = (2, 0, 0, 2) :: allPositionsList.drop 57 from rfl,
    posLoop, dirLoop_step_56]
  exact posChain_57

theorem posChain_55 :
    posLoop (allPositionsList.drop 55)
      [83, 249, 332, 747, 830, 996, 1079, 2241, 2324, 2490, 2573, 2988, 3071, 3237, 3320, 6892, 7390, 7639, 8884, 9133, 9631, 9880, 13452, 13535, 13950, 14033, 14199, 14282, 15444, 15527, 15693, 15776, 16191, 16274, 16440, 16523, 20012, 20676, 20759, 22170, 22253, 22917, 23000, 27319, 28813, 29560, 33879, 33962, 35373, 35456, 36120, 36203, 39941, 40356, 40439, 40605, 40688, 41850, 41933, 42099, 42182, 42597, 42680, 42846, 42929, 46999, 47248, 48493, 48742, 49240, 49489, 53559, 53642, 53808, 53891, 55053, 55136, 55302, 55385, 55800, 55883, 56049, 56132, 59870, 60036, 60119, 62028, 62111, 62277, 62360, 66679, 68671, 68920, 73239, 73322, 75231, 75314, 75480, 75563, 79799, 81957, 82040, 88600, 95160, 95243, 99728, 101637, 101720, 101886, 101969, 108280, 108529, 114840, 114923, 115089, 115172, 119657, 119823, 119906, 121068, 121151, 121317, 121400, 121815, 121898, 122064, 122147, 126466, 127711, 127960, 128458, 128707, 133026, 133109, 134271, 134354, 134520, 134603, 135018, 135101, 135267, 135350, 139586, 140997, 141080, 141744, 141827, 147640, 148387, 154200, 154283, 154947, 155030, 159515, 160677, 160760, 160926, 161009, 161424, 161507, 161673, 161756, 167320, 167569, 168067, 168316, 173880, 173963, 174129, 174212, 174627, 174710, 174876, 174959, 179444, 179610, 179693, 180108, 180191, 180357, 180440, 186253, 186751, 187000, 192813, 192896, 193311, 193394, 193560, 193643, 199373, 200037, 200120, 206680, 213240, 213323, 219302, 219717, 219800, 219966, 220049, 226360, 226609, 232920, 233003, 233169, 233252, 239231, 239397, 239480, 246040, 252600, 252683, 259160, 279089, 299018, 299184, 299267, 305827, 312387, 312470, 318947, 338876, 358805, 358971, 359054, 359469, 359552, 359718, 359801]
      
      (winningLines.take 230) = winningLines := by
  rw [show allPositionsList.drop 55 = (2, 0, 0, 1) :: allPositionsList.drop 56 from rfl,
    posLoop, dirLoop_step_55]
  exact posChain_56

theorem posChain_54 :
    posLoop (allPositionsList.drop 54)
      [83, 249, 332, 747, 830, 996, 1079, 2241, 2324, 2490, 2573, 2988, 3071, 3237, 3320, 6892, 7390, 7639, 8884, 9133, 9631, 9880, 13452, 13535, 13950, 14033, 14199, 14282, 15444, 15527, 15693, 15776, 16191, 16274, 16440, 16523, 20012, 20676, 20759, 22170, 22253, 22917, 23000, 27319, 28813, 29560, 33879, 33962, 35373, 35456, 36120, 36203, 39941, 40356, 40439, 40605, 40688, 41850, 41933, 42099, 42182, 42597, 42680, 42846, 42929, 46999, 47248, 48493, 48742, 49240, 49489, 53559, 53642, 53808, 53891, 55053, 55136, 55302, 55385, 55800, 55883, 56049, 56132, 59870, 60036, 60119, 62028, 62111, 62277, 62360, 66679, 68671, 68920, 73239, 73322, 75231, 75314, 75480, 75563, 79799, 81957, 82040, 88600, 95160, 95243, 99728, 101637, 101720, 101886, 101969, 108280, 108529, 114840, 114923, 115089, 115172, 119657, 119823, 119906, 121068, 121151, 121317, 121400, 121815, 121898, 122064, 122147, 126466, 127711, 127960, 128458, 128707, 133026, 133109, 134271, 134354, 134520, 134603, 135018, 135101, 135267, 135350, 139586, 140997, 141080, 141744, 141827, 147640, 148387, 154200, 154283, 154947, 155030, 159515, 160677, 160760, 160926, 161009, 161424, 161507, 161673, 161756, 167320, 167569, 168067, 168316, 173880, 173963, 174129, 174212, 174627, 174710, 174876, 174959, 179444, 179610, 179693, 180108, 180191, 180357, 180440, 186253, 186751, 187000, 192813, 192896, 193311, 193394, 193560, 193643, 199373, 200037, 200120, 206680, 213240, 213323, 219302, 219717, 219800, 219966, 220049, 226360, 226609, 232920, 233003, 233169, 233252, 239231, 239397, 239480, 246040, 252600, 252683, 259160, 279089, 299018, 299184, 299267, 305827, 312387, 312470, 318947, 338876]
      
      (winningLines.take 223) = winningLines := by
  rw [show allPositionsList.drop 54 = (2, 0, 0, 0) :: allPositionsList.drop 55 from rfl,
    posLoop, dirLoop_step_54]
  exact posChain_55

theorem posChain_53 :
    posLoop (allPositionsList.drop 53)
      [83, 249, 332, 747, 830, 996, 1079, 2241, 2324, 2490, 2573, 2988, 3071, 3237, 3320, 6892, 7390, 7639, 8884, 9133, 9631, 9880, 13452, 13535, 13950, 14033, 14199, 14282, 15444, 15527, 15693, 15776, 16191, 16274, 16440, 16523, 20012, 20676, 20759, 22170, 22253, 22917, 23000, 27319, 28813, 29560, 33879, 33962, 35373, 35456, 36120, 36203, 39941, 40356, 40439, 40605, 40688, 41850, 41933, 42099, 42182, 42597, 42680, 42846, 42929, 46999, 47248, 48493, 48742, 49240, 49489, 53559, 53642, 53808, 53891, 55053, 55136, 55302, 55385, 55800, 55883, 56049, 56132, 59870, 60036, 60119, 62028, 62111, 62277, 62360, 66679, 68671, 68920, 73239, 73322, 75231, 75314, 75480, 75563, 79799, 81957, 82040, 88600, 95160, 95243, 99728, 101637, 101720, 101886, 101969, 108280, 108529, 114840, 114923, 115089, 115172, 119657, 119823, 119906, 121068, 121151, 121317, 121400, 121815, 121898, 122064, 122147, 126466, 127711, 127960, 128458, 128707, 133026, 133109, 134271, 134354, 134520, 134603, 135018, 135101, 135267, 135350, 139586, 140997, 141080, 141744, 141827, 147640, 148387, 154200, 154283, 154947, 155030, 159515, 160677, 160760, 160926, 161009, 161424, 161507, 161673, 161756, 167320, 167569, 168067, 168316, 173880, 173963, 174129, 174212, 174627, 174710, 174876, 174959, 179444, 179610, 179693, 180108, 180191, 180357, 180440, 186253, 186751, 187000, 192813, 192896, 193311, 193394, 193560, 193643, 199373, 200037, 200120, 206680, 213240, 213323, 219302, 219717, 219800, 219966, 220049, 226360, 226609, 232920, 233003, 233169, 233252, 239231, 239397, 239480, 246040, 252600, 252683, 259160, 279089, 299018, 299184, 299267, 305827, 312387, 312470, 318947, 338876]
      
      (winningLines.take 223) = winningLines := by
  rw [show allPositionsList.drop 53 = (1, 2, 2, 2) :: allPositionsList.drop 54 from rfl,
    posLoop, dirLoop_step_53]
  exact posChain_54

theorem posChain_52 :
    posLoop (allPositionsList.drop 52)
      [83, 249, 332, 747, 830, 996, 1079, 2241, 2324, 2490, 2573, 2988, 3071, 3237, 3320, 6892, 7390, 7639, 8884, 9133, 9631, 9880, 13452, 13535, 13950, 14033, 14199, 14282, 15444, 15527, 15693, 15776, 16191, 16274, 16440, 16523, 20012, 20676, 20759, 22170, 22253, 22917, 23000, 27319, 28813, 29560, 33879, 33962, 35373, 35456, 36120, 36203, 39941, 40356, 40439, 40605, 40688, 41850, 41933, 42099, 42182, 42597, 42680, 42846, 42929, 46999, 47248, 48493, 48742, 49240, 49489, 53559, 53642, 53808, 53891, 55053, 55136, 55302, 55385, 55800, 55883, 56049, 56132, 59870, 60036, 60119, 62028, 62111, 62277, 62360, 66679, 68671, 68920, 73239, 73322, 75231, 75314, 75480, 75563, 79799, 81957, 82040, 88600, 95160, 95243, 99728, 101637, 101720, 101886, 101969, 108280, 108529, 114840, 114923, 115089, 115172, 119657, 119823, 119906, 121068, 121151, 121317, 121400, 121815, 121898, 122064, 122147, 126466, 127711, 127960, 128458, 128707, 133026, 133109, 134271, 134354, 134520, 134603, 135018, 135101, 135267, 135350, 139586, 140997, 141080, 141744, 141827, 147640, 148387, 154200, 154283, 154947, 155030, 159515, 160677, 160760, 160926, 161009, 161424, 161507, 161673, 161756, 167320, 167569, 168067, 168316, 173880, 173963, 174129, 174212, 174627, 174710, 174876, 174959, 179444, 179610, 179693, 180108, 180191, 180357, 180440, 186253, 186751, 187000, 192813, 192896, 193311, 193394, 193560, 193643, 199373, 200037, 200120, 206680, 213240, 213323, 219302, 219717, 219800, 219966, 220049, 226360, 226609, 232920, 233003, 233169, 233252, 239231, 239397, 239480, 246040, 252600, 252683, 259160, 279089, 299018, 299184, 299267, 305827, 312387, 312470, 318947, 338876]
      
      (winningLines.take 223) = winningLines := by
  rw [show allPositionsList.drop 52 = (1, 2, 2, 1) :: allPositionsList.drop 53 from rfl,
    posLoop, dirLoop_step_52]
  exact posChain_53

theorem posChain_51 :
    posLoop (allPositionsList.drop 51)
      [83, 249, 332, 747, 830, 996, 1079, 2241, 2324, 2490, 2573, 2988, 3071, 3237, 3320, 6892, 7390, 7639, 8884, 9133, 9631, 9880, 13452, 13535, 13950, 14033, 14199, 14282, 15444, 15527, 15693, 15776, 16191, 16274, 16440, 16523, 20012, 20676, 20759, 22170, 22253, 22917, 23000, 27319, 28813, 29560, 33879, 33962, 35373, 35456, 36120, 36203, 39941, 40356, 40439, 40605, 40688, 41850, 41933, 42099, 42182, 42597, 42680, 42846, 42929, 46999, 47248, 48493, 48742, 49240, 49489, 53559, 53642, 53808, 53891, 55053, 55136, 55302, 55385, 55800, 55883, 56049, 56132, 59870, 60036, 60119, 62028, 62111, 62277, 62360, 66679, 68671, 68920, 73239, 73322, 75231, 75314, 75480, 75563, 79799, 81957, 82040, 88600, 95160, 95243, 99728, 101637, 101720, 101886, 101969, 108280, 108529, 114840, 114923, 115089, 115172, 119657, 119823, 119906, 121068, 121151, 121317, 121400, 121815, 121898, 122064, 122147, 126466, 127711, 127960, 128458, 128707, 133026, 133109, 134271, 134354, 134520, 134603, 135018, 135101, 135267, 135350, 139586, 140997, 141080, 141744, 141827, 147640, 148387, 154200, 154283, 154947, 155030, 159515, 160677, 160760, 160926, 161009, 161424, 161507, 161673, 161756, 167320, 167569, 168067, 168316, 173880, 173963, 174129, 174212, 174627, 174710, 174876, 174959, 179444, 179610, 179693, 180108, 180191, 180357, 180440, 186253, 186751, 187000, 192813, 192896, 193311, 193394, 193560, 193643, 199373, 200037, 200120, 206680, 213240, 213323, 219302, 219717, 219800, 219966, 220049, 226360, 226609, 232920, 233003, 233169, 233252, 239231, 239397, 239480, 246040, 252600, 252683, 259160, 279089, 299018, 299184, 299267, 305827, 312387, 312470, 318947]
      
      (winningLines.take 222) = winningLines := by
  rw [show allPositionsList.drop 51 = (1, 2, 2, 0) :: allPositionsList.drop 52 from rfl,
    posLoop, dirLoop_step_51]
  exact posChain_52

theorem posChain_50 :
    posLoop (allPositionsList.drop 50)
      [83, 249, 332, 747, 830, 996, 1079, 2241, 2324, 2490, 2573, 2988, 3071, 3237, 3320, 6892, 7390, 7639, 8884, 9133, 9631, 9880, 13452, 13535, 13950, 14033, 14199, 14282, 15444, 15527, 15693, 15776, 16191, 16274, 16440, 16523, 20012, 20676, 20759, 22170, 22253, 22917, 23000, 27319, 28813, 29560, 33879, 33962, 35373, 35456, 36120, 36203, 39941, 40356, 40439, 40605, 40688, 41850, 41933, 42099, 42182, 42597, 42680, 42846, 42929, 46999, 47248, 48493, 48742, 49240, 49489, 53559, 53642, 53808, 53891, 55053, 55136, 55302, 55385, 55800, 55883, 56049, 56132, 59870, 60036, 60119, 62028, 62111, 62277, 62360, 66679, 68671, 68920, 73239, 73322, 75231, 75314, 75480, 75563, 79799, 81957, 82040, 88600, 95160, 95243, 99728, 101637, 101720, 101886, 101969, 108280, 108529, 114840, 114923, 115089, 115172, 119657, 119823, 119906, 121068, 121151, 121317, 121400, 121815, 121898, 122064, 122147, 126466, 127711, 127960, 128458, 128707, 133026, 133109, 134271, 134354, 134520, 134603, 135018, 135101, 135267, 135350, 139586, 140997, 141080, 141744, 141827, 147640, 148387, 154200, 154283, 154947, 155030, 159515, 160677, 160760, 160926, 161009, 161424, 161507, 161673, 161756, 167320, 167569, 168067, 168316, 173880, 173963, 174129, 174212, 174627, 174710, 174876, 174959, 179444, 179610, 179693, 180108, 180191, 180357, 180440, 186253, 186751, 187000, 192813, 192896, 193311, 193394, 193560, 193643, 199373, 200037, 200120, 206680, 213240, 213323, 219302, 219717, 219800, 219966, 220049, 226360, 226609, 232920, 233003, 233169, 233252, 239231, 239397, 239480, 246040, 252600, 252683, 259160, 279089, 299018, 299184, 299267, 305827, 312387, 312470, 318947]
      
      (winningLines.take 222) = winningLines := by
  rw [show allPositionsList.drop 50 = (1, 2, 1, 2) :: allPositionsList.drop 51 from rfl,
    posLoop, dirLoop_step_50]
  exact posChain_51

theorem posChain_49 :
    posLoop (allPositionsList.drop 49)
      [83, 249, 332, 747, 830, 996, 1079, 2241, 2324, 2490, 2573, 2988, 3071, 3237, 3320, 6892, 7390, 7639, 8884, 9133, 9631, 9880, 13452, 13535, 13950, 14033, 14199, 14282, 15444, 15527, 15693, 15776, 16191, 16274, 16440, 16523, 20012, 20676, 20759, 22170, 22253, 22917, 23000, 27319, 28813, 29560, 33879, 33962, 35373, 35456, 36120, 36203, 39941, 40356, 40439, 40605, 40688, 41850, 41933, 42099, 42182, 42597, 42680, 42846, 42929, 46999, 47248, 48493, 48742, 49240, 49489, 53559, 53642, 53808, 53891, 55053, 55136, 55302, 55385, 55800, 55883, 56049, 56132, 59870, 60036, 60119, 62028, 62111, 62277, 62360, 66679, 68671, 68920, 73239, 73322, 75231, 75314, 75480, 75563, 79799, 81957, 82040, 88600, 95160, 95243, 99728, 101637, 101720, 101886, 101969, 108280, 108529, 114840, 114923, 115089, 115172, 119657, 119823, 119906, 121068, 121151, 121317, 121400, 121815, 121898, 122064, 122147, 126466, 127711, 127960, 128458, 128707, 133026, 133109, 134271, 134354, 134520, 134603, 135018, 135101, 135267, 135350, 139586, 140997, 141080, 141744, 141827, 147640, 148387, 154200, 154283, 154947, 155030, 159515, 160677, 160760, 160926, 161009, 161424, 161507, 161673, 161756, 167320, 167569, 168067, 168316, 173880, 173963, 174129, 174212, 174627, 174710, 174876, 174959, 179444, 179610, 179693, 180108, 180191, 180357, 180440, 186253, 186751, 187000, 192813, 192896, 193311, 193394, 193560, 193643, 199373, 200037, 200120, 206680, 213240, 213323, 219302, 219717, 219800, 219966, 220049, 226360, 226609, 232920, 233003, 233169, 233252, 239231, 239397, 239480, 246040, 252600, 252683, 259160, 279089, 299018, 299184, 299267, 305827, 312387, 312470, 318947]
      
      (winningLines.take 222) = winningLines := by
  rw [show allPositionsList.drop 49 = (1, 2, 1, 1) :: allPositionsList.drop 50 from rfl,
    posLoop, dirLoop_step_49]
  exact posChain_50

theorem posChain_48 :
    posLoop (allPositionsList.drop 48)
      [83, 249, 332, 747, 830, 996, 1079, 2241, 2324, 2490, 2573, 2988, 3071, 3237, 3320, 6892, 7390, 7639, 8884, 9133, 9631, 9880, 13452, 13535, 13950, 14033, 14199, 14282, 15444, 15527, 15693, 15776, 16191, 16274, 16440, 16523, 20012, 20676, 20759, 22170, 22253, 22917, 23000, 27319, 28813, 29560, 33879, 33962, 35373, 35456, 36120, 36203, 39941, 40356, 40439, 40605, 40688, 41850, 41933, 42099, 42182, 42597, 42680, 42846, 42929, 46999, 47248, 48493, 48742, 49240, 49489, 53559, 53642, 53808, 53891, 55053, 55136, 55302, 55385, 55800, 55883, 56049, 56132, 59870, 60036, 60119, 62028, 62111, 62277, 62360, 66679, 68671, 68920, 73239, 73322, 75231, 75314, 75480, 75563, 79799, 81957, 82040, 88600, 95160, 95243, 99728, 101637, 101720, 101886, 101969, 108280, 108529, 114840, 114923, 115089, 115172, 119657, 119823, 119906, 121068, 121151, 121317, 121400, 121815, 121898, 122064, 122147, 126466, 127711, 127960, 128458, 128707, 133026, 133109, 134271, 134354, 134520, 134603, 135018, 135101, 135267, 135350, 139586, 140997, 141080, 141744, 141827, 147640, 148387, 154200, 154283, 154947, 155030, 159515, 160677, 160760, 160926, 161009, 161424, 161507, 161673, 161756, 167320, 167569, 168067, 168316, 173880, 173963, 174129, 174212, 174627, 174710, 174876, 174959, 179444, 179610, 179693, 180108, 180191, 180357, 180440, 186253, 186751, 187000, 192813, 192896, 193311, 193394, 193560, 193643, 199373, 200037, 200120, 206680, 213240, 213323, 219302, 219717, 219800, 219966, 220049, 226360, 226609, 232920, 233003, 233169, 233252, 239231, 239397, 239480, 246040, 252600, 252683, 259160, 279089, 299018, 299184, 299267, 305827, 312387, 312470]
      
      (winningLines.take 221) = winningLines := by
  rw [show allPositionsList.drop 48 = (1, 2, 1, 0) :: allPositionsList.drop 49 from rfl,
    posLoop, dirLoop_step_48]
  exact posChain_49

theorem posChain_47 :
    posLoop (allPositionsList.drop 47)
      [83, 249, 332, 747, 830, 996, 1079, 2241, 2324, 2490, 2573, 2988, 3071, 3237, 3320, 6892, 7390, 7639, 8884, 9133, 9631, 9880, 13452, 13535, 13950, 14033, 14199, 14282, 15444, 15527, 15693, 15776, 16191, 16274, 16440, 16523, 20012, 20676, 20759, 22170, 22253, 22917, 23000, 27319, 28813, 29560, 33879, 33962, 35373, 35456, 36120, 36203, 39941, 40356, 40439, 40605, 40688, 41850, 41933, 42099, 42182, 42597, 42680, 42846, 42929, 46999, 47248, 48493, 48742, 49240, 49489, 53559, 53642, 53808, 53891, 55053, 55136, 55302, 55385, 55800, 55883, 56049, 56132, 59870, 60036, 60119, 62028, 62111, 62277, 62360, 66679, 68671, 68920, 73239, 73322, 75231, 75314, 75480, 75563, 79799, 81957, 82040, 88600, 95160, 95243, 99728, 101637, 101720, 101886, 101969, 108280, 108529, 114840, 114923, 115089, 115172, 119657, 119823, 119906, 121068, 121151, 121317, 121400, 121815, 121898, 122064, 122147, 126466, 127711, 127960, 128458, 128707, 133026, 133109, 134271, 134354, 134520, 134603, 135018, 135101, 135267, 135350, 139586, 140997, 141080, 141744, 141827, 147640, 148387, 154200, 154283, 154947, 155030, 159515, 160677, 160760, 160926, 161009, 161424, 161507, 161673, 161756, 167320, 167569, 168067, 168316, 173880, 173963, 174129, 174212, 174627, 174710, 174876, 174959, 179444, 179610, 179693, 180108, 180191, 180357, 180440, 186253, 186751, 187000, 192813, 192896, 193311, 193394, 193560, 193643, 199373, 200037, 200120, 206680, 213240, 213323, 219302, 219717, 219800, 219966, 220049, 226360, 226609, 232920, 233003, 233169, 233252, 239231, 239397, 239480, 246040, 252600, 252683, 259160, 279089, 299018, 299184, 299267, 305827]
      
      (winningLines.take 219) = winningLines := by
  rw [show allPositionsList.drop 47 = (1, 2, 0, 2) :: allPositionsList.drop 48 from rfl,
    posLoop, dirLoop_step_47]
  exact posChain_48

theorem posChain_46 :
    posLoop (allPositionsList.drop 46)
      [83, 249, 332, 747, 830, 996, 1079, 2241, 2324, 2490, 2573, 2988, 3071, 3237, 3320, 6892, 7390, 7639, 8884, 9133, 9631, 9880, 13452, 13535, 13950, 14033, 14199, 14282, 15444, 15527, 15693, 15776, 16191, 16274, 16440, 16523, 20012, 20676, 20759, 22170, 22253, 22917, 23000, 27319, 28813, 29560, 33879, 33962, 35373, 35456, 36120, 36203, 39941, 40356, 40439, 40605, 40688, 41850, 41933, 42099, 42182, 42597, 42680, 42846, 42929, 46999, 47248, 48493, 48742, 49240, 49489, 53559, 53642, 53808, 53891, 55053, 55136, 55302, 55385, 55800, 55883, 56049, 56132, 59870, 60036, 60119, 62028, 62111, 62277, 62360, 66679, 68671, 68920, 73239, 73322, 75231, 75314, 75480, 75563, 79799, 81957, 82040, 88600, 95160, 95243, 99728, 101637, 101720, 101886, 101969, 108280, 108529, 114840, 114923, 115089, 115172, 119657, 119823, 119906, 121068, 121151, 121317, 121400, 121815, 121898, 122064, 122147, 126466, 127711, 127960, 128458, 128707, 133026, 133109, 134271, 134354, 134520, 134603, 135018, 135101, 135267, 135350, 139586, 140997, 141080, 141744, 141827, 147640, 148387, 154200, 154283, 154947, 155030, 159515, 160677, 160760, 160926, 161009, 161424, 161507, 161673, 161756, 167320, 167569, 168067, 168316, 173880, 173963, 174129, 174212, 174627, 174710, 174876, 174959, 179444, 179610, 179693, 180108, 180191, 180357, 180440, 186253, 186751, 187000, 192813, 192896, 193311, 193394, 193560, 193643, 199373, 200037, 200120, 206680, 213240, 213323, 219302, 219717, 219800, 219966, 220049, 226360, 226609, 232920, 233003, 233169, 233252, 239231, 239397, 239480, 246040, 252600, 252683, 259160, 279089, 299018, 299184, 299267]
      
      (winningLines.take 218) = winningLines := by
  rw [show allPositionsList.drop 46 = (1, 2, 0, 1) :: allPositionsList.drop 47 from rfl,
    posLoop, dirLoop_step_46]
  exact posChain_47

theorem posChain_45 :
    posLoop (allPositionsList.drop 45)
      [83, 249, 332, 747, 830, 996, 1079, 2241, 2324, 2490, 2573, 2988, 3071, 3237, 3320, 6892, 7390, 7639, 8884, 9133, 9631, 9880, 13452, 13535, 13950, 14033, 14199, 14282, 15444, 15527, 15693, 15776, 16191, 16274, 16440, 16523, 20012, 20676, 20759, 22170, 22253, 22917, 23000, 27319, 28813, 29560, 33879, 33962, 35373, 35456, 36120, 36203, 39941, 40356, 40439, 40605, 40688, 41850, 41933, 42099, 42182, 42597, 42680, 42846, 42929, 46999, 47248, 48493, 48742, 49240, 49489, 53559, 53642, 53808, 53891, 55053, 55136, 55302, 55385, 55800, 55883, 56049, 56132, 59870, 60036, 60119, 62028, 62111, 62277, 62360, 66679, 68671, 68920, 73239, 73322, 75231, 75314, 75480, 75563, 79799, 81957, 82040, 88600, 95160, 95243, 99728, 101637, 101720, 101886, 101969, 108280, 108529, 114840, 114923, 115089, 115172, 119657, 119823, 119906, 121068, 121151, 121317, 121400, 121815, 121898, 122064, 122147, 126466, 127711, 127960, 128458, 128707, 133026, 133109, 134271, 134354, 134520, 134603, 135018, 135101, 135267, 135350, 139586, 140997, 141080, 141744, 141827, 147640, 148387, 154200, 154283, 154947, 155030, 159515, 160677, 160760, 160926, 161009, 161424, 161507, 161673, 161756, 167320, 167569, 168067, 168316, 173880, 173963, 174129, 174212, 174627, 174710, 174876, 174959, 179444, 179610, 179693, 180108, 180191, 180357, 180440, 186253, 186751, 187000, 192813, 192896, 193311, 193394, 193560, 193643, 199373, 200037, 200120, 206680, 213240, 213323, 219302, 219717, 219800, 219966, 220049, 226360, 226609, 232920, 233003, 233169, 233252, 239231, 239397, 239480, 246040, 252600, 252683, 259160, 279089]
      
      (winningLines.take 215) = winningLines := by
  rw [show allPositionsList.drop 45 = (1, 2, 0, 0) :: allPositionsList.drop 46 from rfl,
    posLoop, dirLoop_step_45]
  exact posChain_46

theorem posChain_44 :
    posLoop (allPositionsList.drop 44)
      [83, 249, 332, 747, 830, 996, 1079, 2241, 2324, 2490, 2573, 2988, 3071, 3237, 3320, 6892, 7390, 7639, 8884, 9133, 9631, 9880, 13452, 13535, 13950, 14033, 14199, 14282, 15444, 15527, 15693, 15776, 16191, 16274, 16440, 16523, 20012, 20676, 20759, 22170, 22253, 22917, 23000, 27319, 28813, 29560, 33879, 33962, 35373, 35456, 36120, 36203, 39941, 40356, 40439, 40605, 40688, 41850, 41933, 42099, 42182, 42597, 42680, 42846, 42929, 46999, 47248, 48493, 48742, 49240, 49489, 53559, 53642, 53808, 53891, 55053, 55136, 55302, 55385, 55800, 55883, 56049, 56132, 59870, 60036, 60119, 62028, 62111, 62277, 62360, 66679, 68671, 68920, 73239, 73322, 75231, 75314, 75480, 75563, 79799, 81957, 82040, 88600, 95160, 95243, 99728, 101637, 101720, 101886, 101969, 108280, 108529, 114840, 114923, 115089, 115172, 119657, 119823, 119906, 121068, 121151, 121317, 121400, 121815, 121898, 122064, 122147, 126466, 127711, 127960, 128458, 128707, 133026, 133109, 134271, 134354, 134520, 134603, 135018, 135101, 135267, 135350, 139586, 140997, 141080, 141744, 141827, 147640, 148387, 154200, 154283, 154947, 155030, 159515, 160677, 160760, 160926, 161009, 161424, 161507, 161673, 161756, 167320, 167569, 168067, 168316, 173880, 173963, 174129, 174212, 174627, 174710, 174876, 174959, 179444, 179610, 179693, 180108, 180191, 180357, 180440, 186253, 186751, 187000, 192813, 192896, 193311, 193394, 193560, 193643, 199373, 200037, 200120, 206680, 213240, 213323, 219302, 219717, 219800, 219966, 220049, 226360, 226609, 232920, 233003, 233169, 233252, 239231, 239397, 239480, 246040, 252600, 252683, 259160, 279089]
      
      (winningLines.take 215) = winningLines := by
  rw [show allPositionsList.drop 44 = (1, 1, 2, 2) :: allPositionsList.drop 45 from rfl,
    posLoop, dirLoop_step_44]
  exact posChain_45

theorem posChain_43 :
    posLoop (allPositionsList.drop 43)
      [83, 249, 332, 747, 830, 996, 1079, 2241, 2324, 2490, 2573, 2988, 3071, 3237, 3320, 6892, 7390, 7639, 8884, 9133, 9631, 9880, 13452, 13535, 13950, 14033, 14199, 14282, 15444, 15527, 15693, 15776, 16191, 16274, 16440, 16523, 20012, 20676, 20759, 22170, 22253, 22917, 23000, 27319, 28813, 29560, 33879, 33962, 35373, 35456, 36120, 36203, 39941, 40356, 40439, 40605, 40688, 41850, 41933, 42099, 42182, 42597, 42680, 42846, 42929, 46999, 47248, 48493, 48742, 49240, 49489, 53559, 53642, 53808, 53891, 55053, 55136, 55302, 55385, 55800, 55883, 56049, 56132, 59870, 60036, 60119, 62028, 62111, 62277, 62360, 66679, 68671, 68920, 73239, 73322, 75231, 75314, 75480, 75563, 79799, 81957, 82040, 88600, 95160, 95243, 99728, 101637, 101720, 101886, 101969, 108280, 108529, 114840, 114923, 115089, 115172, 119657, 119823, 119906, 121068, 121151, 121317, 121400, 121815, 121898, 122064, 122147, 126466, 127711, 127960, 128458, 128707, 133026, 133109, 134271, 134354, 134520, 134603, 135018, 135101, 135267, 135350, 139586, 140997, 141080, 141744, 141827, 147640, 148387, 154200, 154283, 154947, 155030, 159515, 160677, 160760, 160926, 161009, 161424, 161507, 161673, 161756, 167320, 167569, 168067, 168316, 173880, 173963, 174129, 174212, 174627, 174710, 174876, 174959, 179444, 179610, 179693, 180108, 180191, 180357, 180440, 186253, 186751, 187000, 192813, 192896, 193311, 193394, 193560, 193643, 199373, 200037, 200120, 206680, 213240, 213323, 219302, 219717, 219800, 219966, 220049, 226360, 226609, 232920, 233003, 233169, 233252, 239231, 239397, 239480, 246040, 252600, 252683, 259160, 279089]
      
      (winningLines.take 215) = winningLines := by
  rw [show allPositionsList.drop 43 = (1, 1, 2, 1) :: allPositionsList.drop 44 from rfl,
    posLoop, dirLoop_step_43]
  exact posChain_44

theorem posChain_42 :
    posLoop (allPositionsList.drop 42)
      [83, 249, 332, 747, 830, 996, 1079, 2241, 2324, 2490, 2573, 2988, 3071, 3237, 3320, 6892, 7390, 7639, 8884, 9133, 9631, 9880, 13452, 13535, 13950, 14033, 14199, 14282, 15444, 15527, 15693, 15776, 16191, 16274, 16440, 16523, 20012, 20676, 20759, 22170, 22253, 22917, 23000, 27319, 28813, 29560, 33879, 33962, 35373, 35456, 36120, 36203, 39941, 40356, 40439, 40605, 40688, 41850, 41933, 42099, 42182, 42597, 42680, 42846, 42929, 46999, 47248, 48493, 48742, 49240, 49489, 53559, 53642, 53808, 53891, 55053, 55136, 55302, 55385, 55800, 55883, 56049, 56132, 59870, 60036, 60119, 62028, 62111, 62277, 62360, 66679, 68671, 68920, 73239, 73322, 75231, 75314, 75480, 75563, 79799, 81957, 82040, 88600, 95160, 95243, 99728, 101637, 101720, 101886, 101969, 108280, 108529, 114840, 114923, 115089, 115172, 119657, 119823, 119906, 121068, 121151, 121317, 121400, 121815, 121898, 122064, 122147, 126466, 127711, 127960, 128458, 128707, 133026, 133109, 134271, 134354, 134520, 134603, 135018, 135101, 135267, 135350, 139586, 140997, 141080, 141744, 141827, 147640, 148387, 154200, 154283, 154947, 155030, 159515, 160677, 160760, 160926, 161009, 161424, 161507, 161673, 161756, 167320, 167569, 168067, 168316, 173880, 173963, 174129, 174212, 174627, 174710, 174876, 174959, 179444, 179610, 179693, 180108, 180191, 180357, 180440, 186253, 186751, 187000, 192813, 192896, 193311, 193394, 193560, 193643, 199373, 200037, 200120, 206680, 213240, 213323, 219302, 219717, 219800, 219966, 220049, 226360, 226609, 232920, 233003, 233169, 233252, 239231, 239397, 239480, 246040, 252600, 252683, 259160]
      
      (winningLines.take 214) = winningLines := by
  rw [show allPositionsList.drop 42 = (1, 1, 2, 0) :: allPositionsList.drop 43 from rfl,
    posLoop, dirLoop_step_42]
  exact posChain_43

theorem posChain_41 :
    posLoop (allPositionsList.drop 41)
      [83, 249, 332, 747, 830, 996, 1079, 2241, 2324, 2490, 2573, 2988, 3071, 3237, 3320, 6892, 7390, 7639, 8884, 9133, 9631, 9880, 13452, 13535, 13950, 14033, 14199, 14282, 15444, 15527, 15693, 15776, 16191, 16274, 16440, 16523, 20012, 20676, 20759, 22170, 22253, 22917, 23000, 27319, 28813, 29560, 33879, 33962, 35373, 35456, 36120, 36203, 39941, 40356, 40439, 40605, 40688, 41850, 41933, 42099, 42182, 42597, 42680, 42846, 42929, 46999, 47248, 48493, 48742, 49240, 49489, 53559, 53642, 53808, 53891, 55053, 55136, 55302, 55385, 55800, 55883, 56049, 56132, 59870, 60036, 60119, 62028, 62111, 62277, 62360, 66679, 68671, 68920, 73239, 73322, 75231, 75314, 75480, 75563, 79799, 81957, 82040, 88600, 95160, 95243, 99728, 101637, 101720, 101886, 101969, 108280, 108529, 114840, 114923, 115089, 115172, 119657, 119823, 119906, 121068, 121151, 121317, 121400, 121815, 121898, 122064, 122147, 126466, 127711, 127960, 128458, 128707, 133026, 133109, 134271, 134354, 134520, 134603, 135018, 135101, 135267, 135350, 139586, 140997, 141080, 141744, 141827, 147640, 148387, 154200, 154283, 154947, 155030, 159515, 160677, 160760, 160926, 161009, 161424, 161507, 161673, 161756, 167320, 167569, 168067, 168316, 173880, 173963, 174129, 174212, 174627, 174710, 174876, 174959, 179444, 179610, 179693, 180108, 180191, 180357, 180440, 186253, 186751, 187000, 192813, 192896, 193311, 193394, 193560, 193643, 199373, 200037, 200120, 206680, 213240, 213323, 219302, 219717, 219800, 219966, 220049, 226360, 226609, 232920, 233003, 233169, 233252, 239231, 239397, 239480, 246040, 252600, 252683, 259160]
      
      (winningLines.take 214) = winningLines := by
  rw [show allPositionsList.drop 41 = (1, 1, 1, 2) :: allPositionsList.drop 42 from rfl,
    posLoop, dirLoop_step_41]
  exact posChain_42

theorem posChain_40 :
    posLoop (allPositionsList.drop 40)
      [83, 249, 332, 747, 830, 996, 1079, 2241, 2324, 2490, 2573, 2988, 3071, 3237, 3320, 6892, 7390, 7639, 8884, 9133, 9631, 9880, 13452, 13535, 13950, 14033, 14199, 14282, 15444, 15527, 15693, 15776, 16191, 16274, 16440, 16523, 20012, 20676, 20759, 22170, 22253, 22917, 23000, 27319, 28813, 29560, 33879, 33962, 35373, 35456, 36120, 36203, 39941, 40356, 40439, 40605, 40688, 41850, 41933, 42099, 42182, 42597, 42680, 42846, 42929, 46999, 47248, 48493, 48742, 49240, 49489, 53559, 53642, 53808, 53891, 55053, 55136, 55302, 55385, 55800, 55883, 56049, 56132, 59870, 60036, 60119, 62028, 62111, 62277, 62360, 66679, 68671, 68920, 73239, 73322, 75231, 75314, 75480, 75563, 79799, 81957, 82040, 88600, 95160, 95243, 99728, 101637, 101720, 101886, 101969, 108280, 108529, 114840, 114923, 115089, 115172, 119657, 119823, 119906, 121068, 121151, 121317, 121400, 121815, 121898, 122064, 122147, 126466, 127711, 127960, 128458, 128707, 133026, 133109, 134271, 134354, 134520, 134603, 135018, 135101, 135267, 135350, 139586, 140997, 141080, 141744, 141827, 147640, 148387, 154200, 154283, 154947, 155030, 159515, 160677, 160760, 160926, 161009, 161424, 161507, 161673, 161756, 167320, 167569, 168067, 168316, 173880, 173963, 174129, 174212, 174627, 174710, 174876, 174959, 179444, 179610, 179693, 180108, 180191, 180357, 180440, 186253, 186751, 187000, 192813, 192896, 193311, 193394, 193560, 193643, 199373, 200037, 200120, 206680, 213240, 213323, 219302, 219717, 219800, 219966, 220049, 226360, 226609, 232920, 233003, 233169, 233252, 239231, 239397, 239480, 246040, 252600, 252683, 259160]
      
      (winningLines.take 214) = winningLines := by
  rw [show allPositionsList.drop 40 = (1, 1, 1, 1) :: allPositionsList.drop 41 from rfl,
    posLoop, dirLoop_step_40]
  exact posChain_41

theorem posChain_39 :
    posLoop (allPositionsList.drop 39)
      [83, 249, 332, 747, 830, 996, 1079, 2241, 2324, 2490, 2573, 2988, 3071, 3237, 3320, 6892, 7390, 7639, 8884, 9133, 9631, 9880, 13452, 13535, 13950, 14033, 14199, 14282, 15444, 15527, 15693, 15776, 16191, 16274, 16440, 16523, 20012, 20676, 20759, 22170, 22253, 22917, 23000, 27319, 28813, 29560, 33879, 33962, 35373, 35456, 36120, 36203, 39941, 40356, 40439, 40605, 40688, 41850, 41933, 42099, 42182, 42597, 42680, 42846, 42929, 46999, 47248, 48493, 48742, 49240, 49489, 53559, 53642, 53808, 53891, 55053, 55136, 55302, 55385, 55800, 55883, 56049, 56132, 59870, 60036, 60119, 62028, 62111, 62277, 62360, 66679, 68671, 68920, 73239, 73322, 75231, 75314, 75480, 75563, 79799, 81957, 82040, 88600, 95160, 95243, 99728, 101637, 101720, 101886, 101969, 108280, 108529, 114840, 114923, 115089, 115172, 119657, 119823, 119906, 121068, 121151, 121317, 121400, 121815, 121898, 122064, 122147, 126466, 127711, 127960, 128458, 128707, 133026, 133109, 134271, 134354, 134520, 134603, 135018, 135101, 135267, 135350, 139586, 140997, 141080, 141744, 141827, 147640, 148387, 154200, 154283, 154947, 155030, 159515, 160677, 160760, 160926, 161009, 161424, 161507, 161673, 161756, 167320, 167569, 168067, 168316, 173880, 173963, 174129, 174212, 174627, 174710, 174876, 174959, 179444, 179610, 179693, 180108, 180191, 180357, 180440, 186253, 186751, 187000, 192813, 192896, 193311, 193394, 193560, 193643, 199373, 200037, 200120, 206680, 213240, 213323, 219302, 219717, 219800, 219966, 220049, 226360, 226609, 232920, 233003, 233169, 233252, 239231, 239397, 239480, 246040, 252600, 252683]
      
      (winningLines.take 213) = winningLines := by
  rw [show allPositionsList.drop 39 = (1, 1, 1, 0) :: allPositionsList.drop 40 from rfl,
    posLoop, dirLoop_step_39]
  exact posChain_40

theorem posChain_38 :
    posLoop (allPositionsList.drop 38)
      [83, 249, 332, 747, 830, 996, 1079, 2241, 2324, 2490, 2573, 2988, 3071, 3237, 3320, 6892, 7390, 7639, 8884, 9133, 9631, 9880, 13452, 13535, 13950, 14033, 14199, 14282, 15444, 15527, 15693, 15776, 16191, 16274, 16440, 16523, 20012, 20676, 20759, 22170, 22253, 22917, 23000, 27319, 28813, 29560, 33879, 33962, 35373, 35456, 36120, 36203, 39941, 40356, 40439, 40605, 40688, 41850, 41933, 42099, 42182, 42597, 42680, 42846, 42929, 46999, 47248, 48493, 48742, 49240, 49489, 53559, 53642, 53808, 53891, 55053, 55136, 55302, 55385, 55800, 55883, 56049, 56132, 59870, 60036, 60119, 62028, 62111, 62277, 62360, 66679, 68671, 68920, 73239, 73322, 75231, 75314, 75480, 75563, 79799, 81957, 82040, 88600, 95160, 95243, 99728, 101637, 101720, 101886, 101969, 108280, 108529, 114840, 114923, 115089, 115172, 119657, 119823, 119906, 121068, 121151, 121317, 121400, 121815, 121898, 122064, 122147, 126466, 127711, 127960, 128458, 128707, 133026, 133109, 134271, 134354, 134520, 134603, 135018, 135101, 135267, 135350, 139586, 140997, 141080, 141744, 141827, 147640, 148387, 154200, 154283, 154947, 155030, 159515, 160677, 160760, 160926, 161009, 161424, 161507, 161673, 161756, 167320, 167569, 168067, 168316, 173880, 173963, 174129, 174212, 174627, 174710, 174876, 174959, 179444, 179610, 179693, 180108, 180191, 180357, 180440, 186253, 186751, 187000, 192813, 192896, 193311, 193394, 193560, 193643, 199373, 200037, 200120, 206680, 213240, 213323, 219302, 219717, 219800, 219966, 220049, 226360, 226609, 232920, 233003, 233169, 233252, 239231, 239397, 239480, 246040]
      
      (winningLines.take 211) = winningLines := by
  rw [show allPositionsList.drop 38 = (1, 1, 0, 2) :: allPositionsList.drop 39 from rfl,
    posLoop, dirLoop_step_38]
  exact posChain_39

theorem posChain_37 :
    posLoop (allPositionsList.drop 37)
      [83, 249, 332, 747, 830, 996, 1079, 2241, 2324, 2490, 2573, 2988, 3071, 3237, 3320, 6892, 7390, 7639, 8884, 9133, 9631, 9880, 13452, 13535, 13950, 14033, 14199, 14282, 15444, 15527, 15693, 15776, 16191, 16274, 16440, 16523, 20012, 20676, 20759, 22170, 22253, 22917, 23000, 27319, 28813, 29560, 33879, 33962, 35373, 35456, 36120, 36203, 39941, 40356, 40439, 40605, 40688, 41850, 41933, 42099, 42182, 42597, 42680, 42846, 42929, 46999, 47248, 48493, 48742, 49240, 49489, 53559, 53642, 53808, 53891, 55053, 55136, 55302, 55385, 55800, 55883, 56049, 56132, 59870, 60036, 60119, 62028, 62111, 62277, 62360, 66679, 68671, 68920, 73239, 73322, 75231, 75314, 75480, 75563, 79799, 81957, 82040, 88600, 95160, 95243, 99728, 101637, 101720, 101886, 101969, 108280, 108529, 114840, 114923, 115089, 115172, 119657, 119823, 119906, 121068, 121151, 121317, 121400, 121815, 121898, 122064, 122147, 126466, 127711, 127960, 128458, 128707, 133026, 133109, 134271, 134354, 134520, 134603, 135018, 135101, 135267, 135350, 139586, 140997, 141080, 141744, 141827, 147640, 148387, 154200, 154283, 154947, 155030, 159515, 160677, 160760, 160926, 161009, 161424, 161507, 161673, 161756, 167320, 167569, 168067, 168316, 173880, 173963, 174129, 174212, 174627, 174710, 174876, 174959, 179444, 179610, 179693, 180108, 180191, 180357, 180440, 186253, 186751, 187000, 192813, 192896, 193311, 193394, 193560, 193643, 199373, 200037, 200120, 206680, 213240, 213323, 219302, 219717, 219800, 219966, 220049, 226360, 226609, 232920, 233003, 233169, 233252, 239231, 239397, 239480]
      
      (winningLines.take 210) = winningLines := by
  rw [show allPositionsList.drop 37 = (1, 1, 0, 1) :: allPositionsList.drop 38 from rfl,
    posLoop, dirLoop_step_37]
  exact posChain_38

theorem posChain_36 :
    posLoop (allPositionsList.drop 36)
      [83, 249, 332, 747, 830, 996, 1079, 2241, 2324, 2490, 2573, 2988, 3071, 3237, 3320, 6892, 7390, 7639, 8884, 9133, 9631, 9880, 13452, 13535, 13950, 14033, 14199, 14282, 15444, 15527, 15693, 15776, 16191, 16274, 16440, 16523, 20012, 20676, 20759, 22170, 22253, 22917, 23000, 27319, 28813, 29560, 33879, 33962, 35373, 35456, 36120, 36203, 39941, 40356, 40439, 40605, 40688, 41850, 41933, 42099, 42182, 42597, 42680, 42846, 42929, 46999, 47248, 48493, 48742, 49240, 49489, 53559, 53642, 53808, 53891, 55053, 55136, 55302, 55385, 55800, 55883, 56049, 56132, 59870, 60036, 60119, 62028, 62111, 62277, 62360, 66679, 68671, 68920, 73239, 73322, 75231, 75314, 75480, 75563, 79799, 81957, 82040, 88600, 95160, 95243, 99728, 101637, 101720, 101886, 101969, 108280, 108529, 114840, 114923, 115089, 115172, 119657, 119823, 119906, 121068, 121151, 121317, 121400, 121815, 121898, 122064, 122147, 126466, 127711, 127960, 128458, 128707, 133026, 133109, 134271, 134354, 134520, 134603, 135018, 135101, 135267, 135350, 139586, 140997, 141080, 141744, 141827, 147640, 148387, 154200, 154283, 154947, 155030, 159515, 160677, 160760, 160926, 161009, 161424, 161507, 161673, 161756, 167320, 167569, 168067, 168316, 173880, 173963, 174129, 174212, 174627, 174710, 174876, 174959, 179444, 179610, 179693, 180108, 180191, 180357, 180440, 186253, 186751, 187000, 192813, 192896, 193311, 193394, 193560, 193643, 199373, 200037, 200120, 206680, 213240, 213323, 219302, 219717, 219800, 219966, 220049, 226360, 226609, 232920, 233003, 233169, 233252]
      
      (winningLines.take 207) = winningLines := by
  rw [show allPositionsList.drop 36 = (1, 1, 0, 0) :: allPositionsList.drop 37 from rfl,
    posLoop, dirLoop_step_36]
  exact posChain_37

theorem posChain_35 :
    posLoop (allPositionsList.drop 35)
      [83, 249, 332, 747, 830, 996, 1079, 2241, 2324, 2490, 2573, 2988, 3071, 3237, 3320, 6892, 7390, 7639, 8884, 9133, 9631, 9880, 13452, 13535, 13950, 14033, 14199, 14282, 15444, 15527, 15693, 15776, 16191, 16274, 16440, 16523, 20012, 20676, 20759, 22170, 22253, 22917, 23000, 27319, 28813, 29560, 33879, 33962, 35373, 35456, 36120, 36203, 39941, 40356, 40439, 40605, 40688, 41850, 41933, 42099, 42182, 42597, 42680, 42846, 42929, 46999, 47248, 48493, 48742, 49240, 49489, 53559, 53642, 53808, 53891, 55053, 55136, 55302, 55385, 55800, 55883, 56049, 56132, 59870, 60036, 60119, 62028, 62111, 62277, 62360, 66679, 68671, 68920, 73239, 73322, 75231, 75314, 75480, 75563, 79799, 81957, 82040, 88600, 95160, 95243, 99728, 101637, 101720, 101886, 101969, 108280, 108529, 114840, 114923, 115089, 115172, 119657, 119823, 119906, 121068, 121151, 121317, 121400, 121815, 121898, 122064, 122147, 126466, 127711, 127960, 128458, 128707, 133026, 133109, 134271, 134354, 134520, 134603, 135018, 135101, 135267, 135350, 139586, 140997, 141080, 141744, 141827, 147640, 148387, 154200, 154283, 154947, 155030, 159515, 160677, 160760, 160926, 161009, 161424, 161507, 161673, 161756, 167320, 167569, 168067, 168316, 173880, 173963, 174129, 174212, 174627, 174710, 174876, 174959, 179444, 179610, 179693, 180108, 180191, 180357, 180440, 186253, 186751, 187000, 192813, 192896, 193311, 193394, 193560, 193643, 199373, 200037, 200120, 206680, 213240, 213323, 219302, 219717, 219800, 219966, 220049, 226360, 226609]
      
      (winningLines.take 203) = winningLines := by
  rw [show allPositionsList.drop 35 = (1, 0, 2, 2) :: allPositionsList.drop 36 from rfl,
    posLoop, dirLoop_step_35]
  exact posChain_36

theorem posChain_34 :
    posLoop (allPositionsList.drop 34)
      [83, 249, 332, 747, 830, 996, 1079, 2241, 2324, 2490, 2573, 2988, 3071, 3237, 3320, 6892, 7390, 7639, 8884, 9133, 9631, 9880, 13452, 13535, 13950, 14033, 14199, 14282, 15444, 15527, 15693, 15776, 16191, 16274, 16440, 16523, 20012, 20676, 20759, 22170, 22253, 22917, 23000, 27319, 28813, 29560, 33879, 33962, 35373, 35456, 36120, 36203, 39941, 40356, 40439, 40605, 40688, 41850, 41933, 42099, 42182, 42597, 42680, 42846, 42929, 46999, 47248, 48493, 48742, 49240, 49489, 53559, 53642, 53808, 53891, 55053, 55136, 55302, 55385, 55800, 55883, 56049, 56132, 59870, 60036, 60119, 62028, 62111, 62277, 62360, 66679, 68671, 68920, 73239, 73322, 75231, 75314, 75480, 75563, 79799, 81957, 82040, 88600, 95160, 95243, 99728, 101637, 101720, 101886, 101969, 108280, 108529, 114840, 114923, 115089, 115172, 119657, 119823, 119906, 121068, 121151, 121317, 121400, 121815, 121898, 122064, 122147, 126466, 127711, 127960, 128458, 128707, 133026, 133109, 134271, 134354, 134520, 134603, 135018, 135101, 135267, 135350, 139586, 140997, 141080, 141744, 141827, 147640, 148387, 154200, 154283, 154947, 155030, 159515, 160677, 160760, 160926, 161009, 161424, 161507, 161673, 161756, 167320, 167569, 168067, 168316, 173880, 173963, 174129, 174212, 174627, 174710, 174876, 174959, 179444, 179610, 179693, 180108, 180191, 180357, 180440, 186253, 186751, 187000, 192813, 192896, 193311, 193394, 193560, 193643, 199373, 200037, 200120, 206680, 213240, 213323, 219302, 219717, 219800, 219966, 220049]
      
      (winningLines.take 201) = winningLines := by
  rw [show allPositionsList.drop 34 = (1, 0, 2, 1) :: allPositionsList.drop 35 from rfl,
    posLoop, dirLoop_step_34]
  exact posChain_35

theorem posChain_33 :
    posLoop (allPositionsList.drop 33)
      [83, 249, 332, 747, 830, 996, 1079, 2241, 2324, 2490, 2573, 2988, 3071, 3237, 3320, 6892, 7390, 7639, 8884, 9133, 9631, 9880, 13452, 13535, 13950, 14033, 14199, 14282, 15444, 15527, 15693, 15776, 16191, 16274, 16440, 16523, 20012, 20676, 20759, 22170, 22253, 22917, 23000, 27319, 28813, 29560, 33879, 33962, 35373, 35456, 36120, 36203, 39941, 40356, 40439, 40605, 40688, 41850, 41933, 42099, 42182, 42597, 42680, 42846, 42929, 46999, 47248, 48493, 48742, 49240, 49489, 53559, 53642, 53808, 53891, 55053, 55136, 55302, 55385, 55800, 55883, 56049, 56132, 59870, 60036, 60119, 62028, 62111, 62277, 62360, 66679, 68671, 68920, 73239, 73322, 75231, 75314, 75480, 75563, 79799, 81957, 82040, 88600, 95160, 95243, 99728, 101637, 101720, 101886, 101969, 108280, 108529, 114840, 114923, 115089, 115172, 119657, 119823, 119906, 121068, 121151, 121317, 121400, 121815, 121898, 122064, 122147, 126466, 127711, 127960, 128458, 128707, 133026, 133109, 134271, 134354, 134520, 134603, 135018, 135101, 135267, 135350, 139586, 140997, 141080, 141744, 141827, 147640, 148387, 154200, 154283, 154947, 155030, 159515, 160677, 160760, 160926, 161009, 161424, 161507, 161673, 161756, 167320, 167569, 168067, 168316, 173880, 173963, 174129, 174212, 174627, 174710, 174876, 174959, 179444, 179610, 179693, 180108, 180191, 180357, 180440, 186253, 186751, 187000, 192813, 192896, 193311, 193394, 193560, 193643, 199373, 200037, 200120, 206680, 213240, 213323]
      
      (winningLines.take 196) = winningLines := by
  rw [show allPositionsList.drop 33 = (1, 0, 2, 0) :: allPositionsList.drop 34 from rfl,
    posLoop, dirLoop_step_33]
  exact posChain_34

theorem posChain_32 :
    posLoop (allPositionsList.drop 32)
      [83, 249, 332, 747, 830, 996, 1079, 2241, 2324, 2490, 2573, 2988, 3071, 3237, 3320, 6892, 7390, 7639, 8884, 9133, 9631, 9880, 13452, 13535, 13950, 14033, 14199, 14282, 15444, 15527, 15693, 15776, 16191, 16274, 16440, 16523, 20012, 20676, 20759, 22170, 22253, 22917, 23000, 27319, 28813, 29560, 33879, 33962, 35373, 35456, 36120, 36203, 39941, 40356, 40439, 40605, 40688, 41850, 41933, 42099, 42182, 42597, 42680, 42846, 42929, 46999, 47248, 48493, 48742, 49240, 49489, 53559, 53642, 53808, 53891, 55053, 55136, 55302, 55385, 55800, 55883, 56049, 56132, 59870, 60036, 60119, 62028, 62111, 62277, 62360, 66679, 68671, 68920, 73239, 73322, 75231, 75314, 75480, 75563, 79799, 81957, 82040, 88600, 95160, 95243, 99728, 101637, 101720, 101886, 101969, 108280, 108529, 114840, 114923, 115089, 115172, 119657, 119823, 119906, 121068, 121151, 121317, 121400, 121815, 121898, 122064, 122147, 126466, 127711, 127960, 128458, 128707, 133026, 133109, 134271, 134354, 134520, 134603, 135018, 135101, 135267, 135350, 139586, 140997, 141080, 141744, 141827, 147640, 148387, 154200, 154283, 154947, 155030, 159515, 160677, 160760, 160926, 161009, 161424, 161507, 161673, 161756, 167320, 167569, 168067, 168316, 173880, 173963, 174129, 174212, 174627, 174710, 174876, 174959, 179444, 179610, 179693, 180108, 180191, 180357, 180440, 186253, 186751, 187000, 192813, 192896, 193311, 193394, 193560, 193643, 199373, 200037, 200120, 206680]
      
      (winningLines.take 194) = winningLines := by
  rw [show allPositionsList.drop 32 = (1, 0, 1, 2) :: allPositionsList.drop 33 from rfl,
    posLoop, dirLoop_step_32]
  exact posChain_33

theorem posChain_31 :
    posLoop (allPositionsList.drop 31)
      [83, 249, 332, 747, 830, 996, 1079, 2241, 2324, 2490, 2573, 2988, 3071, 3237, 3320, 6892, 7390, 7639, 8884, 9133, 9631, 9880, 13452, 13535, 13950, 14033, 14199, 14282, 15444, 15527, 15693, 15776, 16191, 16274, 16440, 16523, 20012, 20676, 20759, 22170, 22253, 22917, 23000, 27319, 28813, 29560, 33879, 33962, 35373, 35456, 36120, 36203, 39941, 40356, 40439, 40605, 40688, 41850, 41933, 42099, 42182, 42597, 42680, 42846, 42929, 46999, 47248, 48493, 48742, 49240, 49489, 53559, 53642, 53808, 53891, 55053, 55136, 55302, 55385, 55800, 55883, 56049, 56132, 59870, 60036, 60119, 62028, 62111, 62277, 62360, 66679, 68671, 68920, 73239, 73322, 75231, 75314, 75480, 75563, 79799, 81957, 82040, 88600, 95160, 95243, 99728, 101637, 101720, 101886, 101969, 108280, 108529, 114840, 114923, 115089, 115172, 119657, 119823, 119906, 121068, 121151, 121317, 121400, 121815, 121898, 122064, 122147, 126466, 127711, 127960, 128458, 128707, 133026, 133109, 134271, 134354, 134520, 134603, 135018, 135101, 135267, 135350, 139586, 140997, 141080, 141744, 141827, 147640, 148387, 154200, 154283, 154947, 155030, 159515, 160677, 160760, 160926, 161009, 161424, 161507, 161673, 161756, 167320, 167569, 168067, 168316, 173880, 173963, 174129, 174212, 174627, 174710, 174876, 174959, 179444, 179610, 179693, 180108, 180191, 180357, 180440, 186253, 186751, 187000, 192813, 192896, 193311, 193394, 193560, 193643, 199373, 200037, 200120]
      
      (winningLines.take 193) = winningLines := by
  rw [show allPositionsList.drop 31 = (1, 0, 1, 1) :: allPositionsList.drop 32 from rfl,
    posLoop, dirLoop_step_31]
  exact posChain_32

theorem posChain_30 :
    posLoop (allPositionsList.drop 30)
      [83, 249, 332, 747, 830, 996, 1079, 2241, 2324, 2490, 2573, 2988, 3071, 3237, 3320, 6892, 7390, 7639, 8884, 9133, 9631, 9880, 13452, 13535, 13950, 14033, 14199, 14282, 15444, 15527, 15693, 15776, 16191, 16274, 16440, 16523, 20012, 20676, 20759, 22170, 22253, 22917, 23000, 27319, 28813, 29560, 33879, 33962, 35373, 35456, 36120, 36203, 39941, 40356, 40439, 40605, 40688, 41850, 41933, 42099, 42182, 42597, 42680, 42846, 42929, 46999, 47248, 48493, 48742, 49240, 49489, 53559, 53642, 53808, 53891, 55053, 55136, 55302, 55385, 55800, 55883, 56049, 56132, 59870, 60036, 60119, 62028, 62111, 62277, 62360, 66679, 68671, 68920, 73239, 73322, 75231, 75314, 75480, 75563, 79799, 81957, 82040, 88600, 95160, 95243, 99728, 101637, 101720, 101886, 101969, 108280, 108529, 114840, 114923, 115089, 115172, 119657, 119823, 119906, 121068, 121151, 121317, 121400, 121815, 121898, 122064, 122147, 126466, 127711, 127960, 128458, 128707, 133026, 133109, 134271, 134354, 134520, 134603, 135018, 135101, 135267, 135350, 139586, 140997, 141080, 141744, 141827, 147640, 148387, 154200, 154283, 154947, 155030, 159515, 160677, 160760, 160926, 161009, 161424, 161507, 161673, 161756, 167320, 167569, 168067, 168316, 173880, 173963, 174129, 174212, 174627, 174710, 174876, 174959, 179444, 179610, 179693, 180108, 180191, 180357, 180440, 186253, 186751, 187000, 192813, 192896, 193311, 193394, 193560, 193643]
      
      (winningLines.take 190) = winningLines := by
  rw [show allPositionsList.drop 30 = (1, 0, 1, 0) :: allPositionsList.drop 31 from rfl,
    posLoop, dirLoop_step_30]
  exact posChain_31

theorem posChain_29 :
    posLoop (allPositionsList.drop 29)
      [83, 249, 332, 747, 830, 996, 1079, 2241, 2324, 2490, 2573, 2988, 3071, 3237, 3320, 6892, 7390, 7639, 8884, 9133, 9631, 9880, 13452, 13535, 13950, 14033, 14199, 14282, 15444, 15527, 15693, 15776, 16191, 16274, 16440, 16523, 20012, 20676, 20759, 22170, 22253, 22917, 23000, 27319, 28813, 29560, 33879, 33962, 35373, 35456, 36120, 36203, 39941, 40356, 40439, 40605, 40688, 41850, 41933, 42099, 42182, 42597, 42680, 42846, 42929, 46999, 47248, 48493, 48742, 49240, 49489, 53559, 53642, 53808, 53891, 55053, 55136, 55302, 55385, 55800, 55883, 56049, 56132, 59870, 60036, 60119, 62028, 62111, 62277, 62360, 66679, 68671, 68920, 73239, 73322, 75231, 75314, 75480, 75563, 79799, 81957, 82040, 88600, 95160, 95243, 99728, 101637, 101720, 101886, 101969, 108280, 108529, 114840, 114923, 115089, 115172, 119657, 119823, 119906, 121068, 121151, 121317, 121400, 121815, 121898, 122064, 122147, 126466, 127711, 127960, 128458, 128707, 133026, 133109, 134271, 134354, 134520, 134603, 135018, 135101, 135267, 135350, 139586, 140997, 141080, 141744, 141827, 147640, 148387, 154200, 154283, 154947, 155030, 159515, 160677, 160760, 160926, 161009, 161424, 161507, 161673, 161756, 167320, 167569, 168067, 168316, 173880, 173963, 174129, 174212, 174627, 174710, 174876, 174959, 179444, 179610, 179693, 180108, 180191, 180357, 180440, 186253, 186751, 187000]
      
      (winningLines.take 184) = winningLines := by
  rw [show allPositionsList.drop 29 = (1, 0, 0, 2) :: allPositionsList.drop 30 from rfl,
    posLoop, dirLoop_step_29]
  exact posChain_30

theorem posChain_28 :
    posLoop (allPositionsList.drop 28)
      [83, 249, 332, 747, 830, 996, 1079, 2241, 2324, 2490, 2573, 2988, 3071, 3237, 3320, 6892, 7390, 7639, 8884, 9133, 9631, 9880, 13452, 13535, 13950, 14033, 14199, 14282, 15444, 15527, 15693, 15776, 16191, 16274, 16440, 16523, 20012, 20676, 20759, 22170, 22253, 22917, 23000, 27319, 28813, 29560, 33879, 33962, 35373, 35456, 36120, 36203, 39941, 40356, 40439, 40605, 40688, 41850, 41933, 42099, 42182, 42597, 42680, 42846, 42929, 46999, 47248, 48493, 48742, 49240, 49489, 53559, 53642, 53808, 53891, 55053, 55136, 55302, 55385, 55800, 55883, 56049, 56132, 59870, 60036, 60119, 62028, 62111, 62277, 62360, 66679, 68671, 68920, 73239, 73322, 75231, 75314, 75480, 75563, 79799, 81957, 82040, 88600, 95160, 95243, 99728, 101637, 101720, 101886, 101969, 108280, 108529, 114840, 114923, 115089, 115172, 119657, 119823, 119906, 121068, 121151, 121317, 121400, 121815, 121898, 122064, 122147, 126466, 127711, 127960, 128458, 128707, 133026, 133109, 134271, 134354, 134520, 134603, 135018, 135101, 135267, 135350, 139586, 140997, 141080, 141744, 141827, 147640, 148387, 154200, 154283, 154947, 155030, 159515, 160677, 160760, 160926, 161009, 161424, 161507, 161673, 161756, 167320, 167569, 168067, 168316, 173880, 173963, 174129, 174212, 174627, 174710, 174876, 174959, 179444, 179610, 179693, 180108, 180191, 180357, 180440]
      
      (winningLines.take 181) = winningLines := by
  rw [show allPositionsList.drop 28 = (1, 0, 0, 1) :: allPositionsList.drop 29 from rfl,
    posLoop, dirLoop_step_28]
  exact posChain_29

theorem posChain_27 :
    posLoop (allPositionsList.drop 27)
      [83, 249, 332, 747, 830, 996, 1079, 2241, 2324, 2490, 2573, 2988, 3071, 3237, 3320, 6892, 7390, 7639, 8884, 9133, 9631, 9880, 13452, 13535, 13950, 14033, 14199, 14282, 15444, 15527, 15693, 15776, 16191, 16274, 16440, 16523, 20012, 20676, 20759, 22170, 22253, 22917, 23000, 27319, 28813, 29560, 33879, 33962, 35373, 35456, 36120, 36203, 39941, 40356, 40439, 40605, 40688, 41850, 41933, 42099, 42182, 42597, 42680, 42846, 42929, 46999, 47248, 48493, 48742, 49240, 49489, 53559, 53642, 53808, 53891, 55053, 55136, 55302, 55385, 55800, 55883, 56049, 56132, 59870, 60036, 60119, 62028, 62111, 62277, 62360, 66679, 68671, 68920, 73239, 73322, 75231, 75314, 75480, 75563, 79799, 81957, 82040, 88600, 95160, 95243, 99728, 101637, 101720, 101886, 101969, 108280, 108529, 114840, 114923, 115089, 115172, 119657, 119823, 119906, 121068, 121151, 121317, 121400, 121815, 121898, 122064, 122147, 126466, 127711, 127960, 128458, 128707, 133026, 133109, 134271, 134354, 134520, 134603, 135018, 135101, 135267, 135350, 139586, 140997, 141080, 141744, 141827, 147640, 148387, 154200, 154283, 154947, 155030, 159515, 160677, 160760, 160926, 161009, 161424, 161507, 161673, 161756, 167320, 167569, 168067, 168316, 173880, 173963, 174129, 174212, 174627, 174710, 174876, 174959]
      
      (winningLines.take 174) = winningLines := by
  rw [show allPositionsList.drop 27 = (1, 0, 0, 0) :: allPositionsList.drop 28 from rfl,
    posLoop, dirLoop_step_27]
  exact posChain_28

theorem posChain_26 :
    posLoop (allPositionsList.drop 26)
      [83, 249, 332, 747, 830, 996, 1079, 2241, 2324, 2490, 2573, 2988, 3071, 3237, 3320, 6892, 7390, 7639, 8884, 9133, 9631, 9880, 13452, 13535, 13950, 14033, 14199, 14282, 15444, 15527, 15693, 15776, 16191, 16274, 16440, 16523, 20012, 20676, 20759, 22170, 22253, 22917, 23000, 27319, 28813, 29560, 33879, 33962, 35373, 35456, 36120, 36203, 39941, 40356, 40439, 40605, 40688, 41850, 41933, 42099, 42182, 42597, 42680, 42846, 42929, 46999, 47248, 48493, 48742, 49240, 49489, 53559, 53642, 53808, 53891, 55053, 55136, 55302, 55385, 55800, 55883, 56049, 56132, 59870, 60036, 60119, 62028, 62111, 62277, 62360, 66679, 68671, 68920, 73239, 73322, 75231, 75314, 75480, 75563, 79799, 81957, 82040, 88600, 95160, 95243, 99728, 101637, 101720, 101886, 101969, 108280, 108529, 114840, 114923, 115089, 115172, 119657, 119823, 119906, 121068, 121151, 121317, 121400, 121815, 121898, 122064, 122147, 126466, 127711, 127960, 128458, 128707, 133026, 133109, 134271, 134354, 134520, 134603, 135018, 135101, 135267, 135350, 139586, 140997, 141080, 141744, 141827, 147640, 148387, 154200, 154283, 154947, 155030, 159515, 160677, 160760, 160926, 161009, 161424, 161507, 161673, 161756, 167320, 167569, 168067, 168316]
      
      (winningLines.take 166) = winningLines := by
  rw [show allPositionsList.drop 26 = (0, 2, 2, 2) :: allPositionsList.drop 27 from rfl,
    posLoop, dirLoop_step_26]
  exact posChain_27

theorem posChain_25 :
    posLoop (allPositionsList.drop 25)
      [83, 249, 332, 747, 830, 996, 1079, 2241, 2324, 2490, 2573, 2988, 3071, 3237, 3320, 6892, 7390, 7639, 8884, 9133, 9631, 9880, 13452, 13535, 13950, 14033, 14199, 14282, 15444, 15527, 15693, 15776, 16191, 16274, 16440, 16523, 20012, 20676, 20759, 22170, 22253, 22917, 23000, 27319, 28813, 29560, 33879, 33962, 35373, 35456, 36120, 36203, 39941, 40356, 40439, 40605, 40688, 41850, 41933, 42099, 42182, 42597, 42680, 42846, 42929, 46999, 47248, 48493, 48742, 49240, 49489, 53559, 53642, 53808, 53891, 55053, 55136, 55302, 55385, 55800, 55883, 56049, 56132, 59870, 60036, 60119, 62028, 62111, 62277, 62360, 66679, 68671, 68920, 73239, 73322, 75231, 75314, 75480, 75563, 79799, 81957, 82040, 88600, 95160, 95243, 99728, 101637, 101720, 101886, 101969, 108280, 108529, 114840, 114923, 115089, 115172, 119657, 119823, 119906, 121068, 121151, 121317, 121400, 121815, 121898, 122064, 122147, 126466, 127711, 127960, 128458, 128707, 133026, 133109, 134271, 134354, 134520, 134603, 135018, 135101, 135267, 135350, 139586, 140997, 141080, 141744, 141827, 147640, 148387, 154200, 154283, 154947, 155030, 159515, 160677, 160760, 160926, 161009, 161424, 161507, 161673, 161756]
      
      (winningLines.take 162) = winningLines := by
  rw [show allPositionsList.drop 25 = (0, 2, 2, 1) :: allPositionsList.drop 26 from rfl,
    posLoop, dirLoop_step_25]
  exact posChain_26

theorem posChain_24 :
    posLoop (allPositionsList.drop 24)
      [83, 249, 332, 747, 830, 996, 1079, 2241, 2324, 2490, 2573, 2988, 3071, 3237, 3320, 6892, 7390, 7639, 8884, 9133, 9631, 9880, 13452, 13535, 13950, 14033, 14199, 14282, 15444, 15527, 15693, 15776, 16191, 16274, 16440, 16523, 20012, 20676, 20759, 22170, 22253, 22917, 23000, 27319, 28813, 29560, 33879, 33962, 35373, 35456, 36120, 36203, 39941, 40356, 40439, 40605, 40688, 41850, 41933, 42099, 42182, 42597, 42680, 42846, 42929, 46999, 47248, 48493, 48742, 49240, 49489, 53559, 53642, 53808, 53891, 55053, 55136, 55302, 55385, 55800, 55883, 56049, 56132, 59870, 60036, 60119, 62028, 62111, 62277, 62360, 66679, 68671, 68920, 73239, 73322, 75231, 75314, 75480, 75563, 79799, 81957, 82040, 88600, 95160, 95243, 99728, 101637, 101720, 101886, 101969, 108280, 108529, 114840, 114923, 115089, 115172, 119657, 119823, 119906, 121068, 121151, 121317, 121400, 121815, 121898, 122064, 122147, 126466, 127711, 127960, 128458, 128707, 133026, 133109, 134271, 134354, 134520, 134603, 135018, 135101, 135267, 135350, 139586, 140997, 141080, 141744, 141827, 147640, 148387, 154200, 154283, 154947, 155030]
      
      (winningLines.take 153) = winningLines := by
  rw [show allPositionsList.drop 24 = (0, 2, 2, 0) :: allPositionsList.drop 25 from rfl,
    posLoop, dirLoop_step_24]
  exact posChain_25

theorem posChain_23 :
    posLoop (allPositionsList.drop 23)
      [83, 249, 332, 747, 830, 996, 1079, 2241, 2324, 2490, 2573, 2988, 3071, 3237, 3320, 6892, 7390, 7639, 8884, 9133, 9631, 9880, 13452, 13535, 13950, 14033, 14199, 14282, 15444, 15527, 15693, 15776, 16191, 16274, 16440, 16523, 20012, 20676, 20759, 22170, 22253, 22917, 23000, 27319, 28813, 29560, 33879, 33962, 35373, 35456, 36120, 36203, 39941, 40356, 40439, 40605, 40688, 41850, 41933, 42099, 42182, 42597, 42680, 42846, 42929, 46999, 47248, 48493, 48742, 49240, 49489, 53559, 53642, 53808, 53891, 55053, 55136, 55302, 55385, 55800, 55883, 56049, 56132, 59870, 60036, 60119, 62028, 62111, 62277, 62360, 66679, 68671, 68920, 73239, 73322, 75231, 75314, 75480, 75563, 79799, 81957, 82040, 88600, 95160, 95243, 99728, 101637, 101720, 101886, 101969, 108280, 108529, 114840, 114923, 115089, 115172, 119657, 119823, 119906, 121068, 121151, 121317, 121400, 121815, 121898, 122064, 122147, 126466, 127711, 127960, 128458, 128707, 133026, 133109, 134271, 134354, 134520, 134603, 135018, 135101, 135267, 135350, 139586, 140997, 141080, 141744, 141827, 147640, 148387]
      
      (winningLines.take 149) = winningLines := by
  rw [show allPositionsList.drop 23 = (0, 2, 1, 2) :: allPositionsList.drop 24 from rfl,
    posLoop, dirLoop_step_23]
  exact posChain_24

theorem posChain_22 :
    posLoop (allPositionsList.drop 22)
      [83, 249, 332, 747, 830, 996, 1079, 2241, 2324, 2490, 2573, 2988, 3071, 3237, 3320, 6892, 7390, 7639, 8884, 9133, 9631, 9880, 13452, 13535, 13950, 14033, 14199, 14282, 15444, 15527, 15693, 15776, 16191, 16274, 16440, 16523, 20012, 20676, 20759, 22170, 22253, 22917, 23000, 27319, 28813, 29560, 33879, 33962, 35373, 35456, 36120, 36203, 39941, 40356, 40439, 40605, 40688, 41850, 41933, 42099, 42182, 42597, 42680, 42846, 42929, 46999, 47248, 48493, 48742, 49240, 49489, 53559, 53642, 53808, 53891, 55053, 55136, 55302, 55385, 55800, 55883, 56049, 56132, 59870, 60036, 60119, 62028, 62111, 62277, 62360, 66679, 68671, 68920, 73239, 73322, 75231, 75314, 75480, 75563, 79799, 81957, 82040, 88600, 95160, 95243, 99728, 101637, 101720, 101886, 101969, 108280, 108529, 114840, 114923, 115089, 115172, 119657, 119823, 119906, 121068, 121151, 121317, 121400, 121815, 121898, 122064, 122147, 126466, 127711, 127960, 128458, 128707, 133026, 133109, 134271, 134354, 134520, 134603, 135018, 135101, 135267, 135350, 139586, 140997, 141080, 141744, 141827]
      
      (winningLines.take 147) = winningLines := by
  rw [show allPositionsList.drop 22 = (0, 2, 1, 1) :: allPositionsList.drop 23 from rfl,
    posLoop, dirLoop_step_22]
  exact posChain_23

theorem posChain_21 :
    posLoop (allPositionsList.drop 21)
      [83, 249, 332, 747, 830, 996, 1079, 2241, 2324, 2490, 2573, 2988, 3071, 3237, 3320, 6892, 7390, 7639, 8884, 9133, 9631, 9880, 13452, 13535, 13950, 14033, 14199, 14282, 15444, 15527, 15693, 15776, 16191, 16274, 16440, 16523, 20012, 20676, 20759, 22170, 22253, 22917, 23000, 27319, 28813, 29560, 33879, 33962, 35373, 35456, 36120, 36203, 39941, 40356, 40439, 40605, 40688, 41850, 41933, 42099, 42182, 42597, 42680, 42846, 42929, 46999, 47248, 48493, 48742, 49240, 49489, 53559, 53642, 53808, 53891, 55053, 55136, 55302, 55385, 55800, 55883, 56049, 56132, 59870, 60036, 60119, 62028, 62111, 62277, 62360, 66679, 68671, 68920, 73239, 73322, 75231, 75314, 75480, 75563, 79799, 81957, 82040, 88600, 95160, 95243, 99728, 101637, 101720, 101886, 101969, 108280, 108529, 114840, 114923, 115089, 115172, 119657, 119823, 119906, 121068, 121151, 121317, 121400, 121815, 121898, 122064, 122147, 126466, 127711, 127960, 128458, 128707, 133026, 133109, 134271, 134354, 134520, 134603, 135018, 135101, 135267, 135350]
      
      (winningLines.take 142) = winningLines := by
  rw [show allPositionsList.drop 21 = (0, 2, 1, 0) :: allPositionsList.drop 22 from rfl,
    posLoop, dirLoop_step_21]
  exact posChain_22

theorem posChain_20 :
    posLoop (allPositionsList.drop 20)
      [83, 249, 332, 747, 830, 996, 1079, 2241, 2324, 2490, 2573, 2988, 3071, 3237, 3320, 6892, 7390, 7639, 8884, 9133, 9631, 9880, 13452, 13535, 13950, 14033, 14199, 14282, 15444, 15527, 15693, 15776, 16191, 16274, 16440, 16523, 20012, 20676, 20759, 22170, 22253, 22917, 23000, 27319, 28813, 29560, 33879, 33962, 35373, 35456, 36120, 36203, 39941, 40356, 40439, 40605, 40688, 41850, 41933, 42099, 42182, 42597, 42680, 42846, 42929, 46999, 47248, 48493, 48742, 49240, 49489, 53559, 53642, 53808, 53891, 55053, 55136, 55302, 55385, 55800, 55883, 56049, 56132, 59870, 60036, 60119, 62028, 62111, 62277, 62360, 66679, 68671, 68920, 73239, 73322, 75231, 75314, 75480, 75563, 79799, 81957, 82040, 88600, 95160, 95243, 99728, 101637, 101720, 101886, 101969, 108280, 108529, 114840, 114923, 115089, 115172, 119657, 119823, 119906, 121068, 121151, 121317, 121400, 121815, 121898, 122064, 122147, 126466, 127711, 127960, 128458, 128707]
      
      (winningLines.take 132) = winningLines := by
  rw [show allPositionsList.drop 20 = (0, 2, 0, 2) :: allPositionsList.drop 21 from rfl,
    posLoop, dirLoop_step_20]
  exact posChain_21

theorem posChain_19 :
    posLoop (allPositionsList.drop 19)
      [83, 249, 332, 747, 830, 996, 1079, 2241, 2324, 2490, 2573, 2988, 3071, 3237, 3320, 6892, 7390, 7639, 8884, 9133, 9631, 9880, 13452, 13535, 13950, 14033, 14199, 14282, 15444, 15527, 15693, 15776, 16191, 16274, 16440, 16523, 20012, 20676, 20759, 22170, 22253, 22917, 23000, 27319, 28813, 29560, 33879, 33962, 35373, 35456, 36120, 36203, 39941, 40356, 40439, 40605, 40688, 41850, 41933, 42099, 42182, 42597, 42680, 42846, 42929, 46999, 47248, 48493, 48742, 49240, 49489, 53559, 53642, 53808, 53891, 55053, 55136, 55302, 55385, 55800, 55883, 56049, 56132, 59870, 60036, 60119, 62028, 62111, 62277, 62360, 66679, 68671, 68920, 73239, 73322, 75231, 75314, 75480, 75563, 79799, 81957, 82040, 88600, 95160, 95243, 99728, 101637, 101720, 101886, 101969, 108280, 108529, 114840, 114923, 115089, 115172, 119657, 119823, 119906, 121068, 121151, 121317, 121400, 121815, 121898, 122064, 122147]
      
      (winningLines.take 127) = winningLines := by
  rw [show allPositionsList.drop 19 = (0, 2, 0, 1) :: allPositionsList.drop 20 from rfl,
    posLoop, dirLoop_step_19]
  exact posChain_20

theorem posChain_18 :
    posLoop (allPositionsList.drop 18)
      [83, 249, 332, 747, 830, 996, 1079, 2241, 2324, 2490, 2573, 2988, 3071, 3237, 3320, 6892, 7390, 7639, 8884, 9133, 9631, 9880, 13452, 13535, 13950, 14033, 14199, 14282, 15444, 15527, 15693, 15776, 16191, 16274, 16440, 16523, 20012, 20676, 20759, 22170, 22253, 22917, 23000, 27319, 28813, 29560, 33879, 33962, 35373, 35456, 36120, 36203, 39941, 40356, 40439, 40605, 40688, 41850, 41933, 42099, 42182, 42597, 42680, 42846, 42929, 46999, 47248, 48493, 48742, 49240, 49489, 53559, 53642, 53808, 53891, 55053, 55136, 55302, 55385, 55800, 55883, 56049, 56132, 59870, 60036, 60119, 62028, 62111, 62277, 62360, 66679, 68671, 68920, 73239, 73322, 75231, 75314, 75480, 75563, 79799, 81957, 82040, 88600, 95160, 95243, 99728, 101637, 101720, 101886, 101969, 108280, 108529, 114840, 114923, 115089, 115172]
      
      (winningLines.take 116) = winningLines := by
  rw [show allPositionsList.drop 18 = (0, 2, 0, 0) :: allPositionsList.drop 19 from rfl,
    posLoop, dirLoop_step_18]
  exact posChain_19

theorem posChain_17 :
    posLoop (allPositionsList.drop 17)
      [83, 249, 332, 747, 830, 996, 1079, 2241, 2324, 2490, 2573, 2988, 3071, 3237, 3320, 6892, 7390, 7639, 8884, 9133, 9631, 9880, 13452, 13535, 13950, 14033, 14199, 14282, 15444, 15527, 15693, 15776, 16191, 16274, 16440, 16523, 20012, 20676, 20759, 22170, 22253, 22917, 23000, 27319, 28813, 29560, 33879, 33962, 35373, 35456, 36120, 36203, 39941, 40356, 40439, 40605, 40688, 41850, 41933, 42099, 42182, 42597, 42680, 42846, 42929, 46999, 47248, 48493, 48742, 49240, 49489, 53559, 53642, 53808, 53891, 55053, 55136, 55302, 55385, 55800, 55883, 56049, 56132, 59870, 60036, 60119, 62028, 62111, 62277, 62360, 66679, 68671, 68920, 73239, 73322, 75231, 75314, 75480, 75563, 79799, 81957, 82040, 88600, 95160, 95243, 99728, 101637, 101720, 101886, 101969, 108280, 108529]
      
      (winningLines.take 112) = winningLines := by
  rw [show allPositionsList.drop 17 = (0, 1, 2, 2) :: allPositionsList.drop 18 from rfl,
    posLoop, dirLoop_step_17]
  exact posChain_18

theorem posChain_16 :
    posLoop (allPositionsList.drop 16)
      [83, 249, 332, 747, 830, 996, 1079, 2241, 2324, 2490, 2573, 2988, 3071, 3237, 3320, 6892, 7390, 7639, 8884, 9133, 9631, 9880, 13452, 13535, 13950, 14033, 14199, 14282, 15444, 15527, 15693, 15776, 16191, 16274, 16440, 16523, 20012, 20676, 20759, 22170, 22253, 22917, 23000, 27319, 28813, 29560, 33879, 33962, 35373, 35456, 36120, 36203, 39941, 40356, 40439, 40605, 40688, 41850, 41933, 42099, 42182, 42597, 42680, 42846, 42929, 46999, 47248, 48493, 48742, 49240, 49489, 53559, 53642, 53808, 53891, 55053, 55136, 55302, 55385, 55800, 55883, 56049, 56132, 59870, 60036, 60119, 62028, 62111, 62277, 62360, 66679, 68671, 68920, 73239, 73322, 75231, 75314, 75480, 75563, 79799, 81957, 82040, 88600, 95160, 95243, 99728, 101637, 101720, 101886, 101969]
      
      (winningLines.take 110) = winningLines := by
  rw [show allPositionsList.drop 16 = (0, 1, 2, 1) :: allPositionsList.drop 17 from rfl,
    posLoop, dirLoop_step_16]
  exact posChain_17

theorem posChain_15 :
    posLoop (allPositionsList.drop 15)
      [83, 249, 332, 747, 830, 996, 1079, 2241, 2324, 2490, 2573, 2988, 3071, 3237, 3320, 6892, 7390, 7639, 8884, 9133, 9631, 9880, 13452, 13535, 13950, 14033, 14199, 14282, 15444, 15527, 15693, 15776, 16191, 16274, 16440, 16523, 20012, 20676, 20759, 22170, 22253, 22917, 23000, 27319, 28813, 29560, 33879, 33962, 35373, 35456, 36120, 36203, 39941, 40356, 40439, 40605, 40688, 41850, 41933, 42099, 42182, 42597, 42680, 42846, 42929, 46999, 47248, 48493, 48742, 49240, 49489, 53559, 53642, 53808, 53891, 55053, 55136, 55302, 55385, 55800, 55883, 56049, 56132, 59870, 60036, 60119, 62028, 62111, 62277, 62360, 66679, 68671, 68920, 73239, 73322, 75231, 75314, 75480, 75563, 79799, 81957, 82040, 88600, 95160, 95243]
      
      (winningLines.take 105) = winningLines := by
  rw [show allPositionsList.drop 15 = (0, 1, 2, 0) :: allPositionsList.drop 16 from rfl,
    posLoop, dirLoop_step_15]
  exact posChain_16

theorem posChain_14 :
    posLoop (allPositionsList.drop 14)
      [83, 249, 332, 747, 830, 996, 1079, 2241, 2324, 2490, 2573, 2988, 3071, 3237, 3320, 6892, 7390, 7639, 8884, 9133, 9631, 9880, 13452, 13535, 13950, 14033, 14199, 14282, 15444, 15527, 15693, 15776, 16191, 16274, 16440, 16523, 20012, 20676, 20759, 22170, 22253, 22917, 23000, 27319, 28813, 29560, 33879, 33962, 35373, 35456, 36120, 36203, 39941, 40356, 40439, 40605, 40688, 41850, 41933, 42099, 42182, 42597, 42680, 42846, 42929, 46999, 47248, 48493, 48742, 49240, 49489, 53559, 53642, 53808, 53891, 55053, 55136, 55302, 55385, 55800, 55883, 56049, 56132, 59870, 60036, 60119, 62028, 62111, 62277, 62360, 66679, 68671, 68920, 73239, 73322, 75231, 75314, 75480, 75563, 79799, 81957, 82040, 88600]
      
      (winningLines.take 103) = winningLines := by
  rw [show allPositionsList.drop 14 = (0, 1, 1, 2) :: allPositionsList.drop 15 from rfl,
    posLoop, dirLoop_step_14]
  exact posChain_15

theorem posChain_13 :
    posLoop (allPositionsList.drop 13)
      [83, 249, 332, 747, 830, 996, 1079, 2241, 2324, 2490, 2573, 2988, 3071, 3237, 3320, 6892, 7390, 7639, 8884, 9133, 9631, 9880, 13452, 13535, 13950, 14033, 14199, 14282, 15444, 15527, 15693, 15776, 16191, 16274, 16440, 16523, 20012, 20676, 20759, 22170, 22253, 22917, 23000, 27319, 28813, 29560, 33879, 33962, 35373, 35456, 36120, 36203, 39941, 40356, 40439, 40605, 40688, 41850, 41933, 42099, 42182, 42597, 42680, 42846, 42929, 46999, 47248, 48493, 48742, 49240, 49489, 53559, 53642, 53808, 53891, 55053, 55136, 55302, 55385, 55800, 55883, 56049, 56132, 59870, 60036, 60119, 62028, 62111, 62277, 62360, 66679, 68671, 68920, 73239, 73322, 75231, 75314, 75480, 75563, 79799, 81957, 82040]
      
      (winningLines.take 102) = winningLines := by
  rw [show allPositionsList.drop 13 = (0, 1, 1, 1) :: allPositionsList.drop 14 from rfl,
    posLoop, dirLoop_step_13]
  exact posChain_14

theorem posChain_12 :
    posLoop (allPositionsList.drop 12)
      [83, 249, 332, 747, 830, 996, 1079, 2241, 2324, 2490, 2573, 2988, 3071, 3237, 3320, 6892, 7390, 7639, 8884, 9133, 9631, 9880, 13452, 13535, 13950, 14033, 14199, 14282, 15444, 15527, 15693, 15776, 16191, 16274, 16440, 16523, 20012, 20676, 20759, 22170, 22253, 22917, 23000, 27319, 28813, 29560, 33879, 33962, 35373, 35456, 36120, 36203, 39941, 40356, 40439, 40605, 40688, 41850, 41933, 42099, 42182, 42597, 42680, 42846, 42929, 46999, 47248, 48493, 48742, 49240, 49489, 53559, 53642, 53808, 53891, 55053, 55136, 55302, 55385, 55800, 55883, 56049, 56132, 59870, 60036, 60119, 62028, 62111, 62277, 62360, 66679, 68671, 68920, 73239, 73322, 75231, 75314, 75480, 75563]
      
      (winningLines.take 99) = winningLines := by
  rw [show allPositionsList.drop 12 = (0, 1, 1, 0) :: allPositionsList.drop 13 from rfl,
    posLoop, dirLoop_step_12]
  exact posChain_13

theorem posChain_11 :
    posLoop (allPositionsList.drop 11)
      [83, 249, 332, 747, 830, 996, 1079, 2241, 2324, 2490, 2573, 2988, 3071, 3237, 3320, 6892, 7390, 7639, 8884, 9133, 9631, 9880, 13452, 13535, 13950, 14033, 14199, 14282, 15444, 15527, 15693, 15776, 16191, 16274, 16440, 16523, 20012, 20676, 20759, 22170, 22253, 22917, 23000, 27319, 28813, 29560, 33879, 33962, 35373, 35456, 36120, 36203, 39941, 40356, 40439, 40605, 40688, 41850, 41933, 42099, 42182, 42597, 42680, 42846, 42929, 46999, 47248, 48493, 48742, 49240, 49489, 53559, 53642, 53808, 53891, 55053, 55136, 55302, 55385, 55800, 55883, 56049, 56132, 59870, 60036, 60119, 62028, 62111, 62277, 62360, 66679, 68671, 68920]
      
      (winningLines.take 93) = winningLines := by
  rw [show allPositionsList.drop 11 = (0, 1, 0, 2) :: allPositionsList.drop 12 from rfl,
    posLoop, dirLoop_step_11]
  exact posChain_12

theorem posChain_10 :
    posLoop (allPositionsList.drop 10)
      [83, 249, 332, 747, 830, 996, 1079, 2241, 2324, 2490, 2573, 2988, 3071, 3237, 3320, 6892, 7390, 7639, 8884, 9133, 9631, 9880, 13452, 13535, 13950, 14033, 14199, 14282, 15444, 15527, 15693, 15776, 16191, 16274, 16440, 16523, 20012, 20676, 20759, 22170, 22253, 22917, 23000, 27319, 28813, 29560, 33879, 33962, 35373, 35456, 36120, 36203, 39941, 40356, 40439, 40605, 40688, 41850, 41933, 42099, 42182, 42597, 42680, 42846, 42929, 46999, 47248, 48493, 48742, 49240, 49489, 53559, 53642, 53808, 53891, 55053, 55136, 55302, 55385, 55800, 55883, 56049, 56132, 59870, 60036, 60119, 62028, 62111, 62277, 62360]
      
      (winningLines.take 90) = winningLines := by
  rw [show allPositionsList.drop 10 = (0, 1, 0, 1) :: allPositionsList.drop 11 from rfl,
    posLoop, dirLoop_step_10]
  exact posChain_11

theorem posChain_9 :
    posLoop (allPositionsList.drop 9)
      [83, 249, 332, 747, 830, 996, 1079, 2241, 2324, 2490, 2573, 2988, 3071, 3237, 3320, 6892, 7390, 7639, 8884, 9133, 9631, 9880, 13452, 13535, 13950, 14033, 14199, 14282, 15444, 15527, 15693, 15776, 16191, 16274, 16440, 16523, 20012, 20676, 20759, 22170, 22253, 22917, 23000, 27319, 28813, 29560, 33879, 33962, 35373, 35456, 36120, 36203, 39941, 40356, 40439, 40605, 40688, 41850, 41933, 42099, 42182, 42597, 42680, 42846, 42929, 46999, 47248, 48493, 48742, 49240, 49489, 53559, 53642, 53808, 53891, 55053, 55136, 55302, 55385, 55800, 55883, 56049, 56132]
      
      (winningLines.take 83) = winningLines := by
  rw [show allPositionsList.drop 9 = (0, 1, 0, 0) :: allPositionsList.drop 10 from rfl,
    posLoop, dirLoop_step_9]
  exact posChain_10

theorem posChain_8 :
    posLoop (allPositionsList.drop 8)
      [83, 249, 332, 747, 830, 996, 1079, 2241, 2324, 2490, 2573, 2988, 3071, 3237, 3320, 6892, 7390, 7639, 8884, 9133, 9631, 9880, 13452, 13535, 13950, 14033, 14199, 14282, 15444, 15527, 15693, 15776, 16191, 16274, 16440, 16523, 20012, 20676, 20759, 22170, 22253, 22917, 23000, 27319, 28813, 29560, 33879, 33962, 35373, 35456, 36120, 36203, 39941, 40356, 40439, 40605, 40688, 41850, 41933, 42099, 42182, 42597, 42680, 42846, 42929, 46999, 47248, 48493, 48742, 49240, 49489]
      
      (winningLines.take 71) = winningLines := by
  rw [show allPositionsList.drop 8 = (0, 0, 2, 2) :: allPositionsList.drop 9 from rfl,
    posLoop, dirLoop_step_8]
  exact posChain_9

theorem posChain_7 :
    posLoop (allPositionsList.drop 7)
      [83, 249, 332, 747, 830, 996, 1079, 2241, 2324, 2490, 2573, 2988, 3071, 3237, 3320, 6892, 7390, 7639, 8884, 9133, 9631, 9880, 13452, 13535, 13950, 14033, 14199, 14282, 15444, 15527, 15693, 15776, 16191, 16274, 16440, 16523, 20012, 20676, 20759, 22170, 22253, 22917, 23000, 27319, 28813, 29560, 33879, 33962, 35373, 35456, 36120, 36203, 39941, 40356, 40439, 40605, 40688, 41850, 41933, 42099, 42182, 42597, 42680, 42846, 42929]
      
      (winningLines.take 65) = winningLines := by
  rw [show allPositionsList.drop 7 = (0, 0, 2, 1) :: allPositionsList.drop 8 from rfl,
    posLoop, dirLoop_step_7]
  exact posChain_8

theorem posChain_6 :
    posLoop (allPositionsList.drop 6)
      [83, 249, 332, 747, 830, 996, 1079, 2241, 2324, 2490, 2573, 2988, 3071, 3237, 3320, 6892, 7390, 7639, 8884, 9133, 9631, 9880, 13452, 13535, 13950, 14033, 14199, 14282, 15444, 15527, 15693, 15776, 16191, 16274, 16440, 16523, 20012, 20676, 20759, 22170, 22253, 22917, 23000, 27319, 28813, 29560, 33879, 33962, 35373, 35456, 36120, 36203]
      
      (winningLines.take 52) = winningLines := by
  rw [show allPositionsList.drop 6 = (0, 0, 2, 0) :: allPositionsList.drop 7 from rfl,
    posLoop, dirLoop_step_6]
  exact posChain_7

theorem posChain_5 :
    posLoop (allPositionsList.drop 5)
      [83, 249, 332, 747, 830, 996, 1079, 2241, 2324, 2490, 2573, 2988, 3071, 3237, 3320, 6892, 7390, 7639, 8884, 9133, 9631, 9880, 13452, 13535, 13950, 14033, 14199, 14282, 15444, 15527, 15693, 15776, 16191, 16274, 16440, 16523, 20012, 20676, 20759, 22170, 22253, 22917, 23000, 27319, 28813, 29560]
      
      (winningLines.take 46) = winningLines := by
  rw [show allPositionsList.drop 5 = (0, 0, 1, 2) :: allPositionsList.drop 6 from rfl,
    posLoop, dirLoop_step_5]
  exact posChain_6

theorem posChain_4 :
    posLoop (allPositionsList.drop 4)
      [83, 249, 332, 747, 830, 996, 1079, 2241, 2324, 2490, 2573, 2988, 3071, 3237, 3320, 6892, 7390, 7639, 8884, 9133, 9631, 9880, 13452, 13535, 13950, 14033, 14199, 14282, 15444, 15527, 15693, 15776, 16191, 16274, 16440, 16523, 20012, 20676, 20759, 22170, 22253, 22917, 23000]
      
      (winningLines.take 43) = winningLines := by
  rw [show allPositionsList.drop 4 = (0, 0, 1, 1) :: allPositionsList.drop 5 from rfl,
    posLoop, dirLoop_step_4]
  exact posChain_5

theorem posChain_3 :
    posLoop (allPositionsList.drop 3)
      [83, 249, 332, 747, 830, 996, 1079, 2241, 2324, 2490, 2573, 2988, 3071, 3237, 3320, 6892, 7390, 7639, 8884, 9133, 9631, 9880, 13452, 13535, 13950, 14033, 14199, 14282, 15444, 15527, 15693, 15776, 16191, 16274, 16440, 16523]
      
      (winningLines.take 36) = winningLines := by
  rw [show allPositionsList.drop 3 = (0, 0, 1, 0) :: allPositionsList.drop 4 from rfl,
    posLoop, dirLoop_step_3]
  exact posChain_4

theorem posChain_2 :
    posLoop (allPositionsList.drop 2)
      [83, 249, 332, 747, 830, 996, 1079, 2241, 2324, 2490, 2573, 2988, 3071, 3237, 3320, 6892, 7390, 7639, 8884, 9133, 9631, 9880]
      
      (winningLines.take 22) = winningLines := by
  rw [show allPositionsList.drop 2 = (0, 0, 0, 2) :: allPositionsList.drop 3 from rfl,
    posLoop, dirLoop_step_2]
  exact posChain_3

theorem posChain_1 :
    posLoop (allPositionsList.drop 1)
      [83, 249, 332, 747, 830, 996, 1079, 2241, 2324, 2490, 2573, 2988, 3071, 3237, 3320] 
      (winningLines.take 15) = winningLines := by
  rw [show allPositionsList.drop 1 = (0, 0, 0, 1) :: allPositionsList.drop 2 from rfl,
    posLoop, dirLoop_step_1]
  exact posChain_2

theorem posChain_0 :
    posLoop (allPositionsList.drop 0)
      [] 
      [] = winningLines := by
  rw [show allPositionsList.drop 0 = (0, 0, 0, 0) :: allPositionsList.drop 1 from rfl,
    posLoop, dirLoop_step_0]
  exact posChain_1

/-- The literal winning-line table equals the result of the source's
precomputation: 272 deduplicated lines in first-found order, established
by replaying the 81 outer-loop steps. -/
theorem winningLines_eq_precompute : winningLines = precompute_winning_lines := by
  symm
  unfold precompute_winning_lines
  rw [allPositions_literal]
  exact posChain_0

/-- C1: the WinChecker precomputation yields exactly 272 winning lines for
the 3-per-axis 4-dimensional lattice; being a pure function of no inputs it
yields the same table, hence the same count, on every construction. -/
theorem C1_count_272 : precompute_winning_lines.length = 272 ∧ count_winning_lines = 272 := by
  constructor
  · rw [← winningLines_eq_precompute]
    decide
  · decide

theorem bC2_unique : atMostOneWinner bC2 := by
  have hX : ∀ u, hasCompletedLine bC2 u → u = "X" := by
    rintro u ⟨line, hline, hall⟩
    have hne : line ≠ [] := by
      have h3 := (winningLines_facts line hline).1
      intro heq
      rw [heq] at h3
      simp at h3
    obtain ⟨p, hp⟩ := List.exists_mem_of_ne_nil line hne
    have hbp := hall p hp
    unfold bC2 at hbp
    split at hbp
    · exact (Option.some.inj hbp).symm
    · simp at hbp
  intro s t hs ht
  rw [hX s hs, hX t ht]

/-- C2 counterexample: on a board whose only completed line is an X line,
picking the last-move coordinate (1,1,1,1) away from that line makes the
fast path answer none while the exhaustive scan answers X. -/
theorem C2_counterexample :
    atMostOneWinner bC2 ∧ check_win bC2 (1, 1, 1, 1) ≠ check_win_all_positions bC2 := by
  refine ⟨bC2_unique, ?_⟩
  decide

/-- C2 (amended): the fast path and the exhaustive scan agree on every
board with at most one completed-line symbol whenever the board has no
completed line at all, or some completed line passes through the chosen
last-move coordinate. -/
theorem C2_agree (b : Board) (c : Coord) (h1 : atMostOneWinner b)
    (h2 : check_win_all_positions b = none ∨ completedThrough b c) :
    check_win b c = check_win_all_positions b := by
  rcases h2 with hnone | hthru
  · rw [hnone, check_win]
    cases hbc : b c with
    | none => rfl
    | some v =>
      show (linesThrough c).findSome? (fun i => lineWinner b (winningLines.getD i [])) = none
      apply findSome?_eq_none_iff.2
      intro i hi
      obtain ⟨line, hget, hcl⟩ := mem_linesThrough.1 hi
      have hgetD : winningLines.getD i [] = line := by
        rw [List.getD_eq_getElem?_getD, hget, Option.getD_some]
      rw [hgetD]
      exact exhaustive_eq_none_iff.1 hnone line (List.getElem?_mem hget)
  · obtain ⟨s, line, hline, hcl, hall⟩ := hthru
    have hcomp : hasCompletedLine b s := ⟨line, hline, hall⟩
    obtain ⟨t, ht⟩ := exhaustive_isSome_of_hasCompleted hcomp
    have hts : t = s := h1 t s (exhaustive_some_hasCompleted ht) hcomp
    obtain ⟨t2, ht2⟩ := check_win_isSome_of_completedThrough ⟨s, line, hline, hcl, hall⟩
    have ht2s : t2 = s := by
      obtain ⟨line2, hline2, hc2, hall2⟩ := check_win_eq_some_exists ht2
      exact h1 t2 s ⟨line2, hline2, hall2⟩ hcomp
    rw [ht, ht2, hts, ht2s]

/-- C2 witness: on bC2 with the last move on the completed line, both
checkers agree (both return X). -/
theorem C2_agree_witness : check_win bC2 (0, 0, 0, 0) = check_win_all_positions bC2 :=
  C2_agree bC2 (0, 0, 0, 0) bC2_unique
    (Or.inr ⟨"X", [(0, 0, 0, 0), (0, 0, 0, 1), (0, 0, 0, 2)], by decide, by decide, by decide⟩)

/-- C4: every rejected make_move call returns the game unchanged together
with one of the four structured rejection reasons. -/
theorem C4_reject_unchanged (g : Game) (pid : String) (c : Coord) (g2 : Game)
    (msg : Option String) (h : Game.make_move g pid c = some (g2, false, msg)) :
    g2 = g ∧ (msg = some "Game is not in playing state" ∨ msg = some "Not your turn" ∨
      msg = some "Invalid move position" ∨ msg = some "Failed to make move") := by
  unfold Game.make_move at h
  split at h
  · simp only [Option.some.injEq, Prod.mk.injEq] at h
    exact ⟨h.1.symm, Or.inl h.2.2.symm⟩
  · split at h
    · simp only [Option.some.injEq, Prod.mk.injEq] at h
      exact ⟨h.1.symm, Or.inr (Or.inl h.2.2.symm)⟩
    · split at h
      · exact absurd h (by simp)
      · split at h
        · simp only [Option.some.injEq, Prod.mk.injEq] at h
          exact ⟨h.1.symm, Or.inr (Or.inl h.2.2.symm)⟩
        · split at h
          · simp only [Option.some.injEq, Prod.mk.injEq] at h
            exact ⟨h.1.symm, Or.inr (Or.inr (Or.inl h.2.2.symm))⟩
          · split at h
            · exact absurd h (by simp)
            · dsimp only at h
              split at h
              · simp only [Option.some.injEq, Prod.mk.injEq] at h
                exact ⟨h.1.symm, Or.inr (Or.inr (Or.inr h.2.2.symm))⟩
              · split at h
                · split at h <;> simp at h
                · split at h <;> simp at h

/-- C4 witness: a move sent to a game still in the waiting state is
rejected with the not-playing reason and the game is unchanged. -/
theorem C4_reject_witness :
    Game.init = Game.init ∧
      (some "Game is not in playing state" = some "Game is not in playing state" ∨
       some "Game is not in playing state" = some "Not your turn" ∨
       some "Game is not in playing state" = some "Invalid move position" ∨
       some "Game is not in playing state" = some "Failed to make move") :=
  C4_reject_unchanged Game.init "p1" (0, 0, 0, 0) Game.init
    (some "Game is not in playing state") rfl

/-- C5: whenever some empty cell completes a line for the acting symbol,
SimpleAI.get_move returns a winning cell. -/
theorem C5_heuristic_wins (b : Board) (sym : Symb) (pick : List Coord → Coord)
    (h : ∃ c, threat b sym c) :
    ∃ m, SimpleAI.get_move sym pick b = some m ∧
      m ∈ get_empty_positions b ∧ threat b sym m := by
  obtain ⟨c, hc⟩ := h
  obtain ⟨m, hm⟩ := find_winning_move_isSome hc
  obtain ⟨hmem, hthreat⟩ := find_winning_move_spec hm
  refine ⟨m, ?_, hmem, hthreat⟩
  simp only [SimpleAI.get_move]
  rw [if_neg (List.ne_nil_of_mem (threat_mem_empty hc)), hm]

/-- C5 witness: with X one cell short of the first z-axis line, the
heuristic plays the completing cell. -/
theorem C5_witness :
    ∃ m, SimpleAI.get_move "X" (fun l => l.headD (0, 0, 0, 0)) bC5 = some m ∧
      m ∈ get_empty_positions bC5 ∧ threat bC5 "X" m :=
  C5_heuristic_wins bC5 "X" (fun l => l.headD (0, 0, 0, 0))
    ⟨(0, 0, 0, 2), by decide, by decide,
      ⟨[(0, 0, 0, 0), (0, 0, 0, 1), (0, 0, 0, 2)], by decide, by decide, by decide⟩⟩

theorem foldl_step_sum {α : Type} (step : ℤ → α → ℤ) (v : α → ℤ)
    (hstep : ∀ s x, step s x = s + v x) :
    ∀ (l : List α) (init : ℤ), l.foldl step init = init + (l.map v).sum := by
  intro l
  induction l with
  | nil => intro init; simp
  | cons x t ih =>
    intro init
    rw [List.foldl_cons, ih, hstep, List.map_cons, List.sum_cons]
    ring

/-- C6: the static evaluation of MinimaxAI equals the specified sum over
all precomputed lines (+10 per own occupant on opponent-free lines, -10
per opposing occupant on own-free lines, 0 for mixed lines). -/
theorem C6_evaluation (sym : Symb) (b : Board) :
    evaluate_position sym b = spec_evaluation sym b := by
  unfold evaluate_position spec_evaluation
  rw [show ((winningLines.map fun line => spec_line_value sym b line).sum : ℤ) =
    0 + (winningLines.map fun line => spec_line_value sym b line).sum by ring]
  apply foldl_step_sum
  intro s line
  unfold spec_line_value
  dsimp only
  by_cases h1 : 0 < (line.map b).countP (fun s => s == some sym)
  all_goals by_cases h2 : 0 < (line.map b).countP (fun s => s.isSome && s != some sym)
  all_goals simp only [Nat.pos_iff_ne_zero] at h1 h2
  all_goals split_ifs <;> omega

/-- C7: with an empty score table (no training log, or one that failed to
parse), LearnedAI.get_move coincides with SimpleAI.get_move for every
board, acting symbol and random stream. -/
theorem C7_fallback (sym : Symb) (pick : List Coord → Coord) (b : Board) :
    LearnedAI.get_move sym [] pick b = SimpleAI.get_move sym pick b := rfl

/-- C8: start_game fails and changes nothing with fewer than four players,
and from the waiting state with four or five players it succeeds, resets
the board, history and outcome, zeroes the turn index and moves to
playing. -/
theorem C8_start (g : Game) :
    (g.players.length < 4 → Game.start_game g = (g, false)) ∧
    (g.state = GameState.WAITING → g.players.length = 4 ∨ g.players.length = 5 →
      (Game.start_game g).2 = true ∧
      (Game.start_game g).1.state = GameState.PLAYING ∧
      (Game.start_game g).1.board = emptyBoard ∧
      (Game.start_game g).1.move_history = [] ∧
      (Game.start_game g).1.winner = none ∧
      (Game.start_game g).1.winning_line = none ∧
      (Game.start_game g).1.current_player_index = 0 ∧
      (Game.start_game g).1.players = g.players) := by
  constructor
  · intro hlt
    unfold Game.start_game
    by_cases h1 : g.state ≠ GameState.WAITING
    · rw [if_pos h1]
    · rw [if_neg h1, if_pos]
      exact hlt
  · intro hw hcount
    have h1 : ¬ g.state ≠ GameState.WAITING := by rw [hw]; simp
    have h2 : ¬ g.players.length < MIN_PLAYERS := by
      rcases hcount with h | h <;> rw [h] <;> decide
    unfold Game.start_game
    rw [if_neg h1, if_neg h2]
    exact ⟨rfl, rfl, rfl, rfl, rfl, rfl, rfl, rfl⟩

/-- C8 witness: starting with two players fails and changes nothing;
starting a waiting game with four players succeeds and resets state. -/
theorem C8_witness :
    Game.start_game gC8b = (gC8b, false) ∧
      ((Game.start_game gC8a).2 = true ∧
       (Game.start_game gC8a).1.state = GameState.PLAYING ∧
       (Game.start_game gC8a).1.board = emptyBoard ∧
       (Game.start_game gC8a).1.move_history = [] ∧
       (Game.start_game gC8a).1.winner = none ∧
       (Game.start_game gC8a).1.winning_line = none ∧
       (Game.start_game gC8a).1.current_player_index = 0 ∧
       (Game.start_game gC8a).1.players = gC8a.players) :=
  ⟨(C8_start gC8b).1 (by decide), (C8_start gC8a).2 rfl (Or.inl (by decide))⟩

/-- C10: add_player checks symbol uniqueness but not id uniqueness: two
players with the same id and different symbols are both admitted, and the
id-to-symbol dict then holds only the most recently added symbol. -/
theorem C10_duplicate_ids :
    (Game.init.add_player "p1" "Alice" "X" false).2 = true ∧
    ((Game.init.add_player "p1" "Alice" "X" false).1.add_player "p1" "Bob" "O" false).2 = true ∧
    ((Game.init.add_player "p1" "Alice" "X" false).1.add_player "p1" "Bob" "O"
      false).1.players.map Player.player_id = ["p1", "p1"] ∧
    ((Game.init.add_player "p1" "Alice" "X" false).1.add_player "p1" "Bob" "O"
      false).1.players.map Player.symbol = ["X", "O"] ∧
    dictFind ((Game.init.add_player "p1" "Alice" "X" false).1.add_player "p1" "Bob" "O"
      false).1.player_symbols "p1" = some "O" := by
  refine ⟨rfl, rfl, rfl, rfl, rfl⟩

/-! C9: win check before draw check, and no turn advance on game-ending
moves. -/

/-- C9: on any accepted move of a game with no recorded winner, if the win
checker reports a winner at the played cell on the resulting board, the
game is finished with the winner set to the first roster player owning
that symbol (the draw check never overrides a win), and on every accepted
move that finishes the game the current-turn index is left unchanged. -/
theorem C9_win_before_draw (g : Game) (pid : String) (c : Coord) (g2 : Game)
    (msg : Option String) (hw : g.winner = none)
    (h : Game.make_move g pid c = some (g2, true, msg)) :
    (∀ ws, check_win g2.board c = some ws →
      g2.state = GameState.FINISHED ∧
      g2.winner = g.players.find? (fun p => p.symbol == ws) ∧
      g2.current_player_index = g.current_player_index) ∧
    (g2.state = GameState.FINISHED → g2.current_player_index = g.current_player_index) := by
  unfold Game.make_move at h
  split at h
  · simp at h
  · split at h
    · simp at h
    · split at h
      · exact absurd h (by simp)
      · split at h
        · simp at h
        · split at h
          · simp at h
          · split at h
            · exact absurd h (by simp)
            · dsimp only at h
              split at h
              · simp at h
              · split at h
                · rename_i ws0 hwin0
                  split at h
                  · rename_i p0 hfind0
                    simp only [Option.some.injEq, Prod.mk.injEq] at h
                    obtain ⟨hg2, -, hmsg⟩ := h
                    subst hg2
                    refine ⟨?_, fun _ => rfl⟩
                    intro ws hws
                    simp only at hws
                    rw [hwin0] at hws
                    obtain rfl : ws0 = ws := Option.some.inj hws
                    refine ⟨rfl, ?_, rfl⟩
                    simp only
                    rw [hfind0]
                  · rename_i hfind0
                    simp only [Option.some.injEq, Prod.mk.injEq] at h
                    obtain ⟨hg2, -, hmsg⟩ := h
                    subst hg2
                    refine ⟨?_, fun _ => rfl⟩
                    intro ws hws
                    simp only at hws
                    rw [hwin0] at hws
                    obtain rfl : ws0 = ws := Option.some.inj hws
                    refine ⟨rfl, ?_, rfl⟩
                    simp only
                    rw [hfind0, hw]
                · rename_i hwin0
                  split at h
                  · simp only [Option.some.injEq, Prod.mk.injEq] at h
                    obtain ⟨hg2, -, hmsg⟩ := h
                    subst hg2
                    refine ⟨?_, fun _ => rfl⟩
                    intro ws hws
                    simp only at hws
                    rw [hwin0] at hws
                    simp at hws
                  · simp only [Option.some.injEq, Prod.mk.injEq] at h
                    obtain ⟨hg2, -, hmsg⟩ := h
                    subst hg2
                    constructor
                    · intro ws hws
                      simp only at hws
                      rw [hwin0] at hws
                      simp at hws
                    · intro hfin
                      have hpl : g.state = GameState.PLAYING :=
                        of_not_not ‹¬g.state ≠ GameState.PLAYING›
                      simp only at hfin
                      rw [hpl] at hfin
                      simp at hfin

/-- C9 witness: in gC9 the last-cell move by p1 both completes an M line
and fills the board; the game finishes with winner p1, not a draw, and the
turn index stays at 0. -/
theorem C9_witness :
    (g2C9.state = GameState.FINISHED ∧
      g2C9.winner = gC9.players.find? (fun p => p.symbol == "M") ∧
      g2C9.current_player_index = gC9.current_player_index) ∧
    (g2C9.state = GameState.FINISHED → g2C9.current_player_index = gC9.current_player_index) := by
  have hmain := C9_win_before_draw gC9 "p1" (0, 0, 0, 2) g2C9 none rfl rfl
  exact ⟨hmain.1 "M" (by decide), hmain.2⟩

/-! C3: the depth-1 adversarial search and safe moves. -/

theorem no_threat_of_lines (b : Board) (o : Symb)
    (h : ∀ line ∈ winningLines, ∀ u ∈ line,
      ¬ (b u = none ∧ ∀ p ∈ line, p ≠ u → b p = some o)) :
    ∀ u, ¬ threat b o u := by
  rintro u ⟨hempty, hvalid, line, hline, hu, hother⟩
  exact h line hline u hu ⟨hempty, hother⟩

/-- C3: at depth 1, whenever some legal move exists after which no
opponent symbol has an immediate winning reply -- either because the move
completes the acting symbol's own line, ending the game with no reply of
any kind possible, or because the resulting board leaves no opponent an
immediate winning cell -- the move returned by get_move is such a move:
it never hands any opponent an immediate winning reply when a non-losing
alternative exists. -/
theorem C3_depth1_safe (b : Board) (sym : Symb)
    (hsafe : ∃ m, nonLosingMove sym b m) :
    ∃ m, MinimaxAI.get_move sym 1 b none = some m ∧ nonLosingMove sym b m := by
  obtain ⟨m0, hm0⟩ := hsafe
  obtain ⟨hm0mem, hm0nl⟩ := hm0
  have hne : get_empty_positions b ≠ [] := List.ne_nil_of_mem hm0mem
  cases hfw : find_winning_move sym b with
  | some m =>
    obtain ⟨hmem, hthreat⟩ := find_winning_move_spec hfw
    refine ⟨m, ?_, hmem, Or.inl hthreat⟩
    simp only [MinimaxAI.get_move]
    rw [dif_neg hne, hfw]
  | none =>
    have hm0safe : ∀ o, o ≠ sym → ∀ u, ¬ threat (Board.make_move b sym m0).1 o u := by
      rcases hm0nl with hwin | hsafe0
      · obtain ⟨m1, hm1⟩ := find_winning_move_isSome hwin
        rw [hfw] at hm1
        exact absurd hm1 (by simp)
      · exact hsafe0
    cases hfb : find_blocking_move_core b (get_opponent_symbols sym b) with
    | some m =>
      obtain ⟨o, ho, hthreat, hmem⟩ := find_blocking_some hfb
      have hosym : o ≠ sym := ne_of_mem_opponents ho
      have hmm0 : m = m0 := by
        by_contra hne2
        exact hm0safe o hosym m (threat_place_of_threat hm0mem hne2 hthreat)
      subst hmm0
      refine ⟨m, ?_, hm0mem, Or.inr hm0safe⟩
      simp only [MinimaxAI.get_move]
      rw [dif_neg hne, hfw, hfb]
    | none =>
      have hnothreat : ∀ o, o ≠ sym → ∀ u, ¬ threat b o u := by
        intro o hosym u ht
        obtain ⟨p, hp, hpu, hbp⟩ := threat_symbol_on_board ht
        exact find_blocking_none hfb o (mem_opponents_of_on_board hp hbp hosym) u ht
      have hres : ∀ m, MinimaxAI.get_move sym 1 b none = some m → m ∈ get_empty_positions b := by
        intro m hm
        simp only [MinimaxAI.get_move] at hm
        rw [dif_neg hne, hfw, hfb] at hm
        obtain hm2 : (mmSearch sym (get_opponent_symbols sym b) 1 b
            (get_empty_positions b) ⊥ none).getD ((get_empty_positions b).head hne) = m :=
          Option.some.inj hm
        cases hmm : mmSearch sym (get_opponent_symbols sym b) 1 b
            (get_empty_positions b) ⊥ none with
        | none =>
          rw [hmm, Option.getD_none] at hm2
          rw [← hm2]
          exact List.head_mem hne
        | some m2 =>
          rw [hmm, Option.getD_some] at hm2
          rw [← hm2]
          exact mmSearch_mem (get_empty_positions b) ⊥ none (by simp) (fun c hc => hc) m2 hmm
      have hsome : ∃ m, MinimaxAI.get_move sym 1 b none = some m := by
        simp only [MinimaxAI.get_move]
        rw [dif_neg hne, hfw, hfb]
        exact ⟨_, rfl⟩
      obtain ⟨m, hm⟩ := hsome
      refine ⟨m, hm, hres m hm, Or.inr ?_⟩
      intro o hosym u ht
      exact hnothreat o hosym u (threat_of_threat_place hosym (hres m hm) ht).1

theorem bC3w_place_symbols {p : Coord} {o : Symb}
    (h : (Board.make_move bC3w "M" (0, 0, 0, 2)).1 p = some o) : o = "M" ∨ o = "O" := by
  rw [place_apply_of_empty (by decide)] at h
  split at h
  · exact Or.inl (Option.some.inj h).symm
  · unfold bC3w at h
    split at h
    · exact Or.inr (Option.some.inj h).symm
    · simp at h

/-- C3 witness: with a single standing O threat on bC3w, blocking at
(0,0,0,2) is non-losing, and the depth-1 search returns a non-losing
move. -/
theorem C3_witness :
    ∃ m, MinimaxAI.get_move "M" 1 bC3w none = some m ∧ nonLosingMove "M" bC3w m := by
  apply C3_depth1_safe bC3w "M"
  refine ⟨(0, 0, 0, 2), by decide, Or.inr ?_⟩
  intro o hosym u ht
  obtain ⟨p, hp, hpu, hbp⟩ := threat_symbol_on_board ht
  rcases bC3w_place_symbols hbp with rfl | rfl
  · exact hosym rfl
  · exact no_threat_of_lines (Board.make_move bC3w "M" (0, 0, 0, 2)).1 "O" (by decide) u ht
